import Mathlib

/-! # Sonic 3 A.I.R. options menu: a shallow embedding

The definitions below follow `OptionsMenu.cpp` and `OptionsMenuEntries.cpp`
(`src/Oxygen/sonic3air/source/sonic3air/menu/options`).

Conventions of the embedding:

* `float` quantities (elapsed time, visibility, timeouts, the animated tab value) are
  rational numbers.  The subtraction that steps the warning timeouts is rounded to `float`
  (`roundToFloat32`); the visibility and the animated tab value are computed exactly.
* Pointers to menu entries are positions `(tab, line)` inside `mTabs`.
* Calls to external collaborators (audio, input manager, application, configuration
  persistence, ...) are recorded, in program order, in the `mCalls` field of the menu.
* Values read from collaborators are fields of `Env`, a snapshot of the outside world taken
  at the time of the read.
* Enumerators and member functions that are only declared in headers are parameters:
  `Enumerators` for enumerator values, `MenuLib` for member functions of the generic menu
  classes.
-/

namespace Sonic3AIR

/-! ## Generic helpers -/

/-- Replace the element at position `n` of a list by its image under `f`; out of range
positions leave the list as it is. -/
def modifyAt {α : Type} (f : α → α) : Nat → List α → List α
  | _, [] => []
  | 0, a :: l => f a :: l
  | n + 1, a :: l => a :: modifyAt f n l

/-- Helper `clamp(value, vmin, vmax)` of the engine's math library. -/
def clamp (value vmin vmax : ℚ) : ℚ :=
  if value < vmin then vmin else if value > vmax then vmax else value

/-- Helper `saturate(value)`: clamp to the unit interval. -/
def saturate (value : ℚ) : ℚ := clamp value 0 1

/-! ## `float` arithmetic

The `float` members hold numbers of the IEEE 754 binary32 format.  The result of an operation
on two such numbers is the exact result rounded to the nearest number of the format, a tie
going to the one with the even significand. -/

/-- Rounding of a number to the nearest integer, a tie going to the even one. -/
def roundHalfEven (x : ℚ) : ℤ :=
  if x - ⌊x⌋ < 1 / 2 then ⌊x⌋
  else if 1 / 2 < x - ⌊x⌋ then ⌊x⌋ + 1
  else if ⌊x⌋ % 2 = 0 then ⌊x⌋ else ⌊x⌋ + 1

/-- The binary32 exponent of a positive number `x`: the `e` with `2^e <= x < 2^(e+1)`, but
not less than -126, the exponent that the subnormal numbers share. -/
def float32Exponent (x : ℚ) : ℤ := max (Int.log 2 x) (-126)

/-- Rounding of an exact result to `float`: the nearest multiple of `2^(e-23)`, where `e` is
the binary32 exponent of the magnitude (24 bit significand), a tie going to the even
multiple.  Overflow to infinity is not represented; the numbers rounded here are below
`2^128` in magnitude. -/
def roundToFloat32 (x : ℚ) : ℚ :=
  if 0 ≤ x then
    (roundHalfEven (x / 2 ^ (float32Exponent x - 23)) : ℚ) * 2 ^ (float32Exponent x - 23)
  else
    -((roundHalfEven (-x / 2 ^ (float32Exponent (-x) - 23)) : ℚ) *
      2 ^ (float32Exponent (-x) - 23))

/-- A number of the binary32 format, its range above left aside: a significand of at most 24
bits times a power of two that is at least `2^(-149)`. -/
def IsFloat32 (t : ℚ) : Prop :=
  ∃ m e : ℤ, |m| < 2 ^ 24 ∧ -149 ≤ e ∧ t = (m : ℚ) * 2 ^ e

/-! ## Enumerators -/

/-- Numeric values of the enumerators the menu code names: `option::*`, `Tab::Id::*`,
`SharedDatabase::Secret::*` and `Configuration::RenderMethod::SOFTWARE`.  Their declarations
live in headers, so the values are a parameter of the model. -/
structure Enumerators where
  _TAB_SELECTION : Nat
  _CHECK_FOR_UPDATE : Nat
  _OPEN_HOMEPAGE : Nat
  _OPEN_MANUAL : Nat
  _BACK : Nat
  _NUM : Nat
  RELEASE_CHANNEL : Nat
  FRAME_SYNC : Nat
  GAME_RECORDING_MODE : Nat
  FILTERING : Nat
  SCANLINES : Nat
  BG_BLUR : Nat
  AUDIO_VOLUME : Nat
  SOUNDTRACK : Nat
  SOUNDTRACK_DOWNLOAD : Nat
  SOUND_TEST : Nat
  TITLE_THEME : Nat
  OUTRO_MUSIC : Nat
  COMPETITION_MENU_MUSIC : Nat
  ANTI_FLICKER : Nat
  ICZ_NIGHTTIME : Nat
  MONITOR_STYLE : Nat
  LEVEL_LAYOUTS : Nat
  AIZ_BLIMPSEQUENCE : Nat
  LBZ_BIGARMS : Nat
  SOZ_GHOSTSPAWN : Nat
  LRZ2_BOSS : Nat
  TIMEATTACK_GHOSTS : Nat
  TIMEATTACK_INSTANTRESTART : Nat
  DROP_DASH : Nat
  SUPER_PEELOUT : Nat
  DEBUG_MODE : Nat
  TITLE_SCREEN : Nat
  SHIELD_TYPES : Nat
  RANDOM_MONITORS : Nat
  MONITOR_BEHAVIOR : Nat
  RANDOM_SPECIALSTAGES : Nat
  SPECIAL_STAGE_REPEAT : Nat
  REGION : Nat
  GAME_SPEED : Nat
  WINDOW_MODE : Nat
  WINDOW_MODE_STARTUP : Nat
  RENDERER : Nat
  CONTROLLER_SETUP : Nat
  CONTROLLER_PLAYER_1 : Nat
  CONTROLLER_PLAYER_2 : Nat
  CONTROLLER_AUTOASSIGN : Nat
  CONTROLLER_RUMBLE_P1 : Nat
  CONTROLLER_RUMBLE_P2 : Nat
  VGAMEPAD_DPAD_SIZE : Nat
  VGAMEPAD_BUTTONS_SIZE : Nat
  VGAMEPAD_SETUP : Nat
  Tab_MODS : Nat
  Tab_SYSTEM : Nat
  SECRET_DROPDASH : Nat
  SECRET_SUPER_PEELOUT : Nat
  SECRET_DEBUGMODE : Nat
  SECRET_TITLE_SK : Nat
  SECRET_GAME_SPEED : Nat
  RenderMethod_SOFTWARE : Nat

/-! ## Menu entries -/

/-- Classes of menu entries the options menu creates. -/
inductive EntryKind
  | GameMenuEntry
  | TitleMenuEntry
  | SectionMenuEntry
  | LabelMenuEntry
  | OptionsMenuEntry
  | AdvancedOptionMenuEntry
  | UpdateCheckMenuEntry
  | SoundtrackMenuEntry
  | SoundtrackDownloadMenuEntry
  deriving DecidableEq, Repr

/-- One selectable choice of a menu entry (`GameMenuEntry::Option`): its value and its
visibility flag; the label text plays no role in the logic. -/
structure GameMenuOption where
  mValue : Nat
  mVisible : Bool
  deriving DecidableEq, Repr

/-- A menu entry: the data word (an option ID for option entries), the choices, the index of
the selected choice and the visible / interactable flags. -/
structure GameMenuEntry where
  kind : EntryKind
  mData : Nat
  mOptions : List GameMenuOption
  mSelectedIndex : Nat
  mVisible : Bool
  mInteractable : Bool
  deriving DecidableEq, Repr

/-- A list of menu entries together with the index of the selected entry. -/
structure GameMenuEntries where
  mEntries : List GameMenuEntry
  mSelectedEntryIndex : Int
  deriving DecidableEq, Repr

/-- `GameMenuEntry::setVisible`. -/
def GameMenuEntry.setVisible (e : GameMenuEntry) (visible : Bool) : GameMenuEntry :=
  { e with mVisible := visible }

/-- `GameMenuEntry::setInteractable`. -/
def GameMenuEntry.setInteractable (e : GameMenuEntry) (interactable : Bool) : GameMenuEntry :=
  { e with mInteractable := interactable }

/-- Entry returned by an out of range access; such an access is undefined in the code. -/
def GameMenuEntry.invalid : GameMenuEntry :=
  { kind := EntryKind.GameMenuEntry, mData := 0, mOptions := [], mSelectedIndex := 0,
    mVisible := true, mInteractable := true }

/-- `GameMenuEntry::selected().mValue`: the value of the selected choice. -/
def GameMenuEntry.selectedValue (e : GameMenuEntry) : Nat :=
  match e.mOptions[e.mSelectedIndex]? with
  | some o => o.mValue
  | Option.none => 0

/-- `GameMenuEntries::operator[]`. -/
def GameMenuEntries.entry (es : GameMenuEntries) (index : Nat) : GameMenuEntry :=
  es.mEntries.getD index GameMenuEntry.invalid

/-- `GameMenuEntries::selected()`: the entry at `mSelectedEntryIndex`. -/
def GameMenuEntries.selected (es : GameMenuEntries) : GameMenuEntry :=
  if 0 ≤ es.mSelectedEntryIndex then es.entry es.mSelectedEntryIndex.toNat else GameMenuEntry.invalid

/-- Position of a menu entry inside `mTabs`: tab index and line.  It stands for a
`GameMenuEntry*`. -/
abbrev EntryRef := Nat × Nat

/-- Binding kinds of `OptionEntry::Type`. -/
inductive OptionEntryType
  | UNDEFINED
  | SETTING
  | SETTING_BITMASK
  | CONFIG_INT
  | CONFIG_BOOL
  | CONFIG_ENUM_8
  | CONFIG_PERCENT
  | MOD_SETTING
  deriving DecidableEq, Repr

/-- The fields of the configuration that option entries point to with `mValuePointer`;
different fields have different addresses. -/
inductive ConfigField
  | mGameServer_mUpdateCheck_mReleaseChannel
  | mFrameSync
  | mGameServer_mGhostSync_mEnabled
  | mScriptOptimizationLevel
  | mGameRecorder_mRecordingMode
  | mUpscaling
  | mBackdrop
  | mFiltering
  | mScanlines
  | mBackgroundBlur
  | mPerformanceDisplay
  | mActiveSoundtrack
  | mAutoAssignGamepadPlayerIndex
  | mVirtualGamepad_mDirectionalPadSize
  | mVirtualGamepad_mFaceButtonsSize
  | mInstantTimeAttackRestart
  | mSimulationFrequency
  | mAudioVolume
  | mMusicVolume
  | mSoundVolume
  | mVirtualGamepad_mOpacity
  | mControllerRumbleIntensity_0
  | mControllerRumbleIntensity_1
  deriving DecidableEq, Repr

/-- Element of `mOptionEntries`: option ID, binding kind, the pointer to the menu entry that
displays the option (`none` for a null pointer), the setting ID for the two setting kinds
and the value pointer for the configuration kinds (`none` for a null pointer; the pointer to
a mod setting is not represented). -/
structure OptionEntry where
  mOptionId : Nat
  mType : OptionEntryType
  mGameMenuEntry : Option EntryRef
  mSetting : Nat := 0
  mValuePointer : Option ConfigField := none
  deriving DecidableEq, Repr

/-- Value initialised `OptionEntry`, as produced by `vector::resize`. -/
def OptionEntry.empty : OptionEntry :=
  { mOptionId := 0, mType := OptionEntryType.UNDEFINED, mGameMenuEntry := Option.none }

/-! ## Collaborators -/

/-- State of one logical button of a controller scheme. -/
structure Control where
  isJustPressed : Bool
  isRepeat : Bool
  deriving DecidableEq, Repr

/-- `Control::justPressed()`. -/
def Control.justPressed (c : Control) : Bool := c.isJustPressed

/-- `Control::justPressedOrRepeat()`. -/
def Control.justPressedOrRepeat (c : Control) : Bool := c.isJustPressed || c.isRepeat

/-- The logical buttons of `InputManager::ControllerScheme` the menu reads. -/
structure ControllerScheme where
  Up : Control
  Down : Control
  Left : Control
  Right : Control
  Start : Control
  A : Control
  B : Control
  X : Control
  Back : Control
  deriving DecidableEq, Repr

/-- An audio definition as far as the sound test needs it: key string, key ID and whether
its type is `MUSIC` or `JINGLE`. -/
structure AudioDefinition where
  mKeyString : String
  mKeyId : Nat
  isMusicOrJingle : Bool
  deriving DecidableEq, Repr

/-- A setting of a mod: the values of its choices. -/
structure ModSetting where
  mOptions : List Nat
  deriving DecidableEq, Repr

/-- A setting category of a mod. -/
structure ModSettingCategory where
  displayNameEmpty : Bool
  mSettings : List ModSetting
  deriving DecidableEq, Repr

/-- A mod, reduced to its setting categories. -/
structure Mod where
  mSettingCategories : List ModSettingCategory
  deriving DecidableEq, Repr

/-- Snapshot of everything the menu reads from outside itself. -/
structure Env where
  keys : ControllerScheme
  controllerSetupMenuVisible : Bool
  windowMode : Nat
  mWindowMode : Nat
  mRenderMethod : Nat
  mFiltering : Int
  mActiveSoundtrack : Int
  mScriptOptimizationLevel : Int
  devModeEnabled : Bool
  isDownloaderSupported : Bool
  hasLoadedRemasteredSoundtrack : Bool
  updateCheckHasUpdate : Bool
  isSecretUnlocked : Nat → Bool
  backingValue : Nat → Int
  gamepadsChangeCounter : Nat
  preferredGamepad : Nat → Int
  gamepads : List Nat
  activeMods : List Mod
  audioDefinitions : List AudioDefinition

/-- Result of `GameMenuEntries::update`. -/
inductive UpdateResult
  | NONE
  | ENTRY_CHANGED
  | OPTION_CHANGED
  deriving DecidableEq, Repr

/-- Member functions of the generic menu classes and of `OptionEntry` that the options menu
calls, and the build platform switch. -/
structure MenuLib where
  /-- `GameMenuEntries::update`: reads the input, moves the selection. -/
  entriesUpdate : Env → GameMenuEntries → UpdateResult × GameMenuEntries
  /-- `GameMenuEntry::setSelectedIndexByValue`: the index it selects, if it finds the value. -/
  findIndexByValue : GameMenuEntry → Nat → Option Nat
  /-- `GameMenuEntry::sanitizeSelectedIndex`: the selected index it leaves. -/
  sanitizeSelectedIndex : GameMenuEntry → Nat
  /-- `GameMenuEntries::sanitizeSelectedIndex`: the selected entry index it leaves. -/
  sanitizeSelectedEntryIndex : GameMenuEntries → Int
  /-- `OptionEntry::loadValue`: the index it selects in the menu entry of the option, given
  the value held by the backing store. -/
  loadValue : OptionEntry → Int → GameMenuEntry → Nat
  /-- `OptionsMenuEntry::shouldBeShown` of the base class. -/
  shouldBeShown : GameMenuEntry → Bool
  /-- Whether one of `PLATFORM_ANDROID`, `PLATFORM_IOS`, `PLATFORM_WEB` is defined. -/
  platformHidesWindowMode : Bool

/-- Calls to external collaborators and writes to configuration fields made by the menu. -/
inductive Call
  | playMenuSound (id : Nat)
  | applyValue (optionId : Nat) (selectedValue : Nat)
  | updateCheckReset
  | setWindowMode (value : Nat)
  | switchToRenderMethod (value : Nat)
  | write_mActiveSoundtrack (value : Nat)
  | write_mWindowMode (value : Nat)
  | stopSoundContextMenuMusic
  | stopSoundContextMenu
  | onSoundtrackPreferencesChanged
  | restartMenuMusic
  | enableAudioModifier
  | disableAudioModifier
  | playAudioDirect (keyId : Nat)
  | playAudioDirectByName (keyString : String)
  | setPreferredGamepad (playerIndex : Int) (joystickInstanceId : Nat)
  | updatePlayerGamepadAssignments
  | evaluateGameRecording
  | setControllerRumbleForPlayer (playerIndex : Nat)
  | buildTouchControls
  | setVSyncMode (value : Nat)
  | controllerSetupFadeIn
  | setLastInputTypeTouch
  | enableConfigMode
  | openUpdateInfoURL
  | startUpdateCheck
  | triggerButton
  | openHomepage
  | openManual
  | copyModSettingsToConfig
  | saveSettings
  | triggerFullScriptsReload
  | onExitOptions
  | onFadedOutOptions
  | showPreview
  | startTransition
  | setMenuMusic (id : Nat)
  | baseUpdate
  deriving DecidableEq, Repr

/-! ## The options menu -/

/-- `OptionsMenu::State`, in declaration order (`mState > State::SHOW` holds for the two
fade-out states). -/
inductive State
  | INACTIVE
  | APPEAR
  | SHOW
  | FADE_TO_MENU
  | FADE_TO_GAME
  deriving DecidableEq, Repr

/-- Position of a state in the declaration order of the enumeration. -/
def State.toNat : State → Nat
  | State.INACTIVE => 0
  | State.APPEAR => 1
  | State.SHOW => 2
  | State.FADE_TO_MENU => 3
  | State.FADE_TO_GAME => 4

/-- `GameMenuBase::BaseState`. -/
inductive BaseState
  | INACTIVE
  | FADE_IN
  | SHOW
  | FADE_OUT
  deriving DecidableEq, Repr

/-- Target of the pointer `mActiveMenu`: the tab-title row (`&mTabMenuEntries`) or the entry
list of a tab (`&mTabs[tab].mMenuEntries`). -/
inductive ActiveMenu
  | tabMenu
  | tabContent (tab : Nat)
  deriving DecidableEq, Repr

/-- The member variables of `OptionsMenu` that take part in the logic, and the record of the
calls made so far (`mCalls`, oldest first). -/
structure OptionsMenu where
  mState : State
  mVisibility : ℚ
  mActiveTab : Nat
  mActiveTabAnimated : ℚ
  mActiveMenu : ActiveMenu
  mTabMenuEntries : GameMenuEntries
  mTabs : List GameMenuEntries
  mOptionEntries : List OptionEntry
  mSoundtrackDownloadMenuEntry : EntryRef
  mGamepadAssignmentEntries : List EntryRef
  mSoundTestAudioDefinitions : List AudioDefinition
  mPlayingSoundTest : Option AudioDefinition
  mLastGamepadsChangeCounter : Nat
  mHasAnyModOptions : Bool
  mEnteredFromIngame : Bool
  mWarningMessageTimeout : ℚ
  mAudioWarningMessageTimeout : ℚ
  mShowedAudioWarningMessage : Bool
  mOriginalScriptOptimizationLevel : Int
  mCalls : List Call

namespace OptionsMenu

/-- Record a call to an external collaborator. -/
def call (m : OptionsMenu) (c : Call) : OptionsMenu :=
  { m with mCalls := m.mCalls ++ [c] }

/-- The menu entry a pointer designates, if the pointer is valid. -/
def entryAtTabs (tabs : List GameMenuEntries) (r : EntryRef) : Option GameMenuEntry :=
  match tabs[r.1]? with
  | some t => t.mEntries[r.2]?
  | none => none

/-- Apply `f` to the menu entry a pointer designates. -/
def modifyEntryTabs (tabs : List GameMenuEntries) (r : EntryRef)
    (f : GameMenuEntry → GameMenuEntry) : List GameMenuEntries :=
  modifyAt (fun t => { t with mEntries := modifyAt f r.2 t.mEntries }) r.1 tabs

/-- The menu entry a pointer designates, if the pointer is valid. -/
def entryAt (m : OptionsMenu) (r : EntryRef) : Option GameMenuEntry :=
  entryAtTabs m.mTabs r

/-- Apply `f` to the menu entry a pointer designates. -/
def modifyEntry (m : OptionsMenu) (r : EntryRef) (f : GameMenuEntry → GameMenuEntry) :
    OptionsMenu :=
  { m with mTabs := modifyEntryTabs m.mTabs r f }

/-- Pointer `mOptionEntries[optionId].mGameMenuEntry`. -/
def gameMenuEntryRef (optionEntries : List OptionEntry) (optionId : Nat) : Option EntryRef :=
  match optionEntries[optionId]? with
  | some oe => oe.mGameMenuEntry
  | none => none

/-- Apply `f` to `*mOptionEntries[optionId].mGameMenuEntry`. -/
def modifyOptionMenuEntry (m : OptionsMenu) (optionId : Nat)
    (f : GameMenuEntry → GameMenuEntry) : OptionsMenu :=
  match gameMenuEntryRef m.mOptionEntries optionId with
  | some r => m.modifyEntry r f
  | none => m

/-- Entry `*mOptionEntries[optionId].mGameMenuEntry`. -/
def optionMenuEntry (m : OptionsMenu) (optionId : Nat) : GameMenuEntry :=
  match gameMenuEntryRef m.mOptionEntries optionId with
  | some r => (m.entryAt r).getD GameMenuEntry.invalid
  | none => GameMenuEntry.invalid

end OptionsMenu

/-- `SoundtrackDownloadMenuEntry::shouldBeShown`. -/
def SoundtrackDownloadMenuEntry.shouldBeShown (env : Env) : Bool :=
  env.mActiveSoundtrack == 1 && env.isDownloaderSupported && !env.hasLoadedRemasteredSoundtrack

/-- Virtual call `entry.shouldBeShown()`: the override for the soundtrack download entry,
the base class function otherwise. -/
def GameMenuEntry.shouldBeShown (lib : MenuLib) (env : Env) (e : GameMenuEntry) : Bool :=
  if e.kind = EntryKind.SoundtrackDownloadMenuEntry then
    SoundtrackDownloadMenuEntry.shouldBeShown env
  else lib.shouldBeShown e

/-- `GameMenuEntry::setSelectedIndexByValue`, ignoring the returned flag. -/
def GameMenuEntry.setSelectedIndexByValue (lib : MenuLib) (value : Nat) (e : GameMenuEntry) :
    GameMenuEntry :=
  match lib.findIndexByValue e value with
  | some i => { e with mSelectedIndex := i }
  | none => e

/-- `GameMenuEntry::hasSelected`. -/
def GameMenuEntry.hasSelected (e : GameMenuEntry) : Bool :=
  decide (e.mSelectedIndex < e.mOptions.length)

/-- `GameMenuEntry::addOption`: append a choice. -/
def GameMenuEntry.addOption (e : GameMenuEntry) (value : Nat) : GameMenuEntry :=
  { e with mOptions := e.mOptions ++ [{ mValue := value, mVisible := true }] }

/-- A freshly created entry (`addEntry<T>().initEntry(text, data)`): visible, nothing
selected; title, section and label entries are made non-interactable by their constructors. -/
def GameMenuEntry.create (kind : EntryKind) (data : Nat) : GameMenuEntry :=
  { kind := kind, mData := data, mOptions := [], mSelectedIndex := 0, mVisible := true,
    mInteractable := !(kind = EntryKind.TitleMenuEntry || kind = EntryKind.SectionMenuEntry
      || kind = EntryKind.LabelMenuEntry) }

/-! ## Conditional options -/

/-- Struct `ConditionalOption` of the anonymous namespace. -/
structure ConditionalOption where
  mOptionId : Nat
  mHideInGame : Bool
  mDependsOnSecret : Bool
  mSecret : Nat
  deriving DecidableEq, Repr

/-- Constructor `ConditionalOption(optionId, hideInGame)`. -/
def ConditionalOption.mk2 (optionId : Nat) (hideInGame : Bool) : ConditionalOption :=
  { mOptionId := optionId, mHideInGame := hideInGame, mDependsOnSecret := false, mSecret := 0xff }

/-- Constructor `ConditionalOption(optionId, hideInGame, secret)`. -/
def ConditionalOption.mk3 (optionId : Nat) (hideInGame : Bool) (secret : Nat) :
    ConditionalOption :=
  { mOptionId := optionId, mHideInGame := hideInGame, mDependsOnSecret := true, mSecret := secret }

/-- `ConditionalOption::shouldBeVisible`. -/
def ConditionalOption.shouldBeVisible (o : ConditionalOption) (env : Env)
    (enteredFromIngame : Bool) : Bool :=
  if o.mHideInGame && enteredFromIngame then false
  else if o.mDependsOnSecret && !env.isSecretUnlocked o.mSecret then false
  else true

/-- Table `CONDITIONAL_OPTIONS`. -/
def CONDITIONAL_OPTIONS (ids : Enumerators) : List ConditionalOption :=
  [ ConditionalOption.mk2 ids.SOUNDTRACK true,
    ConditionalOption.mk2 ids.SOUNDTRACK_DOWNLOAD true,
    ConditionalOption.mk2 ids.SOUND_TEST true,
    ConditionalOption.mk2 ids.TITLE_THEME true,
    ConditionalOption.mk2 ids.OUTRO_MUSIC true,
    ConditionalOption.mk2 ids.COMPETITION_MENU_MUSIC true,
    ConditionalOption.mk2 ids.ANTI_FLICKER true,
    ConditionalOption.mk2 ids.ICZ_NIGHTTIME true,
    ConditionalOption.mk2 ids.MONITOR_STYLE true,
    ConditionalOption.mk2 ids.LEVEL_LAYOUTS true,
    ConditionalOption.mk2 ids.AIZ_BLIMPSEQUENCE true,
    ConditionalOption.mk2 ids.LBZ_BIGARMS true,
    ConditionalOption.mk2 ids.SOZ_GHOSTSPAWN true,
    ConditionalOption.mk2 ids.LRZ2_BOSS true,
    ConditionalOption.mk2 ids.TIMEATTACK_GHOSTS true,
    ConditionalOption.mk2 ids.TIMEATTACK_INSTANTRESTART true,
    ConditionalOption.mk3 ids.DROP_DASH false ids.SECRET_DROPDASH,
    ConditionalOption.mk3 ids.SUPER_PEELOUT false ids.SECRET_SUPER_PEELOUT,
    ConditionalOption.mk3 ids.DEBUG_MODE false ids.SECRET_DEBUGMODE,
    ConditionalOption.mk3 ids.TITLE_SCREEN true ids.SECRET_TITLE_SK,
    ConditionalOption.mk2 ids.SHIELD_TYPES true,
    ConditionalOption.mk2 ids.RANDOM_MONITORS true,
    ConditionalOption.mk2 ids.MONITOR_BEHAVIOR true,
    ConditionalOption.mk2 ids.RANDOM_SPECIALSTAGES true,
    ConditionalOption.mk2 ids.SPECIAL_STAGE_REPEAT true,
    ConditionalOption.mk2 ids.REGION true,
    ConditionalOption.mk3 ids.GAME_SPEED false ids.SECRET_GAME_SPEED ]

namespace OptionsMenu

/-- Body of the loop over `CONDITIONAL_OPTIONS` in `setupOptionsMenu`, acting on the tabs. -/
def setupConditionalOption (lib : MenuLib) (env : Env) (enteredFromIngame : Bool)
    (optionEntries : List OptionEntry) (tabs : List GameMenuEntries)
    (option : ConditionalOption) : List GameMenuEntries :=
  match gameMenuEntryRef optionEntries option.mOptionId with
  | some r =>
    modifyEntryTabs tabs r (fun optionsMenuEntry =>
      optionsMenuEntry.setVisible
        (option.shouldBeVisible env enteredFromIngame && optionsMenuEntry.shouldBeShown lib env))
  | none => tabs

/-- Set the visibility flag of one choice of a menu entry. -/
def setOptionVisible (e : GameMenuEntry) (index : Nat) (visible : Bool) : GameMenuEntry :=
  { e with mOptions := modifyAt (fun o => { o with mVisible := visible }) index e.mOptions }

/-- Loop of `setupOptionsMenu` over `CONDITIONAL_OPTIONS`. -/
def setupConditionalOptions (lib : MenuLib) (ids : Enumerators) (env : Env)
    (enteredFromIngame : Bool) (m : OptionsMenu) : OptionsMenu :=
  let tabs := (CONDITIONAL_OPTIONS ids).foldl
    (setupConditionalOption lib env enteredFromIngame m.mOptionEntries) m.mTabs
  { m with mTabs := tabs }

/-- Platform dependent part of `setupOptionsMenu`: the window mode options are hidden on
mobile and web platforms. -/
def hideWindowModeOptions (lib : MenuLib) (ids : Enumerators) (m : OptionsMenu) : OptionsMenu :=
  if lib.platformHidesWindowMode then
    (m.modifyOptionMenuEntry ids.WINDOW_MODE (fun e => e.setVisible false)).modifyOptionMenuEntry
      ids.WINDOW_MODE_STARTUP (fun e => e.setVisible false)
  else m

/-- The tab-title entry after `setupOptionsMenu` hid the Mods and System tabs and sanitized
its selection. -/
def setupTabEntry (lib : MenuLib) (ids : Enumerators) (enteredFromIngame : Bool)
    (hasAnyModOptions : Bool) (tabEntry : GameMenuEntry) : GameMenuEntry :=
  let tabEntry1 := setOptionVisible tabEntry ids.Tab_MODS (!enteredFromIngame && hasAnyModOptions)
  let tabEntry2 := setOptionVisible tabEntry1 ids.Tab_SYSTEM (!enteredFromIngame)
  { tabEntry2 with mSelectedIndex := lib.sanitizeSelectedIndex tabEntry2 }

/-- Part of `setupOptionsMenu` that hides the Mods and System tabs and takes over the
sanitized tab selection as active tab. -/
def setupTabs (lib : MenuLib) (ids : Enumerators) (enteredFromIngame : Bool) (m : OptionsMenu) :
    OptionsMenu :=
  let tabEntry := setupTabEntry lib ids enteredFromIngame m.mHasAnyModOptions
    (m.mTabMenuEntries.entry 0)
  let tabMenuEntries : GameMenuEntries :=
    { m.mTabMenuEntries with mEntries := modifyAt (fun _ => tabEntry) 0 m.mTabMenuEntries.mEntries }
  { m with
    mTabMenuEntries := tabMenuEntries
    mActiveTab := tabEntry.mSelectedIndex
    mActiveTabAnimated := (tabEntry.mSelectedIndex : ℚ) }

/-- `mTabs[mActiveTab].mMenuEntries.sanitizeSelectedIndex()`. -/
def sanitizeActiveTabIndex (lib : MenuLib) (m : OptionsMenu) : OptionsMenu :=
  let tabs := modifyAt
    (fun t => { t with mSelectedEntryIndex := lib.sanitizeSelectedEntryIndex t })
    m.mActiveTab m.mTabs
  { m with mTabs := tabs }

/-- Move the focus to the tab-title row when the title line of the active tab is selected. -/
def focusTitleIfSelected (m : OptionsMenu) : OptionsMenu :=
  if (m.mTabs.getD m.mActiveTab ⟨[], 0⟩).mSelectedEntryIndex = 0 then
    { m with mActiveMenu := ActiveMenu.tabMenu }
  else m

/-- Part of `setupOptionsMenu` that sanitizes the selection inside the active tab and moves
the focus to the tab-title row when the title line is selected. -/
def sanitizeActiveTab (lib : MenuLib) (m : OptionsMenu) : OptionsMenu :=
  focusTitleIfSelected (sanitizeActiveTabIndex lib m)

/-- Last statements of `setupOptionsMenu`: the warning banner is shown for 4 time units when
the menu was entered from in-game, the audio warning is reset. -/
def resetWarnings (enteredFromIngame : Bool) (m : OptionsMenu) : OptionsMenu :=
  { m with
    mWarningMessageTimeout := if enteredFromIngame then 4 else 0
    mAudioWarningMessageTimeout := 0
    mShowedAudioWarningMessage := false }

/-- First statement of `setupOptionsMenu`. -/
def setEnteredFromIngame (enteredFromIngame : Bool) (m : OptionsMenu) : OptionsMenu :=
  { m with mEnteredFromIngame := enteredFromIngame }

/-- `OptionsMenu::setupOptionsMenu`. -/
def setupOptionsMenu (lib : MenuLib) (ids : Enumerators) (env : Env) (enteredFromIngame : Bool)
    (m : OptionsMenu) : OptionsMenu :=
  let m1 := setEnteredFromIngame enteredFromIngame m
  let m2 := setupConditionalOptions lib ids env enteredFromIngame m1
  let m3 := hideWindowModeOptions lib ids m2
  -- hide Mods and System tabs
  let m4 := setupTabs lib ids enteredFromIngame m3
  -- corrections in case a now hidden entry was previously selected
  let m5 := sanitizeActiveTab lib m4
  resetWarnings enteredFromIngame m5

/-! ### `initialize` -/

/-- `vector::resize(n)`: cut the list to `n` elements or pad it with `d`. -/
def resizeList {α : Type} (n : Nat) (d : α) (l : List α) : List α :=
  (l ++ List.replicate (n - l.length) d).take n

/-- Local state of the loop over the active mods in `initialize`: the entries of the Mods
tab, `mOptionEntries`, and the 32 bit counter `nextOptionId`. -/
structure ModsLoop where
  entries : List GameMenuEntry
  optionEntries : List OptionEntry
  nextOptionId : Nat
  deriving DecidableEq, Repr

/-- Innermost loop body of `initialize`: one menu entry and one option entry per mod
setting. -/
def addModSetting (st : ModsLoop) (modSetting : ModSetting) : ModsLoop :=
  let entry := modSetting.mOptions.foldl GameMenuEntry.addOption
    (GameMenuEntry.create EntryKind.OptionsMenuEntry st.nextOptionId)
  { entries := st.entries ++ [entry]
    optionEntries := st.optionEntries ++
      [{ mOptionId := st.nextOptionId, mType := OptionEntryType.MOD_SETTING,
         mGameMenuEntry := none }]
    nextOptionId := (st.nextOptionId + 1) % 2 ^ 32 }

/-- Loop body over the setting categories of a mod: an optional title, then the settings. -/
def addModCategory (numCategories : Nat) (st : ModsLoop) (cat : ModSettingCategory) :
    ModsLoop :=
  let hasTitle : Bool := if cat.displayNameEmpty then decide (numCategories ≥ 2) else true
  let st1 : ModsLoop :=
    if hasTitle then
      { st with entries := st.entries ++ [GameMenuEntry.create EntryKind.TitleMenuEntry 0] }
    else st
  cat.mSettings.foldl addModSetting st1

/-- Loop body over the active mods: mods without setting categories are skipped, the others
get a section entry followed by their categories. -/
def addMod (st : ModsLoop) (mod : Mod) : ModsLoop :=
  if mod.mSettingCategories.isEmpty then st
  else
    let st1 : ModsLoop :=
      { st with entries := st.entries ++ [GameMenuEntry.create EntryKind.SectionMenuEntry 0] }
    mod.mSettingCategories.foldl (addModCategory mod.mSettingCategories.length) st1

/-- The loop over the active mods, from the last mod to the first. -/
def addMods (st : ModsLoop) (activeMods : List Mod) : ModsLoop :=
  activeMods.reverse.foldl addMod st

/-- Loop `mOptionEntries[entry.mData].mGameMenuEntry = &entry` over the entries of a tab. -/
def registerEntries (tab : Nat) (entries : List GameMenuEntry)
    (optionEntries : List OptionEntry) : List OptionEntry :=
  (List.range entries.length).foldl
    (fun oes k =>
      modifyAt (fun oe => { oe with mGameMenuEntry := some (tab, k) })
        (entries.getD k GameMenuEntry.invalid).mData oes)
    optionEntries

/-- `mOptions.resize(1)`: keep the first choice only. -/
def resizeOptions1 (options : List GameMenuOption) : List GameMenuOption :=
  match options with
  | [] => [{ mValue := 0, mVisible := true }]
  | o :: _ => [o]

/-- Loop body of `refreshGamepadLists` for one player. -/
def refreshGamepadEntry (lib : MenuLib) (env : Env) (playerIndex : Nat) (entry : GameMenuEntry) :
    GameMenuEntry :=
  let preferredValue : Int := env.preferredGamepad playerIndex
  let oldSelectedValue : Nat :=
    if preferredValue ≥ 0 then preferredValue.toNat
    else if entry.hasSelected then entry.selectedValue
    else 4294967295
  let entry1 : GameMenuEntry := { entry with mOptions := resizeOptions1 entry.mOptions }
  let entry2 := env.gamepads.foldl GameMenuEntry.addOption entry1
  match lib.findIndexByValue entry2 oldSelectedValue with
  | some i => { entry2 with mSelectedIndex := i }
  | none => { entry2 with mSelectedIndex := 0 }

/-- Loop body of `refreshGamepadLists`, acting on the entry `*mGamepadAssignmentEntries[playerIndex]`. -/
def refreshGamepadPlayer (lib : MenuLib) (env : Env) (m : OptionsMenu) (playerIndex : Nat) :
    OptionsMenu :=
  match m.mGamepadAssignmentEntries[playerIndex]? with
  | some r => m.modifyEntry r (refreshGamepadEntry lib env playerIndex)
  | none => m

/-- Assignment to `mLastGamepadsChangeCounter`. -/
def setLastGamepadsChangeCounter (counter : Nat) (m : OptionsMenu) : OptionsMenu :=
  { m with mLastGamepadsChangeCounter := counter }

/-- `OptionsMenu::refreshGamepadLists`. -/
def refreshGamepadLists (lib : MenuLib) (env : Env) (forceUpdate : Bool) (m : OptionsMenu) :
    OptionsMenu :=
  if m.mLastGamepadsChangeCounter ≠ env.gamepadsChangeCounter || forceUpdate then
    (List.range 2).foldl (refreshGamepadPlayer lib env)
      (setLastGamepadsChangeCounter env.gamepadsChangeCounter m)
  else m

/-- The sound test list built by `initialize`: music and jingles, without the `_fast` tracks
unless dev mode is on, sorted by key string. -/
def soundTestAudioDefinitions (env : Env) : List AudioDefinition :=
  let hideFastTracks := !env.devModeEnabled
  let kept := env.audioDefinitions.filter
    (fun d => d.isMusicOrJingle && !(hideFastTracks && d.mKeyString.endsWith "_fast"))
  kept.insertionSort (fun a b => ¬ (b.mKeyString < a.mKeyString))

/-- First block of `initialize`: the Mods tab and the mods option entries are rebuilt. -/
def rebuildModsTab (ids : Enumerators) (env : Env) (m : OptionsMenu) : OptionsMenu :=
  let nextOptionId0 : Nat := (ids._NUM + 1) % 2 ^ 32
  let start : ModsLoop :=
    { entries := ((m.mTabs.getD ids.Tab_MODS ⟨[], 0⟩).mEntries).take 1
      optionEntries := resizeList nextOptionId0 OptionEntry.empty m.mOptionEntries
      nextOptionId := nextOptionId0 }
  let st := addMods start env.activeMods
  let optionEntries := registerEntries ids.Tab_MODS st.entries st.optionEntries
  let entries := st.entries ++ [GameMenuEntry.create EntryKind.OptionsMenuEntry ids._BACK]
  let tabs1 := modifyAt (fun t => { t with mEntries := entries }) ids.Tab_MODS m.mTabs
  let tabMenuEntries : GameMenuEntries :=
    { m.mTabMenuEntries with
      mEntries := modifyAt (fun e => { e with mSelectedIndex := m.mActiveTab }) 0
        m.mTabMenuEntries.mEntries }
  { m with
    mTabs := tabs1
    mOptionEntries := optionEntries
    mHasAnyModOptions := decide (st.nextOptionId > (ids._NUM + 1) % 2 ^ 32)
    mTabMenuEntries := tabMenuEntries }

/-- Block "fill sound test" of `initialize`. -/
def fillSoundTest (lib : MenuLib) (ids : Enumerators) (env : Env) (m : OptionsMenu) :
    OptionsMenu :=
  let defs := soundTestAudioDefinitions env
  let m1 : OptionsMenu := { m with mSoundTestAudioDefinitions := defs }
  m1.modifyOptionMenuEntry ids.SOUND_TEST (fun entry =>
    let entry1 := (List.range defs.length).foldl GameMenuEntry.addOption
      { entry with mOptions := [] }
    { entry1 with mSelectedIndex := lib.sanitizeSelectedIndex entry1 })

/-- Last two statements of `initialize`. -/
def rememberEntryState (env : Env) (m : OptionsMenu) : OptionsMenu :=
  { m with
    mEnteredFromIngame := false
    mOriginalScriptOptimizationLevel := env.mScriptOptimizationLevel }

/-- `OptionsMenu::initialize`. -/
def initializeMenu (lib : MenuLib) (ids : Enumerators) (env : Env) (m : OptionsMenu) :
    OptionsMenu :=
  -- Mods tab and mods option entries
  let m1 := rebuildModsTab ids env m
  let m2 := m1.modifyEntry m1.mSoundtrackDownloadMenuEntry
    (fun e => e.setVisible (SoundtrackDownloadMenuEntry.shouldBeShown env))
  -- fill sound test
  let m3 := fillSoundTest lib ids env m2
  -- fill gamepad lists
  let m4 := refreshGamepadLists lib env true m3
  rememberEntryState env m4

/-! ### `onFadeIn`, `playSoundtest`, `goBack` -/

/-- Assignment to `mState`. -/
def setState (s : State) (m : OptionsMenu) : OptionsMenu :=
  { m with mState := s }

/-- Assignment to `mPlayingSoundTest`. -/
def setPlayingSoundTest (d : Option AudioDefinition) (m : OptionsMenu) : OptionsMenu :=
  { m with mPlayingSoundTest := d }

/-- Call `loadValue()` on the option entry with index `optionId`. -/
def loadOptionValue (lib : MenuLib) (env : Env) (optionId : Nat) (m : OptionsMenu) :
    OptionsMenu :=
  match m.mOptionEntries[optionId]? with
  | some oe =>
    match oe.mGameMenuEntry with
    | some r =>
      m.modifyEntry r (fun e =>
        { e with mSelectedIndex := lib.loadValue oe (env.backingValue optionId) e })
    | none => m
  | none => m

/-- Loop `for (OptionEntry& optionEntry : mOptionEntries) optionEntry.loadValue()`. -/
def loadAllOptionValues (lib : MenuLib) (env : Env) (m : OptionsMenu) : OptionsMenu :=
  (List.range m.mOptionEntries.length).foldl
    (fun acc optionId => loadOptionValue lib env optionId acc) m

/-- `OptionsMenu::onFadeIn`. -/
def onFadeIn (lib : MenuLib) (ids : Enumerators) (env : Env) (m : OptionsMenu) : OptionsMenu :=
  let m1 := setState State.APPEAR m
  let m2 := (m1.call Call.showPreview).call Call.startTransition
  let m3 := m2.modifyOptionMenuEntry ids.WINDOW_MODE
    (GameMenuEntry.setSelectedIndexByValue lib env.windowMode)
  let m4 := m3.modifyOptionMenuEntry ids.WINDOW_MODE_STARTUP
    (GameMenuEntry.setSelectedIndexByValue lib env.mWindowMode)
  let m5 := m4.modifyOptionMenuEntry ids.RENDERER
    (GameMenuEntry.setSelectedIndexByValue lib env.mRenderMethod)
  let m6 := loadAllOptionValues lib env m5
  let m7 := m6.call (Call.setMenuMusic 0x2f)
  setPlayingSoundTest none m7

/-- `OptionsMenu::playSoundtest`; `activeSoundtrack` is `config.mActiveSoundtrack`. -/
def playSoundtest (activeSoundtrack : Int) (audioDefinition : AudioDefinition)
    (m : OptionsMenu) : OptionsMenu :=
  let m2 := (setPlayingSoundTest (some audioDefinition) m).call Call.stopSoundContextMenu
  if audioDefinition.mKeyString.endsWith "_fast" && activeSoundtrack == 0 then
    (m2.call Call.enableAudioModifier).call
      (Call.playAudioDirectByName (audioDefinition.mKeyString.dropRight 5))
  else
    (m2.call Call.disableAudioModifier).call (Call.playAudioDirect audioDefinition.mKeyId)

/-- Whether `goBack` stops the menu music context: a sound test track other than `0x2f` is
playing. -/
def soundTestNeedsStop (m : OptionsMenu) : Bool :=
  match m.mPlayingSoundTest with
  | some d => d.mKeyId != 0x2f
  | none => false

/-- First conditional of `goBack`: stop a playing sound test track. -/
def stopSoundTest (m : OptionsMenu) : OptionsMenu :=
  if soundTestNeedsStop m then m.call Call.stopSoundContextMenuMusic else m

/-- Second conditional of `goBack`: apply the script optimization level if it got changed. -/
def reloadScriptsIfChanged (env : Env) (m : OptionsMenu) : OptionsMenu :=
  if m.mOriginalScriptOptimizationLevel ≠ env.mScriptOptimizationLevel then
    m.call Call.triggerFullScriptsReload
  else m

/-- Last statement of `goBack`: start fading to the game or to the menu. -/
def startFadeOut (m : OptionsMenu) : OptionsMenu :=
  setState (if m.mEnteredFromIngame then State.FADE_TO_GAME else State.FADE_TO_MENU) m

/-- `OptionsMenu::goBack`; `env` is read after the settings were saved. -/
def goBack (env : Env) (m : OptionsMenu) : OptionsMenu :=
  let m1 := m.call (Call.playMenuSound 0xad)
  let m2 := stopSoundTest m1
  -- save changes
  let m3 := (m2.call Call.copyModSettingsToConfig).call Call.saveSettings
  let m4 := reloadScriptsIfChanged env m3
  let m5 := m4.call Call.onExitOptions
  startFadeOut m5

/-! ### `update` -/

/-- Entry list `*mActiveMenu`. -/
def activeEntries (m : OptionsMenu) : GameMenuEntries :=
  match m.mActiveMenu with
  | ActiveMenu.tabMenu => m.mTabMenuEntries
  | ActiveMenu.tabContent t => m.mTabs.getD t ⟨[], 0⟩

/-- Store a new value into `*mActiveMenu`. -/
def setActiveEntries (m : OptionsMenu) (es : GameMenuEntries) : OptionsMenu :=
  match m.mActiveMenu with
  | ActiveMenu.tabMenu => { m with mTabMenuEntries := es }
  | ActiveMenu.tabContent t => { m with mTabs := modifyAt (fun _ => es) t m.mTabs }

/-- First statement of `update`: move the animated tab value toward the active tab. -/
def animateActiveTab (timeElapsed : ℚ) (m : OptionsMenu) : OptionsMenu :=
  { m with mActiveTabAnimated := m.mActiveTabAnimated +
      clamp ((m.mActiveTab : ℚ) - m.mActiveTabAnimated) (-timeElapsed * 4) (timeElapsed * 4) }

/-- Refresh at the start of input handling: the entries whose value can change behind the back
of the menu re-read it. -/
def syncDisplayedValues (lib : MenuLib) (ids : Enumerators) (env : Env) (m : OptionsMenu) :
    OptionsMenu :=
  let m1 := m.modifyOptionMenuEntry ids.WINDOW_MODE
    (GameMenuEntry.setSelectedIndexByValue lib env.windowMode)
  let m2 := loadOptionValue lib env ids.FRAME_SYNC m1
  let m3 := loadOptionValue lib env ids.FILTERING m2
  let m4 := loadOptionValue lib env ids.BG_BLUR m3
  let m5 := loadOptionValue lib env ids.AUDIO_VOLUME m4
  m5.modifyOptionMenuEntry ids.RENDERER (GameMenuEntry.setSelectedIndexByValue lib env.mRenderMethod)

/-- Assignment to `mActiveMenu`. -/
def setActiveMenu (a : ActiveMenu) (m : OptionsMenu) : OptionsMenu :=
  { m with mActiveMenu := a }

/-- The two statements that switch from the title to the tab content: `mActiveMenu` points to
the entries of the active tab, whose selected entry index is reset to 0. -/
def switchToTabContent (m : OptionsMenu) : OptionsMenu :=
  let m1 := setActiveMenu (ActiveMenu.tabContent m.mActiveTab) m
  m1.setActiveEntries { m1.activeEntries with mSelectedEntryIndex := 0 }

/-- Switch from title to tab content when Down or Up is pressed in the tab-title row. -/
def enterTabContent (env : Env) (m : OptionsMenu) : OptionsMenu :=
  if m.mActiveMenu = ActiveMenu.tabMenu ∧
      (env.keys.Down.justPressedOrRepeat || env.keys.Up.justPressedOrRepeat) = true then
    switchToTabContent m
  else m

/-- Record `mOptionEntries[selectedData].applyValue()`, together with the value it applies. -/
def applyValue (selectedData : Nat) (m : OptionsMenu) : OptionsMenu :=
  m.call (Call.applyValue selectedData (m.optionMenuEntry selectedData).selectedValue)

/-- Restart of the menu music after a change of soundtrack: the menu music itself, or the
sound test track that is playing. -/
def restartMusic (activeSoundtrack : Int) (m : OptionsMenu) : OptionsMenu :=
  let m1 := (m.call Call.stopSoundContextMenuMusic).call Call.onSoundtrackPreferencesChanged
  match m1.mPlayingSoundTest with
  | none => m1.call Call.restartMenuMusic
  | some d => playSoundtest activeSoundtrack d m1

/-- Inner part of the `default` branch: options above `_TAB_SELECTION` other than `_BACK` are
applied, and rumble, virtual gamepad size and frame sync have their side effect. -/
def applyGenericValue (ids : Enumerators) (selectedEntry : GameMenuEntry) (m : OptionsMenu) :
    OptionsMenu :=
  let selectedData := selectedEntry.mData
  if selectedData > ids._TAB_SELECTION ∧ selectedData ≠ ids._BACK then
    let a := applyValue selectedData m
    if selectedData ≥ ids.CONTROLLER_RUMBLE_P1 ∧ selectedData ≤ ids.CONTROLLER_RUMBLE_P2 then
      a.call (Call.setControllerRumbleForPlayer (selectedData - ids.CONTROLLER_RUMBLE_P1))
    else if selectedData ≥ ids.VGAMEPAD_DPAD_SIZE ∧ selectedData ≤ ids.VGAMEPAD_BUTTONS_SIZE then
      a.call Call.buildTouchControls
    else if selectedData = ids.FRAME_SYNC then
      a.call (Call.setVSyncMode selectedEntry.selectedValue)
    else a
  else m

/-- End of the `default` branch: the audio warning is shown once when a music option is
changed in-game. -/
def showAudioWarning (ids : Enumerators) (selectedData : Nat) (m : OptionsMenu) : OptionsMenu :=
  if m.mEnteredFromIngame = true ∧ m.mShowedAudioWarningMessage = false ∧
      selectedData ≥ ids.TITLE_THEME ∧ selectedData ≤ ids.OUTRO_MUSIC then
    { m with mAudioWarningMessageTimeout := 4, mShowedAudioWarningMessage := true }
  else m

/-- The `default` branch of the dispatch on a changed option. -/
def applyDefaultChange (ids : Enumerators) (selectedEntry : GameMenuEntry) (m : OptionsMenu) :
    OptionsMenu :=
  -- apply change
  let m1 := m.call
    (Call.write_mWindowMode (m.optionMenuEntry ids.WINDOW_MODE_STARTUP).selectedValue)
  let m2 := applyGenericValue ids selectedEntry m1
  showAudioWarning ids selectedEntry.mData m2

/-- Branch `case option::SOUNDTRACK`: change soundtrack and restart music. -/
def changeSoundtrack (env : Env) (selectedEntry : GameMenuEntry) (m : OptionsMenu) :
    OptionsMenu :=
  let m1 := m.call (Call.write_mActiveSoundtrack selectedEntry.selectedValue)
  let envW : Env := { env with mActiveSoundtrack := (selectedEntry.selectedValue : Int) }
  let m2 := if env.hasLoadedRemasteredSoundtrack then restartMusic envW.mActiveSoundtrack m1 else m1
  m2.modifyEntry m.mSoundtrackDownloadMenuEntry
    (fun e => e.setVisible (SoundtrackDownloadMenuEntry.shouldBeShown envW))

/-- The `switch (selectedData)` run when an option of a tab entry was changed. -/
def applyOptionChange (ids : Enumerators) (env : Env) (selectedEntry : GameMenuEntry)
    (m : OptionsMenu) : OptionsMenu :=
  let selectedData := selectedEntry.mData
  if selectedData = ids.RELEASE_CHANNEL then
    (applyValue selectedData m).call Call.updateCheckReset
  else if selectedData = ids.WINDOW_MODE then
    m.call (Call.setWindowMode selectedEntry.selectedValue)
  else if selectedData = ids.RENDERER then
    m.call (Call.switchToRenderMethod selectedEntry.selectedValue)
  else if selectedData = ids.SOUNDTRACK then
    changeSoundtrack env selectedEntry m
  else if selectedData = ids.CONTROLLER_PLAYER_1 ∨ selectedData = ids.CONTROLLER_PLAYER_2 then
    m.call (Call.setPreferredGamepad ((selectedData : Int) - (ids.CONTROLLER_PLAYER_1 : Int))
      selectedEntry.selectedValue)
  else if selectedData = ids.CONTROLLER_AUTOASSIGN then
    (applyValue selectedData m).call Call.updatePlayerGamepadAssignments
  else if selectedData = ids.GAME_RECORDING_MODE then
    (applyValue selectedData m).call Call.evaluateGameRecording
  else applyDefaultChange ids selectedEntry m

/-- Assignment `mActiveTab = mTabMenuEntries[option::_TAB_SELECTION].mSelectedIndex`. -/
def takeOverSelectedTab (ids : Enumerators) (m : OptionsMenu) : OptionsMenu :=
  { m with mActiveTab := (m.mTabMenuEntries.entry ids._TAB_SELECTION).mSelectedIndex }

/-- Reaction to a result other than `NONE` when the tab-title row does not report a changed
option: a sound, then either the focus moves back to the title, or the changed option of the
tab is dispatched. -/
def reactInsideTab (ids : Enumerators) (env : Env) (result : UpdateResult) (m : OptionsMenu) :
    OptionsMenu :=
  if result = UpdateResult.ENTRY_CHANGED ∧ m.mActiveMenu ≠ ActiveMenu.tabMenu ∧
      m.activeEntries.mSelectedEntryIndex = 0 then
    -- switch from tab content to title
    setActiveMenu ActiveMenu.tabMenu m
  else if result = UpdateResult.OPTION_CHANGED ∧ m.mActiveMenu ≠ ActiveMenu.tabMenu then
    applyOptionChange ids env m.activeEntries.selected m
  else m

/-- Reaction of `update` to the result of `mActiveMenu->update()`. -/
def reactToUpdateResult (ids : Enumerators) (env : Env) (result : UpdateResult)
    (m : OptionsMenu) : OptionsMenu :=
  if result = UpdateResult.NONE then m
  else if result = UpdateResult.OPTION_CHANGED ∧ m.mActiveMenu = ActiveMenu.tabMenu then
    (takeOverSelectedTab ids m).call (Call.playMenuSound 0xb7)
  else
    reactInsideTab ids env result (m.call (Call.playMenuSound 0x5b))

/-- Update of the active entry list and reaction to its result. -/
def handleMenuUpdate (lib : MenuLib) (ids : Enumerators) (env : Env) (m : OptionsMenu) :
    OptionsMenu :=
  let r := lib.entriesUpdate env m.activeEntries
  reactToUpdateResult ids env r.1 (m.setActiveEntries r.2)

/-- Local enumeration `ButtonEffect` of `update`. -/
inductive ButtonEffect
  | NONE
  | ACCEPT
  | BACK
  deriving DecidableEq, Repr

/-- The button effect `update` derives from the pressed buttons: accept wins over back. -/
def buttonEffect (keys : ControllerScheme) : ButtonEffect :=
  if keys.Start.justPressed || keys.A.justPressed || keys.X.justPressed then ButtonEffect.ACCEPT
  else if keys.Back.justPressed || keys.B.justPressed then ButtonEffect.BACK
  else ButtonEffect.NONE

/-- Branch `case option::SOUNDTRACK_DOWNLOAD` of the accept switch. -/
def acceptSoundtrackDownload (late : Env) (m : OptionsMenu) : OptionsMenu :=
  let m1 := m.call Call.triggerButton
  let m2 := m1.modifyEntry m.mSoundtrackDownloadMenuEntry
    (fun e => e.setVisible (SoundtrackDownloadMenuEntry.shouldBeShown late))
  -- restart music if remastered soundtrack was just loaded
  if late.hasLoadedRemasteredSoundtrack then restartMusic late.mActiveSoundtrack m2 else m2

/-- Branch `case option::SOUND_TEST` of the accept switch. -/
def acceptSoundTest (late : Env) (selectedEntry : GameMenuEntry) (m : OptionsMenu) :
    OptionsMenu :=
  match m.mSoundTestAudioDefinitions[selectedEntry.selectedValue]? with
  | some d => playSoundtest late.mActiveSoundtrack d m
  | none => m

/-- The `switch (selectedEntry.mData)` run when accept is pressed inside a tab. -/
def acceptSelectedEntry (ids : Enumerators) (late : Env) (selectedEntry : GameMenuEntry)
    (m : OptionsMenu) : OptionsMenu :=
  let data := selectedEntry.mData
  if data = ids.SOUND_TEST then acceptSoundTest late selectedEntry m
  else if data = ids.CONTROLLER_SETUP then
    (m.call (Call.playMenuSound 0x63)).call Call.controllerSetupFadeIn
  else if data = ids.VGAMEPAD_SETUP then
    (m.call Call.setLastInputTypeTouch).call Call.enableConfigMode
  else if data = ids._CHECK_FOR_UPDATE ∨ data = ids.RELEASE_CHANNEL then
    if late.updateCheckHasUpdate then m.call Call.openUpdateInfoURL
    else m.call Call.startUpdateCheck
  else if data = ids.SOUNDTRACK_DOWNLOAD then acceptSoundtrackDownload late m
  else if data = ids._OPEN_HOMEPAGE then m.call Call.openHomepage
  else if data = ids._OPEN_MANUAL then m.call Call.openManual
  else if data = ids._BACK then goBack late m
  else m

/-- Reaction of `update` to the accept and back buttons. -/
def handleButtons (ids : Enumerators) (env late : Env) (m : OptionsMenu) : OptionsMenu :=
  match buttonEffect env.keys with
  | ButtonEffect.NONE => m
  | ButtonEffect.BACK => goBack late m
  | ButtonEffect.ACCEPT =>
    if m.mActiveMenu ≠ ActiveMenu.tabMenu then
      acceptSelectedEntry ids late (m.mTabs.getD m.mActiveTab ⟨[], 0⟩).selected m
    else m

/-- Input handling of `update`; it runs only in state `SHOW` while the controller setup menu
is not visible. -/
def handleInput (lib : MenuLib) (ids : Enumerators) (env late : Env) (m : OptionsMenu) :
    OptionsMenu :=
  if m.mState = State.SHOW ∧ env.controllerSetupMenuVisible = false then
    handleButtons ids env late
      (handleMenuUpdate lib ids env (enterTabContent env (syncDisplayedValues lib ids env m)))
  else m

/-- Enable or disable the scanlines and filtering options. -/
def updateInteractable (ids : Enumerators) (late : Env) (m : OptionsMenu) : OptionsMenu :=
  let isSoftware : Bool := decide (late.mRenderMethod = ids.RenderMethod_SOFTWARE)
  let m1 := m.modifyOptionMenuEntry ids.SCANLINES
    (fun e => e.setInteractable (!isSoftware && decide (late.mFiltering < 3)))
  m1.modifyOptionMenuEntry ids.FILTERING (fun e => e.setInteractable (!isSoftware))

/-- Assignment to `mVisibility`. -/
def setVisibility (v : ℚ) (m : OptionsMenu) : OptionsMenu :=
  { m with mVisibility := v }

/-- End of fading in: the menu is shown once the visibility has reached 1. -/
def finishAppear (m : OptionsMenu) : OptionsMenu :=
  if m.mVisibility ≥ 1 then setState State.SHOW m else m

/-- End of fading out: the menu is inactive once the visibility has reached 0. -/
def finishFadeOut (m : OptionsMenu) : OptionsMenu :=
  if m.mVisibility ≤ 0 then setState State.INACTIVE (m.call Call.onFadedOutOptions) else m

/-- Fading in and out. -/
def updateFading (timeElapsed : ℚ) (m : OptionsMenu) : OptionsMenu :=
  if m.mState = State.APPEAR then
    finishAppear (setVisibility (saturate (m.mVisibility + timeElapsed * 6)) m)
  else if m.mState.toNat > State.SHOW.toNat then
    finishFadeOut (setVisibility (saturate (m.mVisibility - timeElapsed * 6)) m)
  else m

/-- One step of a warning message timeout:
`if (t > 0.0f) t = std::max(0.0f, t - timeElapsed)`, the difference of the two `float` values
being rounded to `float`. -/
def stepTimeout (timeout timeElapsed : ℚ) : ℚ :=
  if timeout > 0 then max 0 (roundToFloat32 (timeout - timeElapsed)) else timeout

/-- Update of the two warning message timeouts. -/
def updateTimeouts (timeElapsed : ℚ) (m : OptionsMenu) : OptionsMenu :=
  { m with
    mWarningMessageTimeout := stepTimeout m.mWarningMessageTimeout timeElapsed
    mAudioWarningMessageTimeout := stepTimeout m.mAudioWarningMessageTimeout timeElapsed }

/-- `OptionsMenu::update`.  `env` holds what the function reads before it calls out to other
subsystems, `late` what it reads afterwards (button handlers, `goBack`, enabling of options,
gamepad lists). -/
def update (lib : MenuLib) (ids : Enumerators) (env late : Env) (timeElapsed : ℚ)
    (m : OptionsMenu) : OptionsMenu :=
  let m1 := animateActiveTab timeElapsed m
  let m2 := handleInput lib ids env late m1
  let m3 := updateInteractable ids late m2
  let m4 := updateFading timeElapsed m3
  let m5 := updateTimeouts timeElapsed m4
  let m6 := refreshGamepadLists lib late false m5
  m6.call Call.baseUpdate

end OptionsMenu

/-! ## Notions used in the statements -/

namespace OptionsMenu

/-- Visibility flag of the menu entry that displays an option. -/
def optionVisible (m : OptionsMenu) (optionId : Nat) : Bool :=
  (m.optionMenuEntry optionId).mVisible

/-- The menu entries of the listed options are registered in `mOptionEntries`: every pointer
designates an entry of a tab, and different options have different entries.  The constructor
establishes this for the options it places in a tab. -/
def Registered (m : OptionsMenu) (optionIds : List Nat) : Prop :=
  (∀ id ∈ optionIds, ((gameMenuEntryRef m.mOptionEntries id).bind m.entryAt).isSome = true) ∧
  (optionIds.map (gameMenuEntryRef m.mOptionEntries)).Nodup

instance (m : OptionsMenu) (optionIds : List Nat) : Decidable (Registered m optionIds) := by
  unfold Registered; infer_instance

/-- Option IDs whose menu entries `setupOptionsMenu` shows or hides: the conditional options
and the two window mode options. -/
def setupOptionIds (ids : Enumerators) : List Nat :=
  (CONDITIONAL_OPTIONS ids).map (fun o => o.mOptionId) ++ [ids.WINDOW_MODE, ids.WINDOW_MODE_STARTUP]

end OptionsMenu

namespace OptionsMenu

/-- Number of settings of a mod, over all its setting categories. -/
def settingCountOf (mod : Mod) : Nat :=
  (mod.mSettingCategories.map (fun c => c.mSettings.length)).sum

/-- Number of mod settings of a list of mods: the number of mod setting entries that
`initialize` creates for it. -/
def modSettingCount (mods : List Mod) : Nat :=
  (mods.map settingCountOf).sum

/-- Visibility flag `mTabMenuEntries[0].mOptions[Tab::Id::MODS].mVisible` of the Mods tab, if
the tab-title entry has such a choice. -/
def modsTabVisible (ids : Enumerators) (m : OptionsMenu) : Option Bool :=
  ((m.mTabMenuEntries.entry 0).mOptions[ids.Tab_MODS]?).map (fun o => o.mVisible)

end OptionsMenu

/-! ## A concrete menu

One admissible numbering of the enumerators, a simple cursor behaviour for the generic menu
classes and a small menu whose second tab holds one entry per option.  They serve to run the
model on concrete inputs. -/

/-- A numbering of the enumerators: options in the order of the fields of `Enumerators`. -/
def exampleIds : Enumerators :=
  { _TAB_SELECTION := 0, _CHECK_FOR_UPDATE := 1, _OPEN_HOMEPAGE := 2, _OPEN_MANUAL := 3,
    _BACK := 4, RELEASE_CHANNEL := 5, FRAME_SYNC := 6, GAME_RECORDING_MODE := 7,
    FILTERING := 8, SCANLINES := 9, BG_BLUR := 10, AUDIO_VOLUME := 11, SOUNDTRACK := 12,
    SOUNDTRACK_DOWNLOAD := 13, SOUND_TEST := 14, TITLE_THEME := 15, OUTRO_MUSIC := 16,
    COMPETITION_MENU_MUSIC := 17, ANTI_FLICKER := 18, ICZ_NIGHTTIME := 19, MONITOR_STYLE := 20,
    LEVEL_LAYOUTS := 21, AIZ_BLIMPSEQUENCE := 22, LBZ_BIGARMS := 23, SOZ_GHOSTSPAWN := 24,
    LRZ2_BOSS := 25, TIMEATTACK_GHOSTS := 26, TIMEATTACK_INSTANTRESTART := 27, DROP_DASH := 28,
    SUPER_PEELOUT := 29, DEBUG_MODE := 30, TITLE_SCREEN := 31, SHIELD_TYPES := 32,
    RANDOM_MONITORS := 33, MONITOR_BEHAVIOR := 34, RANDOM_SPECIALSTAGES := 35,
    SPECIAL_STAGE_REPEAT := 36, REGION := 37, GAME_SPEED := 38, WINDOW_MODE := 39,
    WINDOW_MODE_STARTUP := 40, RENDERER := 41, CONTROLLER_SETUP := 42,
    CONTROLLER_PLAYER_1 := 43, CONTROLLER_PLAYER_2 := 44, CONTROLLER_AUTOASSIGN := 45,
    CONTROLLER_RUMBLE_P1 := 46, CONTROLLER_RUMBLE_P2 := 47, VGAMEPAD_DPAD_SIZE := 48,
    VGAMEPAD_BUTTONS_SIZE := 49, VGAMEPAD_SETUP := 50, _NUM := 51,
    Tab_MODS := 0, Tab_SYSTEM := 1,
    SECRET_DROPDASH := 1, SECRET_SUPER_PEELOUT := 3, SECRET_DEBUGMODE := 4,
    SECRET_TITLE_SK := 7, SECRET_GAME_SPEED := 8, RenderMethod_SOFTWARE := 0 }

/-- A simple cursor behaviour for `GameMenuEntries::update`: Down and Up move the selected
entry by one line, Right and Left move the selected choice of the selected entry by one. -/
def simpleEntriesUpdate (env : Env) (es : GameMenuEntries) : UpdateResult × GameMenuEntries :=
  if env.keys.Down.justPressedOrRepeat = true ∧ es.mSelectedEntryIndex + 1 < es.mEntries.length then
    (UpdateResult.ENTRY_CHANGED, { es with mSelectedEntryIndex := es.mSelectedEntryIndex + 1 })
  else if env.keys.Up.justPressedOrRepeat = true ∧ es.mSelectedEntryIndex > 0 then
    (UpdateResult.ENTRY_CHANGED, { es with mSelectedEntryIndex := es.mSelectedEntryIndex - 1 })
  else if env.keys.Right.justPressedOrRepeat = true ∧
      es.selected.mSelectedIndex + 1 < es.selected.mOptions.length then
    let entries := modifyAt (fun e => { e with mSelectedIndex := e.mSelectedIndex + 1 })
      es.mSelectedEntryIndex.toNat es.mEntries
    (UpdateResult.OPTION_CHANGED, { es with mEntries := entries })
  else if env.keys.Left.justPressedOrRepeat = true ∧ es.selected.mSelectedIndex > 0 then
    let entries := modifyAt (fun e => { e with mSelectedIndex := e.mSelectedIndex - 1 })
      es.mSelectedEntryIndex.toNat es.mEntries
    (UpdateResult.OPTION_CHANGED, { es with mEntries := entries })
  else (UpdateResult.NONE, es)

/-- A simple instance of the generic menu functions: selection by value picks the first
choice with that value, sanitizing keeps an index inside the list, loading falls back to
choice 0, every entry wants to be shown, desktop platform. -/
def exampleLib : MenuLib :=
  { entriesUpdate := simpleEntriesUpdate
    findIndexByValue := fun e value => e.mOptions.findIdx? (fun o => o.mValue == value)
    sanitizeSelectedIndex := fun e => min e.mSelectedIndex (e.mOptions.length - 1)
    sanitizeSelectedEntryIndex := fun es => es.mSelectedEntryIndex
    loadValue := fun oe backing e =>
      if oe.mType = OptionEntryType.UNDEFINED then e.mSelectedIndex
      else (e.mOptions.findIdx? (fun o => (o.mValue : Int) == backing)).getD 0
    shouldBeShown := fun _ => true
    platformHidesWindowMode := false }

/-- A button that is not pressed. -/
def Control.released : Control := { isJustPressed := false, isRepeat := false }

/-- A button that was just pressed. -/
def Control.pressed : Control := { isJustPressed := true, isRepeat := false }

/-- No button pressed. -/
def noKeys : ControllerScheme :=
  { Up := Control.released, Down := Control.released, Left := Control.released,
    Right := Control.released, Start := Control.released, A := Control.released,
    B := Control.released, X := Control.released, Back := Control.released }

/-- A quiet outside world: no input, no mods, no gamepads, nothing unlocked. -/
def exampleEnv : Env :=
  { keys := noKeys, controllerSetupMenuVisible := false, windowMode := 0, mWindowMode := 0,
    mRenderMethod := 2, mFiltering := 0, mActiveSoundtrack := 0, mScriptOptimizationLevel := -1,
    devModeEnabled := false, isDownloaderSupported := true,
    hasLoadedRemasteredSoundtrack := false, updateCheckHasUpdate := false,
    isSecretUnlocked := fun _ => false, backingValue := fun _ => 0, gamepadsChangeCounter := 0,
    preferredGamepad := fun _ => -1, gamepads := [], activeMods := [], audioDefinitions := [] }

/-- An option entry with the two choices 0 and 1. -/
def exampleEntry (optionId : Nat) : GameMenuEntry :=
  ((GameMenuEntry.create EntryKind.OptionsMenuEntry optionId).addOption 0).addOption 1

/-- A menu in state `SHOW` with the tab-title row focused: tab 0 is the Mods tab (title and
back entry), tab 1 holds one two-choice entry per option ID, line `i` for option `i`. -/
def exampleMenu : OptionsMenu :=
  { mState := State.SHOW
    mVisibility := 1
    mActiveTab := 1
    mActiveTabAnimated := 1
    mActiveMenu := ActiveMenu.tabMenu
    mTabMenuEntries :=
      { mEntries := [(exampleEntry 0).setSelectedIndexByValue exampleLib 1]
        mSelectedEntryIndex := 0 }
    mTabs :=
      [ { mEntries := [GameMenuEntry.create EntryKind.GameMenuEntry 0,
                       GameMenuEntry.create EntryKind.OptionsMenuEntry exampleIds._BACK],
          mSelectedEntryIndex := 0 },
        { mEntries := GameMenuEntry.create EntryKind.GameMenuEntry 0 ::
            (List.range 50).map (fun i => exampleEntry (i + 1)),
          mSelectedEntryIndex := 0 } ]
    mOptionEntries := (List.range 52).map (fun i =>
      { mOptionId := i, mType := OptionEntryType.CONFIG_INT, mGameMenuEntry := some (1, i) })
    mSoundtrackDownloadMenuEntry := (1, exampleIds.SOUNDTRACK_DOWNLOAD)
    mGamepadAssignmentEntries :=
      [(1, exampleIds.CONTROLLER_PLAYER_1), (1, exampleIds.CONTROLLER_PLAYER_2)]
    mSoundTestAudioDefinitions := []
    mPlayingSoundTest := none
    mLastGamepadsChangeCounter := 0
    mHasAnyModOptions := false
    mEnteredFromIngame := false
    mWarningMessageTimeout := 0
    mAudioWarningMessageTimeout := 0
    mShowedAudioWarningMessage := false
    mOriginalScriptOptimizationLevel := -1
    mCalls := [] }

namespace OptionsMenu

/-- The members of the menu that the input handling of `update` never writes. -/
structure Frame where
  mVisibility : ℚ
  mActiveTabAnimated : ℚ
  mWarningMessageTimeout : ℚ
  mEnteredFromIngame : Bool
  mOriginalScriptOptimizationLevel : Int
  mHasAnyModOptions : Bool
  mOptionEntries : List OptionEntry
  mSoundtrackDownloadMenuEntry : EntryRef
  mGamepadAssignmentEntries : List EntryRef
  mSoundTestAudioDefinitions : List AudioDefinition

/-- Projection of a menu onto the members collected in `Frame`. -/
def frame (m : OptionsMenu) : Frame :=
  { mVisibility := m.mVisibility
    mActiveTabAnimated := m.mActiveTabAnimated
    mWarningMessageTimeout := m.mWarningMessageTimeout
    mEnteredFromIngame := m.mEnteredFromIngame
    mOriginalScriptOptimizationLevel := m.mOriginalScriptOptimizationLevel
    mHasAnyModOptions := m.mHasAnyModOptions
    mOptionEntries := m.mOptionEntries
    mSoundtrackDownloadMenuEntry := m.mSoundtrackDownloadMenuEntry
    mGamepadAssignmentEntries := m.mGamepadAssignmentEntries
    mSoundTestAudioDefinitions := m.mSoundTestAudioDefinitions }

/-- One frame of a run of the menu: what `update` reads early and late, and the elapsed
time. -/
structure Tick where
  env : Env
  late : Env
  timeElapsed : ℚ

/-- A sequence of `update` calls, one per tick. -/
def updates (lib : MenuLib) (ids : Enumerators) (ticks : List Tick) (m : OptionsMenu) :
    OptionsMenu :=
  ticks.foldl (fun acc t => update lib ids t.env t.late t.timeElapsed acc) m

/-- Total time elapsed over a sequence of ticks. -/
def totalTime (ticks : List Tick) : ℚ :=
  (ticks.map (fun t => t.timeElapsed)).sum

end OptionsMenu

/-- Immediate successor relation of the chain
`INACTIVE -> APPEAR -> SHOW -> (FADE_TO_MENU | FADE_TO_GAME) -> INACTIVE`. -/
def State.isSuccessor : State → State → Bool
  | State.INACTIVE, State.APPEAR => true
  | State.APPEAR, State.SHOW => true
  | State.SHOW, State.FADE_TO_MENU => true
  | State.SHOW, State.FADE_TO_GAME => true
  | State.FADE_TO_MENU, State.INACTIVE => true
  | State.FADE_TO_GAME, State.INACTIVE => true
  | _, _ => false

namespace OptionsMenu

/-- The menu with an empty record of calls; the calls recorded by a function applied to it are
the calls made by that function. -/
def clearCalls (m : OptionsMenu) : OptionsMenu :=
  { m with mCalls := [] }

/-- The state `goBack` switches to. -/
def fadeOutState (m : OptionsMenu) : State :=
  if m.mEnteredFromIngame then State.FADE_TO_GAME else State.FADE_TO_MENU

/-- The outside world of `exampleEnv` with the B button just pressed. -/
def backPressedEnv : Env :=
  { exampleEnv with keys := { noKeys with B := Control.pressed } }

end OptionsMenu

namespace OptionsMenu

/-- Operations performed on the options menu during a session: `initialize()`, entering the
menu (`setupOptionsMenu` followed by `onFadeIn`), a frame update, and leaving through
`goBack`.  Changes of options show as different configuration values in the `Env` of the
later operations. -/
inductive MenuOp
  | init (env : Env)
  | enter (env : Env) (enteredFromIngame : Bool)
  | update (env late : Env) (timeElapsed : ℚ)
  | exit (env : Env)

/-- Effect of one operation. -/
def runOp (lib : MenuLib) (ids : Enumerators) (m : OptionsMenu) : MenuOp → OptionsMenu
  | MenuOp.init env => initializeMenu lib ids env m
  | MenuOp.enter env enteredFromIngame =>
    onFadeIn lib ids env (setupOptionsMenu lib ids env enteredFromIngame m)
  | MenuOp.update env late timeElapsed => update lib ids env late timeElapsed m
  | MenuOp.exit env => goBack env m

/-- Effect of a sequence of operations. -/
def runOps (lib : MenuLib) (ids : Enumerators) (ops : List MenuOp) (m : OptionsMenu) :
    OptionsMenu :=
  ops.foldl (runOp lib ids) m

/-- Script optimization level the configuration held at the latest `initialize()` of a
sequence of operations, if there is one. -/
def levelAtLastInit (ops : List MenuOp) : Option Int :=
  ops.foldl (fun acc op =>
    match op with
    | MenuOp.init env => some env.mScriptOptimizationLevel
    | _ => acc) none

/-- Script optimization level the configuration held when the menu was last entered in a
sequence of operations, if it was entered. -/
def levelAtLastEntry (ops : List MenuOp) : Option Int :=
  ops.foldl (fun acc op =>
    match op with
    | MenuOp.enter env _ => some env.mScriptOptimizationLevel
    | _ => acc) none

/-- Whether `goBack`, called after a sequence of operations, signals a full reload of the
scripts. -/
def signalsReload (lib : MenuLib) (ids : Enumerators) (ops : List MenuOp) (exitEnv : Env)
    (m : OptionsMenu) : Prop :=
  Call.triggerFullScriptsReload ∈ (goBack exitEnv (clearCalls (runOps lib ids ops m))).mCalls

/-- The outside world of `exampleEnv` after the script optimization option was set to
"full" (level 3). -/
def fullOptimizationEnv : Env :=
  { exampleEnv with mScriptOptimizationLevel := 3 }

/-- A session that enters the menu twice after one `initialize()`: the level is changed from
-1 to 3 during the first visit, and left alone during the second. -/
def twoVisits : List MenuOp :=
  [MenuOp.init exampleEnv, MenuOp.enter exampleEnv false, MenuOp.exit fullOptimizationEnv,
   MenuOp.enter fullOptimizationEnv false]

end OptionsMenu

/-- Whether a recorded call is a call of `OptionEntry::applyValue`. -/
def Call.isApplyValue : Call → Bool
  | Call.applyValue _ _ => true
  | _ => false

namespace OptionsMenu

/-- The menu at the point where `update` calls `mActiveMenu->update()`: the animated tab value
has moved, the displayed values are refreshed and the focus has switched into the tab if Down
or Up was pressed in the tab-title row. -/
def menuBeforeListUpdate (lib : MenuLib) (ids : Enumerators) (env : Env) (timeElapsed : ℚ)
    (m : OptionsMenu) : OptionsMenu :=
  enterTabContent env (syncDisplayedValues lib ids env (animateActiveTab timeElapsed m))

/-- What `mActiveMenu->update()` returns inside `update`: the result and the updated list. -/
def listUpdate (lib : MenuLib) (ids : Enumerators) (env : Env) (timeElapsed : ℚ)
    (m : OptionsMenu) : UpdateResult × GameMenuEntries :=
  lib.entriesUpdate env (menuBeforeListUpdate lib ids env timeElapsed m).activeEntries

/-- The menu right after `mActiveMenu->update()` returned. -/
def menuAfterListUpdate (lib : MenuLib) (ids : Enumerators) (env : Env) (timeElapsed : ℚ)
    (m : OptionsMenu) : OptionsMenu :=
  (menuBeforeListUpdate lib ids env timeElapsed m).setActiveEntries
    (listUpdate lib ids env timeElapsed m).2

/-- This `update` call commits a change of an option of a tab entry: the input is handled
(state `SHOW`, controller setup menu not visible), the active list is the entry list of a
tab, and its update reports `OPTION_CHANGED`. -/
def OptionChangedInTab (lib : MenuLib) (ids : Enumerators) (env : Env) (timeElapsed : ℚ)
    (m : OptionsMenu) : Prop :=
  m.mState = State.SHOW ∧ env.controllerSetupMenuVisible = false ∧
  (listUpdate lib ids env timeElapsed m).1 = UpdateResult.OPTION_CHANGED ∧
  (menuAfterListUpdate lib ids env timeElapsed m).mActiveMenu ≠ ActiveMenu.tabMenu

instance (lib : MenuLib) (ids : Enumerators) (env : Env) (timeElapsed : ℚ) (m : OptionsMenu) :
    Decidable (OptionChangedInTab lib ids env timeElapsed m) := by
  unfold OptionChangedInTab; infer_instance

/-- The entry whose option was changed: the selected entry of the active list after its
update. -/
def changedEntry (lib : MenuLib) (ids : Enumerators) (env : Env) (timeElapsed : ℚ)
    (m : OptionsMenu) : GameMenuEntry :=
  (menuAfterListUpdate lib ids env timeElapsed m).activeEntries.selected

/-- The value `mOptionEntries[optionId].applyValue()` writes: the selected value of the menu
entry of that option at the time of the call. -/
def appliedValue (lib : MenuLib) (ids : Enumerators) (env : Env) (timeElapsed : ℚ)
    (m : OptionsMenu) (optionId : Nat) : Nat :=
  ((menuAfterListUpdate lib ids env timeElapsed m).optionMenuEntry optionId).selectedValue

/-- The case labels of the `switch (selectedData)` of `update`; C++ requires them to be
pairwise different. -/
def switchLabels (ids : Enumerators) : List Nat :=
  [ids.RELEASE_CHANNEL, ids.WINDOW_MODE, ids.RENDERER, ids.SOUNDTRACK, ids.CONTROLLER_PLAYER_1,
   ids.CONTROLLER_PLAYER_2, ids.CONTROLLER_AUTOASSIGN, ids.GAME_RECORDING_MODE]

/-- The calls recorded in `m'` are those recorded in `m` followed by calls none of which is a
call of `applyValue`. -/
def AddsNoApply (m m' : OptionsMenu) : Prop :=
  ∃ extra : List Call, m'.mCalls = m.mCalls ++ extra ∧ ∀ c ∈ extra, c.isApplyValue = false

/-- The concrete menu with the focus inside tab 1, on the entry at the given line. -/
def exampleMenuAt (line : Nat) : OptionsMenu :=
  { exampleMenu with
    mActiveMenu := ActiveMenu.tabContent 1
    mTabs := modifyAt (fun t => { t with mSelectedEntryIndex := line }) 1 exampleMenu.mTabs }

/-- The outside world of `exampleEnv` with Right just pressed. -/
def rightPressedEnv : Env :=
  { exampleEnv with keys := { noKeys with Right := Control.pressed } }

/-- The menu with the animated tab value replaced by `a`, everything else unchanged. -/
def withAnimated (a : ℚ) (m : OptionsMenu) : OptionsMenu :=
  { m with mActiveTabAnimated := a }

/-- The outside world of `exampleEnv` with Left just pressed. -/
def leftPressedEnv : Env :=
  { exampleEnv with keys := { noKeys with Left := Control.pressed } }

/-- The outside world of `exampleEnv` with Down just pressed. -/
def downPressedEnv : Env :=
  { exampleEnv with keys := { noKeys with Down := Control.pressed } }

/-- The outside world of `downPressedEnv` while the controller setup menu is visible. -/
def setupVisibleEnv : Env :=
  { downPressedEnv with controllerSetupMenuVisible := true }

/-- The concrete menu with the focus on the tab-title row, after the entry at the given line
of tab 1 was selected earlier. -/
def exampleMenuTitleFocus (line : Nat) : OptionsMenu :=
  { exampleMenuAt line with mActiveMenu := ActiveMenu.tabMenu }

/-- The outside world of `exampleEnv` with Up just pressed. -/
def upPressedEnv : Env :=
  { exampleEnv with keys := { noKeys with Up := Control.pressed } }

end OptionsMenu

/-! ## `SharedDatabase` -/

/-- Values of the enumerators of `SharedDatabase::Setting::Type` that `setupSettings` names.
The enumeration is declared in a header, so the values are a parameter of the model. -/
structure SettingIds where
  SETTING_FIX_GLITCHES : Nat
  SETTING_NO_CONTROL_LOCK : Nat
  SETTING_TAILS_ASSIST_MODE : Nat
  SETTING_CANCEL_FLIGHT : Nat
  SETTING_SUPER_CANCEL : Nat
  SETTING_INSTA_SHIELD : Nat
  SETTING_HYPER_TAILS : Nat
  SETTING_SHIELD_TYPES : Nat
  SETTING_AIZ_BLIMPSEQUENCE : Nat
  SETTING_LBZ_BIGARMS : Nat
  SETTING_LRZ2_BOSS : Nat
  SETTING_EXTENDED_HUD : Nat
  SETTING_SMOOTH_ROTATION : Nat
  SETTING_SPEEDUP_AFTERIMGS : Nat
  SETTING_BS_VISUAL_STYLE : Nat
  SETTING_INFINITE_LIVES : Nat
  SETTING_INFINITE_TIME : Nat
  SETTING_RANDOM_MONITORS : Nat
  SETTING_RANDOM_SPECIALSTAGES : Nat
  SETTING_BUBBLE_SHIELD_BOUNCE : Nat
  SETTING_CAMERA_OUTRUN : Nat
  SETTING_EXTENDED_CAMERA : Nat
  SETTING_MAINTAIN_SHIELDS : Nat
  SETTING_BS_REPEAT_ON_FAIL : Nat
  SETTING_DISABLE_GHOST_SPAWN : Nat
  SETTING_SUPERFAST_RUNANIM : Nat
  SETTING_MONITOR_STYLE : Nat
  SETTING_HYPER_DASH_CONTROLS : Nat
  SETTING_SUPER_SONIC_ABILITY : Nat
  SETTING_MONITOR_BEHAVIOR : Nat
  SETTING_LIVES_DISPLAY : Nat
  SETTING_BS_COUNTDOWN_RINGS : Nat
  SETTING_CONTINUE_MUSIC : Nat
  SETTING_UNDERWATER_AUDIO_ : Nat
  SETTING_ICZ_NIGHTTIME : Nat
  SETTING_CNZ_PROTOTYPE_MUSIC : Nat
  SETTING_ICZ_PROTOTYPE_MUSIC : Nat
  SETTING_LBZ_PROTOTYPE_MUSIC : Nat
  SETTING_FBZ2_MIDBOSS_TRACK : Nat
  SETTING_SSZ_BOSS_TRACKS : Nat
  SETTING_GFX_ANTIFLICKER : Nat
  SETTING_LEVELLAYOUTS : Nat
  SETTING_REGION_CODE : Nat
  SETTING_TIME_ATTACK_GHOSTS : Nat
  SETTING_AUDIO_TITLE_THEME : Nat
  SETTING_AUDIO_EXTRALIFE_JINGLE : Nat
  SETTING_AUDIO_INVINCIBILITY_THEME : Nat
  SETTING_AUDIO_SUPER_THEME : Nat
  SETTING_AUDIO_MINIBOSS_THEME : Nat
  SETTING_AUDIO_KNUCKLES_THEME : Nat
  SETTING_AUDIO_HPZ_MUSIC : Nat
  SETTING_AUDIO_OUTRO : Nat
  SETTING_AUDIO_COMPETITION_MENU : Nat
  SETTING_AUDIO_CONTINUE_SCREEN : Nat
  SETTING_DROPDASH : Nat
  SETTING_SUPER_PEELOUT : Nat
  SETTING_DEBUG_MODE : Nat
  SETTING_TITLE_SCREEN : Nat
  SETTING_KNUCKLES_AND_TAILS : Nat

/-- Values of the enumerators of `SharedDatabase::Achievement::Type`. -/
structure AchievementIds where
  ACHIEVEMENT_300_RINGS : Nat
  ACHIEVEMENT_DOUBLE_INVINCIBILITY : Nat
  ACHIEVEMENT_CONTINUES : Nat
  ACHIEVEMENT_GOING_HYPER : Nat
  ACHIEVEMENT_SCORE : Nat
  ACHIEVEMENT_ELECTROCUTE : Nat
  ACHIEVEMENT_LONGPLAY : Nat
  ACHIEVEMENT_BS_PERFECT : Nat
  ACHIEVEMENT_GS_EXIT_TOP : Nat
  ACHIEVEMENT_SM_JACKPOT : Nat
  ACHIEVEMENT_AIZ_TIMEATTACK : Nat
  ACHIEVEMENT_MGZ_GIANTRINGS : Nat
  ACHIEVEMENT_ICZ_SNOWBOARDING : Nat
  ACHIEVEMENT_ICZ_KNUX_SUNRISE : Nat
  ACHIEVEMENT_LBZ_STAY_DRY : Nat
  ACHIEVEMENT_MHZ_OPEN_MONITORS : Nat
  ACHIEVEMENT_FBZ_FREE_ANIMALS : Nat
  ACHIEVEMENT_SSZ_DECOYS : Nat

/-- Values of the enumerators of `SharedDatabase::Secret::Type`. -/
structure SecretIds where
  SECRET_COMPETITION_MODE : Nat
  SECRET_DROPDASH : Nat
  SECRET_KNUX_AND_TAILS : Nat
  SECRET_SUPER_PEELOUT : Nat
  SECRET_DEBUGMODE : Nat
  SECRET_BLUE_SPHERE : Nat
  SECRET_LEVELSELECT : Nat
  SECRET_TITLE_SK : Nat
  SECRET_GAME_SPEED : Nat
  SECRET_DOOMSDAY_ZONE : Nat

/-- `SharedDatabase::Setting::SerializationType`. -/
inductive SerializationType
  | NONE
  | ALWAYS
  | HIDDEN
  deriving DecidableEq, Repr

/-- `SharedDatabase::Setting`. -/
structure Setting where
  mSettingId : Nat
  mIdentifier : String
  mCurrentValue : Nat
  mDefaultValue : Nat
  mSerializationType : SerializationType
  mPurelyVisual : Bool
  mAllowInTimeAttack : Bool
  deriving DecidableEq, Repr

/-- `SharedDatabase::Zone`, with the arguments of its constructor in their order: two internal
names, the display name, the internal index and the numbers of acts in the normal game and in
Time Attack. -/
structure Zone where
  mInitials : String
  mShortName : String
  mDisplayName : String
  mInternalIndex : Nat
  mActsNormal : Nat
  mActsTimeAttack : Nat
  deriving DecidableEq, Repr

/-- `SharedDatabase::Achievement` as `initialize` fills it; the description and hint texts
are left out. -/
structure Achievement where
  mType : Nat
  mName : String
  mImage : String
  mValue : Nat
  deriving DecidableEq, Repr

/-- `SharedDatabase::Secret` as `initialize` fills it; the description text is left out. -/
structure Secret where
  mType : Nat
  mName : String
  mImage : String
  mRequiredAchievements : Nat
  mUnlockedByAchievements : Bool
  mHiddenUntilUnlocked : Bool
  mShownInMenu : Bool
  mSerialized : Bool
  deriving DecidableEq, Repr

/-- The static members of `SharedDatabase`.  `mSettings` (an `unordered_map`) and
`mAchievementMap` (a `map` to pointers into `mAchievements`) are association lists from keys
to values, the latter to positions in `mAchievements`. -/
structure SharedDatabase where
  mIsInitialized : Bool
  mAllZones : List Zone
  mAvailableZones : List Zone
  mSettings : List (Nat × Setting)
  mAchievements : List Achievement
  mAchievementMap : List (Nat × Nat)
  mSecrets : List Secret
  deriving DecidableEq, Repr

/-- `map[key] = value` on an association list: the value of an existing key is replaced, a new
key is added at the end. -/
def mapAssign {β : Type} (key : Nat) (value : β) : List (Nat × β) → List (Nat × β)
  | [] => [(key, value)]
  | (k, v) :: rest =>
    if k = key then (k, value) :: rest else (k, v) :: mapAssign key value rest

/-- `map.find(key)` on an association list. -/
def mapFind {β : Type} (key : Nat) : List (Nat × β) → Option β
  | [] => none
  | (k, v) :: rest => if k = key then some v else mapFind key rest

namespace SharedDatabase

/-- The static members before `initialize` ran: `mIsInitialized` is false and the containers
are empty. -/
def initial : SharedDatabase :=
  { mIsInitialized := false, mAllZones := [], mAvailableZones := [], mSettings := [],
    mAchievements := [], mAchievementMap := [], mSecrets := [] }

/-- `SharedDatabase::getSetting`; `settingId` is a `uint32`. -/
def getSetting (db : SharedDatabase) (settingId : Nat) : Option Setting :=
  mapFind settingId db.mSettings

/-- `SharedDatabase::getSettingValue`; `settingId` is a `uint32`. -/
def getSettingValue (db : SharedDatabase) (settingId : Nat) : Nat :=
  match getSetting db settingId with
  | some setting => setting.mCurrentValue
  -- use default value
  | none => settingId &&& 0xff

/-- The record `addSetting` stores under the key `(uint32)id`; `identifier` is the stringized
enumerator, whose first 9 characters `Setting::` are cut off. -/
def newSetting (id : Nat) (identifier : String) (serializationType : SerializationType)
    (enforceAllowInTimeAttack : Bool) : Setting :=
  let purelyVisual : Bool := ((id % 2 ^ 32) &&& 0x80000000) != 0
  { mSettingId := id
    mIdentifier := identifier.drop 9
    mCurrentValue := (id % 2 ^ 32) &&& 0xff
    mDefaultValue := (id % 2 ^ 32) &&& 0xff
    mSerializationType := serializationType
    mPurelyVisual := purelyVisual
    mAllowInTimeAttack := enforceAllowInTimeAttack || purelyVisual }

/-- `SharedDatabase::addSetting`. -/
def addSetting (db : SharedDatabase) (id : Nat) (identifier : String)
    (serializationType : SerializationType) (enforceAllowInTimeAttack : Bool) :
    SharedDatabase :=
  let setting := newSetting id identifier serializationType enforceAllowInTimeAttack
  { db with mSettings := mapAssign (id % 2 ^ 32) setting db.mSettings }

/-- Arguments of one `addSetting` call of `setupSettings`. -/
structure SettingSetup where
  id : Nat
  identifier : String
  serializationType : SerializationType
  enforceAllowInTimeAttack : Bool
  deriving DecidableEq, Repr

/-- The `addSetting` calls of `setupSettings`, in program order; the identifier is what the
macro `IDPARAMS` stringizes. -/
def settingSetups (ids : SettingIds) : List SettingSetup :=
  [
    ⟨ ids.SETTING_FIX_GLITCHES, "Setting::SETTING_FIX_GLITCHES", SerializationType.ALWAYS, false⟩,
    ⟨ ids.SETTING_NO_CONTROL_LOCK, "Setting::SETTING_NO_CONTROL_LOCK", SerializationType.ALWAYS, false⟩,
    ⟨ ids.SETTING_TAILS_ASSIST_MODE, "Setting::SETTING_TAILS_ASSIST_MODE", SerializationType.ALWAYS, false⟩,
    ⟨ ids.SETTING_CANCEL_FLIGHT, "Setting::SETTING_CANCEL_FLIGHT", SerializationType.ALWAYS, false⟩,
    ⟨ ids.SETTING_SUPER_CANCEL, "Setting::SETTING_SUPER_CANCEL", SerializationType.ALWAYS, false⟩,
    ⟨ ids.SETTING_INSTA_SHIELD, "Setting::SETTING_INSTA_SHIELD", SerializationType.ALWAYS, false⟩,
    ⟨ ids.SETTING_HYPER_TAILS, "Setting::SETTING_HYPER_TAILS", SerializationType.ALWAYS, false⟩,
    ⟨ ids.SETTING_SHIELD_TYPES, "Setting::SETTING_SHIELD_TYPES", SerializationType.ALWAYS, false⟩,
    ⟨ ids.SETTING_AIZ_BLIMPSEQUENCE, "Setting::SETTING_AIZ_BLIMPSEQUENCE", SerializationType.ALWAYS, false⟩,
    ⟨ ids.SETTING_LBZ_BIGARMS, "Setting::SETTING_LBZ_BIGARMS", SerializationType.ALWAYS, false⟩,
    ⟨ ids.SETTING_LRZ2_BOSS, "Setting::SETTING_LRZ2_BOSS", SerializationType.ALWAYS, false⟩,
    ⟨ ids.SETTING_EXTENDED_HUD, "Setting::SETTING_EXTENDED_HUD", SerializationType.ALWAYS, false⟩,
    ⟨ ids.SETTING_SMOOTH_ROTATION, "Setting::SETTING_SMOOTH_ROTATION", SerializationType.ALWAYS, false⟩,
    ⟨ ids.SETTING_SPEEDUP_AFTERIMGS, "Setting::SETTING_SPEEDUP_AFTERIMGS", SerializationType.ALWAYS, false⟩,
    ⟨ ids.SETTING_BS_VISUAL_STYLE, "Setting::SETTING_BS_VISUAL_STYLE", SerializationType.ALWAYS, false⟩,
    ⟨ ids.SETTING_INFINITE_LIVES, "Setting::SETTING_INFINITE_LIVES", SerializationType.ALWAYS, false⟩,
    ⟨ ids.SETTING_INFINITE_TIME, "Setting::SETTING_INFINITE_TIME", SerializationType.ALWAYS, false⟩,
    ⟨ ids.SETTING_RANDOM_MONITORS, "Setting::SETTING_RANDOM_MONITORS", SerializationType.ALWAYS, false⟩,
    ⟨ ids.SETTING_RANDOM_SPECIALSTAGES, "Setting::SETTING_RANDOM_SPECIALSTAGES", SerializationType.ALWAYS, false⟩,
    ⟨ ids.SETTING_BUBBLE_SHIELD_BOUNCE, "Setting::SETTING_BUBBLE_SHIELD_BOUNCE", SerializationType.ALWAYS, false⟩,
    ⟨ ids.SETTING_CAMERA_OUTRUN, "Setting::SETTING_CAMERA_OUTRUN", SerializationType.ALWAYS, true⟩,
    ⟨ ids.SETTING_EXTENDED_CAMERA, "Setting::SETTING_EXTENDED_CAMERA", SerializationType.ALWAYS, true⟩,
    ⟨ ids.SETTING_MAINTAIN_SHIELDS, "Setting::SETTING_MAINTAIN_SHIELDS", SerializationType.ALWAYS, false⟩,
    ⟨ ids.SETTING_BS_REPEAT_ON_FAIL, "Setting::SETTING_BS_REPEAT_ON_FAIL", SerializationType.ALWAYS, false⟩,
    ⟨ ids.SETTING_DISABLE_GHOST_SPAWN, "Setting::SETTING_DISABLE_GHOST_SPAWN", SerializationType.ALWAYS, false⟩,
    ⟨ ids.SETTING_SUPERFAST_RUNANIM, "Setting::SETTING_SUPERFAST_RUNANIM", SerializationType.ALWAYS, false⟩,
    ⟨ ids.SETTING_MONITOR_STYLE, "Setting::SETTING_MONITOR_STYLE", SerializationType.ALWAYS, false⟩,
    ⟨ ids.SETTING_HYPER_DASH_CONTROLS, "Setting::SETTING_HYPER_DASH_CONTROLS", SerializationType.ALWAYS, false⟩,
    ⟨ ids.SETTING_SUPER_SONIC_ABILITY, "Setting::SETTING_SUPER_SONIC_ABILITY", SerializationType.ALWAYS, false⟩,
    ⟨ ids.SETTING_MONITOR_BEHAVIOR, "Setting::SETTING_MONITOR_BEHAVIOR", SerializationType.ALWAYS, false⟩,
    ⟨ ids.SETTING_LIVES_DISPLAY, "Setting::SETTING_LIVES_DISPLAY", SerializationType.ALWAYS, false⟩,
    ⟨ ids.SETTING_BS_COUNTDOWN_RINGS, "Setting::SETTING_BS_COUNTDOWN_RINGS", SerializationType.ALWAYS, false⟩,
    ⟨ ids.SETTING_CONTINUE_MUSIC, "Setting::SETTING_CONTINUE_MUSIC", SerializationType.ALWAYS, false⟩,
    ⟨ ids.SETTING_UNDERWATER_AUDIO_, "Setting::SETTING_UNDERWATER_AUDIO", SerializationType.ALWAYS, false⟩,
    ⟨ ids.SETTING_ICZ_NIGHTTIME, "Setting::SETTING_ICZ_NIGHTTIME", SerializationType.ALWAYS, false⟩,
    ⟨ ids.SETTING_CNZ_PROTOTYPE_MUSIC, "Setting::SETTING_CNZ_PROTOTYPE_MUSIC", SerializationType.ALWAYS, false⟩,
    ⟨ ids.SETTING_ICZ_PROTOTYPE_MUSIC, "Setting::SETTING_ICZ_PROTOTYPE_MUSIC", SerializationType.ALWAYS, false⟩,
    ⟨ ids.SETTING_LBZ_PROTOTYPE_MUSIC, "Setting::SETTING_LBZ_PROTOTYPE_MUSIC", SerializationType.ALWAYS, false⟩,
    ⟨ ids.SETTING_FBZ2_MIDBOSS_TRACK, "Setting::SETTING_FBZ2_MIDBOSS_TRACK", SerializationType.ALWAYS, false⟩,
    ⟨ ids.SETTING_SSZ_BOSS_TRACKS, "Setting::SETTING_SSZ_BOSS_TRACKS", SerializationType.ALWAYS, false⟩,
    ⟨ ids.SETTING_GFX_ANTIFLICKER, "Setting::SETTING_GFX_ANTIFLICKER", SerializationType.ALWAYS, true⟩,
    ⟨ ids.SETTING_LEVELLAYOUTS, "Setting::SETTING_LEVELLAYOUTS", SerializationType.ALWAYS, false⟩,
    ⟨ ids.SETTING_REGION_CODE, "Setting::SETTING_REGION_CODE", SerializationType.ALWAYS, false⟩,
    ⟨ ids.SETTING_TIME_ATTACK_GHOSTS, "Setting::SETTING_TIME_ATTACK_GHOSTS", SerializationType.ALWAYS, false⟩,
    ⟨ ids.SETTING_AUDIO_TITLE_THEME, "Setting::SETTING_AUDIO_TITLE_THEME", SerializationType.ALWAYS, false⟩,
    ⟨ ids.SETTING_AUDIO_EXTRALIFE_JINGLE, "Setting::SETTING_AUDIO_EXTRALIFE_JINGLE", SerializationType.ALWAYS, false⟩,
    ⟨ ids.SETTING_AUDIO_INVINCIBILITY_THEME, "Setting::SETTING_AUDIO_INVINCIBILITY_THEME", SerializationType.ALWAYS, false⟩,
    ⟨ ids.SETTING_AUDIO_SUPER_THEME, "Setting::SETTING_AUDIO_SUPER_THEME", SerializationType.ALWAYS, false⟩,
    ⟨ ids.SETTING_AUDIO_MINIBOSS_THEME, "Setting::SETTING_AUDIO_MINIBOSS_THEME", SerializationType.ALWAYS, false⟩,
    ⟨ ids.SETTING_AUDIO_KNUCKLES_THEME, "Setting::SETTING_AUDIO_KNUCKLES_THEME", SerializationType.ALWAYS, false⟩,
    ⟨ ids.SETTING_AUDIO_HPZ_MUSIC, "Setting::SETTING_AUDIO_HPZ_MUSIC", SerializationType.ALWAYS, false⟩,
    ⟨ ids.SETTING_AUDIO_OUTRO, "Setting::SETTING_AUDIO_OUTRO", SerializationType.ALWAYS, false⟩,
    ⟨ ids.SETTING_AUDIO_COMPETITION_MENU, "Setting::SETTING_AUDIO_COMPETITION_MENU", SerializationType.ALWAYS, false⟩,
    ⟨ ids.SETTING_AUDIO_CONTINUE_SCREEN, "Setting::SETTING_AUDIO_CONTINUE_SCREEN", SerializationType.ALWAYS, false⟩,
    ⟨ ids.SETTING_DROPDASH, "Setting::SETTING_DROPDASH", SerializationType.HIDDEN, false⟩,
    ⟨ ids.SETTING_SUPER_PEELOUT, "Setting::SETTING_SUPER_PEELOUT", SerializationType.HIDDEN, false⟩,
    ⟨ ids.SETTING_DEBUG_MODE, "Setting::SETTING_DEBUG_MODE", SerializationType.HIDDEN, false⟩,
    ⟨ ids.SETTING_TITLE_SCREEN, "Setting::SETTING_TITLE_SCREEN", SerializationType.HIDDEN, false⟩,
    ⟨ ids.SETTING_KNUCKLES_AND_TAILS, "Setting::SETTING_KNUCKLES_AND_TAILS", SerializationType.NONE, false⟩ ]

/-- `SharedDatabase::setupSettings`. -/
def setupSettings (ids : SettingIds) (db : SharedDatabase) : SharedDatabase :=
  (settingSetups ids).foldl
    (fun d s => addSetting d s.id s.identifier s.serializationType s.enforceAllowInTimeAttack) db

/-- The zones `initialize` appends to `mAllZones`. -/
def zoneList : List Zone :=
  [
    ⟨"aiz", "zone01_aiz", "Zona Angel Island", 0x00, 2, 2⟩,
    ⟨"hcz", "zone02_hcz", "Zona Hydrocity", 0x01, 2, 2⟩,
    ⟨"mgz", "zone03_mgz", "Zona Marble Garden", 0x02, 2, 2⟩,
    ⟨"cnz", "zone04_cnz", "Zona Carnival Night", 0x03, 2, 2⟩,
    ⟨"icz", "zone05_icz", "Zona IceCap", 0x05, 2, 2⟩,
    ⟨"lbz", "zone06_lbz", "Zona Launch Base", 0x06, 2, 2⟩,
    ⟨"mhz", "zone07_mhz", "Zona Mushroom Hill", 0x07, 2, 2⟩,
    ⟨"fbz", "zone08_fbz", "Zona Flying Battery", 0x04, 2, 2⟩,
    ⟨"soz", "zone09_soz", "Zona Sandopolis", 0x08, 2, 2⟩,
    ⟨"lrz", "zone10_lrz", "Zona Lava Reef", 0x09, 2, 2⟩,
    ⟨"hpz", "zone11_hpz", "Zona Hidden Palace", 0x16, 1, 0⟩,
    ⟨"ssz", "zone12_ssz", "Zona Sky Sanctuary", 0x0a, 1, 1⟩,
    ⟨"dez", "zone13_dez", "Zona Death Egg", 0x0b, 2, 2⟩,
    ⟨"ddz", "zone14_ddz", "Zona Doomsday", 0x0c, 1, 0⟩ ]

/-- Lambda `addAchievement` of `initialize`. -/
def addAchievement (db : SharedDatabase) (type : Nat) (name image : String) : SharedDatabase :=
  { db with mAchievements := db.mAchievements ++
      [{ mType := type, mName := name, mImage := image, mValue := 0 }] }

/-- The `addAchievement` calls of `initialize`, in program order: type, name and image. -/
def achievementSetups (ids : AchievementIds) : List (Nat × String × String) :=
  [
    ( ids.ACHIEVEMENT_300_RINGS, "Atraido por coisas brilhantes", "rings"),
    ( ids.ACHIEVEMENT_DOUBLE_INVINCIBILITY, "Dose dupla de estrelas", "invincibility"),
    ( ids.ACHIEVEMENT_CONTINUES, "Seguro de vida antiquado", "continues"),
    ( ids.ACHIEVEMENT_GOING_HYPER, "Ficando Hiper", "hyperform"),
    ( ids.ACHIEVEMENT_SCORE, "Pontuacao milionaria", "score"),
    ( ids.ACHIEVEMENT_ELECTROCUTE, "Pesca eletrica", "electrocution"),
    ( ids.ACHIEVEMENT_LONGPLAY, "Jogatina", "gamebeaten"),
    ( ids.ACHIEVEMENT_BS_PERFECT, "Limpeza do local", "perfect"),
    ( ids.ACHIEVEMENT_GS_EXIT_TOP, "Tem uma saida la em cima?", "glowingspheres"),
    ( ids.ACHIEVEMENT_SM_JACKPOT, "Premio acumulado", "jackpot"),
    ( ids.ACHIEVEMENT_AIZ_TIMEATTACK, "Cortando caminho pela selva", "timeattack_aiz1"),
    ( ids.ACHIEVEMENT_MGZ_GIANTRINGS, "Atraido por coisas gigantes e brilhantes", "giantrings_mgz1"),
    ( ids.ACHIEVEMENT_ICZ_SNOWBOARDING, "Snowboarder ganancioso", "snowboarding"),
    ( ids.ACHIEVEMENT_ICZ_KNUX_SUNRISE, "Ver o nascer do sol uma vez", "icecap1boss"),
    ( ids.ACHIEVEMENT_LBZ_STAY_DRY, "Pelagem fofa nao pode ficar molhada", "staydry"),
    ( ids.ACHIEVEMENT_MHZ_OPEN_MONITORS, "Quebra de monitores", "monitors"),
    ( ids.ACHIEVEMENT_FBZ_FREE_ANIMALS, "Esquilos em um aviao", "animals"),
    ( ids.ACHIEVEMENT_SSZ_DECOYS, "Nao toque", "decoys") ]

/-- Loop `mAchievementMap[achievement.mType] = &achievement` over `mAchievements`. -/
def buildAchievementMap (db : SharedDatabase) : SharedDatabase :=
  let map := (List.range db.mAchievements.length).foldl
    (fun map k => mapAssign ((db.mAchievements.getD k ⟨0, "", "", 0⟩).mType % 2 ^ 32) k map)
    db.mAchievementMap
  { db with mAchievementMap := map }

/-- Lambda `addSecret` of `initialize`. -/
def addSecret (db : SharedDatabase) (type : Nat) (hiddenUntilUnlocked shownInMenu serialized : Bool)
    (requiredAchievements : Nat) (name image : String) : SharedDatabase :=
  { db with mSecrets := db.mSecrets ++
      [{ mType := type, mName := name, mImage := image,
         mRequiredAchievements := requiredAchievements,
         mUnlockedByAchievements := decide (requiredAchievements > 0),
         mHiddenUntilUnlocked := hiddenUntilUnlocked, mShownInMenu := shownInMenu,
         mSerialized := serialized }] }

/-- Arguments of one `addSecret` call of `initialize`. -/
structure SecretSetup where
  type : Nat
  hiddenUntilUnlocked : Bool
  shownInMenu : Bool
  serialized : Bool
  requiredAchievements : Nat
  name : String
  image : String
  deriving DecidableEq, Repr

/-- The `addSecret` calls of `initialize`, in program order. -/
def secretSetups (ids : SecretIds) : List SecretSetup :=
  [
    ⟨ ids.SECRET_COMPETITION_MODE, false, true, false, 0, "Modo competicao", "competitionmode"⟩,
    ⟨ ids.SECRET_DROPDASH, false, true, true, 3, "Sonic Drop Dash", "dropdash"⟩,
    ⟨ ids.SECRET_KNUX_AND_TAILS, false, true, true, 5, "Modo Knuckles & Tails", "knuckles_tails"⟩,
    ⟨ ids.SECRET_SUPER_PEELOUT, false, true, true, 7, "Sonic Super Arrancada", "superpeelout"⟩,
    ⟨ ids.SECRET_DEBUGMODE, false, true, true, 10, "Mode depuracao", "debugmode"⟩,
    ⟨ ids.SECRET_BLUE_SPHERE, false, true, true, 12, "Esfera azul", "bluesphere"⟩,
    ⟨ ids.SECRET_LEVELSELECT, true, true, true, 0, "Selecao de Nivel", "levelselect"⟩,
    ⟨ ids.SECRET_TITLE_SK, true, true, true, 0, "Titulo Sonic & Knuckles", "title_sk"⟩,
    ⟨ ids.SECRET_GAME_SPEED, true, true, true, 0, "Velocidade do jogo", "gamespeed"⟩,
    ⟨ ids.SECRET_DOOMSDAY_ZONE, true, false, true, 0, "Zana Doomsday", ""⟩ ]

/-- The work of `SharedDatabase::initialize` when the tables are not yet set up. -/
def populate (sids : SettingIds) (aids : AchievementIds) (cids : SecretIds)
    (db : SharedDatabase) : SharedDatabase :=
  -- setup list of zones
  let db1 : SharedDatabase := { db with mAllZones := db.mAllZones ++ zoneList }
  -- setup gameplay settings
  let db2 := setupSettings sids db1
  -- setup achievements
  let db3 := (achievementSetups aids).foldl (fun d a => addAchievement d a.1 a.2.1 a.2.2) db2
  let db4 := buildAchievementMap db3
  -- setup secrets
  let db5 := (secretSetups cids).foldl
    (fun d s => addSecret d s.type s.hiddenUntilUnlocked s.shownInMenu s.serialized
      s.requiredAchievements s.name s.image) db4
  { db5 with mIsInitialized := true }

/-- `SharedDatabase::initialize`. -/
def initializeTables (sids : SettingIds) (aids : AchievementIds) (cids : SecretIds)
    (db : SharedDatabase) : SharedDatabase :=
  if db.mIsInitialized then db else populate sids aids cids db

end SharedDatabase


namespace SharedDatabase

/-- Every record of the settings table holds the low byte of its key as current value. -/
def LowByteValues (db : SharedDatabase) : Prop :=
  ∀ (k : Nat) (s : Setting), getSetting db k = some s → s.mCurrentValue = k &&& 0xff

end SharedDatabase

/-! ## The constructor of `OptionsMenu` -/

/-- Values of the `option::*` enumerators that only the constructor names, and of the two
other render methods.  A trailing underscore stands in a name that is otherwise as in the
source. -/
structure OptionIds where
  GHOST_SYNC : Nat
  SCRIPT_OPTIMIZATION : Nat
  UPSCALING : Nat
  BACKDROP : Nat
  PERFORMANCE_DISPLAY : Nat
  MUSIC_VOLUME : Nat
  SOUND_VOLUME : Nat
  VGAMEPAD_OPACITY : Nat
  ROTATION : Nat
  SPEEDUP_AFTER_IMAGES : Nat
  FAST_RUN_ANIM : Nat
  TIME_DISPLAY : Nat
  LIVES_DISPLAY : Nat
  SPECIAL_STAGE_VISUALS : Nat
  TAILS_ASSIST : Nat
  TAILS_FLIGHT_CANCEL : Nat
  NO_CONTROL_LOCK : Nat
  HYPER_TAILS : Nat
  HYPER_DASH_CONTROLS : Nat
  SUPER_SONIC_ABILITY : Nat
  MAINTAIN_SHIELDS : Nat
  BUBBLE_SHIELD_BOUNCE : Nat
  SUPER_CANCEL : Nat
  INSTA_SHIELD : Nat
  CAMERA_OUTRUN : Nat
  EXTENDED_CAMERA : Nat
  INFINITE_LIVES : Nat
  INFINITE_TIME : Nat
  SPECIAL_STAGE_RING_COUNT : Nat
  EXTRA_LIFE_JINGLE : Nat
  INVINCIBILITY_THEME : Nat
  SUPER_THEME : Nat
  MINIBOSS_THEME : Nat
  KNUCKLES_THEME : Nat
  HPZ_MUSIC : Nat
  FBZ2_MIDBOSS_TRACK : Nat
  SSZ_BOSSTRACKS : Nat
  CONTINUE_SCREEN_MUSIC : Nat
  CONTINUE_MUSIC : Nat
  UNDERWATER_AUDIO_ : Nat
  FIX_GLITCHES : Nat
  LEVELMUSIC_CNZ1 : Nat
  LEVELMUSIC_CNZ2 : Nat
  LEVELMUSIC_ICZ1 : Nat
  LEVELMUSIC_ICZ2 : Nat
  LEVELMUSIC_LBZ1 : Nat
  LEVELMUSIC_LBZ2 : Nat
  RenderMethod_OPENGL_SOFT : Nat
  RenderMethod_OPENGL_FULL : Nat

/-- Values of the other `Tab::Id` enumerators.  A trailing underscore stands in a name that
is otherwise as in the source. -/
structure TabIds where
  Tab_DISPLAY : Nat
  Tab_AUDIO_ : Nat
  Tab_VISUALS : Nat
  Tab_GAMEPLAY : Nat
  Tab_CONTROLS : Nat
  Tab_TWEAKS : Nat
  Tab_NUM : Nat

/-- What the constructor reads from outside the menu: whether the application has a virtual
gamepad, and the choice values that the helpers `addPercentageOptions(min, max, step)` and
`addNumberOptions(min, max, step)` of the menu entry class add. -/
structure ConstructorEnv where
  hasVirtualGamepad : Bool
  percentageOptions : Nat → Nat → Nat → List Nat
  numberOptions : Nat → Nat → Nat → List Nat

namespace OptionsMenu

/-- `OptionsMenu::setupOptionEntry`. -/
def setupOptionEntry (optionId setting : Nat) (optionEntries : List OptionEntry) :
    List OptionEntry :=
  modifyAt (fun optionEntry =>
    { optionEntry with mOptionId := optionId, mType := OptionEntryType.SETTING,
                       mSetting := setting }) optionId optionEntries

/-- `OptionsMenu::setupOptionEntryBitmask`. -/
def setupOptionEntryBitmask (optionId setting : Nat) (optionEntries : List OptionEntry) :
    List OptionEntry :=
  modifyAt (fun optionEntry =>
    { optionEntry with mOptionId := optionId, mType := OptionEntryType.SETTING_BITMASK,
                       mSetting := setting }) optionId optionEntries

/-- `OptionsMenu::setupOptionEntryInt`. -/
def setupOptionEntryInt (optionId : Nat) (valuePointer : ConfigField)
    (optionEntries : List OptionEntry) : List OptionEntry :=
  modifyAt (fun optionEntry =>
    { optionEntry with mOptionId := optionId, mType := OptionEntryType.CONFIG_INT,
                       mValuePointer := some valuePointer }) optionId optionEntries

/-- `OptionsMenu::setupOptionEntryBool`. -/
def setupOptionEntryBool (optionId : Nat) (valuePointer : ConfigField)
    (optionEntries : List OptionEntry) : List OptionEntry :=
  modifyAt (fun optionEntry =>
    { optionEntry with mOptionId := optionId, mType := OptionEntryType.CONFIG_BOOL,
                       mValuePointer := some valuePointer }) optionId optionEntries

/-- `OptionsMenu::setupOptionEntryEnum8`. -/
def setupOptionEntryEnum8 (optionId : Nat) (valuePointer : ConfigField)
    (optionEntries : List OptionEntry) : List OptionEntry :=
  modifyAt (fun optionEntry =>
    { optionEntry with mOptionId := optionId, mType := OptionEntryType.CONFIG_ENUM_8,
                       mValuePointer := some valuePointer }) optionId optionEntries

/-- `OptionsMenu::setupOptionEntryPercent`. -/
def setupOptionEntryPercent (optionId : Nat) (valuePointer : ConfigField)
    (optionEntries : List OptionEntry) : List OptionEntry :=
  modifyAt (fun optionEntry =>
    { optionEntry with mOptionId := optionId, mType := OptionEntryType.CONFIG_PERCENT,
                       mValuePointer := some valuePointer }) optionId optionEntries

/-- The `setupOptionEntry...` calls of the constructor, in program order. -/
def optionEntrySetups (ids : Enumerators) (oids : OptionIds) (sids : SettingIds) :
    List (List OptionEntry → List OptionEntry) :=
  [ setupOptionEntryInt ids.RELEASE_CHANNEL ConfigField.mGameServer_mUpdateCheck_mReleaseChannel,
    setupOptionEntryEnum8 ids.FRAME_SYNC ConfigField.mFrameSync,
    setupOptionEntryBool oids.GHOST_SYNC ConfigField.mGameServer_mGhostSync_mEnabled,
    setupOptionEntryInt oids.SCRIPT_OPTIMIZATION ConfigField.mScriptOptimizationLevel,
    setupOptionEntryInt ids.GAME_RECORDING_MODE ConfigField.mGameRecorder_mRecordingMode,
    setupOptionEntryInt oids.UPSCALING ConfigField.mUpscaling,
    setupOptionEntryInt oids.BACKDROP ConfigField.mBackdrop,
    setupOptionEntryInt ids.FILTERING ConfigField.mFiltering,
    setupOptionEntryInt ids.SCANLINES ConfigField.mScanlines,
    setupOptionEntryInt ids.BG_BLUR ConfigField.mBackgroundBlur,
    setupOptionEntryInt oids.PERFORMANCE_DISPLAY ConfigField.mPerformanceDisplay,
    setupOptionEntryInt ids.SOUNDTRACK ConfigField.mActiveSoundtrack,
    setupOptionEntryInt ids.CONTROLLER_AUTOASSIGN ConfigField.mAutoAssignGamepadPlayerIndex,
    setupOptionEntryInt ids.VGAMEPAD_DPAD_SIZE ConfigField.mVirtualGamepad_mDirectionalPadSize,
    setupOptionEntryInt ids.VGAMEPAD_BUTTONS_SIZE ConfigField.mVirtualGamepad_mFaceButtonsSize,
    setupOptionEntryInt ids.TIMEATTACK_INSTANTRESTART ConfigField.mInstantTimeAttackRestart,
    setupOptionEntryInt ids.GAME_SPEED ConfigField.mSimulationFrequency,
    setupOptionEntryPercent ids.AUDIO_VOLUME ConfigField.mAudioVolume,
    setupOptionEntryPercent oids.MUSIC_VOLUME ConfigField.mMusicVolume,
    setupOptionEntryPercent oids.SOUND_VOLUME ConfigField.mSoundVolume,
    setupOptionEntryPercent oids.VGAMEPAD_OPACITY ConfigField.mVirtualGamepad_mOpacity,
    setupOptionEntryPercent ids.CONTROLLER_RUMBLE_P1 ConfigField.mControllerRumbleIntensity_0,
    setupOptionEntryPercent ids.CONTROLLER_RUMBLE_P2 ConfigField.mControllerRumbleIntensity_1,
    setupOptionEntry oids.ROTATION sids.SETTING_SMOOTH_ROTATION,
    setupOptionEntry oids.SPEEDUP_AFTER_IMAGES sids.SETTING_SPEEDUP_AFTERIMGS,
    setupOptionEntry oids.FAST_RUN_ANIM sids.SETTING_SUPERFAST_RUNANIM,
    setupOptionEntry ids.MONITOR_STYLE sids.SETTING_MONITOR_STYLE,
    setupOptionEntry oids.TIME_DISPLAY sids.SETTING_EXTENDED_HUD,
    setupOptionEntry oids.LIVES_DISPLAY sids.SETTING_LIVES_DISPLAY,
    setupOptionEntry oids.SPECIAL_STAGE_VISUALS sids.SETTING_BS_VISUAL_STYLE,
    setupOptionEntry oids.TAILS_ASSIST sids.SETTING_TAILS_ASSIST_MODE,
    setupOptionEntry oids.TAILS_FLIGHT_CANCEL sids.SETTING_CANCEL_FLIGHT,
    setupOptionEntry oids.NO_CONTROL_LOCK sids.SETTING_NO_CONTROL_LOCK,
    setupOptionEntry oids.HYPER_TAILS sids.SETTING_HYPER_TAILS,
    setupOptionEntry oids.HYPER_DASH_CONTROLS sids.SETTING_HYPER_DASH_CONTROLS,
    setupOptionEntry oids.SUPER_SONIC_ABILITY sids.SETTING_SUPER_SONIC_ABILITY,
    setupOptionEntry ids.MONITOR_BEHAVIOR sids.SETTING_MONITOR_BEHAVIOR,
    setupOptionEntry oids.MAINTAIN_SHIELDS sids.SETTING_MAINTAIN_SHIELDS,
    setupOptionEntry ids.SHIELD_TYPES sids.SETTING_SHIELD_TYPES,
    setupOptionEntry oids.BUBBLE_SHIELD_BOUNCE sids.SETTING_BUBBLE_SHIELD_BOUNCE,
    setupOptionEntry oids.SUPER_CANCEL sids.SETTING_SUPER_CANCEL,
    setupOptionEntry oids.INSTA_SHIELD sids.SETTING_INSTA_SHIELD,
    setupOptionEntry ids.LEVEL_LAYOUTS sids.SETTING_LEVELLAYOUTS,
    setupOptionEntry oids.CAMERA_OUTRUN sids.SETTING_CAMERA_OUTRUN,
    setupOptionEntry oids.EXTENDED_CAMERA sids.SETTING_EXTENDED_CAMERA,
    setupOptionEntry ids.SPECIAL_STAGE_REPEAT sids.SETTING_BS_REPEAT_ON_FAIL,
    setupOptionEntry ids.RANDOM_MONITORS sids.SETTING_RANDOM_MONITORS,
    setupOptionEntry ids.RANDOM_SPECIALSTAGES sids.SETTING_RANDOM_SPECIALSTAGES,
    setupOptionEntry ids.AIZ_BLIMPSEQUENCE sids.SETTING_AIZ_BLIMPSEQUENCE,
    setupOptionEntry ids.LBZ_BIGARMS sids.SETTING_LBZ_BIGARMS,
    setupOptionEntry ids.SOZ_GHOSTSPAWN sids.SETTING_DISABLE_GHOST_SPAWN,
    setupOptionEntry ids.LRZ2_BOSS sids.SETTING_LRZ2_BOSS,
    setupOptionEntry oids.INFINITE_LIVES sids.SETTING_INFINITE_LIVES,
    setupOptionEntry oids.INFINITE_TIME sids.SETTING_INFINITE_TIME,
    setupOptionEntry oids.SPECIAL_STAGE_RING_COUNT sids.SETTING_BS_COUNTDOWN_RINGS,
    setupOptionEntry ids.ICZ_NIGHTTIME sids.SETTING_ICZ_NIGHTTIME,
    setupOptionEntry ids.ANTI_FLICKER sids.SETTING_GFX_ANTIFLICKER,
    setupOptionEntry ids.TITLE_THEME sids.SETTING_AUDIO_TITLE_THEME,
    setupOptionEntry oids.EXTRA_LIFE_JINGLE sids.SETTING_AUDIO_EXTRALIFE_JINGLE,
    setupOptionEntry oids.INVINCIBILITY_THEME sids.SETTING_AUDIO_INVINCIBILITY_THEME,
    setupOptionEntry oids.SUPER_THEME sids.SETTING_AUDIO_SUPER_THEME,
    setupOptionEntry oids.MINIBOSS_THEME sids.SETTING_AUDIO_MINIBOSS_THEME,
    setupOptionEntry oids.KNUCKLES_THEME sids.SETTING_AUDIO_KNUCKLES_THEME,
    setupOptionEntry oids.HPZ_MUSIC sids.SETTING_AUDIO_HPZ_MUSIC,
    setupOptionEntry oids.FBZ2_MIDBOSS_TRACK sids.SETTING_FBZ2_MIDBOSS_TRACK,
    setupOptionEntry oids.SSZ_BOSSTRACKS sids.SETTING_SSZ_BOSS_TRACKS,
    setupOptionEntry ids.OUTRO_MUSIC sids.SETTING_AUDIO_OUTRO,
    setupOptionEntry ids.COMPETITION_MENU_MUSIC sids.SETTING_AUDIO_COMPETITION_MENU,
    setupOptionEntry oids.CONTINUE_SCREEN_MUSIC sids.SETTING_AUDIO_CONTINUE_SCREEN,
    setupOptionEntry oids.CONTINUE_MUSIC sids.SETTING_CONTINUE_MUSIC,
    setupOptionEntry oids.UNDERWATER_AUDIO_ sids.SETTING_UNDERWATER_AUDIO_,
    setupOptionEntry ids.REGION sids.SETTING_REGION_CODE,
    setupOptionEntry ids.TIMEATTACK_GHOSTS sids.SETTING_TIME_ATTACK_GHOSTS,
    setupOptionEntry oids.FIX_GLITCHES sids.SETTING_FIX_GLITCHES,
    setupOptionEntry ids.DROP_DASH sids.SETTING_DROPDASH,
    setupOptionEntry ids.SUPER_PEELOUT sids.SETTING_SUPER_PEELOUT,
    setupOptionEntry ids.DEBUG_MODE sids.SETTING_DEBUG_MODE,
    setupOptionEntry ids.TITLE_SCREEN sids.SETTING_TITLE_SCREEN,
    setupOptionEntryBitmask oids.LEVELMUSIC_CNZ1 sids.SETTING_CNZ_PROTOTYPE_MUSIC,
    setupOptionEntryBitmask oids.LEVELMUSIC_CNZ2 sids.SETTING_CNZ_PROTOTYPE_MUSIC,
    setupOptionEntryBitmask oids.LEVELMUSIC_ICZ1 sids.SETTING_ICZ_PROTOTYPE_MUSIC,
    setupOptionEntryBitmask oids.LEVELMUSIC_ICZ2 sids.SETTING_ICZ_PROTOTYPE_MUSIC,
    setupOptionEntryBitmask oids.LEVELMUSIC_LBZ1 sids.SETTING_LBZ_PROTOTYPE_MUSIC,
    setupOptionEntryBitmask oids.LEVELMUSIC_LBZ2 sids.SETTING_LBZ_PROTOTYPE_MUSIC ]

/-- An entry as the constructor builds it: `addEntry<kind>().initEntry(text, data)` followed by
one `addOption(text, value)` per value.  Entries initialised without data keep the data 0. -/
def newEntry (kind : EntryKind) (data : Nat) (values : List Nat) : GameMenuEntry :=
  values.foldl GameMenuEntry.addOption (GameMenuEntry.create kind data)

/-- The values `first, first + step, ...` up to `last`, as a counting loop visits them. -/
def stepValues (first last step : Nat) : List Nat :=
  (List.range ((last - first) / step + 1)).map (fun j => first + step * j)

/-- The tab-title entry: one choice per tab. -/
def tabSelectionEntry (ids : Enumerators) (tids : TabIds) : GameMenuEntry :=
  newEntry EntryKind.OptionsMenuEntry ids._TAB_SELECTION
    [ids.Tab_MODS, ids.Tab_SYSTEM, tids.Tab_DISPLAY, tids.Tab_AUDIO_, tids.Tab_VISUALS, tids.Tab_GAMEPLAY, tids.Tab_CONTROLS, tids.Tab_TWEAKS]

/-- Entries of the System tab. -/
def systemTabEntries (ids : Enumerators) (oids : OptionIds) : List GameMenuEntry :=
  [ newEntry EntryKind.TitleMenuEntry 0 [],
    newEntry EntryKind.UpdateCheckMenuEntry ids._CHECK_FOR_UPDATE [],
    newEntry EntryKind.OptionsMenuEntry ids.RELEASE_CHANNEL [0, 1, 2],
    newEntry EntryKind.TitleMenuEntry 0 [],
    newEntry EntryKind.LabelMenuEntry 0 [],
    newEntry EntryKind.OptionsMenuEntry oids.GHOST_SYNC [0, 1],
    newEntry EntryKind.TitleMenuEntry 0 [],
    newEntry EntryKind.OptionsMenuEntry ids._OPEN_HOMEPAGE [],
    newEntry EntryKind.OptionsMenuEntry ids._OPEN_MANUAL [],
    newEntry EntryKind.TitleMenuEntry 0 [],
    newEntry EntryKind.LabelMenuEntry 0 [],
    newEntry EntryKind.AdvancedOptionMenuEntry oids.SCRIPT_OPTIMIZATION [4294967295, 0, 1, 3],
    newEntry EntryKind.AdvancedOptionMenuEntry ids.GAME_RECORDING_MODE [4294967295, 0, 1] ]

/-- Entries of the Display tab. -/
def displayTabEntries (ids : Enumerators) (oids : OptionIds) : List GameMenuEntry :=
  [ newEntry EntryKind.TitleMenuEntry 0 [],
    newEntry EntryKind.OptionsMenuEntry ids.RENDERER [ids.RenderMethod_SOFTWARE, oids.RenderMethod_OPENGL_SOFT, oids.RenderMethod_OPENGL_FULL],
    newEntry EntryKind.OptionsMenuEntry ids.FRAME_SYNC [0, 1, 2],
    newEntry EntryKind.OptionsMenuEntry oids.UPSCALING [1, 0, 2, 3],
    newEntry EntryKind.OptionsMenuEntry oids.BACKDROP [0, 1, 2, 3],
    newEntry EntryKind.OptionsMenuEntry ids.FILTERING [0, 1, 2, 3, 4, 5, 6],
    newEntry EntryKind.OptionsMenuEntry ids.SCANLINES [0, 1, 2, 3, 4],
    newEntry EntryKind.OptionsMenuEntry ids.BG_BLUR [0, 1, 2, 3, 4],
    newEntry EntryKind.TitleMenuEntry 0 [],
    newEntry EntryKind.OptionsMenuEntry ids.WINDOW_MODE [0, 1, 2],
    newEntry EntryKind.OptionsMenuEntry ids.WINDOW_MODE_STARTUP [0, 1, 2],
    newEntry EntryKind.TitleMenuEntry 0 [],
    newEntry EntryKind.OptionsMenuEntry oids.PERFORMANCE_DISPLAY [0, 1, 2] ]

/-- Entries of the Audio tab up to the soundtrack entry: the title, the three volume entries
with the choices 0, 5, ..., 100, the title and the soundtrack entry. -/
def audioTabHead (ids : Enumerators) : List GameMenuEntry :=
  [newEntry EntryKind.TitleMenuEntry 0 []] ++
  (List.range 3).map (fun k =>
    newEntry EntryKind.OptionsMenuEntry (ids.AUDIO_VOLUME + k) (0 :: stepValues 5 100 5)) ++
  [ newEntry EntryKind.TitleMenuEntry 0 [],
    newEntry EntryKind.SoundtrackMenuEntry ids.SOUNDTRACK [0, 1] ]

/-- Entry `mSoundtrackDownloadMenuEntry` of the Audio tab. -/
def soundtrackDownloadEntry (ids : Enumerators) : GameMenuEntry :=
  newEntry EntryKind.SoundtrackDownloadMenuEntry ids.SOUNDTRACK_DOWNLOAD []

/-- Entries of the Audio tab after the soundtrack download entry; the sound test entry gets
its choices in `initialize`. -/
def audioTabTail (ids : Enumerators) (oids : OptionIds) : List GameMenuEntry :=
  [ newEntry EntryKind.OptionsMenuEntry ids.SOUND_TEST [],
    newEntry EntryKind.TitleMenuEntry 0 [],
    newEntry EntryKind.OptionsMenuEntry ids.TITLE_THEME [0, 1],
    newEntry EntryKind.OptionsMenuEntry oids.EXTRA_LIFE_JINGLE [0, 1, 0x10],
    newEntry EntryKind.OptionsMenuEntry oids.INVINCIBILITY_THEME [0, 1, 0x10],
    newEntry EntryKind.OptionsMenuEntry oids.SUPER_THEME [0, 1, 2, 3, 4, 5],
    newEntry EntryKind.OptionsMenuEntry oids.MINIBOSS_THEME [0, 1, 0x10],
    newEntry EntryKind.OptionsMenuEntry oids.KNUCKLES_THEME [0, 1, 2, 0x10],
    newEntry EntryKind.TitleMenuEntry 0 [],
    newEntry EntryKind.OptionsMenuEntry oids.LEVELMUSIC_CNZ1 [0x00000001, 0x80000001],
    newEntry EntryKind.OptionsMenuEntry oids.LEVELMUSIC_CNZ2 [0x00000002, 0x80000002],
    newEntry EntryKind.OptionsMenuEntry oids.LEVELMUSIC_ICZ1 [0x00000001, 0x80000001],
    newEntry EntryKind.OptionsMenuEntry oids.LEVELMUSIC_ICZ2 [0x00000002, 0x80000002],
    newEntry EntryKind.OptionsMenuEntry oids.LEVELMUSIC_LBZ1 [0x00000001, 0x80000001],
    newEntry EntryKind.OptionsMenuEntry oids.LEVELMUSIC_LBZ2 [0x00000002, 0x80000002],
    newEntry EntryKind.TitleMenuEntry 0 [],
    newEntry EntryKind.OptionsMenuEntry oids.FBZ2_MIDBOSS_TRACK [1, 0],
    newEntry EntryKind.OptionsMenuEntry oids.HPZ_MUSIC [0, 1, 2, 3],
    newEntry EntryKind.OptionsMenuEntry oids.SSZ_BOSSTRACKS [0, 1],
    newEntry EntryKind.OptionsMenuEntry ids.OUTRO_MUSIC [0, 1, 2],
    newEntry EntryKind.OptionsMenuEntry ids.COMPETITION_MENU_MUSIC [0, 1],
    newEntry EntryKind.OptionsMenuEntry oids.CONTINUE_SCREEN_MUSIC [0, 1],
    newEntry EntryKind.TitleMenuEntry 0 [],
    newEntry EntryKind.OptionsMenuEntry oids.CONTINUE_MUSIC [0, 1],
    newEntry EntryKind.TitleMenuEntry 0 [],
    newEntry EntryKind.OptionsMenuEntry oids.UNDERWATER_AUDIO_ [0, 1] ]

/-- Entries of the Visuals tab. -/
def visualsTabEntries (ids : Enumerators) (oids : OptionIds) : List GameMenuEntry :=
  [ newEntry EntryKind.TitleMenuEntry 0 [],
    newEntry EntryKind.OptionsMenuEntry oids.ROTATION [0, 1, 2],
    newEntry EntryKind.OptionsMenuEntry oids.TIME_DISPLAY [0, 1],
    newEntry EntryKind.OptionsMenuEntry oids.LIVES_DISPLAY [0, 1, 2],
    newEntry EntryKind.OptionsMenuEntry oids.SPEEDUP_AFTER_IMAGES [0, 1],
    newEntry EntryKind.OptionsMenuEntry oids.FAST_RUN_ANIM [0, 1],
    newEntry EntryKind.OptionsMenuEntry ids.ANTI_FLICKER [0, 1, 2],
    newEntry EntryKind.TitleMenuEntry 0 [],
    newEntry EntryKind.OptionsMenuEntry oids.CAMERA_OUTRUN [0, 1],
    newEntry EntryKind.OptionsMenuEntry oids.EXTENDED_CAMERA [0, 1],
    newEntry EntryKind.TitleMenuEntry 0 [],
    newEntry EntryKind.OptionsMenuEntry ids.MONITOR_STYLE [1, 0],
    newEntry EntryKind.TitleMenuEntry 0 [],
    newEntry EntryKind.OptionsMenuEntry ids.ICZ_NIGHTTIME [0, 1],
    newEntry EntryKind.TitleMenuEntry 0 [],
    newEntry EntryKind.OptionsMenuEntry oids.SPECIAL_STAGE_VISUALS [0, 3],
    newEntry EntryKind.OptionsMenuEntry oids.SPECIAL_STAGE_RING_COUNT [0, 1] ]

/-- Entries of the Gameplay tab. -/
def gameplayTabEntries (ids : Enumerators) (oids : OptionIds) : List GameMenuEntry :=
  [ newEntry EntryKind.TitleMenuEntry 0 [],
    newEntry EntryKind.OptionsMenuEntry ids.LEVEL_LAYOUTS [0, 1, 2],
    newEntry EntryKind.TitleMenuEntry 0 [],
    newEntry EntryKind.OptionsMenuEntry ids.AIZ_BLIMPSEQUENCE [0, 1],
    newEntry EntryKind.OptionsMenuEntry ids.LBZ_BIGARMS [0, 1],
    newEntry EntryKind.OptionsMenuEntry ids.SOZ_GHOSTSPAWN [1, 0],
    newEntry EntryKind.OptionsMenuEntry ids.LRZ2_BOSS [1, 0],
    newEntry EntryKind.OptionsMenuEntry oids.MAINTAIN_SHIELDS [0, 1],
    newEntry EntryKind.TitleMenuEntry 0 [],
    newEntry EntryKind.OptionsMenuEntry ids.TIMEATTACK_GHOSTS [0, 1, 3, 5],
    newEntry EntryKind.OptionsMenuEntry ids.TIMEATTACK_INSTANTRESTART [0, 1] ]

/-- Entries of the Controls tab before the two gamepad assignment entries. -/
def controlsTabHead (ids : Enumerators) : List GameMenuEntry :=
  [ newEntry EntryKind.TitleMenuEntry 0 [],
    newEntry EntryKind.OptionsMenuEntry ids.DROP_DASH [0, 1],
    newEntry EntryKind.OptionsMenuEntry ids.SUPER_PEELOUT [0, 1],
    newEntry EntryKind.TitleMenuEntry 0 [],
    newEntry EntryKind.OptionsMenuEntry ids.CONTROLLER_SETUP [] ]

/-- The gamepad assignment entries of the Controls tab, for the players `k = 0, 1`: both
branches on `hasVirtualGamepad()` add the choice -1, with different texts. -/
def gamepadAssignmentEntries (ids : Enumerators) : List GameMenuEntry :=
  (List.range 2).map (fun k =>
    newEntry EntryKind.OptionsMenuEntry (ids.CONTROLLER_PLAYER_1 + k) [4294967295])

/-- Entries of the Controls tab after the gamepad assignment entries: auto-assign, the two
rumble entries with the choices 0, 20, ..., 100, the virtual gamepad block if the application
has a virtual gamepad, and the abilities. -/
def controlsTabTail (ids : Enumerators) (oids : OptionIds) (cenv : ConstructorEnv) :
    List GameMenuEntry :=
  [ newEntry EntryKind.OptionsMenuEntry ids.CONTROLLER_AUTOASSIGN [4294967295, 0, 1] ] ++
  (List.range 2).map (fun k =>
    newEntry EntryKind.OptionsMenuEntry (ids.CONTROLLER_RUMBLE_P1 + k)
      (0 :: stepValues 20 100 20)) ++
  (if cenv.hasVirtualGamepad then
    [ newEntry EntryKind.TitleMenuEntry 0 [],
      newEntry EntryKind.OptionsMenuEntry oids.VGAMEPAD_OPACITY
        (cenv.percentageOptions 0 100 10),
      newEntry EntryKind.OptionsMenuEntry ids.VGAMEPAD_DPAD_SIZE (cenv.numberOptions 50 150 10),
      newEntry EntryKind.OptionsMenuEntry ids.VGAMEPAD_BUTTONS_SIZE
        (cenv.numberOptions 50 150 10),
      newEntry EntryKind.OptionsMenuEntry ids.VGAMEPAD_SETUP [] ]
  else []) ++
  [ newEntry EntryKind.TitleMenuEntry 0 [],
    newEntry EntryKind.OptionsMenuEntry oids.INSTA_SHIELD [0, 1],
    newEntry EntryKind.OptionsMenuEntry oids.TAILS_ASSIST [0, 1, 2, 3],
    newEntry EntryKind.OptionsMenuEntry oids.TAILS_FLIGHT_CANCEL [0, 1],
    newEntry EntryKind.OptionsMenuEntry oids.NO_CONTROL_LOCK [0, 1],
    newEntry EntryKind.OptionsMenuEntry oids.BUBBLE_SHIELD_BOUNCE [0, 1],
    newEntry EntryKind.TitleMenuEntry 0 [],
    newEntry EntryKind.OptionsMenuEntry oids.HYPER_TAILS [0, 1],
    newEntry EntryKind.OptionsMenuEntry oids.SUPER_CANCEL [0, 1],
    newEntry EntryKind.OptionsMenuEntry oids.SUPER_SONIC_ABILITY [0, 1, 2],
    newEntry EntryKind.OptionsMenuEntry oids.HYPER_DASH_CONTROLS [0, 1] ]

/-- Entries of the Tweaks tab. -/
def tweaksTabEntries (ids : Enumerators) (oids : OptionIds) : List GameMenuEntry :=
  [ newEntry EntryKind.TitleMenuEntry 0 [],
    newEntry EntryKind.OptionsMenuEntry ids.DEBUG_MODE [0, 1],
    newEntry EntryKind.OptionsMenuEntry ids.TITLE_SCREEN [0, 1],
    newEntry EntryKind.OptionsMenuEntry ids.GAME_SPEED [50, 60, 75, 90, 120, 144],
    newEntry EntryKind.TitleMenuEntry 0 [],
    newEntry EntryKind.OptionsMenuEntry oids.INFINITE_LIVES [0, 1],
    newEntry EntryKind.OptionsMenuEntry oids.INFINITE_TIME [0, 1],
    newEntry EntryKind.TitleMenuEntry 0 [],
    newEntry EntryKind.OptionsMenuEntry ids.SHIELD_TYPES [0, 1, 2, 3],
    newEntry EntryKind.OptionsMenuEntry ids.RANDOM_MONITORS [0, 1, 2],
    newEntry EntryKind.OptionsMenuEntry ids.MONITOR_BEHAVIOR [0, 1],
    newEntry EntryKind.TitleMenuEntry 0 [],
    newEntry EntryKind.OptionsMenuEntry ids.RANDOM_SPECIALSTAGES [0, 1],
    newEntry EntryKind.OptionsMenuEntry ids.SPECIAL_STAGE_REPEAT [0, 1],
    newEntry EntryKind.TitleMenuEntry 0 [],
    newEntry EntryKind.OptionsMenuEntry ids.REGION [0x80, 0x00],
    newEntry EntryKind.TitleMenuEntry 0 [],
    newEntry EntryKind.OptionsMenuEntry oids.FIX_GLITCHES [0, 1, 2] ]

/-- Loop `for (int i = 0; i < Tab::Id::_NUM; ++i)` of the constructor: every tab gets the dummy
entry that represents the title in the menu navigation. -/
def addDummyEntries (tabNum : Nat) (tabs : List GameMenuEntries) : List GameMenuEntries :=
  (List.range tabNum).foldl
    (fun ts i => modifyAt
      (fun t => { t with mEntries := t.mEntries ++ [GameMenuEntry.create EntryKind.GameMenuEntry 0] })
      i ts)
    tabs

/-- Append entries to the entry list of a tab. -/
def addEntries (tab : Nat) (entries : List GameMenuEntry) (tabs : List GameMenuEntries) :
    List GameMenuEntries :=
  modifyAt (fun t => { t with mEntries := t.mEntries ++ entries }) tab tabs

/-- Number of entries of a tab: the line of the entry added next. -/
def tabSize (tab : Nat) (tabs : List GameMenuEntries) : Nat :=
  (tabs.getD tab ⟨[], 0⟩).mEntries.length

/-- Inner loop of the registration at the end of the constructor: the option entry indexed
by the data of each entry of the tab gets that data as option ID and the pointer to the
entry. -/
def registerConstructed (tab : Nat) (entries : List GameMenuEntry)
    (optionEntries : List OptionEntry) : List OptionEntry :=
  (List.range entries.length).foldl
    (fun oes k =>
      modifyAt
        (fun optionEntry =>
          { optionEntry with mOptionId := (entries.getD k GameMenuEntry.invalid).mData,
                             mGameMenuEntry := some (tab, k) })
        (entries.getD k GameMenuEntry.invalid).mData oes)
    optionEntries

/-- Body of the outer loop at the end of the constructor for tab `i`: the back entry is added,
then the entries of the tab are registered. -/
def finishTab (ids : Enumerators) (st : List GameMenuEntries × List OptionEntry) (i : Nat) :
    List GameMenuEntries × List OptionEntry :=
  let tabs := addEntries i [newEntry EntryKind.OptionsMenuEntry ids._BACK []] st.1
  (tabs, registerConstructed i (tabs.getD i ⟨[], 0⟩).mEntries st.2)

/-- Loop `for (int i = 1; i < Tab::Id::_NUM; ++i)` at the end of the constructor. -/
def finishTabs (ids : Enumerators) (tabNum : Nat)
    (st : List GameMenuEntries × List OptionEntry) : List GameMenuEntries × List OptionEntry :=
  (List.range' 1 (tabNum - 1)).foldl (finishTab ids) st

/-- The tabs at the point where the constructor adds the soundtrack download entry. -/
def tabsAtSoundtrackDownload (ids : Enumerators) (oids : OptionIds) (tids : TabIds)
    (tabs : List GameMenuEntries) : List GameMenuEntries :=
  let tabs0 := addDummyEntries tids.Tab_NUM tabs
  -- Mods tab needs to be rebuilt each time again
  let tabs1 := addEntries ids.Tab_SYSTEM (systemTabEntries ids oids) tabs0
  let tabs2 := addEntries tids.Tab_DISPLAY (displayTabEntries ids oids) tabs1
  addEntries tids.Tab_AUDIO_ (audioTabHead ids) tabs2

/-- The tabs at the point where the constructor adds the gamepad assignment entries. -/
def tabsAtGamepadAssignment (ids : Enumerators) (oids : OptionIds) (tids : TabIds)
    (tabs : List GameMenuEntries) : List GameMenuEntries :=
  let tabs3 := tabsAtSoundtrackDownload ids oids tids tabs
  let tabs4 := addEntries tids.Tab_AUDIO_ (soundtrackDownloadEntry ids :: audioTabTail ids oids)
    tabs3
  let tabs5 := addEntries tids.Tab_VISUALS (visualsTabEntries ids oids) tabs4
  let tabs6 := addEntries tids.Tab_GAMEPLAY (gameplayTabEntries ids oids) tabs5
  addEntries tids.Tab_CONTROLS (controlsTabHead ids) tabs6

/-- The tabs as the constructor fills them, before the back entries are added. -/
def constructTabs (ids : Enumerators) (oids : OptionIds) (tids : TabIds) (cenv : ConstructorEnv)
    (tabs : List GameMenuEntries) : List GameMenuEntries :=
  let tabs7 := tabsAtGamepadAssignment ids oids tids tabs
  let tabs8 := addEntries tids.Tab_CONTROLS
    (gamepadAssignmentEntries ids ++ controlsTabTail ids oids cenv) tabs7
  addEntries tids.Tab_TWEAKS (tweaksTabEntries ids oids) tabs8

/-- The constructor `OptionsMenu::OptionsMenu`, acting on the members as they are when its
body starts (`m0`): it fills `mOptionEntries`, the tab-title row, the tabs and the pointers to
the soundtrack download entry and to the gamepad assignment entries.  Texts, fonts, default
values of advanced entries and `mUnlockedSecretsEntries` concern the rendering only. -/
def construct (ids : Enumerators) (oids : OptionIds) (tids : TabIds) (sids : SettingIds)
    (cenv : ConstructorEnv) (m0 : OptionsMenu) : OptionsMenu :=
  let optionEntries0 := resizeList ids._NUM OptionEntry.empty m0.mOptionEntries
  let optionEntries1 := (optionEntrySetups ids oids sids).foldl (fun oes f => f oes)
    optionEntries0
  -- build up tab menu entries
  let tabMenuEntries : GameMenuEntries :=
    { m0.mTabMenuEntries with
      mEntries := m0.mTabMenuEntries.mEntries ++ [tabSelectionEntry ids tids] }
  let tabs := constructTabs ids oids tids cenv m0.mTabs
  let fin := finishTabs ids tids.Tab_NUM (tabs, optionEntries1)
  { m0 with
    mOptionEntries := fin.2
    mTabMenuEntries := tabMenuEntries
    mTabs := fin.1
    mSoundtrackDownloadMenuEntry :=
      (tids.Tab_AUDIO_, tabSize tids.Tab_AUDIO_ (tabsAtSoundtrackDownload ids oids tids m0.mTabs))
    mGamepadAssignmentEntries := (List.range 2).map
      (fun k => (tids.Tab_CONTROLS,
        tabSize tids.Tab_CONTROLS (tabsAtGamepadAssignment ids oids tids m0.mTabs) + k)) }

end OptionsMenu

namespace OptionsMenu

/-- The option IDs whose menu entry the menu code dereferences through
`mOptionEntries[id].mGameMenuEntry`: the IDs of `CONDITIONAL_OPTIONS` (`setupOptionsMenu`),
the window mode, startup window mode and renderer (`onFadeIn`, `update`), the options
`update` reloads, the scanlines (`update`) and the sound test (`initialize`). -/
def dereferencedOptionIds (ids : Enumerators) : List Nat :=
  (CONDITIONAL_OPTIONS ids).map (fun o => o.mOptionId) ++
  [ids.WINDOW_MODE, ids.WINDOW_MODE_STARTUP, ids.RENDERER, ids.FRAME_SYNC, ids.FILTERING,
   ids.BG_BLUR, ids.AUDIO_VOLUME, ids.SCANLINES, ids.SOUND_TEST]

/-- Tab `tab` has an entry whose data is `data`. -/
def HasData (tabs : List GameMenuEntries) (tab data : Nat) : Prop :=
  ∃ (line : Nat) (entry : GameMenuEntry),
    entryAtTabs tabs (tab, line) = some entry ∧ entry.mData = data

/-- Option `id` is registered: `mOptionEntries[id]` has the option ID `id` and points to an
entry of a tab other than tab 0 whose data is `id`. -/
def RegisteredInTabs (st : List GameMenuEntries × List OptionEntry) (id : Nat) : Prop :=
  ∃ (tab line : Nat) (entry : GameMenuEntry) (optionEntry : OptionEntry),
    tab ≠ 0 ∧ st.2[id]? = some optionEntry ∧ optionEntry.mOptionId = id ∧
    optionEntry.mGameMenuEntry = some (tab, line) ∧
    entryAtTabs st.1 (tab, line) = some entry ∧ entry.mData = id

/-- The tab IDs lie inside the array `mTabs`, and the Mods tab is tab 0, the one the loops of
the constructor that start at 1 leave out. -/
def TabIdsInRange (ids : Enumerators) (tids : TabIds) : Prop :=
  ids.Tab_MODS = 0 ∧
  (0 < ids.Tab_SYSTEM ∧ ids.Tab_SYSTEM < tids.Tab_NUM) ∧
  (0 < tids.Tab_DISPLAY ∧ tids.Tab_DISPLAY < tids.Tab_NUM) ∧
  (0 < tids.Tab_AUDIO_ ∧ tids.Tab_AUDIO_ < tids.Tab_NUM) ∧
  (0 < tids.Tab_VISUALS ∧ tids.Tab_VISUALS < tids.Tab_NUM) ∧
  (0 < tids.Tab_GAMEPLAY ∧ tids.Tab_GAMEPLAY < tids.Tab_NUM) ∧
  (0 < tids.Tab_CONTROLS ∧ tids.Tab_CONTROLS < tids.Tab_NUM) ∧
  (0 < tids.Tab_TWEAKS ∧ tids.Tab_TWEAKS < tids.Tab_NUM)

instance (ids : Enumerators) (tids : TabIds) : Decidable (TabIdsInRange ids tids) := by
  unfold TabIdsInRange; infer_instance

end OptionsMenu

/-- A numbering of all option IDs: the IDs of `exampleIds`, with the three volume options
moved to the consecutive numbers 98, 99, 100. -/
def constructorIds : Enumerators :=
  { exampleIds with AUDIO_VOLUME := 98, _NUM := 101 }

/-- The further option IDs, numbered from 51 on, and the render methods 1 and 2. -/
def exampleOptionIds : OptionIds :=
  { GHOST_SYNC := 51, SCRIPT_OPTIMIZATION := 52, UPSCALING := 53, BACKDROP := 54,
    PERFORMANCE_DISPLAY := 55, MUSIC_VOLUME := 99, SOUND_VOLUME := 100, VGAMEPAD_OPACITY := 56,
    ROTATION := 57, SPEEDUP_AFTER_IMAGES := 58, FAST_RUN_ANIM := 59, TIME_DISPLAY := 60,
    LIVES_DISPLAY := 61, SPECIAL_STAGE_VISUALS := 62, TAILS_ASSIST := 63,
    TAILS_FLIGHT_CANCEL := 64, NO_CONTROL_LOCK := 65, HYPER_TAILS := 66,
    HYPER_DASH_CONTROLS := 67, SUPER_SONIC_ABILITY := 68, MAINTAIN_SHIELDS := 69,
    BUBBLE_SHIELD_BOUNCE := 70, SUPER_CANCEL := 71, INSTA_SHIELD := 72, CAMERA_OUTRUN := 73,
    EXTENDED_CAMERA := 74, INFINITE_LIVES := 75, INFINITE_TIME := 76,
    SPECIAL_STAGE_RING_COUNT := 77, EXTRA_LIFE_JINGLE := 78, INVINCIBILITY_THEME := 79,
    SUPER_THEME := 80, MINIBOSS_THEME := 81, KNUCKLES_THEME := 82, HPZ_MUSIC := 83,
    FBZ2_MIDBOSS_TRACK := 84, SSZ_BOSSTRACKS := 85, CONTINUE_SCREEN_MUSIC := 86,
    CONTINUE_MUSIC := 87, UNDERWATER_AUDIO_ := 88, FIX_GLITCHES := 89, LEVELMUSIC_CNZ1 := 90,
    LEVELMUSIC_CNZ2 := 91, LEVELMUSIC_ICZ1 := 92, LEVELMUSIC_ICZ2 := 93, LEVELMUSIC_LBZ1 := 94,
    LEVELMUSIC_LBZ2 := 95, RenderMethod_OPENGL_SOFT := 1, RenderMethod_OPENGL_FULL := 2 }

/-- The tab IDs in the order of the tab titles. -/
def exampleTabIds : TabIds :=
  { Tab_DISPLAY := 2, Tab_AUDIO_ := 3, Tab_VISUALS := 4, Tab_GAMEPLAY := 5, Tab_CONTROLS := 6,
    Tab_TWEAKS := 7, Tab_NUM := 8 }

/-- A numbering of the setting IDs: setting number `i` gets the ID `0x100 * (i + 1)`, and the
three prototype music settings get bit 31 in addition. -/
def exampleSettingIds : SettingIds :=
  { SETTING_FIX_GLITCHES := 0x100, SETTING_NO_CONTROL_LOCK := 0x200,
    SETTING_TAILS_ASSIST_MODE := 0x300, SETTING_CANCEL_FLIGHT := 0x400,
    SETTING_SUPER_CANCEL := 0x500, SETTING_INSTA_SHIELD := 0x600, SETTING_HYPER_TAILS := 0x700,
    SETTING_SHIELD_TYPES := 0x800, SETTING_AIZ_BLIMPSEQUENCE := 0x900,
    SETTING_LBZ_BIGARMS := 0xa00, SETTING_LRZ2_BOSS := 0xb00, SETTING_EXTENDED_HUD := 0xc00,
    SETTING_SMOOTH_ROTATION := 0xd00, SETTING_SPEEDUP_AFTERIMGS := 0xe00,
    SETTING_BS_VISUAL_STYLE := 0xf00, SETTING_INFINITE_LIVES := 0x1000,
    SETTING_INFINITE_TIME := 0x1100, SETTING_RANDOM_MONITORS := 0x1200,
    SETTING_RANDOM_SPECIALSTAGES := 0x1300, SETTING_BUBBLE_SHIELD_BOUNCE := 0x1400,
    SETTING_CAMERA_OUTRUN := 0x1500, SETTING_EXTENDED_CAMERA := 0x1600,
    SETTING_MAINTAIN_SHIELDS := 0x1700, SETTING_BS_REPEAT_ON_FAIL := 0x1800,
    SETTING_DISABLE_GHOST_SPAWN := 0x1900, SETTING_SUPERFAST_RUNANIM := 0x1a00,
    SETTING_MONITOR_STYLE := 0x1b00, SETTING_HYPER_DASH_CONTROLS := 0x1c00,
    SETTING_SUPER_SONIC_ABILITY := 0x1d00, SETTING_MONITOR_BEHAVIOR := 0x1e00,
    SETTING_LIVES_DISPLAY := 0x1f00, SETTING_BS_COUNTDOWN_RINGS := 0x2000,
    SETTING_CONTINUE_MUSIC := 0x2100, SETTING_UNDERWATER_AUDIO_ := 0x2200,
    SETTING_ICZ_NIGHTTIME := 0x2300, SETTING_CNZ_PROTOTYPE_MUSIC := 0x80002400,
    SETTING_ICZ_PROTOTYPE_MUSIC := 0x80002500, SETTING_LBZ_PROTOTYPE_MUSIC := 0x80002600,
    SETTING_FBZ2_MIDBOSS_TRACK := 0x2700, SETTING_SSZ_BOSS_TRACKS := 0x2800,
    SETTING_GFX_ANTIFLICKER := 0x2900, SETTING_LEVELLAYOUTS := 0x2a00,
    SETTING_REGION_CODE := 0x2b00, SETTING_TIME_ATTACK_GHOSTS := 0x2c00,
    SETTING_AUDIO_TITLE_THEME := 0x2d00, SETTING_AUDIO_EXTRALIFE_JINGLE := 0x2e00,
    SETTING_AUDIO_INVINCIBILITY_THEME := 0x2f00, SETTING_AUDIO_SUPER_THEME := 0x3000,
    SETTING_AUDIO_MINIBOSS_THEME := 0x3100, SETTING_AUDIO_KNUCKLES_THEME := 0x3200,
    SETTING_AUDIO_HPZ_MUSIC := 0x3300, SETTING_AUDIO_OUTRO := 0x3400,
    SETTING_AUDIO_COMPETITION_MENU := 0x3500, SETTING_AUDIO_CONTINUE_SCREEN := 0x3600,
    SETTING_DROPDASH := 0x3700, SETTING_SUPER_PEELOUT := 0x3800, SETTING_DEBUG_MODE := 0x3900,
    SETTING_TITLE_SCREEN := 0x3a00, SETTING_KNUCKLES_AND_TAILS := 0x3b00 }

/-- A desktop build: no virtual gamepad; the helpers for number choices count from the
minimum to the maximum. -/
def exampleConstructorEnv : ConstructorEnv :=
  { hasVirtualGamepad := false
    percentageOptions := fun min max step => OptionsMenu.stepValues min max step
    numberOptions := fun min max step => OptionsMenu.stepValues min max step }

/-- The members when the body of the constructor starts: empty containers, an array of 8
tabs without entries, state `INACTIVE`. -/
def blankMenu : OptionsMenu :=
  { exampleMenu with
    mState := State.INACTIVE
    mVisibility := 0
    mActiveTab := 0
    mActiveTabAnimated := 0
    mTabMenuEntries := ⟨[], 0⟩
    mTabs := List.replicate 8 ⟨[], 0⟩
    mOptionEntries := []
    mSoundtrackDownloadMenuEntry := (0, 0)
    mGamepadAssignmentEntries := [] }

/-- The menu the constructor builds from `blankMenu` for the example numbering. -/
def constructedMenu : OptionsMenu :=
  OptionsMenu.construct constructorIds exampleOptionIds exampleTabIds exampleSettingIds
    exampleConstructorEnv blankMenu

/-! ## Option entry bindings

`OptionEntry::loadValue` is not part of the sources at hand; the menu code only calls it.  It
is modelled from the spec. -/

namespace OptionEntry

/-- Modelled from the spec: `OptionEntry::loadValue`, which is missing from the sources,
"reads the current backing value and updates the entry's selection index to the matching
(label, value) pair; if no pair matches, falls back to index 0".  `backing` is the current
backing value and the result is the new selection index; where several pairs have the value,
the first of them is taken. -/
def loadValue (_optionEntry : OptionEntry) (backing : Int) (entry : GameMenuEntry) : Nat :=
  match entry.mOptions.findIdx? (fun o => decide ((o.mValue : Int) = backing)) with
  | some index => index
  | none => 0

end OptionEntry

/-- The menu library with `OptionEntry::loadValue` as modelled from the spec. -/
def MenuLib.withSpecBindings (lib : MenuLib) : MenuLib :=
  { lib with loadValue := OptionEntry.loadValue }

/-- The menu entry of the option `LEVELMUSIC_CNZ1` in the constructed menu. -/
def cnz1Entry : GameMenuEntry :=
  constructedMenu.optionMenuEntry exampleOptionIds.LEVELMUSIC_CNZ1

/-- An environment in which every backing store holds the value 1. -/
def backingOneEnv : Env := { exampleEnv with backingValue := fun _ => 1 }

/-- An environment in which every backing store holds the value `0x80000001`. -/
def backingPrototypeEnv : Env := { exampleEnv with backingValue := fun _ => 0x80000001 }

/-- An environment in which every backing store holds the value 6. -/
def backingSixEnv : Env := { exampleEnv with backingValue := fun _ => 6 }


/-! ## Notions for the rebuild of the Mods tab -/

namespace OptionsMenu

/-- The loop state with entries and option entries put in front of its lists. -/
def ModsLoop.prepend (es : List GameMenuEntry) (oes : List OptionEntry) (st : ModsLoop) :
    ModsLoop :=
  { entries := es ++ st.entries
    optionEntries := oes ++ st.optionEntries
    nextOptionId := st.nextOptionId }

/-- The entries of the Mods tab, `mTabs[Tab::Id::MODS].mMenuEntries`. -/
def modsTabEntries (ids : Enumerators) (m : OptionsMenu) : List GameMenuEntry :=
  (m.mTabs.getD ids.Tab_MODS ⟨[], 0⟩).mEntries

/-- The pointer that the registration loop over the lines `ks` of a tab leaves in the option
entry with index `i`, when it held `p` before. -/
def registeredPointer (tab : Nat) (entries : List GameMenuEntry) (ks : List Nat) (i : Nat)
    (p : Option EntryRef) : Option EntryRef :=
  ks.foldl
    (fun p k => if (entries.getD k GameMenuEntry.invalid).mData = i then some (tab, k) else p) p

/-- The tab that the menu entry of the option `optionId` lies in, if the option has one. -/
def optionTab (optionEntries : List OptionEntry) (optionId : Nat) : Option Nat :=
  (gameMenuEntryRef optionEntries optionId).map Prod.fst

/-- The pointers to the soundtrack download entry, to the gamepad assignment entries and to
the sound test entry lead to tabs other than the Mods tab. -/
def PointersOutsideModsTab (ids : Enumerators) (m : OptionsMenu) : Prop :=
  m.mSoundtrackDownloadMenuEntry.1 ≠ ids.Tab_MODS ∧
  (∀ r, r ∈ m.mGamepadAssignmentEntries → r.1 ≠ ids.Tab_MODS) ∧
  optionTab m.mOptionEntries ids.SOUND_TEST ≠ some ids.Tab_MODS

instance (ids : Enumerators) (m : OptionsMenu) : Decidable (PointersOutsideModsTab ids m) := by
  unfold PointersOutsideModsTab; infer_instance

end OptionsMenu

/-- Two mods: one with a setting of two choices in an unnamed category, one with two named
categories of one setting each. -/
def exampleMods : List Mod :=
  [ { mSettingCategories := [{ displayNameEmpty := true, mSettings := [{ mOptions := [0, 1] }] }] },
    { mSettingCategories :=
        [ { displayNameEmpty := false, mSettings := [{ mOptions := [0, 1, 2] }] },
          { displayNameEmpty := false, mSettings := [{ mOptions := [3, 4] }] } ] } ]

/-- The example environment with `exampleMods` as the active mods. -/
def modsEnv : Env := { exampleEnv with activeMods := exampleMods }


namespace OptionsMenu

/-- A step from `x` to `y` that leaves the tab count, `mOptionEntries` and the pointers to the
soundtrack download and gamepad assignment entries as they are. -/
def KeepsRegistry (x y : OptionsMenu) : Prop :=
  y.mOptionEntries = x.mOptionEntries ∧
  y.mSoundtrackDownloadMenuEntry = x.mSoundtrackDownloadMenuEntry ∧
  y.mGamepadAssignmentEntries = x.mGamepadAssignmentEntries ∧
  y.mTabs.length = x.mTabs.length

/-- The first value of the counter `nextOptionId` in `initialize`. -/
def firstModOptionId (ids : Enumerators) : Nat := (ids._NUM + 1) % 2 ^ 32

/-- What the loop over the active mods in `initialize` appends to the Mods tab and to
`mOptionEntries`. -/
def modsLoopResult (ids : Enumerators) (mods : List Mod) : ModsLoop :=
  addMods { entries := [], optionEntries := [], nextOptionId := firstModOptionId ids } mods

end OptionsMenu


/-! ## Menu navigation

`GameMenuEntry::sanitizeSelectedIndex` and `GameMenuEntries::update` are not part of the
sources at hand; the options menu only calls them.  They are modelled from the spec. -/

/-- The nearest index below `i` at which `p` holds. -/
def previousIndexWhere (p : Nat → Bool) : Nat → Option Nat
  | 0 => none
  | i + 1 => if p i then some i else previousIndexWhere p i

/-- The first of the `count` indices from `start` on at which `p` holds. -/
def firstIndexFrom (p : Nat → Bool) (start : Nat) : Nat → Option Nat
  | 0 => none
  | count + 1 => if p start then some start else firstIndexFrom p (start + 1) count

/-- Whether the choice with index `i` exists and has its visibility flag set. -/
def GameMenuEntry.optionVisibleAt (e : GameMenuEntry) (i : Nat) : Bool :=
  match e.mOptions[i]? with
  | some o => o.mVisible
  | none => false

/-- The nearest visible choice to the left of the choice `i`. -/
def GameMenuEntry.previousVisibleOption (e : GameMenuEntry) (i : Nat) : Option Nat :=
  previousIndexWhere e.optionVisibleAt i

/-- The nearest visible choice to the right of the choice `i`. -/
def GameMenuEntry.nextVisibleOption (e : GameMenuEntry) (i : Nat) : Option Nat :=
  firstIndexFrom e.optionVisibleAt (i + 1) (e.mOptions.length - (i + 1))

/-- Modelled from the spec: `GameMenuEntry::sanitizeSelectedIndex`, the correction "in case a
now hidden entry was previously selected": choices "failing visibility are [...] excluded
from input navigation (cursor auto-corrects past them)".  A visible selection stays; from a
hidden one the cursor goes to the nearest visible choice to the right, and when there is none
to the nearest visible choice to the left; without any visible choice it stays. -/
def GameMenuEntry.sanitizeSelectedIndex (e : GameMenuEntry) : Nat :=
  if e.optionVisibleAt e.mSelectedIndex then e.mSelectedIndex
  else
    match e.nextVisibleOption e.mSelectedIndex with
    | some j => j
    | none =>
      match e.previousVisibleOption e.mSelectedIndex with
      | some j => j
      | none => e.mSelectedIndex

/-- Whether the cursor can rest on the entry with index `k`: it exists, is visible and is
interactable. -/
def GameMenuEntries.selectableAt (es : GameMenuEntries) (k : Nat) : Bool :=
  match es.mEntries[k]? with
  | some e => e.mVisible && e.mInteractable
  | none => false

/-- Replace the selected choice of the selected entry. -/
def GameMenuEntries.selectOption (es : GameMenuEntries) (j : Nat) : GameMenuEntries :=
  { es with
    mEntries := modifyAt (fun e => { e with mSelectedIndex := j }) es.mSelectedEntryIndex.toNat
      es.mEntries }

/-- Modelled from the spec: `GameMenuEntries::update`.  "Directional input moves the cursor
within whichever level currently has focus", one `update` "processes at most one input-driven
state transition", entries and choices "failing visibility are [...] excluded from input
navigation", and "the cursor skips hidden tabs deterministically in the direction of travel".
Down and Up move the selected entry to the next and to the previous entry the cursor can rest
on (result `ENTRY_CHANGED`); Left and Right move the selected choice of the selected entry to
the nearest visible choice in that direction (result `OPTION_CHANGED`); without such an entry
or choice, and without input, nothing changes (result `NONE`).  When several directions are
pressed the first of Down, Up, Left, Right counts. -/
def GameMenuEntries.update (env : Env) (es : GameMenuEntries) :
    UpdateResult × GameMenuEntries :=
  let cur := es.mSelectedEntryIndex.toNat
  if env.keys.Down.justPressedOrRepeat then
    match firstIndexFrom es.selectableAt (cur + 1) (es.mEntries.length - (cur + 1)) with
    | some k => (UpdateResult.ENTRY_CHANGED, { es with mSelectedEntryIndex := (k : Int) })
    | none => (UpdateResult.NONE, es)
  else if env.keys.Up.justPressedOrRepeat then
    match previousIndexWhere es.selectableAt cur with
    | some k => (UpdateResult.ENTRY_CHANGED, { es with mSelectedEntryIndex := (k : Int) })
    | none => (UpdateResult.NONE, es)
  else if env.keys.Left.justPressedOrRepeat then
    match es.selected.previousVisibleOption es.selected.mSelectedIndex with
    | some j => (UpdateResult.OPTION_CHANGED, es.selectOption j)
    | none => (UpdateResult.NONE, es)
  else if env.keys.Right.justPressedOrRepeat then
    match es.selected.nextVisibleOption es.selected.mSelectedIndex with
    | some j => (UpdateResult.OPTION_CHANGED, es.selectOption j)
    | none => (UpdateResult.NONE, es)
  else (UpdateResult.NONE, es)

/-- The menu library with `GameMenuEntries::update` and
`GameMenuEntry::sanitizeSelectedIndex` as modelled from the spec. -/
def MenuLib.withSpecNavigation (lib : MenuLib) : MenuLib :=
  { lib with
    entriesUpdate := GameMenuEntries.update
    sanitizeSelectedIndex := GameMenuEntry.sanitizeSelectedIndex }

/-- What a list update may do to the choices: it leaves the choices of every entry as they
are, and the selected choice of an entry either stays or, with result `OPTION_CHANGED`, is a
visible choice. -/
def MenuLib.MovesToVisibleChoices (lib : MenuLib) : Prop :=
  ∀ (env : Env) (es : GameMenuEntries) (k : Nat),
    ((lib.entriesUpdate env es).2.entry k).mOptions = (es.entry k).mOptions ∧
    (((lib.entriesUpdate env es).2.entry k).mSelectedIndex = (es.entry k).mSelectedIndex ∨
      ((lib.entriesUpdate env es).1 = UpdateResult.OPTION_CHANGED ∧
        (es.entry k).optionVisibleAt ((lib.entriesUpdate env es).2.entry k).mSelectedIndex
          = true))

/-- `j` is where a step to the left from the choice `i` ends: the nearest visible choice to
the left, every choice in between being hidden, or `i` itself when all choices to the left
are hidden. -/
def GameMenuEntry.IsStepLeft (e : GameMenuEntry) (i j : Nat) : Prop :=
  (j < i ∧ e.optionVisibleAt j = true ∧ ∀ k, j < k → k < i → e.optionVisibleAt k = false) ∨
  (j = i ∧ ∀ k, k < i → e.optionVisibleAt k = false)

/-- `j` is where a step to the right from the choice `i` ends: the nearest visible choice to
the right, every choice in between being hidden, or `i` itself when all choices to the right
are hidden. -/
def GameMenuEntry.IsStepRight (e : GameMenuEntry) (i j : Nat) : Prop :=
  (i < j ∧ e.optionVisibleAt j = true ∧ ∀ k, i < k → k < j → e.optionVisibleAt k = false) ∨
  (j = i ∧ ∀ k, i < k → e.optionVisibleAt k = false)

namespace OptionsMenu

/-- The tab-title entry `mTabMenuEntries[0]`. -/
def tabTitleEntry (m : OptionsMenu) : GameMenuEntry := m.mTabMenuEntries.entry 0

/-- The active tab is the selected choice of the tab-title entry, a visible choice, and the
choices of the tab-title entry are `options`. -/
def ActiveTabVisible (options : List GameMenuOption) (m : OptionsMenu) : Prop :=
  m.tabTitleEntry.mOptions = options ∧
  m.mActiveTab = m.tabTitleEntry.mSelectedIndex ∧
  m.tabTitleEntry.optionVisibleAt m.mActiveTab = true

/-- A step from `x` to `y` that leaves the tab-title list and the active tab as they are. -/
def KeepsTitle (x y : OptionsMenu) : Prop :=
  y.mTabMenuEntries = x.mTabMenuEntries ∧ y.mActiveTab = x.mActiveTab

end OptionsMenu


/-- The constructed menu in state `SHOW`. -/
def shownMenu : OptionsMenu := { constructedMenu with mState := State.SHOW }


/-! ## `SharedDatabase`: zones and character sprites -/

namespace SharedDatabase

/-- `SharedDatabase::getAllZones`, the accessor of `mAllZones` declared in the header. -/
def getAllZones (db : SharedDatabase) : List Zone := db.mAllZones

/-- `SharedDatabase::getZoneByInternalIndex`: the first zone of `getAllZones()` with that
internal index, or `none` for the null pointer.  `index` is a `uint8`. -/
def getZoneByInternalIndex (db : SharedDatabase) (index : Nat) : Option Zone :=
  (getAllZones db).find? (fun zone => zone.mInternalIndex == index)

/-- What `setupCharacterSprite` returns: the hash `rmx::getMurmur2_64` of a sprite name, or
what `SpriteCache::setupSpriteFromROM` returns for these ROM addresses, this animation sprite,
this `atex` value and the encoding `ENCODING_CHARACTER`. -/
inductive SpriteKey
  | hashOfName (name : String)
  | fromROM (sourceBase tableAddress mappingOffset animationSprite atex : Nat)
  deriving DecidableEq, Repr

/-- `SharedDatabase::setupCharacterSprite`; `character` is a `uint8`, `animationSprite` a
`uint16`, and `%d` prints the difference in decimal. -/
def setupCharacterSprite (character animationSprite : Nat) (superActive : Bool) : SpriteKey :=
  if animationSprite ≥ 0x100 then
    -- special handling required
    if animationSprite ≥ 0x102 then
      SpriteKey.hashOfName ("sonic_peelout_" ++ toString (animationSprite - 0x102))
    else
      SpriteKey.hashOfName ("sonic_dropdash_" ++ toString (animationSprite - 0x100))
  else
    match character with
    | 1 =>
      -- Tails
      SpriteKey.fromROM (if animationSprite ≥ 0xd1 then 0x143d00 else 0x3200e0) 0x14a08a
        0x148eb8 (animationSprite % 256) 0x00
    | 2 =>
      -- Knuckles
      SpriteKey.fromROM 0x1200e0 0x14bd0a 0x14a8d6 (animationSprite % 256) 0x00
    | _ =>
      -- Sonic
      SpriteKey.fromROM (if animationSprite ≥ 0xda then 0x140060 else 0x100000)
        (if superActive then 0x148378 else 0x148182)
        (if superActive then 0x146816 else 0x146620) (animationSprite % 256) 0x00

/-- `SharedDatabase::getTailsTailsAnimationSprite`; `characterAnimationSprite` is a `uint8`,
`globalTime` a `uint32`; the sums are formed in 32 bits and returned as `uint8`. -/
def getTailsTailsAnimationSprite (characterAnimationSprite globalTime : Nat) : Nat :=
  if characterAnimationSprite ≥ 0x86 ∧ characterAnimationSprite ≤ 0x88 then
    -- spindash
    ((0x01 + (globalTime / 3) % 4) % 2 ^ 32) % 2 ^ 8
  else if characterAnimationSprite ≥ 0x96 ∧ characterAnimationSprite ≤ 0x98 then
    -- rolling
    ((0x05 + (globalTime / 4) % 4) % 2 ^ 32) % 2 ^ 8
  else if characterAnimationSprite = 0x99 ∨
      (characterAnimationSprite ≥ 0xad ∧ characterAnimationSprite ≤ 0xb4) then
    -- standing
    ((0x22 + (globalTime / 8) % 5) % 2 ^ 32) % 2 ^ 8
  else if characterAnimationSprite = 0xa0 then
    -- flying
    ((0x27 + globalTime % 2) % 2 ^ 32) % 2 ^ 8
  else 0

end SharedDatabase

/-! ## Base state of the options menu -/

namespace OptionsMenu

/-- `OptionsMenu::getBaseState`. -/
def getBaseState (m : OptionsMenu) : BaseState :=
  match m.mState with
  | State.APPEAR => BaseState.FADE_IN
  | State.SHOW => BaseState.SHOW
  | State.FADE_TO_MENU => BaseState.FADE_OUT
  | State.FADE_TO_GAME => BaseState.FADE_OUT
  | State.INACTIVE => BaseState.INACTIVE

/-- `OptionsMenu::setBaseState`. -/
def setBaseState (baseState : BaseState) (m : OptionsMenu) : OptionsMenu :=
  match baseState with
  | BaseState.INACTIVE => { m with mState := State.INACTIVE }
  | BaseState.FADE_IN => { m with mState := State.APPEAR }
  | BaseState.SHOW => { m with mState := State.SHOW }
  | BaseState.FADE_OUT => { m with mState := State.FADE_TO_MENU }

end OptionsMenu


/-- A numbering of the achievements for examples. -/
def exampleAchievementIds : AchievementIds :=
  ⟨0, 1, 2, 3, 4, 5, 6, 7, 8, 9, 10, 11, 12, 13, 14, 15, 16, 17⟩

/-- A numbering of the secrets for examples. -/
def exampleSecretIds : SecretIds := ⟨0, 1, 2, 3, 4, 5, 6, 7, 8, 9⟩


/-! ## `CheatSheetOverlay` -/

/-- The members of `CheatSheetOverlay` that `update` and `render` use: the flag
`mShouldBeShown`, the visibility, and the size of `mRect`. -/
structure CheatSheetOverlay where
  mShouldBeShown : Bool
  mVisibility : ℚ
  mRectWidth : ℚ
  mRectHeight : ℚ
  deriving DecidableEq

namespace CheatSheetOverlay

/-- A call that `render` makes: `GuiBase::render`, `drawRect` with the size of the rectangle
and the alpha of its color, or `printText` at an offset from the rounded position of the
rectangle, with the text read from the table (`none` for a read outside the table, which is
undefined in the code). -/
inductive DrawCall
  | guiBaseRender
  | drawRect (width height alpha : ℚ)
  | printTitle (dx dy : Int)
  | printText (dx dy : Int) (text : Option String)
  deriving DecidableEq

/-- `CheatSheetOverlay::update`. -/
def update (timeElapsed : ℚ) (o : CheatSheetOverlay) : CheatSheetOverlay :=
  if o.mShouldBeShown then
    { o with mVisibility := min (o.mVisibility + timeElapsed / (1 / 10)) 1 }
  else
    { o with mVisibility := max (o.mVisibility - timeElapsed / (1 / 10)) 0 }

/-- The static table `texts` of `render`: key and description, row after row. -/
def texts : List String :=
  [ -- always available
    "Alt+Enter", "Alternar tela cheia",
    "Alt+F/G", "Mudar metodo de redimensionamento",
    "Alt+H", "Mudar metodo de sincronia de quadros",
    "Alt+B", "Mudar desfoque de fundo",
    "Alt+P", "Mudar exibicao de desempenho",
    "F2", "Salvar gravacao do jogo para depuracao",
    "F3", "Pesquisar controles conectados",
    "F4", "Trocar controles do jogador 1/2",
    -- dev mode only
    "F5", "Salvar estado",
    "F7", "Recarregar ultimo estado",
    "F8", "Carregar estado",
    "F10", "Recarregar recursos",
    "F11", "Recarregar scripts",
    "0..9", "Teclas de depuracao (podem ser consultadas em scripts)",
    ",", "Mostrar conteudo do plano B",
    ".", "Mostrar conteudo do plano A",
    "-", "Mostrar conteudo da VRAM",
    "Tab", "Despejar plano, VRAM ou paleta mostrados",
    "Alt+1..8", "Alternar renderizacao de camada",
    "Alt+M", "Alternar exibicao de paleta",
    "Alt+R", "Mudar metodo de renderizacao",
    "Alt+T", "Alternar renderizacao de nivel abstraido",
    "Alt+V", "Alternar visualizacao de depuracao",
    "Alt+C", "Mudar entre visualizacoes de depuracao" ]

/-- Constant `NUM_TEXTS_NONDEV` of `render`. -/
def NUM_TEXTS_NONDEV : Nat := 8

/-- Constant `NUM_TEXTS` of `render`; `useDeveloperFeatures` is what the delegate answers. -/
def NUM_TEXTS (useDeveloperFeatures : Bool) : Nat :=
  if useDeveloperFeatures then texts.length / 2 else NUM_TEXTS_NONDEV

/-- Body of the loop of `render` over the rows: the state is `rct.y`, as an offset from the
rounded position of the rectangle, and the calls made so far. -/
def renderRow (state : Int × List DrawCall) (i : Nat) : Int × List DrawCall :=
  let y : Int := if i = NUM_TEXTS_NONDEV then state.1 + 8 else state.1
  (y + 18, state.2 ++ [DrawCall.printText 20 y texts[i * 2]?,
    DrawCall.printText (20 + 65) y texts[i * 2 + 1]?])

/-- `CheatSheetOverlay::render`: the overlay with the new size of `mRect`, and the calls
made. -/
def render (useDeveloperFeatures : Bool) (o : CheatSheetOverlay) :
    CheatSheetOverlay × List DrawCall :=
  if o.mVisibility ≤ 0 then (o, [DrawCall.guiBaseRender])
  else
    let alpha := o.mVisibility
    let o1 : CheatSheetOverlay :=
      { o with mRectWidth := 330, mRectHeight := ((58 + NUM_TEXTS useDeveloperFeatures * 18 : Nat) : ℚ) }
    let head : List DrawCall :=
      [DrawCall.guiBaseRender, DrawCall.drawRect o1.mRectWidth o1.mRectHeight (alpha * (6 / 10)),
        DrawCall.printTitle 20 16]
    let rows := (List.range (NUM_TEXTS useDeveloperFeatures)).foldl renderRow (16 + 26, [])
    (o1, head ++ rows.2)

/-- The rows drawn: the `printText` calls, two per row. -/
def textCalls (calls : List DrawCall) : List (Option String) :=
  calls.filterMap (fun c =>
    match c with
    | DrawCall.printText _ _ text => some text
    | _ => none)

end CheatSheetOverlay

/-- An environment in which the secret 3 alone is unlocked. -/
def secretThreeEnv : Env := { exampleEnv with isSecretUnlocked := fun s => decide (s = 3) }

/-- An environment in which the secret 4 alone is unlocked, with dev mode on. -/
def secretFourEnv : Env :=
  { exampleEnv with isSecretUnlocked := fun s => decide (s = 4), devModeEnabled := true }


/-! ## Notions for the gamepad lists -/

/-- What `GameMenuEntry::setSelectedIndexByValue` does, as far as its callers rely on it: it
selects a choice that has the value and reports success, or it finds no choice with the value
and reports failure. -/
def MenuLib.FindsByValue (lib : MenuLib) : Prop :=
  ∀ (e : GameMenuEntry) (value : Nat),
    (∀ i, lib.findIndexByValue e value = some i →
      i < e.mOptions.length ∧ (e.mOptions[i]?).map (fun o => o.mValue) = some value) ∧
    (lib.findIndexByValue e value = none → ∀ o, o ∈ e.mOptions → o.mValue ≠ value)

namespace OptionsMenu

/-- Local variable `oldSelectedValue` of `refreshGamepadLists`: the preferred joystick
instance ID of the player, else the value selected so far, else `(uint32)-1`. -/
def oldSelectedValue (env : Env) (playerIndex : Nat) (entry : GameMenuEntry) : Nat :=
  if env.preferredGamepad playerIndex ≥ 0 then (env.preferredGamepad playerIndex).toNat
  else if entry.hasSelected then entry.selectedValue
  else 4294967295

end OptionsMenu

/-- An environment with the gamepads 11, 12 and 13 connected; player 0 prefers gamepad 12,
player 1 a gamepad 99 that is not connected. -/
def gamepadsEnv : Env :=
  { exampleEnv with
    gamepads := [11, 12, 13]
    gamepadsChangeCounter := 1
    preferredGamepad := fun playerIndex => if playerIndex = 0 then 12 else 99 }

/-- The constructed menu after the gamepad lists were built with the gamepads of
`gamepadsEnv`: both entries have four choices, player 0 has gamepad 12 selected. -/
def threeGamepadsMenu : OptionsMenu :=
  OptionsMenu.refreshGamepadLists exampleLib gamepadsEnv false constructedMenu

/-- A later environment: the gamepads 11 and 12 were unplugged, gamepad 13 is left, and no
player has a preferred gamepad. -/
def gamepadLeftEnv : Env :=
  { exampleEnv with
    gamepads := [13]
    gamepadsChangeCounter := 2
    preferredGamepad := fun _ => -1 }

/-- A later environment: gamepad 11 was unplugged and the other two are listed in the other
order; no player has a preferred gamepad. -/
def gamepadsSwappedEnv : Env :=
  { exampleEnv with
    gamepads := [13, 12]
    gamepadsChangeCounter := 2
    preferredGamepad := fun _ => -1 }


/-! ## Notions for the startup window mode -/

/-- Whether a call is the write to `config.mWindowMode`. -/
def Call.isWindowModeWrite : Call → Bool
  | Call.write_mWindowMode _ => true
  | _ => false

/-- The values written to `config.mWindowMode` by the calls, oldest first. -/
def windowModeWrites (calls : List Call) : List Nat :=
  calls.filterMap (fun c =>
    match c with
    | Call.write_mWindowMode value => some value
    | _ => none)

/-- The content of `config.mWindowMode` after the calls, when it held `stored` before. -/
def storedWindowMode (stored : Nat) (calls : List Call) : Nat :=
  (windowModeWrites calls).getLastD stored

/-- What the callers of `OptionEntry::loadValue` rely on for an option entry without a
binding: the selection of its menu entry is left as it is. -/
def MenuLib.LoadKeepsUnbound (lib : MenuLib) : Prop :=
  ∀ (oe : OptionEntry) (backing : Int) (e : GameMenuEntry),
    oe.mType = OptionEntryType.UNDEFINED → lib.loadValue oe backing e = e.mSelectedIndex

namespace OptionsMenu

/-- The calls recorded in `m'` are those recorded in `m` followed by calls none of which
writes `config.mWindowMode`. -/
def KeepsWindowMode (m m' : OptionsMenu) : Prop :=
  ∃ extra : List Call, m'.mCalls = m.mCalls ++ extra ∧ ∀ c ∈ extra, c.isWindowModeWrite = false

/-- The menu entry at `r` is the entry of no option entry with a binding, and of neither the
`WINDOW_MODE` nor the `RENDERER` option. -/
def OnlyUnboundPointTo (ids : Enumerators) (m : OptionsMenu) (r : EntryRef) : Prop :=
  (∀ oe, oe ∈ m.mOptionEntries → oe.mGameMenuEntry = some r →
    oe.mType = OptionEntryType.UNDEFINED) ∧
  gameMenuEntryRef m.mOptionEntries ids.WINDOW_MODE ≠ some r ∧
  gameMenuEntryRef m.mOptionEntries ids.RENDERER ≠ some r

instance (ids : Enumerators) (m : OptionsMenu) (r : EntryRef) :
    Decidable (OnlyUnboundPointTo ids m r) := by
  unfold OnlyUnboundPointTo; infer_instance

end OptionsMenu


/-- The outside world of `rightPressedEnv` with the stored window mode 2. -/
def startupTwoEnv : Env := { OptionsMenu.rightPressedEnv with mWindowMode := 2 }

/-- The constructed menu after `onFadeIn` with the stored window mode 2. -/
def fadedInMenu : OptionsMenu :=
  OptionsMenu.onFadeIn exampleLib constructorIds startupTwoEnv constructedMenu

/-- The menu of `fadedInMenu` once shown, with the focus on the filtering entry of the
Display tab. -/
def filteringFocusMenu : OptionsMenu :=
  { fadedInMenu with
    mState := State.SHOW
    mActiveTab := 2
    mActiveMenu := ActiveMenu.tabContent 2
    mTabs := modifyAt (fun t => { t with mSelectedEntryIndex := 6 }) 2 fadedInMenu.mTabs }


/-! ## Notions for the mod option entries -/

namespace OptionsMenu

/-- The settings of the active mods in the order `initialize` visits them: the mods from the
last to the first, the categories of a mod and the settings of a category in their own
order. -/
def modSettingsInOrder (activeMods : List Mod) : List ModSetting :=
  activeMods.reverse.flatMap (fun mod => mod.mSettingCategories.flatMap (fun c => c.mSettings))

/-- The menu entry that `initialize` creates for a mod setting while the counter
`nextOptionId` is `optionId`: `initEntry(name, nextOptionId)` and one `addOption` per choice
of the setting. -/
def settingMenuEntry (optionId : Nat) (modSetting : ModSetting) : GameMenuEntry :=
  modSetting.mOptions.foldl GameMenuEntry.addOption
    (GameMenuEntry.create EntryKind.OptionsMenuEntry optionId)

/-- Whether a menu entry was added as an `OptionsMenuEntry`. -/
def isOptionsMenuEntry (e : GameMenuEntry) : Bool :=
  decide (e.kind = EntryKind.OptionsMenuEntry)

/-- The state of the loop over the mods without the section and title entries. -/
def ModsLoop.settingsOnly (st : ModsLoop) : ModsLoop :=
  { st with entries := st.entries.filter isOptionsMenuEntry }

end OptionsMenu

/-! ## Properties -/

namespace OptionsMenu

/-! ### Access to menu entries -/

theorem getElem?_modifyAt {α : Type} (f : α → α) (n : Nat) (l : List α) (k : Nat) :
    (modifyAt f n l)[k]? = if k = n then (l[k]?).map f else l[k]? := by
  induction l generalizing n k with
  | nil => cases n <;> simp [modifyAt]
  | cons a l ih =>
    cases n with
    | zero =>
      cases k with
      | zero => simp [modifyAt]
      | succ k => simp [modifyAt]
    | succ n =>
      cases k with
      | zero => simp [modifyAt]
      | succ k => simp [modifyAt, ih]

theorem entryAtTabs_modifyEntryTabs (tabs : List GameMenuEntries) (r r' : EntryRef)
    (f : GameMenuEntry → GameMenuEntry) :
    entryAtTabs (modifyEntryTabs tabs r f) r' =
      if r' = r then (entryAtTabs tabs r').map f else entryAtTabs tabs r' := by
  obtain ⟨t, k⟩ := r
  obtain ⟨t', k'⟩ := r'
  simp only [entryAtTabs, modifyEntryTabs, getElem?_modifyAt]
  by_cases ht : t' = t
  · subst ht
    cases h : tabs[t']? with
    | none => simp
    | some tab => simp [getElem?_modifyAt]
  · have : ¬ ((t', k') = (t, k)) := by
      intro h; exact ht (by simpa using (Prod.mk.inj h).1)
    simp [ht, this]

/-- Changing the selected entry index of a tab leaves every entry as it is. -/
theorem entryAtTabs_modifyAt_index (tabs : List GameMenuEntries) (k : Nat)
    (g : GameMenuEntries → Int) (r : EntryRef) :
    entryAtTabs (modifyAt (fun t => { t with mSelectedEntryIndex := g t }) k tabs) r =
      entryAtTabs tabs r := by
  simp only [entryAtTabs, getElem?_modifyAt]
  by_cases h : r.1 = k
  · cases h2 : tabs[r.1]? <;> simp [h, h2]
  · simp [h]

/-! ### The loop over `CONDITIONAL_OPTIONS` -/

theorem entryAtTabs_setupConditionalOption (lib : MenuLib) (env : Env) (e : Bool)
    (oes : List OptionEntry) (tabs : List GameMenuEntries) (o : ConditionalOption)
    (r : EntryRef) :
    entryAtTabs (setupConditionalOption lib env e oes tabs o) r =
      if gameMenuEntryRef oes o.mOptionId = some r then
        (entryAtTabs tabs r).map (fun en =>
          en.setVisible (o.shouldBeVisible env e && en.shouldBeShown lib env))
      else entryAtTabs tabs r := by
  unfold setupConditionalOption
  cases h : gameMenuEntryRef oes o.mOptionId with
  | none => simp
  | some r0 =>
    simp only [entryAtTabs_modifyEntryTabs]
    by_cases hr : r = r0
    · simp [hr]
    · have : ¬ (r0 = r) := fun h => hr h.symm
      simp [hr, this]

/-- Entries that none of the processed options points to are left alone by the loop. -/
theorem entryAtTabs_foldl_of_not_mem (lib : MenuLib) (env : Env) (e : Bool)
    (oes : List OptionEntry) (l : List ConditionalOption) (tabs : List GameMenuEntries)
    (r : EntryRef) (h : ∀ o ∈ l, gameMenuEntryRef oes o.mOptionId ≠ some r) :
    entryAtTabs (l.foldl (setupConditionalOption lib env e oes) tabs) r = entryAtTabs tabs r := by
  induction l generalizing tabs with
  | nil => rfl
  | cons o l ih =>
    simp only [List.foldl_cons]
    rw [ih _ (fun o' ho' => h o' (List.mem_cons_of_mem _ ho'))]
    rw [entryAtTabs_setupConditionalOption]
    simp [h o (List.mem_cons_self _ _)]

/-- After the loop, the entry of each processed option is the entry before the loop with its
visibility flag recomputed, provided different options have different entries. -/
theorem entryAtTabs_foldl_of_mem (lib : MenuLib) (env : Env) (e : Bool)
    (oes : List OptionEntry) (l : List ConditionalOption) (tabs : List GameMenuEntries)
    (hnd : (l.map (fun o => gameMenuEntryRef oes o.mOptionId)).Nodup)
    (o : ConditionalOption) (ho : o ∈ l) (r : EntryRef)
    (hr : gameMenuEntryRef oes o.mOptionId = some r) :
    entryAtTabs (l.foldl (setupConditionalOption lib env e oes) tabs) r =
      (entryAtTabs tabs r).map (fun en =>
        en.setVisible (o.shouldBeVisible env e && en.shouldBeShown lib env)) := by
  induction l generalizing tabs with
  | nil => cases ho
  | cons a l ih =>
    simp only [List.map_cons, List.nodup_cons] at hnd
    simp only [List.foldl_cons]
    rcases List.mem_cons.1 ho with rfl | hmem
    · rw [entryAtTabs_foldl_of_not_mem]
      · rw [entryAtTabs_setupConditionalOption]; simp [hr]
      · intro o' ho' heq
        exact hnd.1 (List.mem_map.2 ⟨o', ho', by rw [heq, hr]⟩)
    · rw [ih _ hnd.2 hmem, entryAtTabs_setupConditionalOption]
      have : gameMenuEntryRef oes a.mOptionId ≠ some r := by
        intro heq
        exact hnd.1 (List.mem_map.2 ⟨o, hmem, by rw [heq, hr]⟩)
      simp [this]

end OptionsMenu
namespace OptionsMenu

theorem mOptionEntries_modifyOptionMenuEntry (m : OptionsMenu) (id : Nat)
    (f : GameMenuEntry → GameMenuEntry) :
    (m.modifyOptionMenuEntry id f).mOptionEntries = m.mOptionEntries := by
  unfold modifyOptionMenuEntry
  cases gameMenuEntryRef m.mOptionEntries id <;> rfl

theorem entryAt_modifyOptionMenuEntry (m : OptionsMenu) (id : Nat)
    (f : GameMenuEntry → GameMenuEntry) (r : EntryRef) :
    (m.modifyOptionMenuEntry id f).entryAt r =
      if gameMenuEntryRef m.mOptionEntries id = some r then (m.entryAt r).map f
      else m.entryAt r := by
  unfold modifyOptionMenuEntry
  cases h : gameMenuEntryRef m.mOptionEntries id with
  | none => simp
  | some r0 =>
    simp only [entryAt, modifyEntry, entryAtTabs_modifyEntryTabs]
    by_cases hr : r = r0
    · simp [hr]
    · have : ¬ (r0 = r) := fun h => hr h.symm
      simp [hr, this]

theorem mOptionEntries_hideWindowModeOptions (lib : MenuLib) (ids : Enumerators)
    (m : OptionsMenu) : (hideWindowModeOptions lib ids m).mOptionEntries = m.mOptionEntries := by
  unfold hideWindowModeOptions
  split
  · rw [mOptionEntries_modifyOptionMenuEntry, mOptionEntries_modifyOptionMenuEntry]
  · rfl

theorem entryAt_hideWindowModeOptions (lib : MenuLib) (ids : Enumerators) (m : OptionsMenu)
    (r : EntryRef) (h1 : gameMenuEntryRef m.mOptionEntries ids.WINDOW_MODE ≠ some r)
    (h2 : gameMenuEntryRef m.mOptionEntries ids.WINDOW_MODE_STARTUP ≠ some r) :
    (hideWindowModeOptions lib ids m).entryAt r = m.entryAt r := by
  unfold hideWindowModeOptions
  split
  · rw [entryAt_modifyOptionMenuEntry, mOptionEntries_modifyOptionMenuEntry,
      entryAt_modifyOptionMenuEntry]
    simp [h1, h2]
  · rfl

theorem mOptionEntries_sanitizeActiveTab (lib : MenuLib) (m : OptionsMenu) :
    (sanitizeActiveTab lib m).mOptionEntries = m.mOptionEntries := by
  unfold sanitizeActiveTab focusTitleIfSelected
  split <;> rfl

theorem entryAt_sanitizeActiveTab (lib : MenuLib) (m : OptionsMenu) (r : EntryRef) :
    (sanitizeActiveTab lib m).entryAt r = m.entryAt r := by
  unfold sanitizeActiveTab focusTitleIfSelected
  split <;> exact entryAtTabs_modifyAt_index _ _ _ _

/-- `setupOptionsMenu` does not touch `mOptionEntries`. -/
theorem mOptionEntries_setupOptionsMenu (lib : MenuLib) (ids : Enumerators) (env : Env)
    (e : Bool) (m : OptionsMenu) :
    (setupOptionsMenu lib ids env e m).mOptionEntries = m.mOptionEntries := by
  show (sanitizeActiveTab lib _).mOptionEntries = _
  rw [mOptionEntries_sanitizeActiveTab]
  show (hideWindowModeOptions lib ids _).mOptionEntries = _
  rw [mOptionEntries_hideWindowModeOptions]
  rfl

/-- After `setupOptionsMenu`, an entry that is not one of the two window mode entries is what
the loop over `CONDITIONAL_OPTIONS` made of it. -/
theorem entryAt_setupOptionsMenu (lib : MenuLib) (ids : Enumerators) (env : Env)
    (e : Bool) (m : OptionsMenu) (r : EntryRef)
    (h1 : gameMenuEntryRef m.mOptionEntries ids.WINDOW_MODE ≠ some r)
    (h2 : gameMenuEntryRef m.mOptionEntries ids.WINDOW_MODE_STARTUP ≠ some r) :
    (setupOptionsMenu lib ids env e m).entryAt r =
      entryAtTabs ((CONDITIONAL_OPTIONS ids).foldl
        (setupConditionalOption lib env e m.mOptionEntries) m.mTabs) r := by
  show (sanitizeActiveTab lib _).entryAt r = _
  rw [entryAt_sanitizeActiveTab]
  refine (entryAt_hideWindowModeOptions lib ids
    (setupConditionalOptions lib ids env e (setEnteredFromIngame e m)) r h1 h2).trans ?_
  rfl

theorem optionMenuEntry_eq_of_ref (m : OptionsMenu) (id : Nat) (r : EntryRef) (en : GameMenuEntry)
    (hr : gameMenuEntryRef m.mOptionEntries id = some r) (he : m.entryAt r = some en) :
    m.optionMenuEntry id = en := by
  simp [optionMenuEntry, hr, he]

theorem mem_setupOptionIds_of_mem (ids : Enumerators) (o : ConditionalOption)
    (ho : o ∈ CONDITIONAL_OPTIONS ids) : o.mOptionId ∈ setupOptionIds ids := by
  unfold setupOptionIds
  exact List.mem_append_left _ (List.mem_map.2 ⟨o, ho, rfl⟩)

/-- Unfolding of `ConditionalOption::shouldBeVisible` into its two conditions. -/
theorem shouldBeVisible_eq (o : ConditionalOption) (env : Env) (e : Bool) :
    o.shouldBeVisible env e =
      (!(o.mHideInGame && e) && (!o.mDependsOnSecret || env.isSecretUnlocked o.mSecret)) := by
  unfold ConditionalOption.shouldBeVisible
  cases o.mHideInGame <;> cases e <;> cases o.mDependsOnSecret <;>
    cases env.isSecretUnlocked o.mSecret <;> rfl

/-- Visibility of the entry of a conditional option after `setupOptionsMenu`, as a Boolean
equation. -/
theorem optionVisible_setupOptionsMenu (lib : MenuLib) (ids : Enumerators) (env : Env)
    (m : OptionsMenu) (hreg : Registered m (setupOptionIds ids))
    (o : ConditionalOption) (ho : o ∈ CONDITIONAL_OPTIONS ids) (e : Bool) :
    (setupOptionsMenu lib ids env e m).optionVisible o.mOptionId =
      (o.shouldBeVisible env e && (m.optionMenuEntry o.mOptionId).shouldBeShown lib env) := by
  obtain ⟨hvalid, hnd⟩ := hreg
  have hv := hvalid o.mOptionId (mem_setupOptionIds_of_mem ids o ho)
  cases hr : gameMenuEntryRef m.mOptionEntries o.mOptionId with
  | none => simp [hr] at hv
  | some r =>
    cases he : m.entryAt r with
    | none => simp [hr, he] at hv
    | some en =>
      unfold setupOptionIds at hnd
      rw [List.map_append, List.nodup_append] at hnd
      obtain ⟨hnd1, _, hdisj⟩ := hnd
      have hmem : some r ∈ List.map (gameMenuEntryRef m.mOptionEntries)
          (List.map (fun o => o.mOptionId) (CONDITIONAL_OPTIONS ids)) := by
        rw [← hr]
        exact List.mem_map.2 ⟨o.mOptionId, List.mem_map.2 ⟨o, ho, rfl⟩, rfl⟩
      have h1 : gameMenuEntryRef m.mOptionEntries ids.WINDOW_MODE ≠ some r := by
        intro h
        exact hdisj hmem (by rw [← h]; simp)
      have h2 : gameMenuEntryRef m.mOptionEntries ids.WINDOW_MODE_STARTUP ≠ some r := by
        intro h
        exact hdisj hmem (by rw [← h]; simp)
      have hafter := entryAt_setupOptionsMenu lib ids env e m r h1 h2
      rw [entryAtTabs_foldl_of_mem lib env e m.mOptionEntries (CONDITIONAL_OPTIONS ids) m.mTabs
        (by simpa [List.map_map] using hnd1) o ho r hr] at hafter
      have he' : entryAtTabs m.mTabs r = some en := he
      rw [he'] at hafter
      have hr' : gameMenuEntryRef (setupOptionsMenu lib ids env e m).mOptionEntries o.mOptionId
          = some r := by rw [mOptionEntries_setupOptionsMenu]; exact hr
      unfold optionVisible
      rw [optionMenuEntry_eq_of_ref _ _ _ _ hr' hafter, optionMenuEntry_eq_of_ref _ _ _ _ hr he]
      rfl

/-- C1: for every entry of `CONDITIONAL_OPTIONS` and both values of `enteredFromIngame`, after
`setupOptionsMenu(enteredFromIngame)` the menu entry of the option is visible if and only if
(1) it is not the case that its hide-in-game flag is set and `enteredFromIngame` is true,
(2) it does not depend on a secret or that secret is unlocked, and (3) `shouldBeShown()` of
the entry returns true; in particular `setupOptionsMenu(true)` leaves every option whose
hide-in-game flag is set invisible.  The menu entries of the options are those registered by
the constructor (`Registered`). -/
theorem setupOptionsMenu_conditional_visibility (lib : MenuLib) (ids : Enumerators) (env : Env)
    (m : OptionsMenu) (hreg : Registered m (setupOptionIds ids)) :
    (∀ o ∈ CONDITIONAL_OPTIONS ids, ∀ enteredFromIngame : Bool,
      ((setupOptionsMenu lib ids env enteredFromIngame m).optionVisible o.mOptionId = true ↔
        ¬ (o.mHideInGame = true ∧ enteredFromIngame = true) ∧
        (o.mDependsOnSecret = false ∨ env.isSecretUnlocked o.mSecret = true) ∧
        (m.optionMenuEntry o.mOptionId).shouldBeShown lib env = true)) ∧
    (∀ o ∈ CONDITIONAL_OPTIONS ids, o.mHideInGame = true →
      (setupOptionsMenu lib ids env true m).optionVisible o.mOptionId = false) := by
  constructor
  · intro o ho e
    rw [optionVisible_setupOptionsMenu lib ids env m hreg o ho e, shouldBeVisible_eq]
    cases o.mHideInGame <;> cases e <;> cases o.mDependsOnSecret <;>
      cases env.isSecretUnlocked o.mSecret <;>
      cases (m.optionMenuEntry o.mOptionId).shouldBeShown lib env <;> simp
  · intro o ho hhide
    rw [optionVisible_setupOptionsMenu lib ids env m hreg o ho true, shouldBeVisible_eq, hhide]
    rfl

/-- C1 on the concrete menu: the entries are registered, and entering from in-game hides the
soundtrack option. -/
theorem setupOptionsMenu_conditional_visibility_witness :
    Registered exampleMenu (setupOptionIds exampleIds) ∧
    (setupOptionsMenu exampleLib exampleIds exampleEnv true exampleMenu).optionVisible
      exampleIds.SOUNDTRACK = false :=
  ⟨by decide,
   (setupOptionsMenu_conditional_visibility exampleLib exampleIds exampleEnv exampleMenu
      (by decide)).2 (ConditionalOption.mk2 exampleIds.SOUNDTRACK true) (by decide) rfl⟩

end OptionsMenu

namespace OptionsMenu

/-! ### Members left alone by input handling -/

@[simp] theorem frame_ite {c : Prop} [Decidable c] (a b : OptionsMenu) :
    frame (if c then a else b) = if c then frame a else frame b := by
  split <;> rfl

@[simp] theorem frame_call (m : OptionsMenu) (c : Call) : frame (m.call c) = frame m := rfl

@[simp] theorem frame_setState (m : OptionsMenu) (s : State) :
    frame (setState s m) = frame m := rfl

@[simp] theorem frame_setActiveMenu (m : OptionsMenu) (a : ActiveMenu) :
    frame (setActiveMenu a m) = frame m := rfl

@[simp] theorem frame_takeOverSelectedTab (ids : Enumerators) (m : OptionsMenu) :
    frame (takeOverSelectedTab ids m) = frame m := rfl

@[simp] theorem frame_setPlayingSoundTest (m : OptionsMenu) (a : Option AudioDefinition) :
    frame (setPlayingSoundTest a m) = frame m := rfl

@[simp] theorem frame_showAudioWarning (ids : Enumerators) (d : Nat) (m : OptionsMenu) :
    frame (showAudioWarning ids d m) = frame m := by
  unfold showAudioWarning
  split <;> rfl

@[simp] theorem frame_modifyEntry (m : OptionsMenu) (r : EntryRef)
    (f : GameMenuEntry → GameMenuEntry) : frame (m.modifyEntry r f) = frame m := rfl

@[simp] theorem frame_modifyOptionMenuEntry (m : OptionsMenu) (id : Nat)
    (f : GameMenuEntry → GameMenuEntry) : frame (m.modifyOptionMenuEntry id f) = frame m := by
  unfold modifyOptionMenuEntry
  split <;> rfl

@[simp] theorem frame_loadOptionValue (lib : MenuLib) (env : Env) (id : Nat) (m : OptionsMenu) :
    frame (loadOptionValue lib env id m) = frame m := by
  unfold loadOptionValue
  split
  · split <;> rfl
  · rfl

@[simp] theorem frame_syncDisplayedValues (lib : MenuLib) (ids : Enumerators) (env : Env)
    (m : OptionsMenu) : frame (syncDisplayedValues lib ids env m) = frame m := by
  simp [syncDisplayedValues]

@[simp] theorem frame_setActiveEntries (m : OptionsMenu) (es : GameMenuEntries) :
    frame (m.setActiveEntries es) = frame m := by
  unfold setActiveEntries
  split <;> rfl

@[simp] theorem frame_switchToTabContent (m : OptionsMenu) :
    frame (switchToTabContent m) = frame m := by
  simp [switchToTabContent]

@[simp] theorem frame_enterTabContent (env : Env) (m : OptionsMenu) :
    frame (enterTabContent env m) = frame m := by
  unfold enterTabContent
  simp

@[simp] theorem frame_playSoundtest (a : Int) (d : AudioDefinition) (m : OptionsMenu) :
    frame (playSoundtest a d m) = frame m := by
  unfold playSoundtest
  simp

@[simp] theorem frame_restartMusic (a : Int) (m : OptionsMenu) :
    frame (restartMusic a m) = frame m := by
  unfold restartMusic
  simp only []
  split <;> simp

@[simp] theorem frame_applyValue (d : Nat) (m : OptionsMenu) :
    frame (applyValue d m) = frame m := rfl

@[simp] theorem frame_applyGenericValue (ids : Enumerators) (e : GameMenuEntry)
    (m : OptionsMenu) : frame (applyGenericValue ids e m) = frame m := by
  unfold applyGenericValue
  simp

@[simp] theorem frame_applyDefaultChange (ids : Enumerators) (e : GameMenuEntry)
    (m : OptionsMenu) : frame (applyDefaultChange ids e m) = frame m := by
  unfold applyDefaultChange
  simp

@[simp] theorem frame_changeSoundtrack (env : Env) (e : GameMenuEntry) (m : OptionsMenu) :
    frame (changeSoundtrack env e m) = frame m := by
  unfold changeSoundtrack
  simp

@[simp] theorem frame_applyOptionChange (ids : Enumerators) (env : Env) (e : GameMenuEntry)
    (m : OptionsMenu) : frame (applyOptionChange ids env e m) = frame m := by
  unfold applyOptionChange
  simp

@[simp] theorem frame_reactInsideTab (ids : Enumerators) (env : Env) (r : UpdateResult)
    (m : OptionsMenu) : frame (reactInsideTab ids env r m) = frame m := by
  unfold reactInsideTab
  simp

@[simp] theorem frame_reactToUpdateResult (ids : Enumerators) (env : Env) (r : UpdateResult)
    (m : OptionsMenu) : frame (reactToUpdateResult ids env r m) = frame m := by
  unfold reactToUpdateResult
  simp

@[simp] theorem frame_handleMenuUpdate (lib : MenuLib) (ids : Enumerators) (env : Env)
    (m : OptionsMenu) : frame (handleMenuUpdate lib ids env m) = frame m := by
  unfold handleMenuUpdate
  simp

@[simp] theorem frame_stopSoundTest (m : OptionsMenu) : frame (stopSoundTest m) = frame m := by
  unfold stopSoundTest
  simp

@[simp] theorem frame_reloadScriptsIfChanged (env : Env) (m : OptionsMenu) :
    frame (reloadScriptsIfChanged env m) = frame m := by
  unfold reloadScriptsIfChanged
  simp

@[simp] theorem frame_startFadeOut (m : OptionsMenu) : frame (startFadeOut m) = frame m := rfl

@[simp] theorem frame_goBack (env : Env) (m : OptionsMenu) : frame (goBack env m) = frame m := by
  unfold goBack
  simp

@[simp] theorem frame_acceptSoundtrackDownload (late : Env) (m : OptionsMenu) :
    frame (acceptSoundtrackDownload late m) = frame m := by
  unfold acceptSoundtrackDownload
  simp

@[simp] theorem frame_acceptSoundTest (late : Env) (e : GameMenuEntry) (m : OptionsMenu) :
    frame (acceptSoundTest late e m) = frame m := by
  unfold acceptSoundTest
  split <;> simp

@[simp] theorem frame_acceptSelectedEntry (ids : Enumerators) (late : Env) (e : GameMenuEntry)
    (m : OptionsMenu) : frame (acceptSelectedEntry ids late e m) = frame m := by
  unfold acceptSelectedEntry
  simp

@[simp] theorem frame_handleButtons (ids : Enumerators) (env late : Env) (m : OptionsMenu) :
    frame (handleButtons ids env late m) = frame m := by
  unfold handleButtons
  split <;> simp

@[simp] theorem frame_handleInput (lib : MenuLib) (ids : Enumerators) (env late : Env)
    (m : OptionsMenu) : frame (handleInput lib ids env late m) = frame m := by
  unfold handleInput
  simp

@[simp] theorem frame_updateInteractable (ids : Enumerators) (late : Env) (m : OptionsMenu) :
    frame (updateInteractable ids late m) = frame m := by
  simp [updateInteractable]

theorem mWarningMessageTimeout_refreshGamepadLists (lib : MenuLib) (env : Env) (force : Bool)
    (m : OptionsMenu) :
    (refreshGamepadLists lib env force m).mWarningMessageTimeout = m.mWarningMessageTimeout := by
  have hp : ∀ (a : OptionsMenu) (k : Nat),
      (refreshGamepadPlayer lib env a k).mWarningMessageTimeout = a.mWarningMessageTimeout := by
    intro a k
    unfold refreshGamepadPlayer
    split <;> rfl
  unfold refreshGamepadLists
  split
  · simp only [List.range, List.range.loop, List.foldl, hp]
    rfl
  · rfl

theorem mWarningMessageTimeout_updateFading (dt : ℚ) (m : OptionsMenu) :
    (updateFading dt m).mWarningMessageTimeout = m.mWarningMessageTimeout := by
  unfold updateFading finishAppear finishFadeOut
  split_ifs <;> rfl

theorem mWarningMessageTimeout_of_frame {a b : OptionsMenu} (h : frame a = frame b) :
    a.mWarningMessageTimeout = b.mWarningMessageTimeout :=
  congrArg Frame.mWarningMessageTimeout h

/-- One `update` call steps the warning message timeout, whatever else happens. -/
theorem mWarningMessageTimeout_update (lib : MenuLib) (ids : Enumerators) (env late : Env)
    (dt : ℚ) (m : OptionsMenu) :
    (update lib ids env late dt m).mWarningMessageTimeout =
      stepTimeout m.mWarningMessageTimeout dt := by
  have hcall : ∀ (x : OptionsMenu) (c : Call),
      (x.call c).mWarningMessageTimeout = x.mWarningMessageTimeout := fun _ _ => rfl
  have hstep : ∀ x : OptionsMenu, (updateTimeouts dt x).mWarningMessageTimeout =
      stepTimeout x.mWarningMessageTimeout dt := fun _ => rfl
  have hanim : (animateActiveTab dt m).mWarningMessageTimeout = m.mWarningMessageTimeout := rfl
  unfold update
  simp only []
  rw [hcall, mWarningMessageTimeout_refreshGamepadLists, hstep,
    mWarningMessageTimeout_updateFading,
    mWarningMessageTimeout_of_frame (frame_updateInteractable _ _ _),
    mWarningMessageTimeout_of_frame (frame_handleInput _ _ _ _ _), hanim]

end OptionsMenu
namespace OptionsMenu

/-! ### Rounding to `float` -/

end OptionsMenu

theorem floor_le_roundHalfEven (x : ℚ) : ⌊x⌋ ≤ roundHalfEven x := by
  unfold roundHalfEven
  split_ifs <;> omega

theorem roundHalfEven_nonneg (x : ℚ) (hx : 0 ≤ x) : 0 ≤ roundHalfEven x :=
  le_trans (Int.floor_nonneg.2 hx) (floor_le_roundHalfEven x)

theorem roundHalfEven_le_of_le (x : ℚ) (M : ℤ) (h : x ≤ (M : ℚ)) : roundHalfEven x ≤ M := by
  have hf : ⌊x⌋ ≤ M := Int.floor_le_iff.2 (by
    have := h
    linarith)
  have hup : (0 : ℚ) < x - ⌊x⌋ → ⌊x⌋ + 1 ≤ M := by
    intro hpos
    have hlt : ((⌊x⌋ : ℤ) : ℚ) < (M : ℚ) := by linarith
    have : ⌊x⌋ < M := by exact_mod_cast hlt
    omega
  unfold roundHalfEven
  split_ifs with h1 h2 h3
  · exact hf
  · exact hup (by linarith)
  · exact hf
  · exact hup (by
      have : (1 : ℚ) / 2 ≤ x - ⌊x⌋ := not_lt.1 h1
      linarith)

theorem roundHalfEven_intCast (n : ℤ) : roundHalfEven (n : ℚ) = n := by
  unfold roundHalfEven
  rw [Int.floor_intCast]
  simp

theorem lt_zpow_float32Exponent (x : ℚ) : x < 2 ^ (float32Exponent x + 1) := by
  have h := Int.lt_zpow_succ_log_self (R := ℚ) (b := 2) (by norm_num) x
  have hle : Int.log 2 x + 1 ≤ float32Exponent x + 1 := by
    unfold float32Exponent
    have := le_max_left (Int.log 2 x) (-126)
    omega
  have hmono : ((2 : ℕ) : ℚ) ^ (Int.log 2 x + 1) ≤ ((2 : ℕ) : ℚ) ^ (float32Exponent x + 1) :=
    zpow_le_zpow_right₀ (by norm_num) hle
  have := lt_of_lt_of_le h hmono
  simpa using this

theorem float32Exponent_ge (x : ℚ) : -126 ≤ float32Exponent x := le_max_right _ _

theorem zpow_float32Exponent_le (x : ℚ) (hx : 0 < x) (h : -126 < float32Exponent x) :
    (2 : ℚ) ^ float32Exponent x ≤ x := by
  have he : float32Exponent x = Int.log 2 x := by
    unfold float32Exponent at h ⊢
    rcases le_total (Int.log 2 x) (-126) with hc | hc
    · rw [max_eq_right hc] at h; omega
    · exact max_eq_left hc
  rw [he]
  have := Int.zpow_log_le_self (R := ℚ) (b := 2) (by norm_num) hx
  simpa using this

/-- A number that is not positive is not rounded to a positive one. -/
theorem roundToFloat32_nonpos (x : ℚ) (hx : x ≤ 0) : roundToFloat32 x ≤ 0 := by
  unfold roundToFloat32
  split
  · have h0 : x = 0 := le_antisymm hx ‹_›
    subst h0
    have : roundHalfEven (0 / 2 ^ (float32Exponent 0 - 23)) = 0 := by
      rw [zero_div]
      exact_mod_cast roundHalfEven_intCast 0
    rw [this]
    simp
  · have hneg : 0 ≤ -x := by linarith
    have hq : (0 : ℚ) < 2 ^ (float32Exponent (-x) - 23) := zpow_pos (by norm_num) _
    have hr := roundHalfEven_nonneg (-x / 2 ^ (float32Exponent (-x) - 23))
      (div_nonneg hneg hq.le)
    have hr2 : (0 : ℚ) ≤ (roundHalfEven (-x / 2 ^ (float32Exponent (-x) - 23)) : ℚ) := by
      exact_mod_cast hr
    have := mul_nonneg hr2 hq.le
    linarith

theorem roundToFloat32_of_pos (x : ℚ) (hx : 0 < x) :
    roundToFloat32 x =
      (roundHalfEven (x / 2 ^ (float32Exponent x - 23)) : ℚ) * 2 ^ (float32Exponent x - 23) := by
  unfold roundToFloat32
  rw [if_pos hx.le]

/-- Rounding a positive number does not exceed a `float` value above it. -/
theorem roundToFloat32_le (x t : ℚ) (hx : 0 < x) (hxt : x ≤ t) (ht : IsFloat32 t) :
    roundToFloat32 x ≤ t := by
  obtain ⟨m, k, hm, hk, rfl⟩ := ht
  rw [roundToFloat32_of_pos x hx]
  have hq : (0 : ℚ) < 2 ^ (float32Exponent x - 23) := zpow_pos (by norm_num) _
  have hk2 : (0 : ℚ) < 2 ^ k := zpow_pos (by norm_num) _
  -- the exponent of `t` is not below the quantum of `x`
  have hke : float32Exponent x - 23 ≤ k := by
    rcases eq_or_lt_of_le (float32Exponent_ge x) with he | he
    · rw [← he]; omega
    · have h1 := zpow_float32Exponent_le x hx he
      have hmlt : (m : ℚ) < 2 ^ (24 : ℤ) := by
        have : m < 2 ^ 24 := lt_of_le_of_lt (le_abs_self m) hm
        exact_mod_cast this
      have h2 : (2 : ℚ) ^ float32Exponent x < 2 ^ (24 + k) := by
        calc (2 : ℚ) ^ float32Exponent x ≤ x := h1
          _ ≤ (m : ℚ) * 2 ^ k := hxt
          _ < 2 ^ (24 : ℤ) * 2 ^ k := mul_lt_mul_of_pos_right hmlt hk2
          _ = 2 ^ (24 + k) := by rw [zpow_add₀ (by norm_num)]
      have h3 : float32Exponent x < 24 + k := (zpow_lt_zpow_iff_right₀ (by norm_num)).1 h2
      omega
  -- so `t` is a whole number of quanta
  obtain ⟨d, hd⟩ : ∃ d : ℕ, k = float32Exponent x - 23 + d :=
    ⟨(k - (float32Exponent x - 23)).toNat, by omega⟩
  have ht : (m : ℚ) * 2 ^ k = ((m * 2 ^ d : ℤ) : ℚ) * 2 ^ (float32Exponent x - 23) := by
    rw [hd, zpow_add₀ (by norm_num)]
    push_cast
    rw [zpow_natCast]
    ring
  rw [ht]
  apply mul_le_mul_of_nonneg_right _ hq.le
  have hle : x / 2 ^ (float32Exponent x - 23) ≤ ((m * 2 ^ d : ℤ) : ℚ) := by
    rw [div_le_iff₀ hq, ← ht]
    exact hxt
  exact_mod_cast roundHalfEven_le_of_le _ _ hle

/-- The rounding of a positive number is a `float` value. -/
theorem isFloat32_roundToFloat32 (x : ℚ) (hx : 0 < x) : IsFloat32 (roundToFloat32 x) := by
  rw [roundToFloat32_of_pos x hx]
  have hq : (0 : ℚ) < 2 ^ (float32Exponent x - 23) := zpow_pos (by norm_num) _
  have hr0 := roundHalfEven_nonneg (x / 2 ^ (float32Exponent x - 23)) (div_nonneg hx.le hq.le)
  have hr1 : roundHalfEven (x / 2 ^ (float32Exponent x - 23)) ≤ 2 ^ 24 := by
    apply roundHalfEven_le_of_le
    rw [div_le_iff₀ hq]
    have h := (lt_zpow_float32Exponent x).le
    have : (2 : ℚ) ^ (float32Exponent x + 1) =
        ((2 ^ 24 : ℤ) : ℚ) * 2 ^ (float32Exponent x - 23) := by
      push_cast
      rw [show (16777216 : ℚ) = 2 ^ (24 : ℤ) by norm_num, ← zpow_add₀ (by norm_num)]
      congr 1
      omega
    rw [← this]
    exact h
  have hge := float32Exponent_ge x
  rcases eq_or_lt_of_le hr1 with heq | hlt
  · refine ⟨2 ^ 23, float32Exponent x - 22, by norm_num, by omega, ?_⟩
    rw [heq]
    push_cast
    rw [show (16777216 : ℚ) = 2 ^ (24 : ℤ) by norm_num,
      show (8388608 : ℚ) = 2 ^ (23 : ℤ) by norm_num, ← zpow_add₀ (by norm_num),
      ← zpow_add₀ (by norm_num)]
    congr 1
    omega
  · exact ⟨_, float32Exponent x - 23, by rw [abs_of_nonneg hr0]; exact hlt, by omega, rfl⟩

theorem isFloat32_zero : IsFloat32 0 := ⟨0, 0, by norm_num, by norm_num, by norm_num⟩

theorem isFloat32_four : IsFloat32 4 := ⟨1, 2, by norm_num, by norm_num, by norm_num⟩

/-- The rounding of a positive number inside the binade of exponent `e`. -/
theorem roundToFloat32_of_binade (x : ℚ) (e : ℤ) (he : -126 ≤ e) (hlo : (2 : ℚ) ^ e ≤ x)
    (hhi : x < 2 ^ (e + 1)) :
    roundToFloat32 x = (roundHalfEven (x / 2 ^ (e - 23)) : ℚ) * 2 ^ (e - 23) := by
  have hx : 0 < x := lt_of_lt_of_le (zpow_pos (by norm_num) _) hlo
  have hlog : Int.log 2 x = e := by
    apply le_antisymm
    · have := (Int.lt_zpow_iff_log_lt (R := ℚ) (b := 2) (by norm_num) hx).1 (by simpa using hhi)
      omega
    · exact (Int.zpow_le_iff_le_log (R := ℚ) (b := 2) (by norm_num) hx).1 (by simpa using hlo)
  have hexp : float32Exponent x = e := by
    unfold float32Exponent
    rw [hlog]
    exact max_eq_left he
  rw [roundToFloat32_of_pos x hx, hexp]

/-- `4.0f - 2^-24` is `4.0f`: the difference is nearer to 4 than to the `float` below 4. -/
theorem roundToFloat32_four_minus_small : roundToFloat32 (4 - 1 / 16777216) = 4 := by
  rw [roundToFloat32_of_binade _ 1 (by norm_num) (by norm_num) (by norm_num)]
  have : roundHalfEven ((4 - 1 / 16777216) / 2 ^ ((1 : ℤ) - 23)) = 16777216 := by
    have hf : ⌊((4 : ℚ) - 1 / 16777216) / 2 ^ ((1 : ℤ) - 23)⌋ = 16777215 := by
      rw [Int.floor_eq_iff]
      norm_num
    unfold roundHalfEven
    rw [hf]
    norm_num
  rw [this]
  norm_num

theorem roundToFloat32_two : roundToFloat32 (4 - 2) = 2 := by
  rw [roundToFloat32_of_binade _ 1 (by norm_num) (by norm_num) (by norm_num)]
  have : ((4 : ℚ) - 2) / 2 ^ ((1 : ℤ) - 23) = ((8388608 : ℤ) : ℚ) := by norm_num
  rw [this, roundHalfEven_intCast]
  norm_num

theorem roundToFloat32_last_bit : roundToFloat32 (2 - (2 - 1 / 8388608)) = 1 / 8388608 := by
  rw [roundToFloat32_of_binade _ (-23) (by norm_num) (by norm_num) (by norm_num)]
  have : ((2 : ℚ) - (2 - 1 / 8388608)) / 2 ^ ((-23 : ℤ) - 23) = ((8388608 : ℤ) : ℚ) := by
    norm_num
  rw [this, roundHalfEven_intCast]
  norm_num

/-- A multiple of `2^-21` between 0 and 4 is a `float` value: rounding leaves it as it is. -/
theorem roundToFloat32_grid (M : ℕ) (hM : 0 < M) (hM4 : M ≤ 2 ^ 23) :
    roundToFloat32 ((M : ℚ) / 2097152) = (M : ℚ) / 2097152 := by
  have hx : (0 : ℚ) < (M : ℚ) / 2097152 := by positivity
  have hM1 : (1 : ℚ) ≤ (M : ℚ) := by exact_mod_cast hM
  have hM2 : (M : ℚ) ≤ 8388608 := by exact_mod_cast hM4
  have hlow : (2 : ℚ) ^ (-21 : ℤ) ≤ (M : ℚ) / 2097152 := by
    rw [le_div_iff₀ (by norm_num)]
    norm_num
    exact hM
  have hlog : (-21 : ℤ) ≤ Int.log 2 ((M : ℚ) / 2097152) :=
    (Int.zpow_le_iff_le_log (R := ℚ) (b := 2) (by norm_num) hx).1 (by simpa using hlow)
  have he1 : -21 ≤ float32Exponent ((M : ℚ) / 2097152) :=
    le_trans hlog (le_max_left _ _)
  have hle := zpow_float32Exponent_le _ hx (by omega)
  have he2 : float32Exponent ((M : ℚ) / 2097152) ≤ 2 := by
    have h4 : (2 : ℚ) ^ float32Exponent ((M : ℚ) / 2097152) ≤ 2 ^ (2 : ℤ) := by
      refine le_trans hle ?_
      rw [div_le_iff₀ (by norm_num)]
      norm_num
      exact hM4
    exact (zpow_le_zpow_iff_right₀ (by norm_num)).1 h4
  rw [roundToFloat32_of_pos _ hx]
  generalize float32Exponent ((M : ℚ) / 2097152) = e at he1 he2
  obtain ⟨d, hd⟩ : ∃ d : ℕ, e = 2 - (d : ℤ) := ⟨(2 - e).toNat, by omega⟩
  subst hd
  have hq : (2 : ℚ) ^ (2 - (d : ℤ) - 23) = 2 ^ (-21 : ℤ) / 2 ^ d := by
    rw [show (2 : ℤ) - (d : ℤ) - 23 = -21 - (d : ℤ) by ring, zpow_sub₀ (by norm_num),
      zpow_natCast]
  have hquot : (M : ℚ) / 2097152 / 2 ^ (2 - (d : ℤ) - 23) = ((M * 2 ^ d : ℕ) : ℤ) := by
    rw [hq]
    push_cast
    field_simp
    norm_num
    ring
  rw [hquot, roundHalfEven_intCast, hq]
  push_cast
  field_simp
  norm_num
  ring

namespace OptionsMenu

/-! ### The warning banner timeout -/

/-- One step of a timeout that holds a `float` value and is not negative: the result is again
such a value, not above the old one, and 0 when the elapsed time is at least the old value. -/
theorem stepTimeout_spec (t dt : ℚ) (ht : 0 ≤ t) (hf : IsFloat32 t) (hdt : 0 ≤ dt) :
    0 ≤ stepTimeout t dt ∧ IsFloat32 (stepTimeout t dt) ∧ stepTimeout t dt ≤ t ∧
    (t ≤ dt → stepTimeout t dt = 0) := by
  unfold stepTimeout
  by_cases hpos : t > 0
  · rw [if_pos hpos]
    by_cases hx : 0 < t - dt
    · have hle := roundToFloat32_le (t - dt) t hx (by linarith) hf
      refine ⟨le_max_left _ _, ?_, max_le ht hle, fun h => absurd hx (by linarith)⟩
      rcases le_total 0 (roundToFloat32 (t - dt)) with hc | hc
      · rw [max_eq_right hc]; exact isFloat32_roundToFloat32 _ hx
      · rw [max_eq_left hc]; exact isFloat32_zero
    · have h0 := roundToFloat32_nonpos (t - dt) (not_lt.1 hx)
      rw [max_eq_left h0]
      exact ⟨le_refl 0, isFloat32_zero, ht, fun _ => rfl⟩
  · rw [if_neg hpos]
    have h0 : t = 0 := le_antisymm (not_lt.1 hpos) ht
    exact ⟨ht, hf, le_refl t, fun _ => h0⟩

theorem totalTime_nonneg (ticks : List Tick) (h : ∀ t ∈ ticks, 0 ≤ t.timeElapsed) :
    0 ≤ totalTime ticks := by
  induction ticks with
  | nil => simp [totalTime]
  | cons t ts ih =>
    have h1 := h t (List.mem_cons_self _ _)
    have h2 := ih (fun x hx => h x (List.mem_cons_of_mem _ hx))
    simp only [totalTime, List.map_cons, List.sum_cons] at h2 ⊢
    linarith

/-- The warning timeout after a run of `update` calls: the steps of the timeout, one per
call. -/
theorem mWarningMessageTimeout_updates (lib : MenuLib) (ids : Enumerators) (ticks : List Tick)
    (m : OptionsMenu) :
    (updates lib ids ticks m).mWarningMessageTimeout =
      ticks.foldl (fun t tick => stepTimeout t tick.timeElapsed) m.mWarningMessageTimeout := by
  induction ticks generalizing m with
  | nil => rfl
  | cons t ts ih =>
    have hunf : updates lib ids (t :: ts) m =
        updates lib ids ts (update lib ids t.env t.late t.timeElapsed m) := rfl
    rw [hunf, ih, mWarningMessageTimeout_update, List.foldl_cons]

/-- Over a run of `update` calls with non-negative elapsed times, a timeout that holds a
`float` value and is not negative stays such a value and does not grow. -/
theorem mWarningMessageTimeout_run (lib : MenuLib) (ids : Enumerators) (ticks : List Tick)
    (h : ∀ t ∈ ticks, 0 ≤ t.timeElapsed) (m : OptionsMenu) (hm : 0 ≤ m.mWarningMessageTimeout)
    (hf : IsFloat32 m.mWarningMessageTimeout) :
    0 ≤ (updates lib ids ticks m).mWarningMessageTimeout ∧
    IsFloat32 (updates lib ids ticks m).mWarningMessageTimeout ∧
    (updates lib ids ticks m).mWarningMessageTimeout ≤ m.mWarningMessageTimeout := by
  induction ticks generalizing m with
  | nil => exact ⟨hm, hf, le_refl _⟩
  | cons t ts ih =>
    have h1 := h t (List.mem_cons_self _ _)
    have hts : ∀ x ∈ ts, 0 ≤ x.timeElapsed := fun x hx => h x (List.mem_cons_of_mem _ hx)
    obtain ⟨s1, s2, s3, _⟩ := stepTimeout_spec m.mWarningMessageTimeout t.timeElapsed hm hf h1
    have hstep := mWarningMessageTimeout_update lib ids t.env t.late t.timeElapsed m
    obtain ⟨r1, r2, r3⟩ := ih hts (update lib ids t.env t.late t.timeElapsed m)
      (by rw [hstep]; exact s1) (by rw [hstep]; exact s2)
    have hunf : updates lib ids (t :: ts) m =
        updates lib ids ts (update lib ids t.env t.late t.timeElapsed m) := rfl
    rw [hunf]
    exact ⟨r1, r2, le_trans r3 (by rw [hstep]; exact s3)⟩

theorem mWarningMessageTimeout_setupOptionsMenu (lib : MenuLib) (ids : Enumerators) (env : Env)
    (b : Bool) (m : OptionsMenu) :
    (setupOptionsMenu lib ids env b m).mWarningMessageTimeout = if b then 4 else 0 := rfl

/-- One step of a timeout on the grid of the multiples of `2^-21` up to 4, with an elapsed
time on the grid: the difference is a `float` value, nothing is rounded. -/
theorem stepTimeout_grid (a k : ℕ) (ha : a ≤ 2 ^ 23) :
    stepTimeout ((a : ℚ) / 2097152) ((k : ℚ) / 2097152) = ((a - k : ℕ) : ℚ) / 2097152 := by
  unfold stepTimeout
  rcases Nat.eq_zero_or_pos a with h0 | hpos
  · subst h0
    rw [if_neg (by norm_num)]
    simp
  · have ht : (a : ℚ) / 2097152 > 0 := by positivity
    rw [if_pos ht]
    rcases Nat.lt_or_ge k a with hk | hk
    · have hsub : (a : ℚ) / 2097152 - (k : ℚ) / 2097152 = ((a - k : ℕ) : ℚ) / 2097152 := by
        rw [Nat.cast_sub hk.le]
        ring
      rw [hsub, roundToFloat32_grid (a - k) (by omega) (by omega)]
      exact max_eq_right (by positivity)
    · have hx : (a : ℚ) / 2097152 - (k : ℚ) / 2097152 ≤ 0 := by
        have : (a : ℚ) ≤ (k : ℚ) := by exact_mod_cast hk
        have h2 : (a : ℚ) / 2097152 ≤ (k : ℚ) / 2097152 :=
          div_le_div_of_nonneg_right this (by norm_num)
        linarith
      rw [max_eq_left (roundToFloat32_nonpos _ hx), Nat.sub_eq_zero_of_le hk]
      simp

/-- A run of `update` calls whose elapsed times are multiples of `2^-21`, from a timeout that
is such a multiple and at most 4: nothing is rounded, and the timeout is the old one less the
summed elapsed time, or 0. -/
theorem mWarningMessageTimeout_run_grid (lib : MenuLib) (ids : Enumerators) (ticks : List Tick)
    (h : ∀ t ∈ ticks, ∃ k : ℕ, t.timeElapsed = (k : ℚ) / 2097152) (m : OptionsMenu) (a : ℕ)
    (ha : a ≤ 2 ^ 23) (hm : m.mWarningMessageTimeout = (a : ℚ) / 2097152) :
    (updates lib ids ticks m).mWarningMessageTimeout =
      max 0 (m.mWarningMessageTimeout - totalTime ticks) := by
  induction ticks generalizing m a with
  | nil =>
    have : (0 : ℚ) ≤ m.mWarningMessageTimeout := by rw [hm]; positivity
    simp [updates, totalTime, this]
  | cons t ts ih =>
    obtain ⟨k, hk⟩ := h t (List.mem_cons_self _ _)
    have hts : ∀ x ∈ ts, ∃ k : ℕ, x.timeElapsed = (k : ℚ) / 2097152 :=
      fun x hx => h x (List.mem_cons_of_mem _ hx)
    have htot : 0 ≤ totalTime ts := by
      apply totalTime_nonneg
      intro x hx
      obtain ⟨j, hj⟩ := hts x hx
      rw [hj]
      positivity
    have hstep : (update lib ids t.env t.late t.timeElapsed m).mWarningMessageTimeout =
        ((a - k : ℕ) : ℚ) / 2097152 := by
      rw [mWarningMessageTimeout_update, hm, hk, stepTimeout_grid a k ha]
    have hval : ((a - k : ℕ) : ℚ) / 2097152 =
        max 0 (m.mWarningMessageTimeout - t.timeElapsed) := by
      rw [hm, hk]
      rcases Nat.lt_or_ge k a with hlt | hge
      · rw [Nat.cast_sub hlt.le, max_eq_right]
        · ring
        · have : (k : ℚ) ≤ (a : ℚ) := by exact_mod_cast hlt.le
          have h2 : (k : ℚ) / 2097152 ≤ (a : ℚ) / 2097152 :=
            div_le_div_of_nonneg_right this (by norm_num)
          linarith
      · rw [Nat.sub_eq_zero_of_le hge, max_eq_left]
        · simp
        · have : (a : ℚ) ≤ (k : ℚ) := by exact_mod_cast hge
          have h2 : (a : ℚ) / 2097152 ≤ (k : ℚ) / 2097152 :=
            div_le_div_of_nonneg_right this (by norm_num)
          linarith
    have hrec := ih hts (update lib ids t.env t.late t.timeElapsed m) (a - k) (by omega) hstep
    have hunf : updates lib ids (t :: ts) m =
        updates lib ids ts (update lib ids t.env t.late t.timeElapsed m) := rfl
    have hsum : totalTime (t :: ts) = t.timeElapsed + totalTime ts := by
      simp [totalTime]
    rw [hunf, hrec, hstep, hval, hsum]
    rcases le_total 0 (m.mWarningMessageTimeout - t.timeElapsed) with hc | hc
    · rw [max_eq_right hc]
      congr 1
      ring
    · rw [max_eq_left hc, max_eq_left (by linarith), max_eq_left (by linarith)]

theorem mWarningMessageTimeout_updates_one (lib : MenuLib) (ids : Enumerators) (a : Tick)
    (m : OptionsMenu) :
    (updates lib ids [a] m).mWarningMessageTimeout =
      stepTimeout m.mWarningMessageTimeout a.timeElapsed := by
  rw [mWarningMessageTimeout_updates]
  rfl

theorem mWarningMessageTimeout_updates_four (lib : MenuLib) (ids : Enumerators)
    (a b c d : Tick) (m : OptionsMenu) :
    (updates lib ids [a, b, c, d] m).mWarningMessageTimeout =
      stepTimeout (stepTimeout (stepTimeout (stepTimeout m.mWarningMessageTimeout
        a.timeElapsed) b.timeElapsed) c.timeElapsed) d.timeElapsed := by
  rw [mWarningMessageTimeout_updates]
  rfl

/-- C2, as stated, fails: entered from in-game, the four `update` calls with the elapsed
times `2^-24`, `2^-24`, `2` and `2 - 2^-23` (all of them `float` values, 4 in sum) leave the
timeout at `2^-23`, not at 0.  The first call does not replace the timeout 4 by
`max(0, 4 - 2^-24)`: the `float` subtraction gives 4 again. -/
theorem warning_timeout_outlasts_four_units :
    totalTime [⟨exampleEnv, exampleEnv, 1 / 16777216⟩, ⟨exampleEnv, exampleEnv, 1 / 16777216⟩,
      ⟨exampleEnv, exampleEnv, 2⟩, ⟨exampleEnv, exampleEnv, 2 - 1 / 8388608⟩] = 4 ∧
    (update exampleLib exampleIds exampleEnv exampleEnv (1 / 16777216)
      (setupOptionsMenu exampleLib exampleIds exampleEnv true
        exampleMenu)).mWarningMessageTimeout = 4 ∧
    max (0 : ℚ) (4 - 1 / 16777216) ≠ 4 ∧
    IsFloat32 (1 / 16777216) ∧ IsFloat32 2 ∧ IsFloat32 (2 - 1 / 8388608) ∧
    (updates exampleLib exampleIds
      [⟨exampleEnv, exampleEnv, 1 / 16777216⟩, ⟨exampleEnv, exampleEnv, 1 / 16777216⟩,
        ⟨exampleEnv, exampleEnv, 2⟩, ⟨exampleEnv, exampleEnv, 2 - 1 / 8388608⟩]
      (setupOptionsMenu exampleLib exampleIds exampleEnv true
        exampleMenu)).mWarningMessageTimeout = 1 / 8388608 := by
  have hstay : stepTimeout 4 (1 / 16777216) = 4 := by
    unfold stepTimeout
    rw [if_pos (by norm_num), roundToFloat32_four_minus_small]
    norm_num
  have htwo : stepTimeout 4 2 = 2 := by
    unfold stepTimeout
    rw [if_pos (by norm_num), roundToFloat32_two]
    norm_num
  have hlast : stepTimeout 2 (2 - 1 / 8388608) = 1 / 8388608 := by
    unfold stepTimeout
    rw [if_pos (by norm_num), roundToFloat32_last_bit]
    norm_num
  have hfour : (setupOptionsMenu exampleLib exampleIds exampleEnv true
      exampleMenu).mWarningMessageTimeout = 4 := rfl
  refine ⟨by norm_num [totalTime], ?_, by norm_num,
    ⟨1, -24, by norm_num, by norm_num, by norm_num⟩,
    ⟨1, 1, by norm_num, by norm_num, by norm_num⟩,
    ⟨16777215, -23, by norm_num, by norm_num, by norm_num⟩, ?_⟩
  · rw [mWarningMessageTimeout_update, hfour]
    exact hstay
  · rw [mWarningMessageTimeout_updates_four, hfour]
    exact (congrArg (fun t => stepTimeout (stepTimeout (stepTimeout t (1 / 16777216)) 2)
      (2 - 1 / 8388608)) hstay).trans
      ((congrArg (fun t => stepTimeout (stepTimeout t 2) (2 - 1 / 8388608)) hstay).trans
        ((congrArg (fun t => stepTimeout t (2 - 1 / 8388608)) htwo).trans hlast))

/-- C2, amended: `setupOptionsMenu(true)` sets `mWarningMessageTimeout` to exactly 4 and
`setupOptionsMenu(false)` sets it to 0.  Every later `update(timeElapsed)` with
`timeElapsed >= 0` replaces a positive timeout `t` by `max(0, fl(t - timeElapsed))`, where
`fl` rounds the exact difference to `float`; so after any sequence of such updates the
timeout is not negative and not above its value at `setupOptionsMenu`, the next update does
not increase it, makes it 0 when its elapsed time is at least the timeout, and leaves a
timeout of 0 at 0.  When no difference is rounded, as with elapsed times that are whole
multiples of `2^-21`, the timeout is `max(0, 4 - summed elapsed time)` and so is 0 once the
summed elapsed time is at least 4. -/
theorem warning_timeout_decay (lib : MenuLib) (ids : Enumerators) (env : Env) (m : OptionsMenu)
    (enteredFromIngame : Bool) (ticks : List Tick) (next : Tick)
    (hticks : ∀ t ∈ ticks, 0 ≤ t.timeElapsed) (hnext : 0 ≤ next.timeElapsed) :
    (setupOptionsMenu lib ids env true m).mWarningMessageTimeout = 4 ∧
    (setupOptionsMenu lib ids env false m).mWarningMessageTimeout = 0 ∧
    (∀ m' : OptionsMenu, 0 < m'.mWarningMessageTimeout →
      (update lib ids next.env next.late next.timeElapsed m').mWarningMessageTimeout =
        max 0 (roundToFloat32 (m'.mWarningMessageTimeout - next.timeElapsed))) ∧
    0 ≤ (updates lib ids ticks
      (setupOptionsMenu lib ids env enteredFromIngame m)).mWarningMessageTimeout ∧
    (updates lib ids ticks
      (setupOptionsMenu lib ids env enteredFromIngame m)).mWarningMessageTimeout ≤
      (setupOptionsMenu lib ids env enteredFromIngame m).mWarningMessageTimeout ∧
    (update lib ids next.env next.late next.timeElapsed (updates lib ids ticks
      (setupOptionsMenu lib ids env enteredFromIngame m))).mWarningMessageTimeout ≤
      (updates lib ids ticks
        (setupOptionsMenu lib ids env enteredFromIngame m)).mWarningMessageTimeout ∧
    ((updates lib ids ticks
        (setupOptionsMenu lib ids env enteredFromIngame m)).mWarningMessageTimeout ≤
        next.timeElapsed →
      (update lib ids next.env next.late next.timeElapsed (updates lib ids ticks
        (setupOptionsMenu lib ids env enteredFromIngame m))).mWarningMessageTimeout = 0) ∧
    (∀ m' : OptionsMenu, m'.mWarningMessageTimeout = 0 →
      (update lib ids next.env next.late next.timeElapsed m').mWarningMessageTimeout = 0) ∧
    ((∀ t ∈ ticks, ∃ k : ℕ, t.timeElapsed = (k : ℚ) / 2097152) →
      (updates lib ids ticks
        (setupOptionsMenu lib ids env enteredFromIngame m)).mWarningMessageTimeout =
        max 0 ((setupOptionsMenu lib ids env enteredFromIngame m).mWarningMessageTimeout -
          totalTime ticks) ∧
      (4 ≤ totalTime ticks → (updates lib ids ticks
        (setupOptionsMenu lib ids env enteredFromIngame m)).mWarningMessageTimeout = 0)) := by
  have h0 : 0 ≤ (setupOptionsMenu lib ids env enteredFromIngame m).mWarningMessageTimeout := by
    rw [mWarningMessageTimeout_setupOptionsMenu]; split <;> norm_num
  have hle4 : (setupOptionsMenu lib ids env enteredFromIngame m).mWarningMessageTimeout ≤ 4 := by
    rw [mWarningMessageTimeout_setupOptionsMenu]; split <;> norm_num
  have hf0 : IsFloat32
      (setupOptionsMenu lib ids env enteredFromIngame m).mWarningMessageTimeout := by
    rw [mWarningMessageTimeout_setupOptionsMenu]
    split
    · exact isFloat32_four
    · exact isFloat32_zero
  obtain ⟨r1, r2, r3⟩ := mWarningMessageTimeout_run lib ids ticks hticks _ h0 hf0
  obtain ⟨_, _, s3, s4⟩ := stepTimeout_spec _ next.timeElapsed r1 r2 hnext
  refine ⟨rfl, rfl, ?_, r1, r3, ?_, ?_, ?_, ?_⟩
  · intro m' hpos
    rw [mWarningMessageTimeout_update]
    unfold stepTimeout
    rw [if_pos hpos]
  · rw [mWarningMessageTimeout_update]; exact s3
  · intro hle
    rw [mWarningMessageTimeout_update]; exact s4 hle
  · intro m' hzero
    rw [mWarningMessageTimeout_update, hzero]
    unfold stepTimeout
    rw [if_neg (lt_irrefl 0)]
  · intro hgrid
    have hgridrun : (updates lib ids ticks
        (setupOptionsMenu lib ids env enteredFromIngame m)).mWarningMessageTimeout =
        max 0 ((setupOptionsMenu lib ids env enteredFromIngame m).mWarningMessageTimeout -
          totalTime ticks) := by
      cases enteredFromIngame
      · exact mWarningMessageTimeout_run_grid lib ids ticks hgrid _ 0 (by norm_num)
          (by rw [mWarningMessageTimeout_setupOptionsMenu]; norm_num)
      · exact mWarningMessageTimeout_run_grid lib ids ticks hgrid _ 8388608 (by norm_num)
          (by rw [mWarningMessageTimeout_setupOptionsMenu]; norm_num)
    refine ⟨hgridrun, fun hsum => ?_⟩
    rw [hgridrun]
    exact max_eq_left (by linarith)

/-- The amended C2 on a concrete run, entered from in-game: after one frame of 1.5 time
units the timeout is at most 2.5, and a next frame of 2.5 time units makes it 0; two frames of
2.5 time units, multiples of `2^-21`, sum up to at least 4 and leave the timeout 0. -/
theorem warning_timeout_decay_witness :
    (updates exampleLib exampleIds [⟨exampleEnv, exampleEnv, 3 / 2⟩]
      (setupOptionsMenu exampleLib exampleIds exampleEnv true exampleMenu)).mWarningMessageTimeout
      ≤ 5 / 2 ∧
    (update exampleLib exampleIds exampleEnv exampleEnv (5 / 2)
      (updates exampleLib exampleIds [⟨exampleEnv, exampleEnv, 3 / 2⟩]
        (setupOptionsMenu exampleLib exampleIds exampleEnv true
          exampleMenu))).mWarningMessageTimeout = 0 ∧
    (updates exampleLib exampleIds
      [⟨exampleEnv, exampleEnv, 5 / 2⟩, ⟨exampleEnv, exampleEnv, 5 / 2⟩]
      (setupOptionsMenu exampleLib exampleIds exampleEnv true exampleMenu)).mWarningMessageTimeout
      = 0 :=
  have hrun : (updates exampleLib exampleIds [⟨exampleEnv, exampleEnv, 3 / 2⟩]
      (setupOptionsMenu exampleLib exampleIds exampleEnv true
        exampleMenu)).mWarningMessageTimeout ≤ 5 / 2 := by
    have hfour : (setupOptionsMenu exampleLib exampleIds exampleEnv true
        exampleMenu).mWarningMessageTimeout = 4 := rfl
    have hround : roundToFloat32 (4 - 3 / 2) = 5 / 2 := by
      rw [roundToFloat32_of_binade _ 1 (by norm_num) (by norm_num) (by norm_num)]
      have : ((4 : ℚ) - 3 / 2) / 2 ^ ((1 : ℤ) - 23) = ((10485760 : ℤ) : ℚ) := by norm_num
      rw [this, roundHalfEven_intCast]
      norm_num
    have hstep : stepTimeout 4 (3 / 2) = 5 / 2 := by
      unfold stepTimeout
      rw [if_pos (by norm_num), hround]
      norm_num
    rw [mWarningMessageTimeout_updates_one, hfour]
    exact le_of_eq hstep
  ⟨hrun,
    (warning_timeout_decay exampleLib exampleIds exampleEnv exampleMenu true
      [⟨exampleEnv, exampleEnv, 3 / 2⟩] ⟨exampleEnv, exampleEnv, 5 / 2⟩
      (by intro t ht; simp at ht; subst ht; norm_num)
      (by norm_num)).2.2.2.2.2.2.1 hrun,
    ((warning_timeout_decay exampleLib exampleIds exampleEnv exampleMenu true
      [⟨exampleEnv, exampleEnv, 5 / 2⟩, ⟨exampleEnv, exampleEnv, 5 / 2⟩]
      ⟨exampleEnv, exampleEnv, 0⟩
      (by intro t ht; simp at ht; subst ht; norm_num)
      (le_refl 0)).2.2.2.2.2.2.2.2
      (by intro t ht; simp at ht; subst ht; exact ⟨5242880, by norm_num⟩)).2
      (by norm_num [totalTime])⟩

end OptionsMenu

namespace OptionsMenu

/-! ### The Mods tab -/

theorem addModSetting_next (st : ModsLoop) (s : ModSetting) :
    (addModSetting st s).nextOptionId = (st.nextOptionId + 1) % 2 ^ 32 := rfl

theorem foldl_addModSetting_next (settings : List ModSetting) (st : ModsLoop)
    (h : st.nextOptionId < 2 ^ 32) :
    (settings.foldl addModSetting st).nextOptionId =
      (st.nextOptionId + settings.length) % 2 ^ 32 := by
  induction settings generalizing st with
  | nil => simpa using (Nat.mod_eq_of_lt h).symm
  | cons s ss ih =>
    simp only [List.foldl_cons, List.length_cons]
    rw [ih _ (by rw [addModSetting_next]; exact Nat.mod_lt _ (by norm_num)), addModSetting_next]
    omega

theorem addModCategory_next (n : Nat) (st : ModsLoop) (c : ModSettingCategory)
    (h : st.nextOptionId < 2 ^ 32) :
    (addModCategory n st c).nextOptionId = (st.nextOptionId + c.mSettings.length) % 2 ^ 32 := by
  unfold addModCategory
  simp only []
  generalize (if c.displayNameEmpty = true then decide (n ≥ 2) else true) = b
  cases b
  · simpa using foldl_addModSetting_next c.mSettings st h
  · simpa using foldl_addModSetting_next c.mSettings
      { st with entries := st.entries ++ [GameMenuEntry.create EntryKind.TitleMenuEntry 0] } h

theorem foldl_addModCategory_next (n : Nat) (cats : List ModSettingCategory) (st : ModsLoop)
    (h : st.nextOptionId < 2 ^ 32) :
    (cats.foldl (addModCategory n) st).nextOptionId =
      (st.nextOptionId + (cats.map (fun c => c.mSettings.length)).sum) % 2 ^ 32 := by
  induction cats generalizing st with
  | nil => simpa using (Nat.mod_eq_of_lt h).symm
  | cons c cs ih =>
    simp only [List.foldl_cons, List.map_cons, List.sum_cons]
    rw [ih _ (by rw [addModCategory_next _ _ _ h]; exact Nat.mod_lt _ (by norm_num)),
      addModCategory_next _ _ _ h]
    omega

theorem addMod_next (st : ModsLoop) (mod : Mod) (h : st.nextOptionId < 2 ^ 32) :
    (addMod st mod).nextOptionId = (st.nextOptionId + settingCountOf mod) % 2 ^ 32 := by
  unfold addMod
  split
  · rename_i hempty
    have : mod.mSettingCategories = [] := by simpa using hempty
    simpa [settingCountOf, this] using (Nat.mod_eq_of_lt h).symm
  · simp only []
    rw [foldl_addModCategory_next _ _ _ (by exact h)]
    rfl

theorem foldl_addMod_next (mods : List Mod) (st : ModsLoop) (h : st.nextOptionId < 2 ^ 32) :
    (mods.foldl addMod st).nextOptionId =
      (st.nextOptionId + (mods.map settingCountOf).sum) % 2 ^ 32 := by
  induction mods generalizing st with
  | nil => simpa using (Nat.mod_eq_of_lt h).symm
  | cons c cs ih =>
    simp only [List.foldl_cons, List.map_cons, List.sum_cons]
    rw [ih _ (by rw [addMod_next _ _ h]; exact Nat.mod_lt _ (by norm_num)), addMod_next _ _ h]
    omega

/-- The counter `nextOptionId` after the loop over the active mods: one step per mod setting,
in 32 bit arithmetic. -/
theorem addMods_next (mods : List Mod) (st : ModsLoop) (h : st.nextOptionId < 2 ^ 32) :
    (addMods st mods).nextOptionId = (st.nextOptionId + modSettingCount mods) % 2 ^ 32 := by
  unfold addMods modSettingCount
  rw [foldl_addMod_next _ _ h, List.map_reverse, List.sum_reverse]

end OptionsMenu
namespace OptionsMenu

/-- The two members the visibility of the Mods tab depends on. -/
theorem titleRow_modifyOptionMenuEntry (m : OptionsMenu) (id : Nat)
    (f : GameMenuEntry → GameMenuEntry) :
    (m.modifyOptionMenuEntry id f).mHasAnyModOptions = m.mHasAnyModOptions ∧
    (m.modifyOptionMenuEntry id f).mTabMenuEntries = m.mTabMenuEntries := by
  unfold modifyOptionMenuEntry
  split <;> exact ⟨rfl, rfl⟩

theorem titleRow_refreshGamepadLists (lib : MenuLib) (env : Env) (force : Bool)
    (m : OptionsMenu) :
    (refreshGamepadLists lib env force m).mHasAnyModOptions = m.mHasAnyModOptions ∧
    (refreshGamepadLists lib env force m).mTabMenuEntries = m.mTabMenuEntries := by
  have hp : ∀ (a : OptionsMenu) (k : Nat),
      (refreshGamepadPlayer lib env a k).mHasAnyModOptions = a.mHasAnyModOptions ∧
      (refreshGamepadPlayer lib env a k).mTabMenuEntries = a.mTabMenuEntries := by
    intro a k
    unfold refreshGamepadPlayer
    split <;> exact ⟨rfl, rfl⟩
  unfold refreshGamepadLists
  split
  · simp only [List.range, List.range.loop, List.foldl, hp]
    exact ⟨rfl, rfl⟩
  · exact ⟨rfl, rfl⟩

theorem titleRow_hideWindowModeOptions (lib : MenuLib) (ids : Enumerators) (m : OptionsMenu) :
    (hideWindowModeOptions lib ids m).mHasAnyModOptions = m.mHasAnyModOptions ∧
    (hideWindowModeOptions lib ids m).mTabMenuEntries = m.mTabMenuEntries := by
  unfold hideWindowModeOptions
  split
  · rw [(titleRow_modifyOptionMenuEntry _ _ _).1, (titleRow_modifyOptionMenuEntry _ _ _).2,
      (titleRow_modifyOptionMenuEntry _ _ _).1, (titleRow_modifyOptionMenuEntry _ _ _).2]
    exact ⟨rfl, rfl⟩
  · exact ⟨rfl, rfl⟩

/-- Value of `mHasAnyModOptions` after `initialize`: the counter has moved. -/
theorem mHasAnyModOptions_initializeMenu (lib : MenuLib) (ids : Enumerators) (env : Env)
    (m : OptionsMenu) :
    (initializeMenu lib ids env m).mHasAnyModOptions =
      decide (((ids._NUM + 1) % 2 ^ 32 + modSettingCount env.activeMods) % 2 ^ 32 >
        (ids._NUM + 1) % 2 ^ 32) := by
  have hres : ∀ x : OptionsMenu, (rememberEntryState env x).mHasAnyModOptions =
      x.mHasAnyModOptions := fun _ => rfl
  have hmod : ∀ (x : OptionsMenu) r f, (x.modifyEntry r f).mHasAnyModOptions =
      x.mHasAnyModOptions := fun _ _ _ => rfl
  have hfill : ∀ x : OptionsMenu, (fillSoundTest lib ids env x).mHasAnyModOptions =
      x.mHasAnyModOptions := by
    intro x
    unfold fillSoundTest
    simp only []
    rw [(titleRow_modifyOptionMenuEntry _ _ _).1]
  have hrebuild : (rebuildModsTab ids env m).mHasAnyModOptions =
      decide ((addMods
        { entries := ((m.mTabs.getD ids.Tab_MODS ⟨[], 0⟩).mEntries).take 1
          optionEntries := resizeList ((ids._NUM + 1) % 2 ^ 32) OptionEntry.empty m.mOptionEntries
          nextOptionId := (ids._NUM + 1) % 2 ^ 32 } env.activeMods).nextOptionId >
        (ids._NUM + 1) % 2 ^ 32) := rfl
  unfold initializeMenu
  simp only []
  rw [hres, (titleRow_refreshGamepadLists _ _ _ _).1, hfill, hmod, hrebuild, addMods_next]
  exact Nat.mod_lt _ (by norm_num)

/-- The choices of the tab-title entry are not changed by `initialize`. -/
theorem tabTitleOptions_initializeMenu (lib : MenuLib) (ids : Enumerators) (env : Env)
    (m : OptionsMenu) :
    ((initializeMenu lib ids env m).mTabMenuEntries.entry 0).mOptions =
      (m.mTabMenuEntries.entry 0).mOptions ∧
    ((initializeMenu lib ids env m).mTabMenuEntries.mEntries = [] ↔
      m.mTabMenuEntries.mEntries = []) := by
  have hres : ∀ x : OptionsMenu, (rememberEntryState env x).mTabMenuEntries =
      x.mTabMenuEntries := fun _ => rfl
  have hmod : ∀ (x : OptionsMenu) r f, (x.modifyEntry r f).mTabMenuEntries =
      x.mTabMenuEntries := fun _ _ _ => rfl
  have hfill : ∀ x : OptionsMenu, (fillSoundTest lib ids env x).mTabMenuEntries =
      x.mTabMenuEntries := by
    intro x
    unfold fillSoundTest
    simp only []
    rw [(titleRow_modifyOptionMenuEntry _ _ _).2]
  have hrebuild : (rebuildModsTab ids env m).mTabMenuEntries =
      { m.mTabMenuEntries with
        mEntries := modifyAt (fun e => { e with mSelectedIndex := m.mActiveTab }) 0
          m.mTabMenuEntries.mEntries } := rfl
  unfold initializeMenu
  simp only []
  rw [hres, (titleRow_refreshGamepadLists _ _ _ _).2, hfill, hmod, hrebuild]
  cases h : m.mTabMenuEntries.mEntries with
  | nil => simp [GameMenuEntries.entry, modifyAt, h]
  | cons a l => simp [GameMenuEntries.entry, modifyAt, h]

/-- Visibility of the Mods tab after `setupOptionsMenu`, when the tab-title entry has a
choice for the Mods tab and the Mods and System tabs are different tabs. -/
theorem modsTabVisible_setupOptionsMenu (lib : MenuLib) (ids : Enumerators) (env : Env)
    (e : Bool) (m : OptionsMenu) (hentry : m.mTabMenuEntries.mEntries ≠ [])
    (hopt : ids.Tab_MODS < (m.mTabMenuEntries.entry 0).mOptions.length)
    (hne : ids.Tab_MODS ≠ ids.Tab_SYSTEM) :
    modsTabVisible ids (setupOptionsMenu lib ids env e m) = some (!e && m.mHasAnyModOptions) := by
  have h1 : (setupOptionsMenu lib ids env e m).mTabMenuEntries =
      (setupTabs lib ids e (hideWindowModeOptions lib ids
        (setupConditionalOptions lib ids env e (setEnteredFromIngame e m)))).mTabMenuEntries := by
    unfold setupOptionsMenu sanitizeActiveTab focusTitleIfSelected
    simp only []
    unfold resetWarnings
    split <;> rfl
  have h2 := titleRow_hideWindowModeOptions lib ids
    (setupConditionalOptions lib ids env e (setEnteredFromIngame e m))
  have h3 : (setupConditionalOptions lib ids env e (setEnteredFromIngame e m)).mTabMenuEntries =
      m.mTabMenuEntries := rfl
  have h4 : (setupConditionalOptions lib ids env e (setEnteredFromIngame e m)).mHasAnyModOptions =
      m.mHasAnyModOptions := rfl
  unfold modsTabVisible
  rw [h1]
  unfold setupTabs
  simp only []
  rw [h2.1, h2.2, h3, h4]
  cases hl : m.mTabMenuEntries.mEntries with
  | nil => exact absurd hl hentry
  | cons a l =>
    have ha : m.mTabMenuEntries.entry 0 = a := by simp [GameMenuEntries.entry, hl]
    rw [ha] at hopt ⊢
    have hne' : ¬ (ids.Tab_MODS = ids.Tab_SYSTEM) := hne
    simp [GameMenuEntries.entry, modifyAt, setupTabEntry, setOptionVisible, getElem?_modifyAt,
      hne', List.getElem?_eq_getElem hopt]

end OptionsMenu
namespace OptionsMenu

theorem length_modifyAt {α : Type} (f : α → α) (n : Nat) (l : List α) :
    (modifyAt f n l).length = l.length := by
  induction l generalizing n with
  | nil => cases n <;> rfl
  | cons a l ih => cases n <;> simp [modifyAt, ih]

theorem length_registerEntries (tab : Nat) (entries : List GameMenuEntry)
    (oes : List OptionEntry) : (registerEntries tab entries oes).length = oes.length := by
  unfold registerEntries
  generalize List.range entries.length = ks
  induction ks generalizing oes with
  | nil => rfl
  | cons k ks ih => simp only [List.foldl_cons]; rw [ih, length_modifyAt]

theorem length_foldl_addModSetting (settings : List ModSetting) (st : ModsLoop) :
    (settings.foldl addModSetting st).optionEntries.length =
      st.optionEntries.length + settings.length := by
  induction settings generalizing st with
  | nil => rfl
  | cons s ss ih =>
    simp only [List.foldl_cons, List.length_cons]
    rw [ih]
    simp [addModSetting]
    omega

theorem length_addModCategory (n : Nat) (st : ModsLoop) (c : ModSettingCategory) :
    (addModCategory n st c).optionEntries.length =
      st.optionEntries.length + c.mSettings.length := by
  unfold addModCategory
  simp only []
  generalize (if c.displayNameEmpty = true then decide (n ≥ 2) else true) = b
  cases b
  · simpa using length_foldl_addModSetting c.mSettings st
  · simpa using length_foldl_addModSetting c.mSettings
      { st with entries := st.entries ++ [GameMenuEntry.create EntryKind.TitleMenuEntry 0] }

theorem length_foldl_addModCategory (n : Nat) (cats : List ModSettingCategory) (st : ModsLoop) :
    (cats.foldl (addModCategory n) st).optionEntries.length =
      st.optionEntries.length + (cats.map (fun c => c.mSettings.length)).sum := by
  induction cats generalizing st with
  | nil => rfl
  | cons c cs ih =>
    simp only [List.foldl_cons, List.map_cons, List.sum_cons]
    rw [ih, length_addModCategory]
    omega

theorem length_addMod (st : ModsLoop) (mod : Mod) :
    (addMod st mod).optionEntries.length = st.optionEntries.length + settingCountOf mod := by
  unfold addMod
  split
  · rename_i hempty
    have : mod.mSettingCategories = [] := by simpa using hempty
    simp [settingCountOf, this]
  · simp only []
    rw [length_foldl_addModCategory]
    rfl

theorem length_foldl_addMod (mods : List Mod) (st : ModsLoop) :
    (mods.foldl addMod st).optionEntries.length =
      st.optionEntries.length + (mods.map settingCountOf).sum := by
  induction mods generalizing st with
  | nil => rfl
  | cons c cs ih =>
    simp only [List.foldl_cons, List.map_cons, List.sum_cons]
    rw [ih, length_addMod]
    omega

theorem length_resizeList {α : Type} (n : Nat) (d : α) (l : List α) :
    (resizeList n d l).length = n := by
  unfold resizeList
  simp
  omega

theorem mOptionEntries_refreshGamepadLists (lib : MenuLib) (env : Env) (force : Bool)
    (m : OptionsMenu) :
    (refreshGamepadLists lib env force m).mOptionEntries = m.mOptionEntries := by
  have hp : ∀ (a : OptionsMenu) (k : Nat),
      (refreshGamepadPlayer lib env a k).mOptionEntries = a.mOptionEntries := by
    intro a k
    unfold refreshGamepadPlayer
    split <;> rfl
  unfold refreshGamepadLists
  split
  · simp only [List.range, List.range.loop, List.foldl, hp]
    rfl
  · rfl

/-- After `initialize`, `mOptionEntries` holds the `option::_NUM + 1` fixed elements followed
by one element per mod setting. -/
theorem length_mOptionEntries_initializeMenu (lib : MenuLib) (ids : Enumerators) (env : Env)
    (m : OptionsMenu) :
    (initializeMenu lib ids env m).mOptionEntries.length =
      (ids._NUM + 1) % 2 ^ 32 + modSettingCount env.activeMods := by
  have hres : ∀ x : OptionsMenu, (rememberEntryState env x).mOptionEntries =
      x.mOptionEntries := fun _ => rfl
  have hmod : ∀ (x : OptionsMenu) r f, (x.modifyEntry r f).mOptionEntries =
      x.mOptionEntries := fun _ _ _ => rfl
  have hfill : ∀ x : OptionsMenu, (fillSoundTest lib ids env x).mOptionEntries =
      x.mOptionEntries := by
    intro x
    unfold fillSoundTest
    simp only []
    rw [mOptionEntries_modifyOptionMenuEntry]
  have hrebuild : (rebuildModsTab ids env m).mOptionEntries =
      registerEntries ids.Tab_MODS
        (addMods
          { entries := ((m.mTabs.getD ids.Tab_MODS ⟨[], 0⟩).mEntries).take 1
            optionEntries :=
              resizeList ((ids._NUM + 1) % 2 ^ 32) OptionEntry.empty m.mOptionEntries
            nextOptionId := (ids._NUM + 1) % 2 ^ 32 } env.activeMods).entries
        (addMods
          { entries := ((m.mTabs.getD ids.Tab_MODS ⟨[], 0⟩).mEntries).take 1
            optionEntries :=
              resizeList ((ids._NUM + 1) % 2 ^ 32) OptionEntry.empty m.mOptionEntries
            nextOptionId := (ids._NUM + 1) % 2 ^ 32 } env.activeMods).optionEntries := rfl
  unfold initializeMenu
  simp only []
  rw [hres, mOptionEntries_refreshGamepadLists, hfill, hmod, hrebuild, length_registerEntries]
  unfold addMods modSettingCount
  rw [length_foldl_addMod, List.map_reverse, List.sum_reverse]
  simp only [length_resizeList]

/-- C3: when `initialize()` runs with an empty list of active mods, and more generally when
no setting of any active mod is added, `mHasAnyModOptions` is false and after
`setupOptionsMenu(enteredFromIngame)` the visibility flag of the Mods tab is false for both
values of `enteredFromIngame`.  In general the Mods tab is visible if and only if
`enteredFromIngame` is false and at least one mod setting entry was created; the number of
mod setting entries created is the number of elements `initialize` appends to
`mOptionEntries` (it fits the 32 bit counter `nextOptionId`). -/
theorem mods_tab_visibility (lib : MenuLib) (ids : Enumerators) (env envSetup : Env)
    (m : OptionsMenu) (hentry : m.mTabMenuEntries.mEntries ≠ [])
    (hopt : ids.Tab_MODS < (m.mTabMenuEntries.entry 0).mOptions.length)
    (hne : ids.Tab_MODS ≠ ids.Tab_SYSTEM) :
    (env.activeMods = [] ∨ modSettingCount env.activeMods = 0 →
      (initializeMenu lib ids env m).mHasAnyModOptions = false ∧
      ∀ enteredFromIngame : Bool,
        modsTabVisible ids (setupOptionsMenu lib ids envSetup enteredFromIngame
          (initializeMenu lib ids env m)) = some false) ∧
    (initializeMenu lib ids env m).mOptionEntries.length =
      (ids._NUM + 1) % 2 ^ 32 + modSettingCount env.activeMods ∧
    (ids._NUM + 1 + modSettingCount env.activeMods < 2 ^ 32 →
      ∀ enteredFromIngame : Bool,
        (modsTabVisible ids (setupOptionsMenu lib ids envSetup enteredFromIngame
          (initializeMenu lib ids env m)) = some true ↔
          enteredFromIngame = false ∧ 0 < modSettingCount env.activeMods)) := by
  have htitle := tabTitleOptions_initializeMenu lib ids env m
  have hentry' : (initializeMenu lib ids env m).mTabMenuEntries.mEntries ≠ [] :=
    fun h => hentry (htitle.2.1 h)
  have hopt' : ids.Tab_MODS <
      ((initializeMenu lib ids env m).mTabMenuEntries.entry 0).mOptions.length := by
    rw [htitle.1]; exact hopt
  have hvis : ∀ e : Bool, modsTabVisible ids (setupOptionsMenu lib ids envSetup e
      (initializeMenu lib ids env m)) =
      some (!e && (initializeMenu lib ids env m).mHasAnyModOptions) :=
    fun e => modsTabVisible_setupOptionsMenu lib ids envSetup e _ hentry' hopt' hne
  have hflag := mHasAnyModOptions_initializeMenu lib ids env m
  refine ⟨?_, length_mOptionEntries_initializeMenu lib ids env m, ?_⟩
  · intro h0
    have hcount : modSettingCount env.activeMods = 0 := by
      rcases h0 with h | h
      · rw [h]; rfl
      · exact h
    have hfalse : (initializeMenu lib ids env m).mHasAnyModOptions = false := by
      rw [hflag, hcount]
      simp
    refine ⟨hfalse, fun e => ?_⟩
    rw [hvis e, hfalse]
    simp
  · intro hsmall e
    have hflag' : (initializeMenu lib ids env m).mHasAnyModOptions =
        decide (0 < modSettingCount env.activeMods) := by
      rw [hflag]
      congr 1
      apply propext
      have h1 : (ids._NUM + 1) % 2 ^ 32 = ids._NUM + 1 := Nat.mod_eq_of_lt (by omega)
      rw [h1, Nat.mod_eq_of_lt hsmall]
      omega
    rw [hvis e, hflag']
    cases e <;> simp

/-- C3 on a concrete menu with one active mod that has one setting: the Mods tab is shown
when the menu is entered from the main menu. -/
theorem mods_tab_visibility_witness :
    modsTabVisible exampleIds (setupOptionsMenu exampleLib exampleIds exampleEnv false
      (initializeMenu exampleLib exampleIds
        { exampleEnv with activeMods := [⟨[⟨false, [⟨[0, 1]⟩]⟩]⟩] } exampleMenu)) = some true :=
  ((mods_tab_visibility exampleLib exampleIds
      { exampleEnv with activeMods := [⟨[⟨false, [⟨[0, 1]⟩]⟩]⟩] } exampleEnv exampleMenu
      (by decide) (by decide) (by decide)).2.2 (by decide) false).2 ⟨rfl, by decide⟩

end OptionsMenu

namespace OptionsMenu

/-! ### The menu state across `update` -/

@[simp] theorem mState_ite {c : Prop} [Decidable c] (a b : OptionsMenu) :
    (if c then a else b).mState = if c then a.mState else b.mState := by
  split <;> rfl

@[simp] theorem mState_call (m : OptionsMenu) (c : Call) : (m.call c).mState = m.mState := rfl

@[simp] theorem mState_setState (m : OptionsMenu) (s : State) : (setState s m).mState = s := rfl

@[simp] theorem mState_setActiveMenu (m : OptionsMenu) (a : ActiveMenu) :
    (setActiveMenu a m).mState = m.mState := rfl

@[simp] theorem mState_takeOverSelectedTab (ids : Enumerators) (m : OptionsMenu) :
    (takeOverSelectedTab ids m).mState = m.mState := rfl

@[simp] theorem mState_setPlayingSoundTest (m : OptionsMenu) (a : Option AudioDefinition) :
    (setPlayingSoundTest a m).mState = m.mState := rfl

@[simp] theorem mState_setVisibility (m : OptionsMenu) (v : ℚ) :
    (setVisibility v m).mState = m.mState := rfl

@[simp] theorem mState_updateTimeouts (m : OptionsMenu) (dt : ℚ) :
    (updateTimeouts dt m).mState = m.mState := rfl

@[simp] theorem mState_animateActiveTab (m : OptionsMenu) (dt : ℚ) :
    (animateActiveTab dt m).mState = m.mState := rfl

@[simp] theorem mState_showAudioWarning (ids : Enumerators) (d : Nat) (m : OptionsMenu) :
    (showAudioWarning ids d m).mState = m.mState := by
  unfold showAudioWarning
  split <;> rfl

@[simp] theorem mState_modifyEntry (m : OptionsMenu) (r : EntryRef)
    (f : GameMenuEntry → GameMenuEntry) : (m.modifyEntry r f).mState = m.mState := rfl

@[simp] theorem mState_modifyOptionMenuEntry (m : OptionsMenu) (id : Nat)
    (f : GameMenuEntry → GameMenuEntry) : (m.modifyOptionMenuEntry id f).mState = m.mState := by
  unfold modifyOptionMenuEntry
  split <;> rfl

@[simp] theorem mState_loadOptionValue (lib : MenuLib) (env : Env) (id : Nat) (m : OptionsMenu) :
    (loadOptionValue lib env id m).mState = m.mState := by
  unfold loadOptionValue
  split
  · split <;> rfl
  · rfl

@[simp] theorem mState_syncDisplayedValues (lib : MenuLib) (ids : Enumerators) (env : Env)
    (m : OptionsMenu) : (syncDisplayedValues lib ids env m).mState = m.mState := by
  simp [syncDisplayedValues]

@[simp] theorem mState_setActiveEntries (m : OptionsMenu) (es : GameMenuEntries) :
    (m.setActiveEntries es).mState = m.mState := by
  unfold setActiveEntries
  split <;> rfl

@[simp] theorem mState_switchToTabContent (m : OptionsMenu) :
    (switchToTabContent m).mState = m.mState := by
  simp [switchToTabContent]

@[simp] theorem mState_enterTabContent (env : Env) (m : OptionsMenu) :
    (enterTabContent env m).mState = m.mState := by
  unfold enterTabContent
  simp

@[simp] theorem mState_playSoundtest (a : Int) (d : AudioDefinition) (m : OptionsMenu) :
    (playSoundtest a d m).mState = m.mState := by
  unfold playSoundtest
  simp

@[simp] theorem mState_restartMusic (a : Int) (m : OptionsMenu) :
    (restartMusic a m).mState = m.mState := by
  unfold restartMusic
  simp only []
  split <;> simp

@[simp] theorem mState_applyValue (d : Nat) (m : OptionsMenu) :
    (applyValue d m).mState = m.mState := rfl

@[simp] theorem mState_applyGenericValue (ids : Enumerators) (e : GameMenuEntry)
    (m : OptionsMenu) : (applyGenericValue ids e m).mState = m.mState := by
  unfold applyGenericValue
  simp

@[simp] theorem mState_applyDefaultChange (ids : Enumerators) (e : GameMenuEntry)
    (m : OptionsMenu) : (applyDefaultChange ids e m).mState = m.mState := by
  unfold applyDefaultChange
  simp

@[simp] theorem mState_changeSoundtrack (env : Env) (e : GameMenuEntry) (m : OptionsMenu) :
    (changeSoundtrack env e m).mState = m.mState := by
  unfold changeSoundtrack
  simp

@[simp] theorem mState_applyOptionChange (ids : Enumerators) (env : Env) (e : GameMenuEntry)
    (m : OptionsMenu) : (applyOptionChange ids env e m).mState = m.mState := by
  unfold applyOptionChange
  simp

@[simp] theorem mState_reactInsideTab (ids : Enumerators) (env : Env) (r : UpdateResult)
    (m : OptionsMenu) : (reactInsideTab ids env r m).mState = m.mState := by
  unfold reactInsideTab
  simp

@[simp] theorem mState_reactToUpdateResult (ids : Enumerators) (env : Env) (r : UpdateResult)
    (m : OptionsMenu) : (reactToUpdateResult ids env r m).mState = m.mState := by
  unfold reactToUpdateResult
  simp

@[simp] theorem mState_handleMenuUpdate (lib : MenuLib) (ids : Enumerators) (env : Env)
    (m : OptionsMenu) : (handleMenuUpdate lib ids env m).mState = m.mState := by
  unfold handleMenuUpdate
  simp

@[simp] theorem mState_acceptSoundtrackDownload (late : Env) (m : OptionsMenu) :
    (acceptSoundtrackDownload late m).mState = m.mState := by
  unfold acceptSoundtrackDownload
  simp

@[simp] theorem mState_acceptSoundTest (late : Env) (e : GameMenuEntry) (m : OptionsMenu) :
    (acceptSoundTest late e m).mState = m.mState := by
  unfold acceptSoundTest
  split <;> simp

@[simp] theorem mState_updateInteractable (ids : Enumerators) (late : Env) (m : OptionsMenu) :
    (updateInteractable ids late m).mState = m.mState := by
  simp [updateInteractable]

@[simp] theorem mState_refreshGamepadLists (lib : MenuLib) (env : Env) (force : Bool)
    (m : OptionsMenu) : (refreshGamepadLists lib env force m).mState = m.mState := by
  have hp : ∀ (a : OptionsMenu) (k : Nat),
      (refreshGamepadPlayer lib env a k).mState = a.mState := by
    intro a k
    unfold refreshGamepadPlayer
    split <;> rfl
  unfold refreshGamepadLists
  split
  · simp only [List.range, List.range.loop, List.foldl, hp]
    rfl
  · rfl

/-- `goBack` switches to the fade-out state chosen by `mEnteredFromIngame`. -/
theorem mState_goBack (env : Env) (m : OptionsMenu) :
    (goBack env m).mState = fadeOutState m := by
  have h := congrArg Frame.mEnteredFromIngame (frame_reloadScriptsIfChanged env
    (((stopSoundTest (m.call (Call.playMenuSound 0xad))).call
      Call.copyModSettingsToConfig).call Call.saveSettings))
  have h2 := congrArg Frame.mEnteredFromIngame (frame_stopSoundTest
    (m.call (Call.playMenuSound 0xad)))
  simp only [frame, frame_call] at h h2
  unfold goBack startFadeOut fadeOutState
  simp only [mState_setState]
  have h3 : ∀ (x : OptionsMenu) (c : Call), (x.call c).mEnteredFromIngame =
      x.mEnteredFromIngame := fun _ _ => rfl
  rw [h3, h, h3, h3, h2, h3]

/-- `goBack` records the call of `GameApp::onExitOptions`. -/
theorem onExitOptions_mem_goBack (env : Env) (m : OptionsMenu) :
    Call.onExitOptions ∈ (goBack env m).mCalls := by
  unfold goBack startFadeOut setState
  simp [call]

end OptionsMenu
namespace OptionsMenu

theorem mEnteredFromIngame_of_frame {a b : OptionsMenu} (h : frame a = frame b) :
    a.mEnteredFromIngame = b.mEnteredFromIngame :=
  congrArg Frame.mEnteredFromIngame h

theorem mVisibility_of_frame {a b : OptionsMenu} (h : frame a = frame b) :
    a.mVisibility = b.mVisibility :=
  congrArg Frame.mVisibility h

/-- Pressing accept inside a tab either keeps the state, or runs `goBack`. -/
theorem mState_acceptSelectedEntry (ids : Enumerators) (late : Env) (e : GameMenuEntry)
    (m : OptionsMenu) :
    (acceptSelectedEntry ids late e m).mState = m.mState ∨
      acceptSelectedEntry ids late e m = goBack late m := by
  unfold acceptSelectedEntry
  simp only []
  split_ifs <;> first | (left; simp) | (right; rfl)

/-- The accept and back buttons either keep the state, or run `goBack`. -/
theorem mState_handleButtons (ids : Enumerators) (env late : Env) (m : OptionsMenu) :
    (handleButtons ids env late m).mState = m.mState ∨
      handleButtons ids env late m = goBack late m := by
  unfold handleButtons
  split
  · left; rfl
  · right; rfl
  · split
    · exact mState_acceptSelectedEntry ids late _ m
    · left; rfl

/-- Input handling keeps the state, or it runs `goBack` in state `SHOW`, which records the
exit and switches to the fade-out state. -/
theorem mState_handleInput (lib : MenuLib) (ids : Enumerators) (env late : Env)
    (m : OptionsMenu) :
    (handleInput lib ids env late m).mState = m.mState ∨
      (m.mState = State.SHOW ∧ env.controllerSetupMenuVisible = false ∧
        (handleInput lib ids env late m).mState = fadeOutState m ∧
        Call.onExitOptions ∈ (handleInput lib ids env late m).mCalls) := by
  unfold handleInput
  split
  · rename_i hc
    rcases mState_handleButtons ids env late
      (handleMenuUpdate lib ids env (enterTabContent env (syncDisplayedValues lib ids env m)))
      with h | h
    · left
      rw [h]
      simp
    · right
      refine ⟨hc.1, hc.2, ?_, ?_⟩
      · rw [h, mState_goBack]
        unfold fadeOutState
        rw [mEnteredFromIngame_of_frame (frame_handleMenuUpdate _ _ _ _),
          mEnteredFromIngame_of_frame (frame_enterTabContent _ _),
          mEnteredFromIngame_of_frame (frame_syncDisplayedValues _ _ _ _)]
      · rw [h]
        exact onExitOptions_mem_goBack _ _
  · left; rfl

theorem mCalls_modifyOptionMenuEntry (m : OptionsMenu) (id : Nat)
    (f : GameMenuEntry → GameMenuEntry) : (m.modifyOptionMenuEntry id f).mCalls = m.mCalls := by
  unfold modifyOptionMenuEntry
  split <;> rfl

theorem mCalls_updateInteractable (ids : Enumerators) (late : Env) (m : OptionsMenu) :
    (updateInteractable ids late m).mCalls = m.mCalls := by
  unfold updateInteractable
  simp only []
  rw [mCalls_modifyOptionMenuEntry, mCalls_modifyOptionMenuEntry]

theorem mCalls_refreshGamepadLists (lib : MenuLib) (env : Env) (force : Bool)
    (m : OptionsMenu) : (refreshGamepadLists lib env force m).mCalls = m.mCalls := by
  have hp : ∀ (a : OptionsMenu) (k : Nat),
      (refreshGamepadPlayer lib env a k).mCalls = a.mCalls := by
    intro a k
    unfold refreshGamepadPlayer
    split <;> rfl
  unfold refreshGamepadLists
  split
  · simp only [List.range, List.range.loop, List.foldl, hp]
    rfl
  · rfl

theorem mem_mCalls_updateFading (dt : ℚ) (m : OptionsMenu) (c : Call) (h : c ∈ m.mCalls) :
    c ∈ (updateFading dt m).mCalls := by
  unfold updateFading finishAppear finishFadeOut
  split_ifs <;> simp [setState, setVisibility, call, h]

/-- Calls recorded by the input handling are still on record at the end of `update`. -/
theorem mem_mCalls_update (lib : MenuLib) (ids : Enumerators) (env late : Env) (dt : ℚ)
    (m : OptionsMenu) (c : Call)
    (h : c ∈ (handleInput lib ids env late (animateActiveTab dt m)).mCalls) :
    c ∈ (update lib ids env late dt m).mCalls := by
  have hcall : ∀ (x : OptionsMenu) (d : Call), (x.call d).mCalls = x.mCalls ++ [d] :=
    fun _ _ => rfl
  have hstep : ∀ x : OptionsMenu, (updateTimeouts dt x).mCalls = x.mCalls := fun _ => rfl
  unfold update
  simp only []
  rw [hcall, mCalls_refreshGamepadLists, hstep]
  apply List.mem_append_left
  apply mem_mCalls_updateFading
  rw [mCalls_updateInteractable]
  exact h

/-- State and visibility after `update` are those after the fading step, applied to a menu
that has the visibility of the start and the state left by the input handling. -/
theorem update_fading (lib : MenuLib) (ids : Enumerators) (env late : Env) (dt : ℚ)
    (m : OptionsMenu) :
    (update lib ids env late dt m).mState =
      (updateFading dt (updateInteractable ids late
        (handleInput lib ids env late (animateActiveTab dt m)))).mState ∧
    (update lib ids env late dt m).mVisibility =
      (updateFading dt (updateInteractable ids late
        (handleInput lib ids env late (animateActiveTab dt m)))).mVisibility ∧
    (updateInteractable ids late
        (handleInput lib ids env late (animateActiveTab dt m))).mVisibility = m.mVisibility := by
  have hv : ∀ (x : OptionsMenu), (refreshGamepadLists lib late false x).mVisibility =
      x.mVisibility := by
    intro x
    have hp : ∀ (a : OptionsMenu) (k : Nat),
        (refreshGamepadPlayer lib late a k).mVisibility = a.mVisibility := by
      intro a k
      unfold refreshGamepadPlayer
      split <;> rfl
    unfold refreshGamepadLists
    split
    · simp only [List.range, List.range.loop, List.foldl, hp]
      rfl
    · rfl
  have hcall : ∀ (x : OptionsMenu) (d : Call), (x.call d).mVisibility = x.mVisibility :=
    fun _ _ => rfl
  have hstep : ∀ x : OptionsMenu, (updateTimeouts dt x).mVisibility = x.mVisibility :=
    fun _ => rfl
  refine ⟨?_, ?_, ?_⟩
  · unfold update
    simp
  · unfold update
    simp only []
    rw [hcall, hv, hstep]
  · rw [mVisibility_of_frame (frame_updateInteractable _ _ _),
      mVisibility_of_frame (frame_handleInput _ _ _ _ _)]
    rfl

theorem saturate_pos (x : ℚ) (h : 0 < x) : 0 < saturate x := by
  unfold saturate clamp
  split_ifs <;> linarith

/-- The fading step by cases on the state. -/
theorem updateFading_cases (dt : ℚ) (x : OptionsMenu) :
    ((x.mState = State.INACTIVE ∨ x.mState = State.SHOW) →
      (updateFading dt x).mState = x.mState) ∧
    (x.mState = State.APPEAR →
      (updateFading dt x).mState = State.APPEAR ∨
      ((updateFading dt x).mState = State.SHOW ∧ 1 ≤ (updateFading dt x).mVisibility)) ∧
    ((x.mState = State.FADE_TO_MENU ∨ x.mState = State.FADE_TO_GAME) →
      ((updateFading dt x).mState = x.mState ∧ 0 < x.mVisibility - dt * 6 ∨
        0 < (updateFading dt x).mVisibility ∧ (updateFading dt x).mState = x.mState) ∨
      ((updateFading dt x).mState = State.INACTIVE ∧ (updateFading dt x).mVisibility ≤ 0 ∧
        ¬ 0 < x.mVisibility - dt * 6)) := by
  refine ⟨?_, ?_, ?_⟩
  · intro h
    unfold updateFading
    rcases h with h | h <;> simp [h, State.toNat]
  · intro h
    unfold updateFading finishAppear
    simp only [h, if_true]
    split
    · right
      rename_i hv
      exact ⟨rfl, hv⟩
    · left
      simp [setVisibility, h]
  · intro h
    have hnot : ¬ x.mState = State.APPEAR := by rcases h with h | h <;> simp [h]
    have hgt : x.mState.toNat > State.SHOW.toNat := by
      rcases h with h | h <;> simp [h, State.toNat]
    unfold updateFading finishFadeOut
    simp only [hnot, if_false, hgt, if_true]
    split
    · right
      rename_i hv
      refine ⟨rfl, hv, ?_⟩
      intro hpos
      have := saturate_pos _ hpos
      have hv' : saturate (x.mVisibility - dt * 6) ≤ 0 := hv
      linarith
    · left
      right
      rename_i hv
      exact ⟨not_le.1 hv, rfl⟩

end OptionsMenu
namespace OptionsMenu

theorem fadeOutState_cases (m : OptionsMenu) :
    fadeOutState m = State.FADE_TO_MENU ∨ fadeOutState m = State.FADE_TO_GAME := by
  unfold fadeOutState
  split
  · right; rfl
  · left; rfl

/-- A back press in state `SHOW` whose frame is long enough to fade the menu out completely
takes the menu from `SHOW` to `INACTIVE` within one `update` call. -/
theorem update_back_long_frame (lib : MenuLib) (ids : Enumerators) (env late : Env) (dt : ℚ)
    (m : OptionsMenu) (hshow : m.mState = State.SHOW)
    (hvis : env.controllerSetupMenuVisible = false)
    (hback : buttonEffect env.keys = ButtonEffect.BACK)
    (hlong : saturate (m.mVisibility - dt * 6) ≤ 0) :
    (update lib ids env late dt m).mState = State.INACTIVE := by
  obtain ⟨hs, _, hv⟩ := update_fading lib ids env late dt m
  rw [hs]
  have hH : (handleInput lib ids env late (animateActiveTab dt m)).mState = fadeOutState m := by
    unfold handleInput
    rw [if_pos ⟨hshow, hvis⟩]
    unfold handleButtons
    rw [hback]
    simp only []
    rw [mState_goBack]
    unfold fadeOutState
    rw [mEnteredFromIngame_of_frame (frame_handleMenuUpdate _ _ _ _),
      mEnteredFromIngame_of_frame (frame_enterTabContent _ _),
      mEnteredFromIngame_of_frame (frame_syncDisplayedValues _ _ _ _)]
    rfl
  have hX : (updateInteractable ids late
      (handleInput lib ids env late (animateActiveTab dt m))).mState = fadeOutState m := by
    rw [mState_updateInteractable, hH]
  have hnot : ¬ fadeOutState m = State.APPEAR := by
    rcases fadeOutState_cases m with h | h <;> simp [h]
  have hgt : (fadeOutState m).toNat > State.SHOW.toNat := by
    rcases fadeOutState_cases m with h | h <;> simp [h, State.toNat]
  unfold updateFading finishFadeOut
  rw [hX]
  simp only [hnot, if_false, hgt, if_true]
  have hcond : (setVisibility (saturate ((updateInteractable ids late
      (handleInput lib ids env late (animateActiveTab dt m))).mVisibility - dt * 6))
      (updateInteractable ids late
        (handleInput lib ids env late (animateActiveTab dt m)))).mVisibility ≤ 0 := by
    rw [hv]
    exact hlong
  rw [if_pos hcond]
  rfl

end OptionsMenu

namespace OptionsMenu

/-! ### Leaving the menu -/

theorem buttonEffect_back (keys : ControllerScheme)
    (hback : (keys.Back.justPressed || keys.B.justPressed) = true)
    (haccept : (keys.Start.justPressed || keys.A.justPressed || keys.X.justPressed) = false) :
    buttonEffect keys = ButtonEffect.BACK := by
  unfold buttonEffect
  rw [haccept, hback]
  rfl

/-- With the back button effect, the input handling of `update` ends with `goBack`. -/
theorem handleInput_back (lib : MenuLib) (ids : Enumerators) (env late : Env) (m : OptionsMenu)
    (hshow : m.mState = State.SHOW) (hvis : env.controllerSetupMenuVisible = false)
    (hback : buttonEffect env.keys = ButtonEffect.BACK) :
    handleInput lib ids env late m =
      goBack late (handleMenuUpdate lib ids env
        (enterTabContent env (syncDisplayedValues lib ids env m))) := by
  unfold handleInput
  rw [if_pos ⟨hshow, hvis⟩]
  unfold handleButtons
  rw [hback]

/-- C5: when `update` processes a back/cancel press (Back or B just pressed and no accept
button, which would take precedence) in state `SHOW` with the controller setup menu not
visible, its input handling ends with a call of `goBack`, whatever has the focus and so also
when the tab-title row has it; `goBack` records the exit (`onExitOptions`) and sets the state
to `FADE_TO_GAME` if `mEnteredFromIngame` is true and to `FADE_TO_MENU` otherwise.  At the end
of that `update` call the state is this fade-out state, or `INACTIVE` if the visibility
reached 0 in the same call. -/
theorem back_press_runs_goBack (lib : MenuLib) (ids : Enumerators) (env late : Env) (dt : ℚ)
    (m : OptionsMenu) (hshow : m.mState = State.SHOW)
    (hvis : env.controllerSetupMenuVisible = false)
    (hback : (env.keys.Back.justPressed || env.keys.B.justPressed) = true)
    (haccept : (env.keys.Start.justPressed || env.keys.A.justPressed ||
      env.keys.X.justPressed) = false) :
    handleInput lib ids env late (animateActiveTab dt m) =
      goBack late (handleMenuUpdate lib ids env (enterTabContent env
        (syncDisplayedValues lib ids env (animateActiveTab dt m)))) ∧
    (∀ (e : Env) (x : OptionsMenu), (goBack e x).mState =
      if x.mEnteredFromIngame = true then State.FADE_TO_GAME else State.FADE_TO_MENU) ∧
    (∀ (e : Env) (x : OptionsMenu), Call.onExitOptions ∈ (goBack e x).mCalls) ∧
    Call.onExitOptions ∈ (update lib ids env late dt (clearCalls m)).mCalls ∧
    ((update lib ids env late dt m).mState =
        (if m.mEnteredFromIngame = true then State.FADE_TO_GAME else State.FADE_TO_MENU) ∨
      ((update lib ids env late dt m).mState = State.INACTIVE ∧
        (update lib ids env late dt m).mVisibility ≤ 0)) := by
  have hb := buttonEffect_back env.keys hback haccept
  have hgo : ∀ (e : Env) (x : OptionsMenu), (goBack e x).mState =
      if x.mEnteredFromIngame = true then State.FADE_TO_GAME else State.FADE_TO_MENU :=
    fun e x => mState_goBack e x
  refine ⟨handleInput_back lib ids env late _ hshow hvis hb, hgo,
    onExitOptions_mem_goBack, ?_, ?_⟩
  · apply mem_mCalls_update
    rw [handleInput_back lib ids env late _ (by exact hshow) hvis hb]
    exact onExitOptions_mem_goBack _ _
  · obtain ⟨hs, hv, hvX⟩ := update_fading lib ids env late dt m
    have hH : (handleInput lib ids env late (animateActiveTab dt m)).mState =
        fadeOutState m := by
      rw [handleInput_back lib ids env late _ (by exact hshow) hvis hb, mState_goBack]
      unfold fadeOutState
      rw [mEnteredFromIngame_of_frame (frame_handleMenuUpdate _ _ _ _),
        mEnteredFromIngame_of_frame (frame_enterTabContent _ _),
        mEnteredFromIngame_of_frame (frame_syncDisplayedValues _ _ _ _)]
      rfl
    have hcases := (updateFading_cases dt (updateInteractable ids late
      (handleInput lib ids env late (animateActiveTab dt m)))).2.2
    rw [mState_updateInteractable, hH] at hcases
    rw [hs, hv]
    rcases hcases (fadeOutState_cases m) with (h3 | h3) | h3
    · left; exact h3.1
    · left; exact h3.2
    · right; exact ⟨h3.1, h3.2.1⟩

/-- C5 on the concrete menu, entered from the main menu: a press of B in a frame of 1/60 time
units leaves the menu in state `FADE_TO_MENU` or `INACTIVE`. -/
theorem back_press_runs_goBack_witness :
    exampleMenu.mState = State.SHOW ∧ backPressedEnv.controllerSetupMenuVisible = false ∧
    Call.onExitOptions ∈ (update exampleLib exampleIds backPressedEnv backPressedEnv (1 / 60)
      (clearCalls exampleMenu)).mCalls :=
  ⟨rfl, rfl,
    (back_press_runs_goBack exampleLib exampleIds backPressedEnv backPressedEnv (1 / 60)
      exampleMenu rfl rfl (by decide) (by decide)).2.2.2.1⟩

end OptionsMenu

namespace OptionsMenu

/-! ### Reload of the scripts on exit -/

theorem mOriginal_of_frame {a b : OptionsMenu} (h : frame a = frame b) :
    a.mOriginalScriptOptimizationLevel = b.mOriginalScriptOptimizationLevel :=
  congrArg Frame.mOriginalScriptOptimizationLevel h

theorem frame_refreshGamepadLists (lib : MenuLib) (env : Env) (force : Bool)
    (m : OptionsMenu) : frame (refreshGamepadLists lib env force m) = frame m := by
  have hp : ∀ (a : OptionsMenu) (k : Nat),
      frame (refreshGamepadPlayer lib env a k) = frame a := by
    intro a k
    unfold refreshGamepadPlayer
    split <;> rfl
  unfold refreshGamepadLists
  split
  · simp only [List.range, List.range.loop, List.foldl, hp]
    rfl
  · rfl

theorem mOriginal_updateFading (dt : ℚ) (m : OptionsMenu) :
    (updateFading dt m).mOriginalScriptOptimizationLevel =
      m.mOriginalScriptOptimizationLevel := by
  unfold updateFading finishAppear finishFadeOut
  split_ifs <;> rfl

theorem mOriginal_update (lib : MenuLib) (ids : Enumerators) (env late : Env) (dt : ℚ)
    (m : OptionsMenu) :
    (update lib ids env late dt m).mOriginalScriptOptimizationLevel =
      m.mOriginalScriptOptimizationLevel := by
  have hcall : ∀ (x : OptionsMenu) (c : Call), (x.call c).mOriginalScriptOptimizationLevel =
      x.mOriginalScriptOptimizationLevel := fun _ _ => rfl
  have hstep : ∀ x : OptionsMenu, (updateTimeouts dt x).mOriginalScriptOptimizationLevel =
      x.mOriginalScriptOptimizationLevel := fun _ => rfl
  have hanim : (animateActiveTab dt m).mOriginalScriptOptimizationLevel =
      m.mOriginalScriptOptimizationLevel := rfl
  unfold update
  simp only []
  rw [hcall, mOriginal_of_frame (frame_refreshGamepadLists _ _ _ _), hstep,
    mOriginal_updateFading, mOriginal_of_frame (frame_updateInteractable _ _ _),
    mOriginal_of_frame (frame_handleInput _ _ _ _ _), hanim]

theorem mOriginal_modifyOptionMenuEntry (m : OptionsMenu) (id : Nat)
    (f : GameMenuEntry → GameMenuEntry) :
    (m.modifyOptionMenuEntry id f).mOriginalScriptOptimizationLevel =
      m.mOriginalScriptOptimizationLevel :=
  mOriginal_of_frame (frame_modifyOptionMenuEntry m id f)

theorem mOriginal_setupOptionsMenu (lib : MenuLib) (ids : Enumerators) (env : Env) (b : Bool)
    (m : OptionsMenu) :
    (setupOptionsMenu lib ids env b m).mOriginalScriptOptimizationLevel =
      m.mOriginalScriptOptimizationLevel := by
  have hsan : ∀ x : OptionsMenu, (sanitizeActiveTab lib x).mOriginalScriptOptimizationLevel =
      x.mOriginalScriptOptimizationLevel := by
    intro x
    unfold sanitizeActiveTab focusTitleIfSelected
    split <;> rfl
  have hhide : ∀ x : OptionsMenu,
      (hideWindowModeOptions lib ids x).mOriginalScriptOptimizationLevel =
      x.mOriginalScriptOptimizationLevel := by
    intro x
    unfold hideWindowModeOptions
    split
    · rw [mOriginal_modifyOptionMenuEntry, mOriginal_modifyOptionMenuEntry]
    · rfl
  have hres : ∀ x : OptionsMenu, (resetWarnings b x).mOriginalScriptOptimizationLevel =
      x.mOriginalScriptOptimizationLevel := fun _ => rfl
  have htabs : ∀ x : OptionsMenu, (setupTabs lib ids b x).mOriginalScriptOptimizationLevel =
      x.mOriginalScriptOptimizationLevel := fun _ => rfl
  unfold setupOptionsMenu
  simp only []
  rw [hres, hsan, htabs, hhide]
  rfl

theorem frame_loadAllOptionValues (lib : MenuLib) (env : Env) (m : OptionsMenu) :
    frame (loadAllOptionValues lib env m) = frame m := by
  unfold loadAllOptionValues
  generalize List.range m.mOptionEntries.length = ks
  induction ks generalizing m with
  | nil => rfl
  | cons k ks ih => simp only [List.foldl_cons]; rw [ih, frame_loadOptionValue]

theorem mOriginal_onFadeIn (lib : MenuLib) (ids : Enumerators) (env : Env) (m : OptionsMenu) :
    (onFadeIn lib ids env m).mOriginalScriptOptimizationLevel =
      m.mOriginalScriptOptimizationLevel := by
  have h : frame (onFadeIn lib ids env m) = frame m := by
    unfold onFadeIn
    simp [frame_loadAllOptionValues]
  exact mOriginal_of_frame h

theorem mOriginal_initializeMenu (lib : MenuLib) (ids : Enumerators) (env : Env)
    (m : OptionsMenu) :
    (initializeMenu lib ids env m).mOriginalScriptOptimizationLevel =
      env.mScriptOptimizationLevel := rfl

/-- Every operation other than `initialize()` leaves the remembered level alone. -/
theorem mOriginal_runOp (lib : MenuLib) (ids : Enumerators) (m : OptionsMenu) (op : MenuOp) :
    (runOp lib ids m op).mOriginalScriptOptimizationLevel =
      match op with
      | MenuOp.init env => env.mScriptOptimizationLevel
      | _ => m.mOriginalScriptOptimizationLevel := by
  cases op with
  | init env => rfl
  | enter env b =>
    show (onFadeIn lib ids env (setupOptionsMenu lib ids env b m)).mOriginalScriptOptimizationLevel
      = _
    rw [mOriginal_onFadeIn, mOriginal_setupOptionsMenu]
  | update env late dt => exact mOriginal_update lib ids env late dt m
  | exit env => exact mOriginal_of_frame (frame_goBack env m)

/-- The remembered level is the level at the latest `initialize()`. -/
theorem mOriginal_runOps (lib : MenuLib) (ids : Enumerators) (ops : List MenuOp)
    (m : OptionsMenu) (level : Int) (h : levelAtLastInit ops = some level) :
    (runOps lib ids ops m).mOriginalScriptOptimizationLevel = level := by
  have key : ∀ (ops : List MenuOp) (acc : Option Int) (x : OptionsMenu),
      (∀ l, acc = some l → x.mOriginalScriptOptimizationLevel = l) →
      ∀ l, ops.foldl (fun acc op =>
          match op with
          | MenuOp.init env => some env.mScriptOptimizationLevel
          | _ => acc) acc = some l →
        (ops.foldl (runOp lib ids) x).mOriginalScriptOptimizationLevel = l := by
    intro ops
    induction ops with
    | nil => intro acc x hacc l hl; exact hacc l hl
    | cons op ops ih =>
      intro acc x hacc l hl
      simp only [List.foldl_cons] at hl ⊢
      refine ih _ _ ?_ l hl
      intro l' hl'
      rw [mOriginal_runOp]
      cases op with
      | init env => simpa using hl'
      | enter env b => exact hacc l' hl'
      | update env late dt => exact hacc l' hl'
      | exit env => exact hacc l' hl'
  exact key ops none m (fun l hl => by cases hl) level h

/-- The reload is signalled by `goBack` exactly when the remembered level differs from the
level in the configuration. -/
theorem reload_mem_goBack (env : Env) (m : OptionsMenu) :
    Call.triggerFullScriptsReload ∈ (goBack env (clearCalls m)).mCalls ↔
      m.mOriginalScriptOptimizationLevel ≠ env.mScriptOptimizationLevel := by
  have hcall : ∀ (x : OptionsMenu) (c : Call), (x.call c).mCalls = x.mCalls ++ [c] :=
    fun _ _ => rfl
  have hstop : Call.triggerFullScriptsReload ∉
      (stopSoundTest ((clearCalls m).call (Call.playMenuSound 0xad))).mCalls := by
    unfold stopSoundTest
    split <;> simp [hcall, clearCalls]
  have hpre : Call.triggerFullScriptsReload ∉
      (((stopSoundTest ((clearCalls m).call (Call.playMenuSound 0xad))).call
        Call.copyModSettingsToConfig).call Call.saveSettings).mCalls := by
    rw [hcall, hcall]
    simp [hstop]
  have horig : (((stopSoundTest ((clearCalls m).call (Call.playMenuSound 0xad))).call
      Call.copyModSettingsToConfig).call Call.saveSettings).mOriginalScriptOptimizationLevel =
      m.mOriginalScriptOptimizationLevel := by
    have h := mOriginal_of_frame (frame_stopSoundTest
      ((clearCalls m).call (Call.playMenuSound 0xad)))
    exact h
  have hgo : (goBack env (clearCalls m)).mCalls =
      (reloadScriptsIfChanged env (((stopSoundTest ((clearCalls m).call
        (Call.playMenuSound 0xad))).call Call.copyModSettingsToConfig).call
        Call.saveSettings)).mCalls ++ [Call.onExitOptions] := rfl
  rw [hgo]
  unfold reloadScriptsIfChanged
  rw [horig]
  split
  · rename_i hne
    rw [hcall]
    simp [hne]
  · rename_i hne
    simp [hpre, hne]

/-- C6, the claim as stated fails: in the session `twoVisits` the level is 3 when the menu
is entered for the second time and still 3 on exit, yet `goBack` signals the reload, because
the level it compares with is the one remembered by `initialize()` (-1). -/
theorem reload_without_change_since_entry :
    levelAtLastEntry twoVisits = some fullOptimizationEnv.mScriptOptimizationLevel ∧
    signalsReload exampleLib exampleIds twoVisits fullOptimizationEnv exampleMenu ∧
    ¬ (signalsReload exampleLib exampleIds twoVisits fullOptimizationEnv exampleMenu ↔
      fullOptimizationEnv.mScriptOptimizationLevel ≠
        fullOptimizationEnv.mScriptOptimizationLevel) := by
  have h : signalsReload exampleLib exampleIds twoVisits fullOptimizationEnv exampleMenu := by
    unfold signalsReload
    rw [reload_mem_goBack, mOriginal_runOps exampleLib exampleIds twoVisits exampleMenu (-1) rfl]
    decide
  refine ⟨rfl, h, ?_⟩
  intro hiff
  exact (hiff.1 h) rfl

/-- C6, amended: on exit through `goBack`, a full reload of the scripts is signalled if and
only if the script optimization level in the configuration differs from the value it had at
the latest `initialize()`, for every sequence of `initialize`, menu entries
(`setupOptionsMenu` / `onFadeIn`), updates and exits that contains an `initialize`. -/
theorem reload_iff_changed_since_last_init (lib : MenuLib) (ids : Enumerators)
    (ops : List MenuOp) (exitEnv : Env) (m : OptionsMenu) (level : Int)
    (hinit : levelAtLastInit ops = some level) :
    signalsReload lib ids ops exitEnv m ↔ exitEnv.mScriptOptimizationLevel ≠ level := by
  unfold signalsReload
  rw [reload_mem_goBack, mOriginal_runOps lib ids ops m level hinit]
  exact ne_comm

/-- C6, amended, on the session `twoVisits`: the level at `initialize()` was -1, it is 3 on
exit, and the reload is signalled. -/
theorem reload_iff_changed_since_last_init_witness :
    levelAtLastInit twoVisits = some (-1) ∧
    signalsReload exampleLib exampleIds twoVisits fullOptimizationEnv exampleMenu :=
  ⟨rfl, (reload_iff_changed_since_last_init exampleLib exampleIds twoVisits
    fullOptimizationEnv exampleMenu (-1) rfl).2 (by decide)⟩

end OptionsMenu

namespace OptionsMenu

/-! ### Calls made by `update` -/

theorem AddsNoApply.refl (m : OptionsMenu) : AddsNoApply m m :=
  ⟨[], by simp, by simp⟩

theorem AddsNoApply.trans {a b c : OptionsMenu} (h1 : AddsNoApply a b) (h2 : AddsNoApply b c) :
    AddsNoApply a c := by
  obtain ⟨e1, he1, hn1⟩ := h1
  obtain ⟨e2, he2, hn2⟩ := h2
  refine ⟨e1 ++ e2, by rw [he2, he1, List.append_assoc], ?_⟩
  intro c hc
  rcases List.mem_append.1 hc with h | h
  · exact hn1 c h
  · exact hn2 c h

theorem AddsNoApply.of_eq {a b : OptionsMenu} (h : b.mCalls = a.mCalls) : AddsNoApply a b :=
  ⟨[], by simp [h], by simp⟩

theorem AddsNoApply.call (m : OptionsMenu) (c : Call) (hc : c.isApplyValue = false) :
    AddsNoApply m (m.call c) :=
  ⟨[c], rfl, by simp [hc]⟩

theorem AddsNoApply.ite {c : Prop} [Decidable c] {m a b : OptionsMenu} (ha : AddsNoApply m a)
    (hb : AddsNoApply m b) : AddsNoApply m (if c then a else b) := by
  split <;> assumption

/-- A call on record stays on record. -/
theorem AddsNoApply.mem {a b : OptionsMenu} (h : AddsNoApply a b) {c : Call}
    (hc : c ∈ a.mCalls) : c ∈ b.mCalls := by
  obtain ⟨e, he, _⟩ := h
  rw [he]
  exact List.mem_append_left _ hc

/-- No call of `applyValue` is added. -/
theorem AddsNoApply.not_mem {a b : OptionsMenu} (h : AddsNoApply a b)
    (ha : ∀ c ∈ a.mCalls, c.isApplyValue = false) :
    ∀ c ∈ b.mCalls, c.isApplyValue = false := by
  obtain ⟨e, he, hn⟩ := h
  intro c hc
  rw [he] at hc
  rcases List.mem_append.1 hc with h | h
  · exact ha c h
  · exact hn c h

theorem addsNoApply_playSoundtest (a : Int) (d : AudioDefinition) (m : OptionsMenu) :
    AddsNoApply m (playSoundtest a d m) := by
  unfold playSoundtest
  simp only []
  have h0 : AddsNoApply m ((setPlayingSoundTest (some d) m).call Call.stopSoundContextMenu) :=
    ⟨[Call.stopSoundContextMenu], rfl, by simp [Call.isApplyValue]⟩
  apply AddsNoApply.ite
  · exact (h0.trans (AddsNoApply.call _ _ (by rfl))).trans (AddsNoApply.call _ _ (by rfl))
  · exact (h0.trans (AddsNoApply.call _ _ (by rfl))).trans (AddsNoApply.call _ _ (by rfl))

theorem addsNoApply_restartMusic (a : Int) (m : OptionsMenu) :
    AddsNoApply m (restartMusic a m) := by
  unfold restartMusic
  simp only []
  have h0 : AddsNoApply m ((m.call Call.stopSoundContextMenuMusic).call
      Call.onSoundtrackPreferencesChanged) :=
    (AddsNoApply.call _ _ (by rfl)).trans (AddsNoApply.call _ _ (by rfl))
  split
  · exact h0.trans (AddsNoApply.call _ _ (by rfl))
  · exact h0.trans (addsNoApply_playSoundtest _ _ _)

theorem addsNoApply_goBack (env : Env) (m : OptionsMenu) : AddsNoApply m (goBack env m) := by
  unfold goBack
  simp only []
  have h1 : AddsNoApply m (stopSoundTest (m.call (Call.playMenuSound 0xad))) := by
    unfold stopSoundTest
    exact (AddsNoApply.call _ _ (by rfl)).trans
      (AddsNoApply.ite (AddsNoApply.call _ _ (by rfl)) (AddsNoApply.refl _))
  have h2 := (h1.trans (AddsNoApply.call _ Call.copyModSettingsToConfig (by rfl))).trans
    (AddsNoApply.call _ Call.saveSettings (by rfl))
  have h3 : AddsNoApply m (reloadScriptsIfChanged env
      (((stopSoundTest (m.call (Call.playMenuSound 0xad))).call
        Call.copyModSettingsToConfig).call Call.saveSettings)) := by
    unfold reloadScriptsIfChanged
    exact h2.trans (AddsNoApply.ite (AddsNoApply.call _ _ (by rfl)) (AddsNoApply.refl _))
  have h4 := h3.trans (AddsNoApply.call _ Call.onExitOptions (by rfl))
  exact h4.trans (AddsNoApply.of_eq rfl)

theorem addsNoApply_acceptSoundTest (late : Env) (e : GameMenuEntry) (m : OptionsMenu) :
    AddsNoApply m (acceptSoundTest late e m) := by
  unfold acceptSoundTest
  split
  · exact addsNoApply_playSoundtest _ _ _
  · exact AddsNoApply.refl _

theorem addsNoApply_acceptSoundtrackDownload (late : Env) (m : OptionsMenu) :
    AddsNoApply m (acceptSoundtrackDownload late m) := by
  unfold acceptSoundtrackDownload
  simp only []
  have h0 : AddsNoApply m ((m.call Call.triggerButton).modifyEntry
      m.mSoundtrackDownloadMenuEntry
      (fun e => e.setVisible (SoundtrackDownloadMenuEntry.shouldBeShown late))) :=
    (AddsNoApply.call _ _ (by rfl)).trans (AddsNoApply.of_eq rfl)
  exact AddsNoApply.ite (h0.trans (addsNoApply_restartMusic _ _)) h0

theorem addsNoApply_acceptSelectedEntry (ids : Enumerators) (late : Env) (e : GameMenuEntry)
    (m : OptionsMenu) : AddsNoApply m (acceptSelectedEntry ids late e m) := by
  unfold acceptSelectedEntry
  simp only []
  refine AddsNoApply.ite (addsNoApply_acceptSoundTest _ _ _) ?_
  refine AddsNoApply.ite ((AddsNoApply.call _ _ (by rfl)).trans (AddsNoApply.call _ _ (by rfl))) ?_
  refine AddsNoApply.ite ((AddsNoApply.call _ _ (by rfl)).trans (AddsNoApply.call _ _ (by rfl))) ?_
  refine AddsNoApply.ite
    (AddsNoApply.ite (AddsNoApply.call _ _ (by rfl)) (AddsNoApply.call _ _ (by rfl))) ?_
  refine AddsNoApply.ite (addsNoApply_acceptSoundtrackDownload _ _) ?_
  refine AddsNoApply.ite (AddsNoApply.call _ _ (by rfl)) ?_
  refine AddsNoApply.ite (AddsNoApply.call _ _ (by rfl)) ?_
  exact AddsNoApply.ite (addsNoApply_goBack _ _) (AddsNoApply.refl _)

theorem addsNoApply_handleButtons (ids : Enumerators) (env late : Env) (m : OptionsMenu) :
    AddsNoApply m (handleButtons ids env late m) := by
  unfold handleButtons
  split
  · exact AddsNoApply.refl _
  · exact addsNoApply_goBack _ _
  · exact AddsNoApply.ite (addsNoApply_acceptSelectedEntry _ _ _ _) (AddsNoApply.refl _)

theorem addsNoApply_updateFading (dt : ℚ) (m : OptionsMenu) :
    AddsNoApply m (updateFading dt m) := by
  unfold updateFading finishAppear finishFadeOut
  refine AddsNoApply.ite (AddsNoApply.ite (AddsNoApply.of_eq rfl) (AddsNoApply.of_eq rfl)) ?_
  refine AddsNoApply.ite (AddsNoApply.ite ?_ (AddsNoApply.of_eq rfl)) (AddsNoApply.refl _)
  exact ⟨[Call.onFadedOutOptions], rfl, by simp [Call.isApplyValue]⟩

/-- The stages of `update` that follow the input handling add no call of `applyValue`. -/
theorem addsNoApply_update_tail (lib : MenuLib) (ids : Enumerators) (late : Env) (dt : ℚ)
    (x : OptionsMenu) :
    AddsNoApply x ((refreshGamepadLists lib late false
      (updateTimeouts dt (updateFading dt (updateInteractable ids late x)))).call
        Call.baseUpdate) := by
  have h1 : AddsNoApply x (updateInteractable ids late x) :=
    AddsNoApply.of_eq (mCalls_updateInteractable _ _ _)
  have h2 := h1.trans (addsNoApply_updateFading dt _)
  have h3 : AddsNoApply x (updateTimeouts dt (updateFading dt (updateInteractable ids late x))) :=
    h2.trans (AddsNoApply.of_eq rfl)
  have h4 := h3.trans (AddsNoApply.of_eq (mCalls_refreshGamepadLists lib late false _))
  exact h4.trans (AddsNoApply.call _ _ (by rfl))

end OptionsMenu
namespace OptionsMenu

theorem mCalls_loadOptionValue (lib : MenuLib) (env : Env) (id : Nat) (m : OptionsMenu) :
    (loadOptionValue lib env id m).mCalls = m.mCalls := by
  unfold loadOptionValue
  split
  · split <;> rfl
  · rfl

theorem mCalls_setActiveEntries (m : OptionsMenu) (es : GameMenuEntries) :
    (m.setActiveEntries es).mCalls = m.mCalls := by
  unfold setActiveEntries
  split <;> rfl

theorem mCalls_menuBeforeListUpdate (lib : MenuLib) (ids : Enumerators) (env : Env) (dt : ℚ)
    (m : OptionsMenu) : (menuBeforeListUpdate lib ids env dt m).mCalls = m.mCalls := by
  have hsync : ∀ x : OptionsMenu, (syncDisplayedValues lib ids env x).mCalls = x.mCalls := by
    intro x
    unfold syncDisplayedValues
    simp only []
    rw [mCalls_modifyOptionMenuEntry, mCalls_loadOptionValue, mCalls_loadOptionValue,
      mCalls_loadOptionValue, mCalls_loadOptionValue, mCalls_modifyOptionMenuEntry]
  have henter : ∀ x : OptionsMenu, (enterTabContent env x).mCalls = x.mCalls := by
    intro x
    unfold enterTabContent switchToTabContent
    split
    · simp only []
      rw [mCalls_setActiveEntries]
      rfl
    · rfl
  unfold menuBeforeListUpdate
  rw [henter, hsync]
  rfl

theorem mCalls_menuAfterListUpdate (lib : MenuLib) (ids : Enumerators) (env : Env) (dt : ℚ)
    (m : OptionsMenu) : (menuAfterListUpdate lib ids env dt m).mCalls = m.mCalls := by
  unfold menuAfterListUpdate
  rw [mCalls_setActiveEntries, mCalls_menuBeforeListUpdate]

theorem reactToUpdateResult_option_changed (ids : Enumerators) (env : Env) (x : OptionsMenu)
    (h : x.mActiveMenu ≠ ActiveMenu.tabMenu) :
    reactToUpdateResult ids env UpdateResult.OPTION_CHANGED x =
      applyOptionChange ids env x.activeEntries.selected (x.call (Call.playMenuSound 0x5b)) := by
  have h' : (x.call (Call.playMenuSound 0x5b)).mActiveMenu ≠ ActiveMenu.tabMenu := h
  unfold reactToUpdateResult
  rw [if_neg (by decide), if_neg (fun hc => h hc.2)]
  unfold reactInsideTab
  rw [if_neg (fun hc => absurd hc.1 (by decide)), if_pos ⟨rfl, h'⟩]
  rfl

theorem handleMenuUpdate_option_changed (lib : MenuLib) (ids : Enumerators) (env : Env)
    (x : OptionsMenu)
    (h1 : (lib.entriesUpdate env x.activeEntries).1 = UpdateResult.OPTION_CHANGED)
    (h2 : (x.setActiveEntries (lib.entriesUpdate env x.activeEntries).2).mActiveMenu
      ≠ ActiveMenu.tabMenu) :
    handleMenuUpdate lib ids env x =
      applyOptionChange ids env
        (x.setActiveEntries (lib.entriesUpdate env x.activeEntries).2).activeEntries.selected
        ((x.setActiveEntries (lib.entriesUpdate env x.activeEntries).2).call
          (Call.playMenuSound 0x5b)) := by
  unfold handleMenuUpdate
  simp only []
  rw [h1]
  exact reactToUpdateResult_option_changed ids env _ h2

/-- When an option of a tab entry was changed, the input handling of `update` plays the sound
`0x5b`, runs the switch on the changed entry and then handles the buttons. -/
theorem handleInput_option_changed (lib : MenuLib) (ids : Enumerators) (env late : Env)
    (dt : ℚ) (m : OptionsMenu) (h : OptionChangedInTab lib ids env dt m) :
    handleInput lib ids env late (animateActiveTab dt m) =
      handleButtons ids env late (applyOptionChange ids env (changedEntry lib ids env dt m)
        ((menuAfterListUpdate lib ids env dt m).call (Call.playMenuSound 0x5b))) := by
  obtain ⟨hshow, hvis, hres, hfocus⟩ := h
  have hshow' : (animateActiveTab dt m).mState = State.SHOW := hshow
  unfold handleInput
  rw [if_pos ⟨hshow', hvis⟩]
  exact congrArg (handleButtons ids env late)
    (handleMenuUpdate_option_changed lib ids env (menuBeforeListUpdate lib ids env dt m)
      hres hfocus)

/-- Decomposition of the calls of an `update` that commits an option change: the calls on
record after the switch stay on record, and nothing after the switch calls `applyValue`. -/
theorem addsNoApply_update_option_changed (lib : MenuLib) (ids : Enumerators) (env late : Env)
    (dt : ℚ) (m : OptionsMenu) (h : OptionChangedInTab lib ids env dt m) :
    AddsNoApply (applyOptionChange ids env (changedEntry lib ids env dt m)
        ((menuAfterListUpdate lib ids env dt m).call (Call.playMenuSound 0x5b)))
      (update lib ids env late dt m) := by
  unfold update
  simp only []
  rw [handleInput_option_changed lib ids env late dt m h]
  exact (addsNoApply_handleButtons ids env late _).trans (addsNoApply_update_tail lib ids late dt _)

theorem addsNoApply_changeSoundtrack (env : Env) (e : GameMenuEntry) (m : OptionsMenu) :
    AddsNoApply m (changeSoundtrack env e m) ∧
    Call.write_mActiveSoundtrack e.selectedValue ∈ (changeSoundtrack env e m).mCalls := by
  unfold changeSoundtrack
  simp only []
  have h0 : AddsNoApply m (m.call (Call.write_mActiveSoundtrack e.selectedValue)) :=
    AddsNoApply.call _ _ (by rfl)
  have hmem : Call.write_mActiveSoundtrack e.selectedValue ∈
      (m.call (Call.write_mActiveSoundtrack e.selectedValue)).mCalls := by
    simp [call]
  split
  · have h1 := addsNoApply_restartMusic (↑e.selectedValue)
      (m.call (Call.write_mActiveSoundtrack e.selectedValue))
    exact ⟨(h0.trans h1).trans (AddsNoApply.of_eq rfl), h1.mem hmem⟩
  · exact ⟨h0.trans (AddsNoApply.of_eq rfl), hmem⟩

theorem mCalls_showAudioWarning (ids : Enumerators) (d : Nat) (m : OptionsMenu) :
    (showAudioWarning ids d m).mCalls = m.mCalls := by
  unfold showAudioWarning
  split <;> rfl

end OptionsMenu

namespace OptionsMenu

theorem mCalls_applyValue (d : Nat) (m : OptionsMenu) :
    (applyValue d m).mCalls = m.mCalls ++ [Call.applyValue d (m.optionMenuEntry d).selectedValue] :=
  rfl

theorem mCalls_call (m : OptionsMenu) (c : Call) : (m.call c).mCalls = m.mCalls ++ [c] := rfl

theorem optionMenuEntry_call (m : OptionsMenu) (c : Call) (d : Nat) :
    (m.call c).optionMenuEntry d = m.optionMenuEntry d := rfl

end OptionsMenu
namespace OptionsMenu

/-- The branch of the `switch (selectedData)` taken for each value of the changed entry's
option id, for pairwise different case labels. -/
theorem applyOptionChange_cases (ids : Enumerators) (env : Env) (e : GameMenuEntry)
    (x : OptionsMenu) (hlabels : (switchLabels ids).Nodup) :
    (e.mData = ids.WINDOW_MODE →
      applyOptionChange ids env e x = x.call (Call.setWindowMode e.selectedValue)) ∧
    (e.mData = ids.RENDERER →
      applyOptionChange ids env e x = x.call (Call.switchToRenderMethod e.selectedValue)) ∧
    (e.mData = ids.SOUNDTRACK → applyOptionChange ids env e x = changeSoundtrack env e x) ∧
    (e.mData = ids.CONTROLLER_PLAYER_1 ∨ e.mData = ids.CONTROLLER_PLAYER_2 →
      applyOptionChange ids env e x = x.call (Call.setPreferredGamepad
        ((e.mData : Int) - (ids.CONTROLLER_PLAYER_1 : Int)) e.selectedValue)) ∧
    (e.mData = ids.RELEASE_CHANNEL →
      applyOptionChange ids env e x = (applyValue e.mData x).call Call.updateCheckReset) ∧
    (e.mData = ids.CONTROLLER_AUTOASSIGN →
      applyOptionChange ids env e x =
        (applyValue e.mData x).call Call.updatePlayerGamepadAssignments) ∧
    (e.mData = ids.GAME_RECORDING_MODE →
      applyOptionChange ids env e x = (applyValue e.mData x).call Call.evaluateGameRecording) ∧
    (e.mData ∉ switchLabels ids → applyOptionChange ids env e x = applyDefaultChange ids e x) := by
  simp only [switchLabels, List.nodup_cons, List.mem_cons, List.mem_singleton, not_or,
    List.not_mem_nil, not_false_eq_true, List.nodup_nil, and_true] at hlabels
  simp only [switchLabels, List.mem_cons, List.mem_singleton, not_or, List.not_mem_nil,
    not_false_eq_true, and_true]
  obtain ⟨⟨h12, h13, h14, h15, h16, h17, h18⟩, ⟨h23, h24, h25, h26, h27, h28⟩,
    ⟨h34, h35, h36, h37, h38⟩, ⟨h45, h46, h47, h48⟩, ⟨h56, h57, h58⟩, ⟨h67, h68⟩, h78⟩ := hlabels
  have ne : ∀ {a b : Nat}, e.mData = b → ¬ a = b → ¬ e.mData = a :=
    fun h hab hc => hab (hc.symm.trans h)
  refine ⟨?_, ?_, ?_, ?_, ?_, ?_, ?_, ?_⟩
  · intro h
    unfold applyOptionChange
    simp only []
    rw [if_neg (ne h h12), if_pos h]
  · intro h
    unfold applyOptionChange
    simp only []
    rw [if_neg (ne h h13), if_neg (ne h h23), if_pos h]
  · intro h
    unfold applyOptionChange
    simp only []
    rw [if_neg (ne h h14), if_neg (ne h h24), if_neg (ne h h34), if_pos h]
  · intro h
    unfold applyOptionChange
    simp only []
    rcases h with h | h
    · rw [if_neg (ne h h15), if_neg (ne h h25), if_neg (ne h h35), if_neg (ne h h45),
        if_pos (Or.inl h)]
    · rw [if_neg (ne h h16), if_neg (ne h h26), if_neg (ne h h36), if_neg (ne h h46),
        if_pos (Or.inr h)]
  · intro h
    unfold applyOptionChange
    simp only []
    rw [if_pos h]
  · intro h
    unfold applyOptionChange
    simp only []
    rw [if_neg (ne h h17), if_neg (ne h h27), if_neg (ne h h37), if_neg (ne h h47),
      if_neg (not_or.2 ⟨ne h h57, ne h h67⟩), if_pos h]
  · intro h
    unfold applyOptionChange
    simp only []
    rw [if_neg (ne h h18), if_neg (ne h h28), if_neg (ne h h38), if_neg (ne h h48),
      if_neg (not_or.2 ⟨ne h h58, ne h h68⟩), if_neg (ne h h78), if_pos h]
  · intro h
    obtain ⟨n1, n2, n3, n4, n5, n6, n7, n8⟩ := h
    unfold applyOptionChange
    simp only []
    rw [if_neg n1, if_neg n2, if_neg n3, if_neg n4, if_neg (not_or.2 ⟨n5, n6⟩), if_neg n7,
      if_neg n8]

/-- Calls of the `default` branch for an option above `_TAB_SELECTION` other than `_BACK`. -/
theorem applyDefaultChange_calls (ids : Enumerators) (e : GameMenuEntry) (x : OptionsMenu)
    (hg : e.mData > ids._TAB_SELECTION ∧ e.mData ≠ ids._BACK) :
    Call.write_mWindowMode (x.optionMenuEntry ids.WINDOW_MODE_STARTUP).selectedValue ∈
      (applyDefaultChange ids e x).mCalls ∧
    Call.applyValue e.mData (x.optionMenuEntry e.mData).selectedValue ∈
      (applyDefaultChange ids e x).mCalls ∧
    (e.mData ≥ ids.CONTROLLER_RUMBLE_P1 ∧ e.mData ≤ ids.CONTROLLER_RUMBLE_P2 →
      Call.setControllerRumbleForPlayer (e.mData - ids.CONTROLLER_RUMBLE_P1) ∈
        (applyDefaultChange ids e x).mCalls) ∧
    (¬ (e.mData ≥ ids.CONTROLLER_RUMBLE_P1 ∧ e.mData ≤ ids.CONTROLLER_RUMBLE_P2) →
      e.mData ≥ ids.VGAMEPAD_DPAD_SIZE ∧ e.mData ≤ ids.VGAMEPAD_BUTTONS_SIZE →
      Call.buildTouchControls ∈ (applyDefaultChange ids e x).mCalls) ∧
    (¬ (e.mData ≥ ids.CONTROLLER_RUMBLE_P1 ∧ e.mData ≤ ids.CONTROLLER_RUMBLE_P2) →
      ¬ (e.mData ≥ ids.VGAMEPAD_DPAD_SIZE ∧ e.mData ≤ ids.VGAMEPAD_BUTTONS_SIZE) →
      e.mData = ids.FRAME_SYNC →
      Call.setVSyncMode e.selectedValue ∈ (applyDefaultChange ids e x).mCalls) := by
  unfold applyDefaultChange
  simp only []
  rw [mCalls_showAudioWarning]
  unfold applyGenericValue
  simp only []
  rw [if_pos hg]
  refine ⟨?_, ?_, ?_, ?_, ?_⟩
  · split_ifs <;> simp [mCalls_call, mCalls_applyValue]
  · split_ifs <;> simp [mCalls_call, mCalls_applyValue, optionMenuEntry_call]
  · intro h
    rw [if_pos h]
    simp [mCalls_call]
  · intro h1 h2
    rw [if_neg h1, if_pos h2]
    simp [mCalls_call]
  · intro h1 h2 h3
    rw [if_neg h1, if_neg h2, if_pos h3]
    simp [mCalls_call]

/-- The `default` branch applies nothing for `_TAB_SELECTION`, the options below it, and
`_BACK`. -/
theorem addsNoApply_applyDefaultChange (ids : Enumerators) (e : GameMenuEntry) (x : OptionsMenu)
    (hg : ¬ (e.mData > ids._TAB_SELECTION ∧ e.mData ≠ ids._BACK)) :
    AddsNoApply x (applyDefaultChange ids e x) := by
  unfold applyDefaultChange
  simp only []
  refine AddsNoApply.trans (AddsNoApply.call x
    (Call.write_mWindowMode (x.optionMenuEntry ids.WINDOW_MODE_STARTUP).selectedValue) rfl) ?_
  apply AddsNoApply.of_eq
  rw [mCalls_showAudioWarning]
  unfold applyGenericValue
  simp only []
  rw [if_neg hg]

end OptionsMenu

namespace OptionsMenu

/-! ### C7: what a committed option change invokes -/

set_option maxRecDepth 100000 in
/-- C7 (counterexample): with the focus on the window mode entry of a tab, an entry with two
choices, pressing Right commits an option change, and the whole `update` call invokes
`setWindowMode` with the new value but never `applyValue`. -/
theorem window_mode_change_skips_applyValue :
    OptionChangedInTab exampleLib exampleIds rightPressedEnv (1 / 60)
      (exampleMenuAt exampleIds.WINDOW_MODE) ∧
    (changedEntry exampleLib exampleIds rightPressedEnv (1 / 60)
      (exampleMenuAt exampleIds.WINDOW_MODE)).mData = exampleIds.WINDOW_MODE ∧
    (changedEntry exampleLib exampleIds rightPressedEnv (1 / 60)
      (exampleMenuAt exampleIds.WINDOW_MODE)).mOptions.length = 2 ∧
    (update exampleLib exampleIds rightPressedEnv rightPressedEnv (1 / 60)
      (exampleMenuAt exampleIds.WINDOW_MODE)).mCalls =
      [Call.playMenuSound 0x5b, Call.setWindowMode 1, Call.baseUpdate] ∧
    ¬ ∃ c ∈ (update exampleLib exampleIds rightPressedEnv rightPressedEnv (1 / 60)
      (exampleMenuAt exampleIds.WINDOW_MODE)).mCalls, c.isApplyValue = true := by
  have hcalls : (update exampleLib exampleIds rightPressedEnv rightPressedEnv (1 / 60)
      (exampleMenuAt exampleIds.WINDOW_MODE)).mCalls =
      [Call.playMenuSound 0x5b, Call.setWindowMode 1, Call.baseUpdate] := by decide
  refine ⟨by decide, by decide, by decide, hcalls, ?_⟩
  rw [hcalls]
  decide

/-- C7 (amended): when `update` commits a change of an option of a tab entry, what it invokes
depends on the option id `d` of the changed entry. For window mode, renderer, soundtrack and
the two controller assignments only the side effect on the external subsystem is invoked and
`applyValue` is not called at all; for release channel, auto-assign and game recording
`applyValue` is called on option `d` together with the side effect; every other option above
`_TAB_SELECTION` except `_BACK` gets `applyValue` on option `d` and the write of the startup
window mode, and rumble, virtual gamepad size and frame sync get their side effect in
addition. -/
theorem option_change_dispatch (lib : MenuLib) (ids : Enumerators) (env late : Env) (dt : ℚ)
    (m : OptionsMenu) (h : OptionChangedInTab lib ids env dt m) (hcalls : m.mCalls = [])
    (hlabels : (switchLabels ids).Nodup) :
    let e := changedEntry lib ids env dt m
    let calls := (update lib ids env late dt m).mCalls
    let applied := Call.applyValue e.mData (appliedValue lib ids env dt m e.mData)
    (e.mData = ids.WINDOW_MODE →
      Call.setWindowMode e.selectedValue ∈ calls ∧ ∀ c ∈ calls, c.isApplyValue = false) ∧
    (e.mData = ids.RENDERER →
      Call.switchToRenderMethod e.selectedValue ∈ calls ∧
        ∀ c ∈ calls, c.isApplyValue = false) ∧
    (e.mData = ids.SOUNDTRACK →
      Call.write_mActiveSoundtrack e.selectedValue ∈ calls ∧
        ∀ c ∈ calls, c.isApplyValue = false) ∧
    (e.mData = ids.CONTROLLER_PLAYER_1 ∨ e.mData = ids.CONTROLLER_PLAYER_2 →
      Call.setPreferredGamepad ((e.mData : Int) - (ids.CONTROLLER_PLAYER_1 : Int))
          e.selectedValue ∈ calls ∧
        ∀ c ∈ calls, c.isApplyValue = false) ∧
    (e.mData = ids.RELEASE_CHANNEL → applied ∈ calls ∧ Call.updateCheckReset ∈ calls) ∧
    (e.mData = ids.CONTROLLER_AUTOASSIGN →
      applied ∈ calls ∧ Call.updatePlayerGamepadAssignments ∈ calls) ∧
    (e.mData = ids.GAME_RECORDING_MODE →
      applied ∈ calls ∧ Call.evaluateGameRecording ∈ calls) ∧
    (e.mData ∉ switchLabels ids → e.mData > ids._TAB_SELECTION ∧ e.mData ≠ ids._BACK →
      applied ∈ calls ∧
      Call.write_mWindowMode (appliedValue lib ids env dt m ids.WINDOW_MODE_STARTUP) ∈ calls ∧
      (e.mData ≥ ids.CONTROLLER_RUMBLE_P1 ∧ e.mData ≤ ids.CONTROLLER_RUMBLE_P2 →
        Call.setControllerRumbleForPlayer (e.mData - ids.CONTROLLER_RUMBLE_P1) ∈ calls) ∧
      (¬ (e.mData ≥ ids.CONTROLLER_RUMBLE_P1 ∧ e.mData ≤ ids.CONTROLLER_RUMBLE_P2) →
        e.mData ≥ ids.VGAMEPAD_DPAD_SIZE ∧ e.mData ≤ ids.VGAMEPAD_BUTTONS_SIZE →
        Call.buildTouchControls ∈ calls) ∧
      (¬ (e.mData ≥ ids.CONTROLLER_RUMBLE_P1 ∧ e.mData ≤ ids.CONTROLLER_RUMBLE_P2) →
        ¬ (e.mData ≥ ids.VGAMEPAD_DPAD_SIZE ∧ e.mData ≤ ids.VGAMEPAD_BUTTONS_SIZE) →
        e.mData = ids.FRAME_SYNC → Call.setVSyncMode e.selectedValue ∈ calls)) ∧
    (e.mData ∉ switchLabels ids → ¬ (e.mData > ids._TAB_SELECTION ∧ e.mData ≠ ids._BACK) →
      ∀ c ∈ calls, c.isApplyValue = false) := by
  intro e calls applied
  have hA := addsNoApply_update_option_changed lib ids env late dt m h
  have hD0 : ∀ c ∈ ((menuAfterListUpdate lib ids env dt m).call
      (Call.playMenuSound 0x5b)).mCalls, c.isApplyValue = false := by
    intro c hc
    rw [mCalls_call, mCalls_menuAfterListUpdate, hcalls] at hc
    simp at hc
    rw [hc]
    rfl
  obtain ⟨c1, c2, c3, c4, c5, c6, c7, c8⟩ := applyOptionChange_cases ids env e
    ((menuAfterListUpdate lib ids env dt m).call (Call.playMenuSound 0x5b)) hlabels
  have hside : ∀ s : Call, s.isApplyValue = false →
      applyOptionChange ids env e ((menuAfterListUpdate lib ids env dt m).call
        (Call.playMenuSound 0x5b)) =
        ((menuAfterListUpdate lib ids env dt m).call (Call.playMenuSound 0x5b)).call s →
      s ∈ calls ∧ ∀ c ∈ calls, c.isApplyValue = false := by
    intro s hs heq
    rw [heq] at hA
    refine ⟨hA.mem (by simp [mCalls_call]), hA.not_mem ?_⟩
    intro c hc
    rw [mCalls_call] at hc
    rcases List.mem_append.1 hc with hc | hc
    · exact hD0 c hc
    · simp at hc
      rw [hc]
      exact hs
  have hboth : ∀ s : Call,
      applyOptionChange ids env e ((menuAfterListUpdate lib ids env dt m).call
        (Call.playMenuSound 0x5b)) =
        (applyValue e.mData ((menuAfterListUpdate lib ids env dt m).call
          (Call.playMenuSound 0x5b))).call s →
      applied ∈ calls ∧ s ∈ calls := by
    intro s heq
    rw [heq] at hA
    refine ⟨hA.mem ?_, hA.mem (by simp [mCalls_call])⟩
    rw [mCalls_call, mCalls_applyValue, optionMenuEntry_call]
    exact List.mem_append_left _ (List.mem_append_right _ (List.mem_singleton.2 rfl))
  refine ⟨fun hd => hside _ rfl (c1 hd), fun hd => hside _ rfl (c2 hd), ?_,
    fun hd => hside _ rfl (c4 hd), fun hd => hboth _ (c5 hd), fun hd => hboth _ (c6 hd),
    fun hd => hboth _ (c7 hd), ?_, ?_⟩
  · intro hd
    rw [c3 hd] at hA
    obtain ⟨hs1, hs2⟩ := addsNoApply_changeSoundtrack env e
      ((menuAfterListUpdate lib ids env dt m).call (Call.playMenuSound 0x5b))
    exact ⟨hA.mem hs2, (hs1.trans hA).not_mem hD0⟩
  · intro hd hg
    rw [c8 hd] at hA
    obtain ⟨d1, d2, d3, d4, d5⟩ := applyDefaultChange_calls ids e
      ((menuAfterListUpdate lib ids env dt m).call (Call.playMenuSound 0x5b)) hg
    rw [optionMenuEntry_call] at d1 d2
    exact ⟨hA.mem d2, hA.mem d1, fun hr => hA.mem (d3 hr), fun h1 h2 => hA.mem (d4 h1 h2),
      fun h1 h2 h3 => hA.mem (d5 h1 h2 h3)⟩
  · intro hd hg
    rw [c8 hd] at hA
    exact ((addsNoApply_applyDefaultChange ids e _ hg).trans hA).not_mem hD0

end OptionsMenu
namespace OptionsMenu

set_option maxRecDepth 100000 in
/-- The dispatch theorem applied to a change of the release channel entry: `applyValue` is
called for the release channel with the new value 1, and the update check is reset. -/
theorem option_change_dispatch_witness :
    OptionChangedInTab exampleLib exampleIds rightPressedEnv (1 / 60)
      (exampleMenuAt exampleIds.RELEASE_CHANNEL) ∧
    (exampleMenuAt exampleIds.RELEASE_CHANNEL).mCalls = [] ∧
    (switchLabels exampleIds).Nodup ∧
    Call.applyValue exampleIds.RELEASE_CHANNEL 1 ∈
      (update exampleLib exampleIds rightPressedEnv rightPressedEnv (1 / 60)
        (exampleMenuAt exampleIds.RELEASE_CHANNEL)).mCalls ∧
    Call.updateCheckReset ∈
      (update exampleLib exampleIds rightPressedEnv rightPressedEnv (1 / 60)
        (exampleMenuAt exampleIds.RELEASE_CHANNEL)).mCalls :=
  ⟨by decide, rfl, by decide,
    (option_change_dispatch exampleLib exampleIds rightPressedEnv rightPressedEnv (1 / 60)
      (exampleMenuAt exampleIds.RELEASE_CHANNEL) (by decide) rfl (by decide)).2.2.2.2.1
      (by decide)⟩

end OptionsMenu

namespace OptionsMenu

/-! ### C8: the animated tab value -/

/-- The animation step on numbers: from `a` toward `t` by at most `4 * dt`. -/
theorem clamp_step (dt a t : ℚ) (hdt : 0 ≤ dt) :
    |t - (a + clamp (t - a) (-dt * 4) (dt * 4))| = |t - a| - min |t - a| (4 * dt) ∧
    |(a + clamp (t - a) (-dt * 4) (dt * 4)) - a| = min |t - a| (4 * dt) ∧
    (a ≤ t → a ≤ a + clamp (t - a) (-dt * 4) (dt * 4) ∧
      a + clamp (t - a) (-dt * 4) (dt * 4) ≤ t) ∧
    (t ≤ a → t ≤ a + clamp (t - a) (-dt * 4) (dt * 4) ∧
      a + clamp (t - a) (-dt * 4) (dt * 4) ≤ a) := by
  unfold clamp
  split_ifs with h1 h2
  · have e1 : |t - a| = a - t := by rw [abs_of_nonpos (by linarith)]; ring
    have e2 : min |t - a| (4 * dt) = 4 * dt := by rw [e1]; exact min_eq_right (by linarith)
    rw [e2, e1]
    refine ⟨?_, ?_, ?_, ?_⟩
    · rw [abs_of_nonpos (by linarith)]; ring
    · rw [abs_of_nonpos (by linarith)]; ring
    · intro h; constructor <;> linarith
    · intro h; constructor <;> linarith
  · have e1 : |t - a| = t - a := abs_of_nonneg (by linarith)
    have e2 : min |t - a| (4 * dt) = 4 * dt := by rw [e1]; exact min_eq_right (by linarith)
    rw [e2, e1]
    refine ⟨?_, ?_, ?_, ?_⟩
    · rw [abs_of_nonneg (by linarith)]; ring
    · rw [abs_of_nonneg (by linarith)]; ring
    · intro h; constructor <;> linarith
    · intro h; constructor <;> linarith
  · have e0 : |t - a| ≤ 4 * dt := abs_le.2 ⟨by linarith, by linarith⟩
    have e2 : min |t - a| (4 * dt) = |t - a| := min_eq_left e0
    rw [e2]
    refine ⟨?_, ?_, ?_, ?_⟩
    · have : t - (a + (t - a)) = 0 := by ring
      rw [this]; simp
    · have : a + (t - a) - a = t - a := by ring
      rw [this]
    · intro h; constructor <;> linarith
    · intro h; constructor <;> linarith

theorem mActiveTabAnimated_updateFading (dt : ℚ) (m : OptionsMenu) :
    (updateFading dt m).mActiveTabAnimated = m.mActiveTabAnimated := by
  unfold updateFading finishAppear finishFadeOut
  split_ifs <;> rfl

/-- After the first statement of `update`, nothing in `update` writes the animated value. -/
theorem mActiveTabAnimated_update (lib : MenuLib) (ids : Enumerators) (env late : Env)
    (dt : ℚ) (m : OptionsMenu) :
    (update lib ids env late dt m).mActiveTabAnimated =
      m.mActiveTabAnimated +
        clamp ((m.mActiveTab : ℚ) - m.mActiveTabAnimated) (-dt * 4) (dt * 4) := by
  have hcall : ∀ (x : OptionsMenu) (c : Call),
      (x.call c).mActiveTabAnimated = x.mActiveTabAnimated := fun _ _ => rfl
  have hstep : ∀ x : OptionsMenu, (updateTimeouts dt x).mActiveTabAnimated =
      x.mActiveTabAnimated := fun _ => rfl
  have hframe : ∀ {a b : OptionsMenu}, frame a = frame b →
      a.mActiveTabAnimated = b.mActiveTabAnimated :=
    fun h => congrArg Frame.mActiveTabAnimated h
  unfold update
  simp only []
  rw [hcall, hframe (frame_refreshGamepadLists lib late false _), hstep,
    mActiveTabAnimated_updateFading, hframe (frame_updateInteractable ids late _),
    hframe (frame_handleInput lib ids env late _)]
  rfl

end OptionsMenu
namespace OptionsMenu

/-- C8: for every `timeElapsed >= 0`, `update` moves `mActiveTabAnimated` toward the integer
`mActiveTab` (the value the call starts with) by exactly
`min(|mActiveTab - mActiveTabAnimated|, 4 * timeElapsed)`: the step has that size and reduces
the distance by it, the new value lies between the old value and the target, the distance
does not increase, and the value equals the target once `4 * timeElapsed` is at least the
distance.  Exact rational arithmetic. -/
theorem animated_tab_approaches_target (lib : MenuLib) (ids : Enumerators) (env late : Env)
    (timeElapsed : ℚ) (m : OptionsMenu) (hdt : 0 ≤ timeElapsed) :
    let a := m.mActiveTabAnimated
    let t := (m.mActiveTab : ℚ)
    let a' := (update lib ids env late timeElapsed m).mActiveTabAnimated
    |a' - a| = min |t - a| (4 * timeElapsed) ∧
    |t - a'| = |t - a| - min |t - a| (4 * timeElapsed) ∧
    (a ≤ t → a ≤ a' ∧ a' ≤ t) ∧
    (t ≤ a → t ≤ a' ∧ a' ≤ a) ∧
    |t - a'| ≤ |t - a| ∧
    (|t - a| ≤ 4 * timeElapsed → a' = t) := by
  intro a t a'
  have ha' : a' = a + clamp (t - a) (-timeElapsed * 4) (timeElapsed * 4) :=
    mActiveTabAnimated_update lib ids env late timeElapsed m
  obtain ⟨h1, h2, h3, h4⟩ := clamp_step timeElapsed a t hdt
  rw [← ha'] at h1 h2 h3 h4
  have hmin : 0 ≤ min |t - a| (4 * timeElapsed) := le_min (abs_nonneg _) (by linarith)
  refine ⟨h2, h1, h3, h4, by linarith, ?_⟩
  intro hle
  rw [min_eq_left hle, sub_self] at h1
  linarith [sub_eq_zero.1 (abs_eq_zero.1 h1)]

/-- The approach theorem on a menu whose animated value 0 is one tab away from the active
tab 1, for a frame of 1/60: the animated value does not move away from the target. -/
theorem animated_tab_approaches_target_witness :
    (0 : ℚ) ≤ 1 / 60 ∧
    |((1 : Nat) : ℚ) - (update exampleLib exampleIds exampleEnv exampleEnv (1 / 60)
        { exampleMenu with mActiveTabAnimated := 0 }).mActiveTabAnimated| ≤
      |((1 : Nat) : ℚ) - 0| :=
  ⟨by norm_num,
    (animated_tab_approaches_target exampleLib exampleIds exampleEnv exampleEnv (1 / 60)
      { exampleMenu with mActiveTabAnimated := 0 } (by norm_num)).2.2.2.2.1⟩

end OptionsMenu

namespace OptionsMenu

/-! ### C9: the animated tab value is cosmetic -/

@[simp] theorem withAnimated_ite {c : Prop} [Decidable c] (a : ℚ) (x y : OptionsMenu) :
    withAnimated a (if c then x else y) = if c then withAnimated a x else withAnimated a y := by
  split <;> rfl

@[simp] theorem withAnimated_withAnimated (a b : ℚ) (m : OptionsMenu) :
    withAnimated a (withAnimated b m) = withAnimated a m := rfl

@[simp] theorem mState_withAnimated (a : ℚ) (m : OptionsMenu) :
    (withAnimated a m).mState = m.mState := rfl

@[simp] theorem mActiveMenu_withAnimated (a : ℚ) (m : OptionsMenu) :
    (withAnimated a m).mActiveMenu = m.mActiveMenu := rfl

@[simp] theorem mActiveTab_withAnimated (a : ℚ) (m : OptionsMenu) :
    (withAnimated a m).mActiveTab = m.mActiveTab := rfl

@[simp] theorem mTabs_withAnimated (a : ℚ) (m : OptionsMenu) :
    (withAnimated a m).mTabs = m.mTabs := rfl

@[simp] theorem mTabMenuEntries_withAnimated (a : ℚ) (m : OptionsMenu) :
    (withAnimated a m).mTabMenuEntries = m.mTabMenuEntries := rfl

@[simp] theorem mOptionEntries_withAnimated (a : ℚ) (m : OptionsMenu) :
    (withAnimated a m).mOptionEntries = m.mOptionEntries := rfl

@[simp] theorem mCalls_withAnimated (a : ℚ) (m : OptionsMenu) :
    (withAnimated a m).mCalls = m.mCalls := rfl

@[simp] theorem mVisibility_withAnimated (a : ℚ) (m : OptionsMenu) :
    (withAnimated a m).mVisibility = m.mVisibility := rfl

@[simp] theorem mPlayingSoundTest_withAnimated (a : ℚ) (m : OptionsMenu) :
    (withAnimated a m).mPlayingSoundTest = m.mPlayingSoundTest := rfl

@[simp] theorem mSoundTestAudioDefinitions_withAnimated (a : ℚ) (m : OptionsMenu) :
    (withAnimated a m).mSoundTestAudioDefinitions = m.mSoundTestAudioDefinitions := rfl

@[simp] theorem mSoundtrackDownloadMenuEntry_withAnimated (a : ℚ) (m : OptionsMenu) :
    (withAnimated a m).mSoundtrackDownloadMenuEntry = m.mSoundtrackDownloadMenuEntry := rfl

@[simp] theorem mGamepadAssignmentEntries_withAnimated (a : ℚ) (m : OptionsMenu) :
    (withAnimated a m).mGamepadAssignmentEntries = m.mGamepadAssignmentEntries := rfl

@[simp] theorem mLastGamepadsChangeCounter_withAnimated (a : ℚ) (m : OptionsMenu) :
    (withAnimated a m).mLastGamepadsChangeCounter = m.mLastGamepadsChangeCounter := rfl

@[simp] theorem mEnteredFromIngame_withAnimated (a : ℚ) (m : OptionsMenu) :
    (withAnimated a m).mEnteredFromIngame = m.mEnteredFromIngame := rfl

@[simp] theorem mShowedAudioWarningMessage_withAnimated (a : ℚ) (m : OptionsMenu) :
    (withAnimated a m).mShowedAudioWarningMessage = m.mShowedAudioWarningMessage := rfl

@[simp] theorem mOriginalLevel_withAnimated (a : ℚ) (m : OptionsMenu) :
    (withAnimated a m).mOriginalScriptOptimizationLevel =
      m.mOriginalScriptOptimizationLevel := rfl

@[simp] theorem activeEntries_withAnimated (a : ℚ) (m : OptionsMenu) :
    (withAnimated a m).activeEntries = m.activeEntries := rfl

@[simp] theorem optionMenuEntry_withAnimated (a : ℚ) (m : OptionsMenu) (d : Nat) :
    (withAnimated a m).optionMenuEntry d = m.optionMenuEntry d := rfl

@[simp] theorem call_withAnimated (a : ℚ) (m : OptionsMenu) (c : Call) :
    (withAnimated a m).call c = withAnimated a (m.call c) := rfl

@[simp] theorem modifyEntry_withAnimated (a : ℚ) (m : OptionsMenu) (r : EntryRef)
    (f : GameMenuEntry → GameMenuEntry) :
    (withAnimated a m).modifyEntry r f = withAnimated a (m.modifyEntry r f) := rfl

@[simp] theorem modifyOptionMenuEntry_withAnimated (a : ℚ) (m : OptionsMenu) (d : Nat)
    (f : GameMenuEntry → GameMenuEntry) :
    (withAnimated a m).modifyOptionMenuEntry d f = withAnimated a (m.modifyOptionMenuEntry d f) := by
  unfold modifyOptionMenuEntry
  rw [mOptionEntries_withAnimated]
  split <;> rfl

@[simp] theorem setState_withAnimated (a : ℚ) (m : OptionsMenu) (s : State) :
    setState s (withAnimated a m) = withAnimated a (setState s m) := rfl

@[simp] theorem setActiveMenu_withAnimated (a : ℚ) (m : OptionsMenu) (x : ActiveMenu) :
    setActiveMenu x (withAnimated a m) = withAnimated a (setActiveMenu x m) := rfl

@[simp] theorem setPlayingSoundTest_withAnimated (a : ℚ) (m : OptionsMenu)
    (d : Option AudioDefinition) :
    setPlayingSoundTest d (withAnimated a m) = withAnimated a (setPlayingSoundTest d m) := rfl

@[simp] theorem setVisibility_withAnimated (a v : ℚ) (m : OptionsMenu) :
    setVisibility v (withAnimated a m) = withAnimated a (setVisibility v m) := rfl

@[simp] theorem takeOverSelectedTab_withAnimated (ids : Enumerators) (a : ℚ) (m : OptionsMenu) :
    takeOverSelectedTab ids (withAnimated a m) = withAnimated a (takeOverSelectedTab ids m) :=
  rfl

@[simp] theorem applyValue_withAnimated (a : ℚ) (d : Nat) (m : OptionsMenu) :
    applyValue d (withAnimated a m) = withAnimated a (applyValue d m) := rfl

@[simp] theorem updateTimeouts_withAnimated (a dt : ℚ) (m : OptionsMenu) :
    updateTimeouts dt (withAnimated a m) = withAnimated a (updateTimeouts dt m) := rfl

@[simp] theorem setActiveEntries_withAnimated (a : ℚ) (m : OptionsMenu) (es : GameMenuEntries) :
    (withAnimated a m).setActiveEntries es = withAnimated a (m.setActiveEntries es) := by
  unfold setActiveEntries
  rw [mActiveMenu_withAnimated]
  split <;> rfl

@[simp] theorem loadOptionValue_withAnimated (lib : MenuLib) (env : Env) (a : ℚ) (d : Nat)
    (m : OptionsMenu) :
    loadOptionValue lib env d (withAnimated a m) = withAnimated a (loadOptionValue lib env d m) := by
  unfold loadOptionValue
  rw [mOptionEntries_withAnimated]
  split
  · split <;> rfl
  · rfl

end OptionsMenu
namespace OptionsMenu

@[simp] theorem syncDisplayedValues_withAnimated (lib : MenuLib) (ids : Enumerators) (env : Env)
    (a : ℚ) (m : OptionsMenu) :
    syncDisplayedValues lib ids env (withAnimated a m) =
      withAnimated a (syncDisplayedValues lib ids env m) := by
  unfold syncDisplayedValues
  simp

@[simp] theorem switchToTabContent_withAnimated (a : ℚ) (m : OptionsMenu) :
    switchToTabContent (withAnimated a m) = withAnimated a (switchToTabContent m) := by
  unfold switchToTabContent
  simp

@[simp] theorem enterTabContent_withAnimated (env : Env) (a : ℚ) (m : OptionsMenu) :
    enterTabContent env (withAnimated a m) = withAnimated a (enterTabContent env m) := by
  unfold enterTabContent
  simp

@[simp] theorem playSoundtest_withAnimated (s : Int) (d : AudioDefinition) (a : ℚ)
    (m : OptionsMenu) :
    playSoundtest s d (withAnimated a m) = withAnimated a (playSoundtest s d m) := by
  unfold playSoundtest
  simp

@[simp] theorem restartMusic_withAnimated (s : Int) (a : ℚ) (m : OptionsMenu) :
    restartMusic s (withAnimated a m) = withAnimated a (restartMusic s m) := by
  have hp : ∀ x : OptionsMenu, ((x.call Call.stopSoundContextMenuMusic).call
      Call.onSoundtrackPreferencesChanged).mPlayingSoundTest = x.mPlayingSoundTest :=
    fun _ => rfl
  unfold restartMusic
  simp only [call_withAnimated, mPlayingSoundTest_withAnimated, hp]
  split <;> simp

@[simp] theorem showAudioWarning_withAnimated (ids : Enumerators) (d : Nat) (a : ℚ)
    (m : OptionsMenu) :
    showAudioWarning ids d (withAnimated a m) = withAnimated a (showAudioWarning ids d m) := by
  unfold showAudioWarning
  simp only [mEnteredFromIngame_withAnimated, mShowedAudioWarningMessage_withAnimated]
  split <;> rfl

@[simp] theorem applyGenericValue_withAnimated (ids : Enumerators) (e : GameMenuEntry) (a : ℚ)
    (m : OptionsMenu) :
    applyGenericValue ids e (withAnimated a m) = withAnimated a (applyGenericValue ids e m) := by
  unfold applyGenericValue
  simp

@[simp] theorem applyDefaultChange_withAnimated (ids : Enumerators) (e : GameMenuEntry) (a : ℚ)
    (m : OptionsMenu) :
    applyDefaultChange ids e (withAnimated a m) =
      withAnimated a (applyDefaultChange ids e m) := by
  unfold applyDefaultChange
  simp

@[simp] theorem changeSoundtrack_withAnimated (env : Env) (e : GameMenuEntry) (a : ℚ)
    (m : OptionsMenu) :
    changeSoundtrack env e (withAnimated a m) = withAnimated a (changeSoundtrack env e m) := by
  unfold changeSoundtrack
  simp only [call_withAnimated, restartMusic_withAnimated,
    mSoundtrackDownloadMenuEntry_withAnimated]
  split <;> rfl

@[simp] theorem applyOptionChange_withAnimated (ids : Enumerators) (env : Env)
    (e : GameMenuEntry) (a : ℚ) (m : OptionsMenu) :
    applyOptionChange ids env e (withAnimated a m) =
      withAnimated a (applyOptionChange ids env e m) := by
  unfold applyOptionChange
  simp

@[simp] theorem reactInsideTab_withAnimated (ids : Enumerators) (env : Env) (r : UpdateResult)
    (a : ℚ) (m : OptionsMenu) :
    reactInsideTab ids env r (withAnimated a m) = withAnimated a (reactInsideTab ids env r m) := by
  unfold reactInsideTab
  simp

@[simp] theorem reactToUpdateResult_withAnimated (ids : Enumerators) (env : Env)
    (r : UpdateResult) (a : ℚ) (m : OptionsMenu) :
    reactToUpdateResult ids env r (withAnimated a m) =
      withAnimated a (reactToUpdateResult ids env r m) := by
  unfold reactToUpdateResult
  simp

@[simp] theorem handleMenuUpdate_withAnimated (lib : MenuLib) (ids : Enumerators) (env : Env)
    (a : ℚ) (m : OptionsMenu) :
    handleMenuUpdate lib ids env (withAnimated a m) =
      withAnimated a (handleMenuUpdate lib ids env m) := by
  unfold handleMenuUpdate
  simp

end OptionsMenu
namespace OptionsMenu

@[simp] theorem stopSoundTest_withAnimated (a : ℚ) (m : OptionsMenu) :
    stopSoundTest (withAnimated a m) = withAnimated a (stopSoundTest m) := by
  have h : soundTestNeedsStop (withAnimated a m) = soundTestNeedsStop m := rfl
  unfold stopSoundTest
  rw [h]
  simp

@[simp] theorem reloadScriptsIfChanged_withAnimated (env : Env) (a : ℚ) (m : OptionsMenu) :
    reloadScriptsIfChanged env (withAnimated a m) =
      withAnimated a (reloadScriptsIfChanged env m) := by
  unfold reloadScriptsIfChanged
  simp

@[simp] theorem startFadeOut_withAnimated (a : ℚ) (m : OptionsMenu) :
    startFadeOut (withAnimated a m) = withAnimated a (startFadeOut m) := rfl

@[simp] theorem goBack_withAnimated (env : Env) (a : ℚ) (m : OptionsMenu) :
    goBack env (withAnimated a m) = withAnimated a (goBack env m) := by
  unfold goBack
  simp

@[simp] theorem acceptSoundtrackDownload_withAnimated (late : Env) (a : ℚ) (m : OptionsMenu) :
    acceptSoundtrackDownload late (withAnimated a m) =
      withAnimated a (acceptSoundtrackDownload late m) := by
  unfold acceptSoundtrackDownload
  simp

@[simp] theorem acceptSoundTest_withAnimated (late : Env) (e : GameMenuEntry) (a : ℚ)
    (m : OptionsMenu) :
    acceptSoundTest late e (withAnimated a m) = withAnimated a (acceptSoundTest late e m) := by
  unfold acceptSoundTest
  rw [mSoundTestAudioDefinitions_withAnimated]
  split
  · exact playSoundtest_withAnimated _ _ _ _
  · rfl

@[simp] theorem acceptSelectedEntry_withAnimated (ids : Enumerators) (late : Env)
    (e : GameMenuEntry) (a : ℚ) (m : OptionsMenu) :
    acceptSelectedEntry ids late e (withAnimated a m) =
      withAnimated a (acceptSelectedEntry ids late e m) := by
  unfold acceptSelectedEntry
  simp

@[simp] theorem handleButtons_withAnimated (ids : Enumerators) (env late : Env) (a : ℚ)
    (m : OptionsMenu) :
    handleButtons ids env late (withAnimated a m) =
      withAnimated a (handleButtons ids env late m) := by
  unfold handleButtons
  split <;> simp

@[simp] theorem handleInput_withAnimated (lib : MenuLib) (ids : Enumerators) (env late : Env)
    (a : ℚ) (m : OptionsMenu) :
    handleInput lib ids env late (withAnimated a m) =
      withAnimated a (handleInput lib ids env late m) := by
  unfold handleInput
  simp

@[simp] theorem updateInteractable_withAnimated (ids : Enumerators) (late : Env) (a : ℚ)
    (m : OptionsMenu) :
    updateInteractable ids late (withAnimated a m) =
      withAnimated a (updateInteractable ids late m) := by
  unfold updateInteractable
  simp

@[simp] theorem updateFading_withAnimated (dt a : ℚ) (m : OptionsMenu) :
    updateFading dt (withAnimated a m) = withAnimated a (updateFading dt m) := by
  unfold updateFading finishAppear finishFadeOut
  simp only [mState_withAnimated, mVisibility_withAnimated, setVisibility_withAnimated]
  split_ifs <;> rfl

@[simp] theorem refreshGamepadLists_withAnimated (lib : MenuLib) (env : Env) (force : Bool)
    (a : ℚ) (m : OptionsMenu) :
    refreshGamepadLists lib env force (withAnimated a m) =
      withAnimated a (refreshGamepadLists lib env force m) := by
  have hp : ∀ (x : OptionsMenu) (k : Nat), refreshGamepadPlayer lib env (withAnimated a x) k =
      withAnimated a (refreshGamepadPlayer lib env x k) := by
    intro x k
    unfold refreshGamepadPlayer
    rw [mGamepadAssignmentEntries_withAnimated]
    split <;> rfl
  have hs : ∀ (x : OptionsMenu) (c : Nat), setLastGamepadsChangeCounter c (withAnimated a x) =
      withAnimated a (setLastGamepadsChangeCounter c x) := fun _ _ => rfl
  unfold refreshGamepadLists
  rw [mLastGamepadsChangeCounter_withAnimated]
  split
  · simp only [List.range, List.range.loop, List.foldl, hp, hs]
  · rfl

/-- The animation step forgets the difference in the animated value except in that value. -/
theorem animateActiveTab_withAnimated (dt a : ℚ) (m : OptionsMenu) :
    animateActiveTab dt (withAnimated a m) =
      withAnimated (animateActiveTab dt (withAnimated a m)).mActiveTabAnimated
        (animateActiveTab dt m) := rfl

/-- Two `update` calls on menus that differ only in the animated value give menus that differ
only in the animated value. -/
theorem update_withAnimated (lib : MenuLib) (ids : Enumerators) (env late : Env) (dt a : ℚ)
    (m : OptionsMenu) :
    update lib ids env late dt (withAnimated a m) =
      withAnimated (update lib ids env late dt (withAnimated a m)).mActiveTabAnimated
        (update lib ids env late dt m) := by
  have h : ∀ b : ℚ, update lib ids env late dt (withAnimated a m) =
      withAnimated b (update lib ids env late dt m) →
      update lib ids env late dt (withAnimated a m) =
        withAnimated (update lib ids env late dt (withAnimated a m)).mActiveTabAnimated
          (update lib ids env late dt m) := by
    intro b hb
    have hb' : (update lib ids env late dt (withAnimated a m)).mActiveTabAnimated = b := by
      rw [hb]; rfl
    rw [hb']
    exact hb
  apply h (animateActiveTab dt (withAnimated a m)).mActiveTabAnimated
  unfold update
  simp only []
  rw [animateActiveTab_withAnimated, handleInput_withAnimated, updateInteractable_withAnimated,
    updateFading_withAnimated, updateTimeouts_withAnimated, refreshGamepadLists_withAnimated,
    call_withAnimated]
  rfl

end OptionsMenu

namespace OptionsMenu

/-! ### The active tab after input handling -/

theorem mActiveTab_modifyOptionMenuEntry (m : OptionsMenu) (d : Nat)
    (f : GameMenuEntry → GameMenuEntry) :
    (m.modifyOptionMenuEntry d f).mActiveTab = m.mActiveTab := by
  unfold modifyOptionMenuEntry
  split <;> rfl

theorem mActiveTab_playSoundtest (s : Int) (d : AudioDefinition) (m : OptionsMenu) :
    (playSoundtest s d m).mActiveTab = m.mActiveTab := by
  unfold playSoundtest
  simp only []
  split <;> rfl

theorem mActiveTab_restartMusic (s : Int) (m : OptionsMenu) :
    (restartMusic s m).mActiveTab = m.mActiveTab := by
  unfold restartMusic
  simp only []
  split
  · rfl
  · rw [mActiveTab_playSoundtest]
    rfl

theorem mActiveTab_goBack (env : Env) (m : OptionsMenu) :
    (goBack env m).mActiveTab = m.mActiveTab := by
  have h1 : ∀ x : OptionsMenu, (stopSoundTest x).mActiveTab = x.mActiveTab := by
    intro x
    unfold stopSoundTest
    split <;> rfl
  have h2 : ∀ x : OptionsMenu, (reloadScriptsIfChanged env x).mActiveTab = x.mActiveTab := by
    intro x
    unfold reloadScriptsIfChanged
    split <;> rfl
  have h3 : ∀ x : OptionsMenu, (startFadeOut x).mActiveTab = x.mActiveTab := fun _ => rfl
  have hcall : ∀ (x : OptionsMenu) (c : Call), (x.call c).mActiveTab = x.mActiveTab :=
    fun _ _ => rfl
  unfold goBack
  simp only []
  rw [h3, hcall, h2, hcall, hcall, h1, hcall]

theorem mActiveTab_acceptSelectedEntry (ids : Enumerators) (late : Env) (e : GameMenuEntry)
    (m : OptionsMenu) : (acceptSelectedEntry ids late e m).mActiveTab = m.mActiveTab := by
  have h1 : (acceptSoundTest late e m).mActiveTab = m.mActiveTab := by
    unfold acceptSoundTest
    split
    · exact mActiveTab_playSoundtest _ _ _
    · rfl
  have h2 : (acceptSoundtrackDownload late m).mActiveTab = m.mActiveTab := by
    unfold acceptSoundtrackDownload
    simp only []
    split
    · rw [mActiveTab_restartMusic]
      rfl
    · rfl
  unfold acceptSelectedEntry
  simp only []
  split_ifs
  · exact h1
  · rfl
  · rfl
  · rfl
  · rfl
  · exact h2
  · rfl
  · rfl
  · exact mActiveTab_goBack late m
  · rfl

theorem mActiveTab_handleButtons (ids : Enumerators) (env late : Env) (m : OptionsMenu) :
    (handleButtons ids env late m).mActiveTab = m.mActiveTab := by
  unfold handleButtons
  split
  · rfl
  · exact mActiveTab_goBack late m
  · split
    · exact mActiveTab_acceptSelectedEntry ids late _ m
    · rfl

/-- The stages of `update` after the input handling keep the active tab. -/
theorem mActiveTab_update_tail (lib : MenuLib) (ids : Enumerators) (late : Env) (dt : ℚ)
    (x : OptionsMenu) :
    ((refreshGamepadLists lib late false (updateTimeouts dt (updateFading dt
      (updateInteractable ids late x)))).call Call.baseUpdate).mActiveTab = x.mActiveTab := by
  have hcall : ∀ (y : OptionsMenu) (c : Call), (y.call c).mActiveTab = y.mActiveTab :=
    fun _ _ => rfl
  have hr : ∀ y : OptionsMenu, (refreshGamepadLists lib late false y).mActiveTab =
      y.mActiveTab := by
    intro y
    have hp : ∀ (z : OptionsMenu) (k : Nat),
        (refreshGamepadPlayer lib late z k).mActiveTab = z.mActiveTab := by
      intro z k
      unfold refreshGamepadPlayer
      split <;> rfl
    unfold refreshGamepadLists
    split
    · simp only [List.range, List.range.loop, List.foldl, hp]
      rfl
    · rfl
  have ht : ∀ y : OptionsMenu, (updateTimeouts dt y).mActiveTab = y.mActiveTab := fun _ => rfl
  have hf : ∀ y : OptionsMenu, (updateFading dt y).mActiveTab = y.mActiveTab := by
    intro y
    unfold updateFading finishAppear finishFadeOut
    split_ifs <;> rfl
  have hi : (updateInteractable ids late x).mActiveTab = x.mActiveTab := by
    unfold updateInteractable
    simp only []
    rw [mActiveTab_modifyOptionMenuEntry, mActiveTab_modifyOptionMenuEntry]
  rw [hcall, hr, ht, hf, hi]

end OptionsMenu
namespace OptionsMenu

theorem mActiveMenu_syncDisplayedValues (lib : MenuLib) (ids : Enumerators) (env : Env)
    (m : OptionsMenu) : (syncDisplayedValues lib ids env m).mActiveMenu = m.mActiveMenu := by
  have h1 : ∀ (x : OptionsMenu) (d : Nat) (f : GameMenuEntry → GameMenuEntry),
      (x.modifyOptionMenuEntry d f).mActiveMenu = x.mActiveMenu := by
    intro x d f
    unfold modifyOptionMenuEntry
    split <;> rfl
  have h2 : ∀ (x : OptionsMenu) (d : Nat),
      (loadOptionValue lib env d x).mActiveMenu = x.mActiveMenu := by
    intro x d
    unfold loadOptionValue
    split
    · split <;> rfl
    · rfl
  unfold syncDisplayedValues
  simp only []
  rw [h1, h2, h2, h2, h2, h1]

theorem handleMenuUpdate_tab_selected (lib : MenuLib) (ids : Enumerators) (env : Env)
    (x : OptionsMenu)
    (h1 : (lib.entriesUpdate env x.activeEntries).1 = UpdateResult.OPTION_CHANGED)
    (h2 : x.mActiveMenu = ActiveMenu.tabMenu) :
    (handleMenuUpdate lib ids env x).mActiveTab =
      ((lib.entriesUpdate env x.activeEntries).2.entry ids._TAB_SELECTION).mSelectedIndex := by
  have hset : ∀ es : GameMenuEntries,
      x.setActiveEntries es = { x with mTabMenuEntries := es } := by
    intro es
    unfold setActiveEntries
    rw [h2]
  unfold handleMenuUpdate
  simp only []
  rw [h1, hset]
  unfold reactToUpdateResult
  rw [if_neg (by decide), if_pos ⟨rfl, h2⟩]
  rfl

/-- When the tab-title row keeps the focus and reports a changed option, `update` stores the
selected index of the tab selection entry in `mActiveTab`. -/
theorem mActiveTab_update_tab_selected (lib : MenuLib) (ids : Enumerators) (env late : Env)
    (dt : ℚ) (m : OptionsMenu) (hshow : m.mState = State.SHOW)
    (hvis : env.controllerSetupMenuVisible = false)
    (hfocus : m.mActiveMenu = ActiveMenu.tabMenu)
    (hkeys : (env.keys.Down.justPressedOrRepeat || env.keys.Up.justPressedOrRepeat) = false)
    (hres : (listUpdate lib ids env dt m).1 = UpdateResult.OPTION_CHANGED) :
    (update lib ids env late dt m).mActiveTab =
      ((listUpdate lib ids env dt m).2.entry ids._TAB_SELECTION).mSelectedIndex := by
  have hB : menuBeforeListUpdate lib ids env dt m =
      syncDisplayedValues lib ids env (animateActiveTab dt m) := by
    unfold menuBeforeListUpdate enterTabContent
    rw [if_neg]
    intro hc
    rw [hkeys] at hc
    exact absurd hc.2 (by decide)
  have hBm : (menuBeforeListUpdate lib ids env dt m).mActiveMenu = ActiveMenu.tabMenu := by
    rw [hB, mActiveMenu_syncDisplayedValues]
    exact hfocus
  have hshow' : (animateActiveTab dt m).mState = State.SHOW := hshow
  have hin : handleInput lib ids env late (animateActiveTab dt m) =
      handleButtons ids env late
        (handleMenuUpdate lib ids env (menuBeforeListUpdate lib ids env dt m)) := by
    unfold handleInput
    rw [if_pos ⟨hshow', hvis⟩]
    rfl
  unfold update
  simp only []
  rw [mActiveTab_update_tail, hin, mActiveTab_handleButtons]
  exact handleMenuUpdate_tab_selected lib ids env _ hres hBm

end OptionsMenu
namespace OptionsMenu

theorem fields_of_eq_withAnimated {x y : OptionsMenu} {b : ℚ} (h : x = withAnimated b y) :
    x.mActiveTab = y.mActiveTab ∧ x.mActiveMenu = y.mActiveMenu ∧
    x.mTabMenuEntries = y.mTabMenuEntries ∧ x.mTabs = y.mTabs ∧ x.mState = y.mState ∧
    x.mCalls = y.mCalls := by
  subst h
  exact ⟨rfl, rfl, rfl, rfl, rfl, rfl⟩

/-- C9: the animated tab value does not affect input routing.  For two menus that differ only
in `mActiveTabAnimated` (`m` and `withAnimated a m`) and get the same inputs and the same
`timeElapsed`, the results of `update` differ only in `mActiveTabAnimated`: they have the same
`mActiveTab`, the same `mActiveMenu`, the same selection indices (equal tab-title list and tab
lists), the same `mState` and the same recorded calls, among them every `applyValue` write.
And when the tab-title row keeps the focus and reports a changed option, `mActiveTab` is the
newly selected index of the tab selection entry at the end of that same `update` call. -/
theorem animated_tab_is_cosmetic (lib : MenuLib) (ids : Enumerators) (env late : Env)
    (timeElapsed : ℚ) (m : OptionsMenu) (a : ℚ) :
    let r1 := update lib ids env late timeElapsed m
    let r2 := update lib ids env late timeElapsed (withAnimated a m)
    r2 = withAnimated r2.mActiveTabAnimated r1 ∧
    r2.mActiveTab = r1.mActiveTab ∧
    r2.mActiveMenu = r1.mActiveMenu ∧
    r2.mTabMenuEntries = r1.mTabMenuEntries ∧
    r2.mTabs = r1.mTabs ∧
    r2.mState = r1.mState ∧
    r2.mCalls = r1.mCalls ∧
    (m.mState = State.SHOW → env.controllerSetupMenuVisible = false →
      m.mActiveMenu = ActiveMenu.tabMenu →
      (env.keys.Down.justPressedOrRepeat || env.keys.Up.justPressedOrRepeat) = false →
      (listUpdate lib ids env timeElapsed m).1 = UpdateResult.OPTION_CHANGED →
      r1.mActiveTab =
        ((listUpdate lib ids env timeElapsed m).2.entry ids._TAB_SELECTION).mSelectedIndex) := by
  intro r1 r2
  have h : r2 = withAnimated r2.mActiveTabAnimated r1 :=
    update_withAnimated lib ids env late timeElapsed a m
  obtain ⟨h1, h2, h3, h4, h5, h6⟩ := fields_of_eq_withAnimated h
  exact ⟨h, h1, h2, h3, h4, h5, h6,
    mActiveTab_update_tab_selected lib ids env late timeElapsed m⟩

set_option maxRecDepth 100000 in
/-- The theorem on the concrete menu with the tab-title row focused and tab 1 active, when
Left is pressed: the active tab is 0 after the call. -/
theorem animated_tab_is_cosmetic_witness :
    exampleMenu.mState = State.SHOW ∧ leftPressedEnv.controllerSetupMenuVisible = false ∧
    exampleMenu.mActiveMenu = ActiveMenu.tabMenu ∧ exampleMenu.mActiveTab = 1 ∧
    (listUpdate exampleLib exampleIds leftPressedEnv (1 / 60) exampleMenu).1 =
      UpdateResult.OPTION_CHANGED ∧
    (update exampleLib exampleIds leftPressedEnv leftPressedEnv (1 / 60) exampleMenu).mActiveTab
      = 0 :=
  ⟨rfl, rfl, rfl, rfl, by decide,
    (animated_tab_is_cosmetic exampleLib exampleIds leftPressedEnv leftPressedEnv (1 / 60)
      exampleMenu 0).2.2.2.2.2.2.2 rfl rfl rfl (by decide) (by decide)⟩

end OptionsMenu

namespace OptionsMenu

/-! ### The focused list after input handling -/

theorem mActiveMenu_modifyOptionMenuEntry (m : OptionsMenu) (d : Nat)
    (f : GameMenuEntry → GameMenuEntry) :
    (m.modifyOptionMenuEntry d f).mActiveMenu = m.mActiveMenu := by
  unfold modifyOptionMenuEntry
  split <;> rfl

theorem mActiveMenu_playSoundtest (s : Int) (d : AudioDefinition) (m : OptionsMenu) :
    (playSoundtest s d m).mActiveMenu = m.mActiveMenu := by
  unfold playSoundtest
  simp only []
  split <;> rfl

theorem mActiveMenu_restartMusic (s : Int) (m : OptionsMenu) :
    (restartMusic s m).mActiveMenu = m.mActiveMenu := by
  unfold restartMusic
  simp only []
  split
  · rfl
  · rw [mActiveMenu_playSoundtest]
    rfl

theorem mActiveMenu_goBack (env : Env) (m : OptionsMenu) :
    (goBack env m).mActiveMenu = m.mActiveMenu := by
  have h1 : ∀ x : OptionsMenu, (stopSoundTest x).mActiveMenu = x.mActiveMenu := by
    intro x
    unfold stopSoundTest
    split <;> rfl
  have h2 : ∀ x : OptionsMenu, (reloadScriptsIfChanged env x).mActiveMenu = x.mActiveMenu := by
    intro x
    unfold reloadScriptsIfChanged
    split <;> rfl
  have h3 : ∀ x : OptionsMenu, (startFadeOut x).mActiveMenu = x.mActiveMenu := fun _ => rfl
  have hcall : ∀ (x : OptionsMenu) (c : Call), (x.call c).mActiveMenu = x.mActiveMenu :=
    fun _ _ => rfl
  unfold goBack
  simp only []
  rw [h3, hcall, h2, hcall, hcall, h1, hcall]

theorem mActiveMenu_acceptSelectedEntry (ids : Enumerators) (late : Env) (e : GameMenuEntry)
    (m : OptionsMenu) : (acceptSelectedEntry ids late e m).mActiveMenu = m.mActiveMenu := by
  have h1 : (acceptSoundTest late e m).mActiveMenu = m.mActiveMenu := by
    unfold acceptSoundTest
    split
    · exact mActiveMenu_playSoundtest _ _ _
    · rfl
  have h2 : (acceptSoundtrackDownload late m).mActiveMenu = m.mActiveMenu := by
    unfold acceptSoundtrackDownload
    simp only []
    split
    · rw [mActiveMenu_restartMusic]
      rfl
    · rfl
  unfold acceptSelectedEntry
  simp only []
  split_ifs
  · exact h1
  · rfl
  · rfl
  · rfl
  · rfl
  · exact h2
  · rfl
  · rfl
  · exact mActiveMenu_goBack late m
  · rfl

theorem mActiveMenu_handleButtons (ids : Enumerators) (env late : Env) (m : OptionsMenu) :
    (handleButtons ids env late m).mActiveMenu = m.mActiveMenu := by
  unfold handleButtons
  split
  · rfl
  · exact mActiveMenu_goBack late m
  · split
    · exact mActiveMenu_acceptSelectedEntry ids late _ m
    · rfl

/-- The stages of `update` after the input handling keep the focused list. -/
theorem mActiveMenu_update_tail (lib : MenuLib) (ids : Enumerators) (late : Env) (dt : ℚ)
    (x : OptionsMenu) :
    ((refreshGamepadLists lib late false (updateTimeouts dt (updateFading dt
      (updateInteractable ids late x)))).call Call.baseUpdate).mActiveMenu = x.mActiveMenu := by
  have hcall : ∀ (y : OptionsMenu) (c : Call), (y.call c).mActiveMenu = y.mActiveMenu :=
    fun _ _ => rfl
  have hr : ∀ y : OptionsMenu, (refreshGamepadLists lib late false y).mActiveMenu =
      y.mActiveMenu := by
    intro y
    have hp : ∀ (z : OptionsMenu) (k : Nat),
        (refreshGamepadPlayer lib late z k).mActiveMenu = z.mActiveMenu := by
      intro z k
      unfold refreshGamepadPlayer
      split <;> rfl
    unfold refreshGamepadLists
    split
    · simp only [List.range, List.range.loop, List.foldl, hp]
      rfl
    · rfl
  have ht : ∀ y : OptionsMenu, (updateTimeouts dt y).mActiveMenu = y.mActiveMenu := fun _ => rfl
  have hf : ∀ y : OptionsMenu, (updateFading dt y).mActiveMenu = y.mActiveMenu := by
    intro y
    unfold updateFading finishAppear finishFadeOut
    split_ifs <;> rfl
  have hi : (updateInteractable ids late x).mActiveMenu = x.mActiveMenu := by
    unfold updateInteractable
    simp only []
    rw [mActiveMenu_modifyOptionMenuEntry, mActiveMenu_modifyOptionMenuEntry]
  rw [hcall, hr, ht, hf, hi]

end OptionsMenu
namespace OptionsMenu

/-! ### C10: entering the tab content -/

/-- The two statements that switch to the tab content: the focus is on the entry list of the
active tab, with the same entries as before and the selected entry index 0. -/
theorem switchToTabContent_spec (x : OptionsMenu) :
    (switchToTabContent x).mActiveMenu = ActiveMenu.tabContent x.mActiveTab ∧
    (switchToTabContent x).activeEntries.mSelectedEntryIndex = 0 ∧
    (switchToTabContent x).activeEntries.mEntries =
      (x.mTabs.getD x.mActiveTab ⟨[], 0⟩).mEntries := by
  have hm : (switchToTabContent x).mActiveMenu = ActiveMenu.tabContent x.mActiveTab := rfl
  have ha : (switchToTabContent x).activeEntries =
      (modifyAt (fun _ => { x.mTabs.getD x.mActiveTab ⟨[], 0⟩ with mSelectedEntryIndex := 0 })
        x.mActiveTab x.mTabs).getD x.mActiveTab ⟨[], 0⟩ := rfl
  refine ⟨hm, ?_, ?_⟩
  · rw [ha, List.getD_eq_getElem?_getD, getElem?_modifyAt, if_pos rfl]
    cases h : x.mTabs[x.mActiveTab]? <;> simp
  · rw [ha, List.getD_eq_getElem?_getD, getElem?_modifyAt, if_pos rfl]
    cases h : x.mTabs[x.mActiveTab]? <;> simp [List.getD_eq_getElem?_getD, h]

theorem mActiveTab_syncDisplayedValues (lib : MenuLib) (ids : Enumerators) (env : Env)
    (m : OptionsMenu) : (syncDisplayedValues lib ids env m).mActiveTab = m.mActiveTab := by
  have h2 : ∀ (x : OptionsMenu) (d : Nat),
      (loadOptionValue lib env d x).mActiveTab = x.mActiveTab := by
    intro x d
    unfold loadOptionValue
    split
    · split <;> rfl
    · rfl
  unfold syncDisplayedValues
  simp only []
  rw [mActiveTab_modifyOptionMenuEntry, h2, h2, h2, h2, mActiveTab_modifyOptionMenuEntry]

theorem mActiveMenu_applyOptionChange (ids : Enumerators) (env : Env) (e : GameMenuEntry)
    (m : OptionsMenu) : (applyOptionChange ids env e m).mActiveMenu = m.mActiveMenu := by
  have h1 : (changeSoundtrack env e m).mActiveMenu = m.mActiveMenu := by
    unfold changeSoundtrack
    simp only []
    split
    · have hme : ∀ (x : OptionsMenu) (r : EntryRef) (f : GameMenuEntry → GameMenuEntry),
          (x.modifyEntry r f).mActiveMenu = x.mActiveMenu := fun _ _ _ => rfl
      rw [hme, mActiveMenu_restartMusic]
      rfl
    · rfl
  have h2 : (applyDefaultChange ids e m).mActiveMenu = m.mActiveMenu := by
    have hw : ∀ (x : OptionsMenu) (d : Nat),
        (showAudioWarning ids d x).mActiveMenu = x.mActiveMenu := by
      intro x d
      unfold showAudioWarning
      split <;> rfl
    have hg : ∀ x : OptionsMenu, (applyGenericValue ids e x).mActiveMenu = x.mActiveMenu := by
      intro x
      unfold applyGenericValue
      simp only []
      split_ifs <;> rfl
    unfold applyDefaultChange
    simp only []
    rw [hw, hg]
    rfl
  unfold applyOptionChange
  simp only []
  split_ifs
  · rfl
  · rfl
  · rfl
  · exact h1
  · rfl
  · rfl
  · rfl
  · exact h2

end OptionsMenu
namespace OptionsMenu

/-- Focus after the reaction to the list update, when the focus was inside a tab. -/
theorem mActiveMenu_reactToUpdateResult_inTab (ids : Enumerators) (env : Env)
    (res : UpdateResult) (C : OptionsMenu) (t : Nat)
    (hC : C.mActiveMenu = ActiveMenu.tabContent t) :
    (reactToUpdateResult ids env res C).mActiveMenu =
      if res = UpdateResult.ENTRY_CHANGED ∧ C.activeEntries.mSelectedEntryIndex = 0 then
        ActiveMenu.tabMenu
      else ActiveMenu.tabContent t := by
  have hne : C.mActiveMenu ≠ ActiveMenu.tabMenu := by
    rw [hC]
    exact fun h => ActiveMenu.noConfusion h
  have hne' : (C.call (Call.playMenuSound 0x5b)).mActiveMenu ≠ ActiveMenu.tabMenu := hne
  have hidx : (C.call (Call.playMenuSound 0x5b)).activeEntries = C.activeEntries := rfl
  unfold reactToUpdateResult
  cases res
  · rw [if_pos rfl, if_neg (fun h => absurd h.1 (by decide))]
    exact hC
  · rw [if_neg (by decide), if_neg (fun h => absurd h.1 (by decide))]
    unfold reactInsideTab
    rw [hidx]
    by_cases h0 : C.activeEntries.mSelectedEntryIndex = 0
    · rw [if_pos ⟨rfl, hne', h0⟩, if_pos ⟨rfl, h0⟩]
      rfl
    · rw [if_neg (fun h => h0 h.2.2), if_neg (fun h => absurd h.1 (by decide)),
        if_neg (fun h => h0 h.2)]
      exact hC
  · rw [if_neg (by decide), if_neg (fun h => hne h.2)]
    unfold reactInsideTab
    rw [if_neg (fun h => absurd h.1 (by decide)), if_pos ⟨rfl, hne'⟩,
      mActiveMenu_applyOptionChange, if_neg (fun h => absurd h.1 (by decide))]
    exact hC

/-- Focus at the end of `update` when the input is handled and the list update ran inside a
tab. -/
theorem mActiveMenu_update_inTab (lib : MenuLib) (ids : Enumerators) (env late : Env)
    (dt : ℚ) (m : OptionsMenu) (t : Nat) (hshow : m.mState = State.SHOW)
    (hvis : env.controllerSetupMenuVisible = false)
    (hB : (menuBeforeListUpdate lib ids env dt m).mActiveMenu = ActiveMenu.tabContent t) :
    (update lib ids env late dt m).mActiveMenu =
      if (listUpdate lib ids env dt m).1 = UpdateResult.ENTRY_CHANGED ∧
          (menuAfterListUpdate lib ids env dt m).activeEntries.mSelectedEntryIndex = 0 then
        ActiveMenu.tabMenu
      else ActiveMenu.tabContent t := by
  have hset : ∀ (x : OptionsMenu) (es : GameMenuEntries),
      (x.setActiveEntries es).mActiveMenu = x.mActiveMenu := by
    intro x es
    unfold setActiveEntries
    split <;> rfl
  have hC : (menuAfterListUpdate lib ids env dt m).mActiveMenu = ActiveMenu.tabContent t := by
    unfold menuAfterListUpdate
    rw [hset]
    exact hB
  have hshow' : (animateActiveTab dt m).mState = State.SHOW := hshow
  have hin : handleInput lib ids env late (animateActiveTab dt m) =
      handleButtons ids env late (reactToUpdateResult ids env (listUpdate lib ids env dt m).1
        (menuAfterListUpdate lib ids env dt m)) := by
    unfold handleInput
    rw [if_pos ⟨hshow', hvis⟩]
    rfl
  unfold update
  simp only []
  rw [mActiveMenu_update_tail, hin, mActiveMenu_handleButtons]
  exact mActiveMenu_reactToUpdateResult_inTab ids env _ _ t hC

end OptionsMenu

namespace OptionsMenu

set_option maxRecDepth 100000 in
/-- C10 (counterexample): the tab-title row has the focus, the state is `SHOW` and Down is
pressed, but the controller setup menu is visible: `update` leaves the focus on the tab-title
row, does not reset the selected entry index 5 of the active tab, and only calls the base
class update. -/
theorem down_press_ignored_while_setup_visible :
    (exampleMenuTitleFocus 5).mState = State.SHOW ∧
    (exampleMenuTitleFocus 5).mActiveMenu = ActiveMenu.tabMenu ∧
    (exampleMenuTitleFocus 5).mActiveTab = 1 ∧
    setupVisibleEnv.keys.Down.justPressedOrRepeat = true ∧
    (update exampleLib exampleIds setupVisibleEnv setupVisibleEnv (1 / 60)
      (exampleMenuTitleFocus 5)).mActiveMenu = ActiveMenu.tabMenu ∧
    ((update exampleLib exampleIds setupVisibleEnv setupVisibleEnv (1 / 60)
      (exampleMenuTitleFocus 5)).mTabs.getD 1 ⟨[], 0⟩).mSelectedEntryIndex = 5 ∧
    (update exampleLib exampleIds setupVisibleEnv setupVisibleEnv (1 / 60)
      (exampleMenuTitleFocus 5)).mCalls = [Call.baseUpdate] := by
  refine ⟨rfl, rfl, rfl, by decide, by decide, by decide, by decide⟩

/-- C10 (amended): when the tab-title row has the focus, the state is `SHOW`, the controller
setup menu is not visible and Down or Up is pressed or repeats, `update` moves the focus to
the entry list of the active tab and resets the selected entry index of that list to 0 before
the list processes the key press: the list update runs on the entries of `mTabs[mActiveTab]`
with selected entry index 0.  At the end of the call the focus is on that list, unless the
list update reports `ENTRY_CHANGED` with the selected entry index at 0, which moves the focus
back to the tab-title row. -/
theorem down_up_enters_tab_content (lib : MenuLib) (ids : Enumerators) (env late : Env)
    (timeElapsed : ℚ) (m : OptionsMenu) (hshow : m.mState = State.SHOW)
    (hvis : env.controllerSetupMenuVisible = false)
    (hfocus : m.mActiveMenu = ActiveMenu.tabMenu)
    (hkeys : (env.keys.Down.justPressedOrRepeat || env.keys.Up.justPressedOrRepeat) = true) :
    let before := menuBeforeListUpdate lib ids env timeElapsed m
    let after := menuAfterListUpdate lib ids env timeElapsed m
    before.mActiveMenu = ActiveMenu.tabContent m.mActiveTab ∧
    before.activeEntries.mSelectedEntryIndex = 0 ∧
    before.activeEntries.mEntries =
      ((syncDisplayedValues lib ids env (animateActiveTab timeElapsed m)).mTabs.getD
        m.mActiveTab ⟨[], 0⟩).mEntries ∧
    listUpdate lib ids env timeElapsed m = lib.entriesUpdate env before.activeEntries ∧
    (update lib ids env late timeElapsed m).mActiveMenu =
      if (listUpdate lib ids env timeElapsed m).1 = UpdateResult.ENTRY_CHANGED ∧
          after.activeEntries.mSelectedEntryIndex = 0 then
        ActiveMenu.tabMenu
      else ActiveMenu.tabContent m.mActiveTab := by
  intro before after
  have hx : (syncDisplayedValues lib ids env (animateActiveTab timeElapsed m)).mActiveMenu =
      ActiveMenu.tabMenu := by
    rw [mActiveMenu_syncDisplayedValues]
    exact hfocus
  have ht : (syncDisplayedValues lib ids env (animateActiveTab timeElapsed m)).mActiveTab =
      m.mActiveTab := by
    rw [mActiveTab_syncDisplayedValues]
    rfl
  have hB : before =
      switchToTabContent (syncDisplayedValues lib ids env (animateActiveTab timeElapsed m)) := by
    show enterTabContent env _ = _
    unfold enterTabContent
    rw [if_pos ⟨hx, hkeys⟩]
  obtain ⟨s1, s2, s3⟩ := switchToTabContent_spec
    (syncDisplayedValues lib ids env (animateActiveTab timeElapsed m))
  rw [← hB, ht] at s1 s3
  rw [← hB] at s2
  exact ⟨s1, s2, s3, rfl, mActiveMenu_update_inTab lib ids env late timeElapsed m m.mActiveTab
    hshow hvis s1⟩

set_option maxRecDepth 100000 in
/-- The amended theorem on the concrete menu with the tab-title row focused, when Down is
pressed: the list update runs on the list of tab 1 with the selected entry index reset from 5
to 0, and the focus is inside tab 1 after the call. -/
theorem down_up_enters_tab_content_witness :
    (exampleMenuTitleFocus 5).mState = State.SHOW ∧
    downPressedEnv.controllerSetupMenuVisible = false ∧
    (exampleMenuTitleFocus 5).mActiveMenu = ActiveMenu.tabMenu ∧
    (menuBeforeListUpdate exampleLib exampleIds downPressedEnv (1 / 60)
      (exampleMenuTitleFocus 5)).activeEntries.mSelectedEntryIndex = 0 ∧
    (update exampleLib exampleIds downPressedEnv downPressedEnv (1 / 60)
      (exampleMenuTitleFocus 5)).mActiveMenu = ActiveMenu.tabContent 1 :=
  ⟨rfl, rfl, rfl,
    (down_up_enters_tab_content exampleLib exampleIds downPressedEnv downPressedEnv (1 / 60)
      (exampleMenuTitleFocus 5) rfl rfl rfl (by decide)).2.1,
    by decide⟩

end OptionsMenu

namespace OptionsMenu

/-! ### C11: leaving the tab content upwards -/

theorem length_mTabs_modifyEntry (m : OptionsMenu) (r : EntryRef)
    (f : GameMenuEntry → GameMenuEntry) : (m.modifyEntry r f).mTabs.length = m.mTabs.length := by
  unfold modifyEntry modifyEntryTabs
  exact length_modifyAt _ _ _

theorem length_mTabs_modifyOptionMenuEntry (m : OptionsMenu) (d : Nat)
    (f : GameMenuEntry → GameMenuEntry) :
    (m.modifyOptionMenuEntry d f).mTabs.length = m.mTabs.length := by
  unfold modifyOptionMenuEntry
  split
  · exact length_mTabs_modifyEntry _ _ _
  · rfl

theorem length_mTabs_loadOptionValue (lib : MenuLib) (env : Env) (d : Nat) (m : OptionsMenu) :
    (loadOptionValue lib env d m).mTabs.length = m.mTabs.length := by
  unfold loadOptionValue
  split
  · split
    · exact length_mTabs_modifyEntry _ _ _
    · rfl
  · rfl

theorem length_mTabs_syncDisplayedValues (lib : MenuLib) (ids : Enumerators) (env : Env)
    (m : OptionsMenu) : (syncDisplayedValues lib ids env m).mTabs.length = m.mTabs.length := by
  unfold syncDisplayedValues
  simp only []
  rw [length_mTabs_modifyOptionMenuEntry, length_mTabs_loadOptionValue,
    length_mTabs_loadOptionValue, length_mTabs_loadOptionValue, length_mTabs_loadOptionValue,
    length_mTabs_modifyOptionMenuEntry]

/-- With the focus inside a tab, the switch to the tab content does not run: the list update
acts on the refreshed menu. -/
theorem menuBeforeListUpdate_inTab (lib : MenuLib) (ids : Enumerators) (env : Env) (dt : ℚ)
    (m : OptionsMenu) (t : Nat) (hfocus : m.mActiveMenu = ActiveMenu.tabContent t) :
    menuBeforeListUpdate lib ids env dt m =
      syncDisplayedValues lib ids env (animateActiveTab dt m) ∧
    (menuBeforeListUpdate lib ids env dt m).mActiveMenu = ActiveMenu.tabContent t := by
  have hx : (syncDisplayedValues lib ids env (animateActiveTab dt m)).mActiveMenu =
      ActiveMenu.tabContent t := by
    rw [mActiveMenu_syncDisplayedValues]
    exact hfocus
  have hB : menuBeforeListUpdate lib ids env dt m =
      syncDisplayedValues lib ids env (animateActiveTab dt m) := by
    unfold menuBeforeListUpdate enterTabContent
    rw [if_neg]
    intro hc
    rw [hx] at hc
    exact ActiveMenu.noConfusion hc.1
  exact ⟨hB, by rw [hB]; exact hx⟩

/-- Storing a list through `mActiveMenu` and reading it back, for a pointer to an existing
tab. -/
theorem activeEntries_setActiveEntries (x : OptionsMenu) (t : Nat) (es : GameMenuEntries)
    (hx : x.mActiveMenu = ActiveMenu.tabContent t) (ht : t < x.mTabs.length) :
    (x.setActiveEntries es).activeEntries = es := by
  have h1 : x.setActiveEntries es = { x with mTabs := modifyAt (fun _ => es) t x.mTabs } := by
    unfold setActiveEntries
    rw [hx]
  have h2 : ({ x with mTabs := modifyAt (fun _ => es) t x.mTabs } : OptionsMenu).activeEntries =
      (modifyAt (fun _ => es) t x.mTabs).getD t ⟨[], 0⟩ := by
    unfold activeEntries
    simp only [hx]
  rw [h1, h2, List.getD_eq_getElem?_getD, getElem?_modifyAt, if_pos rfl,
    List.getElem?_eq_getElem ht]
  rfl

end OptionsMenu
namespace OptionsMenu

/-- C11: when the entry list of tab `t` has the focus and its update, run by `update`, reports
`ENTRY_CHANGED`, the focus moves back to the tab-title row if the selected entry index of the
list is now 0, and stays in the entry list of tab `t` for any other selected entry index. -/
theorem entry_changed_at_title_line_leaves_tab (lib : MenuLib) (ids : Enumerators)
    (env late : Env) (timeElapsed : ℚ) (m : OptionsMenu) (t : Nat)
    (hshow : m.mState = State.SHOW) (hvis : env.controllerSetupMenuVisible = false)
    (hfocus : m.mActiveMenu = ActiveMenu.tabContent t) (ht : t < m.mTabs.length)
    (hres : (listUpdate lib ids env timeElapsed m).1 = UpdateResult.ENTRY_CHANGED) :
    (menuAfterListUpdate lib ids env timeElapsed m).activeEntries =
      (listUpdate lib ids env timeElapsed m).2 ∧
    ((listUpdate lib ids env timeElapsed m).2.mSelectedEntryIndex = 0 →
      (update lib ids env late timeElapsed m).mActiveMenu = ActiveMenu.tabMenu) ∧
    ((listUpdate lib ids env timeElapsed m).2.mSelectedEntryIndex ≠ 0 →
      (update lib ids env late timeElapsed m).mActiveMenu = ActiveMenu.tabContent t) := by
  obtain ⟨hB, hBm⟩ := menuBeforeListUpdate_inTab lib ids env timeElapsed m t hfocus
  have hlen : t < (menuBeforeListUpdate lib ids env timeElapsed m).mTabs.length := by
    rw [hB, length_mTabs_syncDisplayedValues]
    exact ht
  have hact : (menuAfterListUpdate lib ids env timeElapsed m).activeEntries =
      (listUpdate lib ids env timeElapsed m).2 := by
    unfold menuAfterListUpdate
    exact activeEntries_setActiveEntries _ t _ hBm hlen
  have hfinal := mActiveMenu_update_inTab lib ids env late timeElapsed m t hshow hvis hBm
  rw [hact] at hfinal
  refine ⟨hact, ?_, ?_⟩
  · intro h0
    rw [hfinal, if_pos ⟨hres, h0⟩]
  · intro h0
    rw [hfinal, if_neg (fun hc => h0 hc.2)]

set_option maxRecDepth 100000 in
/-- The theorem on the concrete menu with the focus on line 1 of tab 1, when Up is pressed:
the cursor reaches line 0 and the focus is on the tab-title row after the call. -/
theorem entry_changed_at_title_line_leaves_tab_witness :
    (exampleMenuAt 1).mState = State.SHOW ∧ upPressedEnv.controllerSetupMenuVisible = false ∧
    (exampleMenuAt 1).mActiveMenu = ActiveMenu.tabContent 1 ∧
    (listUpdate exampleLib exampleIds upPressedEnv (1 / 60) (exampleMenuAt 1)).1 =
      UpdateResult.ENTRY_CHANGED ∧
    (listUpdate exampleLib exampleIds upPressedEnv (1 / 60) (exampleMenuAt 1)).2.mSelectedEntryIndex
      = 0 ∧
    (update exampleLib exampleIds upPressedEnv upPressedEnv (1 / 60)
      (exampleMenuAt 1)).mActiveMenu = ActiveMenu.tabMenu :=
  ⟨rfl, rfl, rfl, by decide, by decide,
    (entry_changed_at_title_line_leaves_tab exampleLib exampleIds upPressedEnv upPressedEnv
      (1 / 60) (exampleMenuAt 1) 1 rfl rfl rfl (by decide) (by decide)).2.1 (by decide)⟩

end OptionsMenu

namespace SharedDatabase

/-! ### C13, C14: setting values -/

theorem mapFind_mapAssign {β : Type} (key k : Nat) (v : β) (l : List (Nat × β)) :
    mapFind k (mapAssign key v l) = if k = key then some v else mapFind k l := by
  induction l with
  | nil =>
    by_cases h : k = key
    · simp [mapAssign, mapFind, h]
    · simp [mapAssign, mapFind, h, Ne.symm h]
  | cons a rest ih =>
    obtain ⟨k0, v0⟩ := a
    by_cases h0 : k0 = key
    · by_cases h : k = key
      · simp [mapAssign, mapFind, h0, h]
      · simp [mapAssign, mapFind, h0, h, Ne.symm h]
    · by_cases h : k = key
      · simp only [mapAssign, if_neg h0, mapFind, ih, if_pos h]
        rw [if_neg]
        rw [h]
        exact h0
      · simp only [mapAssign, if_neg h0, mapFind, ih, if_neg h]

theorem getSetting_addSetting (db : SharedDatabase) (id : Nat) (identifier : String)
    (ser : SerializationType) (enforce : Bool) (k : Nat) :
    getSetting (addSetting db id identifier ser enforce) k =
      if k = id % 2 ^ 32 then some (newSetting id identifier ser enforce)
      else getSetting db k := by
  unfold getSetting addSetting
  exact mapFind_mapAssign _ _ _ _

/-- C13: `getSettingValue(settingId)` returns the stored current value of the setting when
`settingId` is registered in the settings table, and the low byte `settingId & 0xff` of the
ID otherwise. -/
theorem getSettingValue_registered_or_low_byte (db : SharedDatabase) (settingId : Nat) :
    (∀ setting : Setting, getSetting db settingId = some setting →
      getSettingValue db settingId = setting.mCurrentValue) ∧
    (getSetting db settingId = none → getSettingValue db settingId = settingId &&& 0xff) := by
  constructor
  · intro setting h
    unfold getSettingValue
    rw [h]
  · intro h
    unfold getSettingValue
    rw [h]

/-- The theorem on a table with one setting, registered under the ID `0x80000105` and
changed to the value 9 afterwards: the registered ID yields 9, the unregistered ID `0x207`
yields its low byte 7. -/
theorem getSettingValue_registered_or_low_byte_witness :
    getSetting ⟨true, [], [], [(0x80000105,
        { newSetting 0x80000105 "Setting::X" SerializationType.ALWAYS false with
          mCurrentValue := 9 })], [], [], []⟩ 0x207 = none ∧
    getSettingValue ⟨true, [], [], [(0x80000105,
        { newSetting 0x80000105 "Setting::X" SerializationType.ALWAYS false with
          mCurrentValue := 9 })], [], [], []⟩ 0x80000105 = 9 ∧
    getSettingValue ⟨true, [], [], [(0x80000105,
        { newSetting 0x80000105 "Setting::X" SerializationType.ALWAYS false with
          mCurrentValue := 9 })], [], [], []⟩ 0x207 = 7 :=
  ⟨by decide,
    (getSettingValue_registered_or_low_byte _ 0x80000105).1
      { newSetting 0x80000105 "Setting::X" SerializationType.ALWAYS false with
        mCurrentValue := 9 } (by decide),
    (getSettingValue_registered_or_low_byte _ 0x207).2 (by decide)⟩

end SharedDatabase

namespace SharedDatabase

theorem low_byte_of_uint32 (id : Nat) : (id % 2 ^ 32) &&& 0xff = id &&& 0xff := by
  have h1 : ∀ x : Nat, x &&& 0xff = x % 2 ^ 8 := fun x => Nat.and_pow_two_sub_one_eq_mod x 8
  rw [h1, h1]
  exact Nat.mod_mod_of_dvd id (by norm_num)

theorem bit31_of_uint32 (id : Nat) :
    (((id % 2 ^ 32) &&& 0x80000000) != 0) = id.testBit 31 := by
  have hT : ∀ i : Nat, Nat.testBit 0x80000000 i = decide (31 = i) := by
    intro i
    have h2 : (0x80000000 : Nat) = 2 ^ 31 := by norm_num
    rw [h2]
    exact Nat.testBit_two_pow
  have h : (id % 2 ^ 32) &&& 0x80000000 = if id.testBit 31 then 0x80000000 else 0 := by
    apply Nat.eq_of_testBit_eq
    intro i
    rw [Nat.testBit_and, Nat.testBit_mod_two_pow, hT]
    by_cases hi : 31 = i
    · subst hi
      cases hb : id.testBit 31 <;> simp [hT]
    · cases hb : id.testBit 31 <;> simp [hi, hT]
  rw [h]
  cases id.testBit 31 <;> simp

theorem lowByteValues_addSetting (db : SharedDatabase) (id : Nat) (identifier : String)
    (ser : SerializationType) (enforce : Bool) (h : LowByteValues db) :
    LowByteValues (addSetting db id identifier ser enforce) := by
  intro k s hs
  rw [getSetting_addSetting] at hs
  by_cases hk : k = id % 2 ^ 32
  · rw [if_pos hk] at hs
    cases hs
    rw [hk]
    rfl
  · rw [if_neg hk] at hs
    exact h k s hs

theorem lowByteValues_foldl (l : List SettingSetup) (db : SharedDatabase)
    (h : LowByteValues db) :
    LowByteValues (l.foldl
      (fun d s => addSetting d s.id s.identifier s.serializationType s.enforceAllowInTimeAttack)
      db) := by
  induction l generalizing db with
  | nil => exact h
  | cons a rest ih => exact ih _ (lowByteValues_addSetting db _ _ _ _ h)

theorem mSettings_foldl_addAchievement (l : List (Nat × String × String)) (db : SharedDatabase) :
    (l.foldl (fun d a => addAchievement d a.1 a.2.1 a.2.2) db).mSettings = db.mSettings := by
  induction l generalizing db with
  | nil => rfl
  | cons a rest ih => rw [List.foldl_cons, ih]; rfl

theorem mSettings_foldl_addSecret (l : List SecretSetup) (db : SharedDatabase) :
    (l.foldl (fun d s => addSecret d s.type s.hiddenUntilUnlocked s.shownInMenu s.serialized
      s.requiredAchievements s.name s.image) db).mSettings = db.mSettings := by
  induction l generalizing db with
  | nil => rfl
  | cons a rest ih => rw [List.foldl_cons, ih]; rfl

theorem mSettings_populate (sids : SettingIds) (aids : AchievementIds) (cids : SecretIds)
    (db : SharedDatabase) :
    (populate sids aids cids db).mSettings =
      (setupSettings sids { db with mAllZones := db.mAllZones ++ zoneList }).mSettings := by
  unfold populate
  simp only []
  rw [mSettings_foldl_addSecret]
  unfold buildAchievementMap
  simp only []
  rw [mSettings_foldl_addAchievement]

theorem lowByteValues_initializeTables (sids : SettingIds) (aids : AchievementIds)
    (cids : SecretIds) : LowByteValues (initializeTables sids aids cids initial) := by
  have h0 : LowByteValues { initial with mAllZones := initial.mAllZones ++ zoneList } := by
    intro k s hs
    cases hs
  have h1 := lowByteValues_foldl (settingSetups sids) _ h0
  intro k s hs
  apply h1 k s
  unfold getSetting at hs ⊢
  have hinit : initializeTables sids aids cids initial = populate sids aids cids initial := rfl
  rw [hinit, mSettings_populate] at hs
  exact hs

/-- C14: a setting registered through `addSetting(id, identifier, serializationType,
enforceAllowInTimeAttack)` is stored under `(uint32)id` with default value and current value
`id & 0xff`, with the purely-visual flag set iff bit 31 of `id` is set, and allowed in Time
Attack iff it is purely visual or `enforceAllowInTimeAttack` is true.  Right after
`initialize()` on the empty tables, `getSettingValue(settingId)` is `settingId & 0xff` for
every `settingId`, registered or not. -/
theorem addSetting_low_byte_and_flags (db : SharedDatabase) (id : Nat) (identifier : String)
    (serializationType : SerializationType) (enforceAllowInTimeAttack : Bool)
    (sids : SettingIds) (aids : AchievementIds) (cids : SecretIds) (settingId : Nat) :
    (∃ setting : Setting,
      getSetting (addSetting db id identifier serializationType enforceAllowInTimeAttack)
        (id % 2 ^ 32) = some setting ∧
      setting.mDefaultValue = id &&& 0xff ∧
      setting.mCurrentValue = id &&& 0xff ∧
      setting.mSerializationType = serializationType ∧
      (setting.mPurelyVisual = true ↔ id.testBit 31 = true) ∧
      (setting.mAllowInTimeAttack = true ↔
        (setting.mPurelyVisual = true ∨ enforceAllowInTimeAttack = true))) ∧
    getSettingValue (initializeTables sids aids cids initial) settingId = settingId &&& 0xff := by
  constructor
  · refine ⟨newSetting id identifier serializationType enforceAllowInTimeAttack, ?_, ?_, ?_,
      rfl, ?_, ?_⟩
    · rw [getSetting_addSetting, if_pos rfl]
    · exact low_byte_of_uint32 id
    · exact low_byte_of_uint32 id
    · unfold newSetting
      simp only []
      rw [bit31_of_uint32]
    · unfold newSetting
      simp only [Bool.or_eq_true]
      exact Or.comm
  · unfold getSettingValue
    cases h : getSetting (initializeTables sids aids cids initial) settingId with
    | none => rfl
    | some s => exact lowByteValues_initializeTables sids aids cids settingId s h

end SharedDatabase

namespace SharedDatabase

/-! ### C20: the tables are populated once -/

theorem mIsInitialized_initializeTables (sids : SettingIds) (aids : AchievementIds)
    (cids : SecretIds) (db : SharedDatabase) :
    (initializeTables sids aids cids db).mIsInitialized = true := by
  unfold initializeTables
  split
  · assumption
  · rfl

theorem initializeTables_of_initialized (sids : SettingIds) (aids : AchievementIds)
    (cids : SecretIds) (db : SharedDatabase) (h : db.mIsInitialized = true) :
    initializeTables sids aids cids db = db := by
  unfold initializeTables
  rw [if_pos h]

theorem iterate_initializeTables (sids : SettingIds) (aids : AchievementIds)
    (cids : SecretIds) (db : SharedDatabase) (n : Nat) :
    (initializeTables sids aids cids)^[n + 1] db = initializeTables sids aids cids db := by
  induction n with
  | zero => rfl
  | succ n ih =>
    rw [Function.iterate_succ_apply', ih]
    exact initializeTables_of_initialized sids aids cids _
      (mIsInitialized_initializeTables sids aids cids db)

theorem mAllZones_foldl_addSetting (l : List SettingSetup) (db : SharedDatabase) :
    (l.foldl
      (fun d s => addSetting d s.id s.identifier s.serializationType s.enforceAllowInTimeAttack)
      db).mAllZones = db.mAllZones := by
  induction l generalizing db with
  | nil => rfl
  | cons a rest ih => rw [List.foldl_cons, ih]; rfl

theorem mAllZones_foldl_addAchievement (l : List (Nat × String × String))
    (db : SharedDatabase) :
    (l.foldl (fun d a => addAchievement d a.1 a.2.1 a.2.2) db).mAllZones = db.mAllZones := by
  induction l generalizing db with
  | nil => rfl
  | cons a rest ih => rw [List.foldl_cons, ih]; rfl

theorem mAllZones_foldl_addSecret (l : List SecretSetup) (db : SharedDatabase) :
    (l.foldl (fun d s => addSecret d s.type s.hiddenUntilUnlocked s.shownInMenu s.serialized
      s.requiredAchievements s.name s.image) db).mAllZones = db.mAllZones := by
  induction l generalizing db with
  | nil => rfl
  | cons a rest ih => rw [List.foldl_cons, ih]; rfl

theorem mAllZones_initializeTables (sids : SettingIds) (aids : AchievementIds)
    (cids : SecretIds) :
    (initializeTables sids aids cids initial).mAllZones = zoneList := by
  have hinit : initializeTables sids aids cids initial = populate sids aids cids initial := rfl
  rw [hinit]
  unfold populate
  simp only []
  rw [mAllZones_foldl_addSecret]
  unfold buildAchievementMap
  simp only []
  rw [mAllZones_foldl_addAchievement]
  unfold setupSettings
  rw [mAllZones_foldl_addSetting]
  rfl

/-- C20: `SharedDatabase::initialize()` populates the tables once.  After the first call on
the empty tables the zone list holds the 14 zones, and a second and any later call returns
the database exactly as the first call left it: the zone list, the settings table with its
current values, the achievement list and map and the secret list are unchanged. -/
theorem initialize_populates_once (sids : SettingIds) (aids : AchievementIds)
    (cids : SecretIds) (db : SharedDatabase) (n : Nat) :
    (initializeTables sids aids cids initial).mAllZones.length = 14 ∧
    (initializeTables sids aids cids db).mIsInitialized = true ∧
    initializeTables sids aids cids (initializeTables sids aids cids db) =
      initializeTables sids aids cids db ∧
    (initializeTables sids aids cids)^[n + 1] db = initializeTables sids aids cids db ∧
    ((initializeTables sids aids cids)^[n + 1] db).mAllZones =
      (initializeTables sids aids cids db).mAllZones ∧
    ((initializeTables sids aids cids)^[n + 1] db).mSettings =
      (initializeTables sids aids cids db).mSettings ∧
    ((initializeTables sids aids cids)^[n + 1] db).mAchievements =
      (initializeTables sids aids cids db).mAchievements ∧
    ((initializeTables sids aids cids)^[n + 1] db).mAchievementMap =
      (initializeTables sids aids cids db).mAchievementMap ∧
    ((initializeTables sids aids cids)^[n + 1] db).mSecrets =
      (initializeTables sids aids cids db).mSecrets := by
  have hit := iterate_initializeTables sids aids cids db n
  refine ⟨?_, mIsInitialized_initializeTables sids aids cids db,
    initializeTables_of_initialized sids aids cids _
      (mIsInitialized_initializeTables sids aids cids db), hit, ?_, ?_, ?_, ?_, ?_⟩
  · rw [mAllZones_initializeTables]
    rfl
  all_goals rw [hit]

end SharedDatabase

namespace OptionsMenu

/-! ### C18: the constructor registers the dereferenced options -/

theorem mData_addOption (e : GameMenuEntry) (v : Nat) : (e.addOption v).mData = e.mData := rfl

theorem mData_foldl_addOption (vs : List Nat) (e : GameMenuEntry) :
    (vs.foldl GameMenuEntry.addOption e).mData = e.mData := by
  induction vs generalizing e with
  | nil => rfl
  | cons v rest ih => rw [List.foldl_cons, ih, mData_addOption]

@[simp] theorem mData_newEntry (kind : EntryKind) (data : Nat) (values : List Nat) :
    (newEntry kind data values).mData = data := by
  unfold newEntry
  rw [mData_foldl_addOption]
  rfl

theorem length_addEntries (tab : Nat) (es : List GameMenuEntry) (tabs : List GameMenuEntries) :
    (addEntries tab es tabs).length = tabs.length :=
  length_modifyAt _ _ _

theorem length_addDummyEntries (n : Nat) (tabs : List GameMenuEntries) :
    (addDummyEntries n tabs).length = tabs.length := by
  unfold addDummyEntries
  generalize List.range n = l
  induction l generalizing tabs with
  | nil => rfl
  | cons a rest ih => rw [List.foldl_cons, ih, length_modifyAt]

/-- Appending entries to a tab keeps every entry there is at its place. -/
theorem entryAtTabs_addEntries (tab : Nat) (es : List GameMenuEntry)
    (tabs : List GameMenuEntries) (r : EntryRef) (e : GameMenuEntry)
    (h : entryAtTabs tabs r = some e) : entryAtTabs (addEntries tab es tabs) r = some e := by
  unfold entryAtTabs at h ⊢
  unfold addEntries
  rw [getElem?_modifyAt]
  cases ht : tabs[r.1]? with
  | none => rw [ht] at h; cases h
  | some tb =>
    rw [ht] at h
    simp only [] at h
    by_cases hr : r.1 = tab
    · rw [if_pos hr]
      simp only [Option.map_some']
      have hk : r.2 < tb.mEntries.length := (List.getElem?_eq_some_iff.1 h).1
      rw [List.getElem?_append_left hk]
      exact h
    · rw [if_neg hr]
      exact h

theorem hasData_addEntries (tab : Nat) (es : List GameMenuEntry) (tabs : List GameMenuEntries)
    (t d : Nat) (h : HasData tabs t d) : HasData (addEntries tab es tabs) t d := by
  obtain ⟨k, e, he, hd⟩ := h
  exact ⟨k, e, entryAtTabs_addEntries tab es tabs (t, k) e he, hd⟩

/-- The entries appended to an existing tab are entries of that tab. -/
theorem hasData_addEntries_new (tab : Nat) (es : List GameMenuEntry)
    (tabs : List GameMenuEntries) (d : Nat) (ht : tab < tabs.length)
    (hd : d ∈ es.map (fun e => e.mData)) : HasData (addEntries tab es tabs) tab d := by
  obtain ⟨e, he, hed⟩ := List.mem_map.1 hd
  obtain ⟨j, hj, hje⟩ := List.getElem_of_mem he
  refine ⟨(tabs[tab]).mEntries.length + j, e, ?_, hed⟩
  unfold entryAtTabs addEntries
  rw [getElem?_modifyAt, if_pos rfl, List.getElem?_eq_getElem ht]
  simp only [Option.map_some']
  rw [List.getElem?_append_right (Nat.le_add_right _ _), Nat.add_sub_cancel_left,
    List.getElem?_eq_getElem hj, hje]

end OptionsMenu
namespace OptionsMenu

/-- The entries the constructor adds to a tab are entries of that tab when the tabs are
complete. -/
theorem hasData_constructTabs (ids : Enumerators) (oids : OptionIds) (tids : TabIds)
    (cenv : ConstructorEnv) (tabs : List GameMenuEntries) (hT : TabIdsInRange ids tids)
    (hlen : tabs.length = tids.Tab_NUM) (d : Nat) :
    (d ∈ (systemTabEntries ids oids).map (fun e => e.mData) →
      HasData (constructTabs ids oids tids cenv tabs) ids.Tab_SYSTEM d) ∧
    (d ∈ (displayTabEntries ids oids).map (fun e => e.mData) →
      HasData (constructTabs ids oids tids cenv tabs) tids.Tab_DISPLAY d) ∧
    (d ∈ (audioTabHead ids).map (fun e => e.mData) →
      HasData (constructTabs ids oids tids cenv tabs) tids.Tab_AUDIO_ d) ∧
    (d ∈ (soundtrackDownloadEntry ids :: audioTabTail ids oids).map (fun e => e.mData) →
      HasData (constructTabs ids oids tids cenv tabs) tids.Tab_AUDIO_ d) ∧
    (d ∈ (visualsTabEntries ids oids).map (fun e => e.mData) →
      HasData (constructTabs ids oids tids cenv tabs) tids.Tab_VISUALS d) ∧
    (d ∈ (gameplayTabEntries ids oids).map (fun e => e.mData) →
      HasData (constructTabs ids oids tids cenv tabs) tids.Tab_GAMEPLAY d) ∧
    (d ∈ (controlsTabHead ids).map (fun e => e.mData) →
      HasData (constructTabs ids oids tids cenv tabs) tids.Tab_CONTROLS d) ∧
    (d ∈ (gamepadAssignmentEntries ids ++ controlsTabTail ids oids cenv).map
        (fun e => e.mData) →
      HasData (constructTabs ids oids tids cenv tabs) tids.Tab_CONTROLS d) ∧
    (d ∈ (tweaksTabEntries ids oids).map (fun e => e.mData) →
      HasData (constructTabs ids oids tids cenv tabs) tids.Tab_TWEAKS d) := by
  obtain ⟨_, h1, h2, h3, h4, h5, h6, h7⟩ := hT
  unfold constructTabs tabsAtGamepadAssignment tabsAtSoundtrackDownload
  simp only []
  refine ⟨?_, ?_, ?_, ?_, ?_, ?_, ?_, ?_, ?_⟩ <;> intro hd
  · iterate 8 apply hasData_addEntries
    apply hasData_addEntries_new _ _ _ _ _ hd
    simp only [length_addEntries, length_addDummyEntries]
    omega
  · iterate 7 apply hasData_addEntries
    apply hasData_addEntries_new _ _ _ _ _ hd
    simp only [length_addEntries, length_addDummyEntries]
    omega
  · iterate 6 apply hasData_addEntries
    apply hasData_addEntries_new _ _ _ _ _ hd
    simp only [length_addEntries, length_addDummyEntries]
    omega
  · iterate 5 apply hasData_addEntries
    apply hasData_addEntries_new _ _ _ _ _ hd
    simp only [length_addEntries, length_addDummyEntries]
    omega
  · iterate 4 apply hasData_addEntries
    apply hasData_addEntries_new _ _ _ _ _ hd
    simp only [length_addEntries, length_addDummyEntries]
    omega
  · iterate 3 apply hasData_addEntries
    apply hasData_addEntries_new _ _ _ _ _ hd
    simp only [length_addEntries, length_addDummyEntries]
    omega
  · iterate 2 apply hasData_addEntries
    apply hasData_addEntries_new _ _ _ _ _ hd
    simp only [length_addEntries, length_addDummyEntries]
    omega
  · iterate 1 apply hasData_addEntries
    apply hasData_addEntries_new _ _ _ _ _ hd
    simp only [length_addEntries, length_addDummyEntries]
    omega
  · apply hasData_addEntries_new _ _ _ _ _ hd
    simp only [length_addEntries, length_addDummyEntries]
    omega

end OptionsMenu
namespace OptionsMenu

/-- The option entry at `d` after the first `n` entries of a tab were registered: untouched
when none of them has the data `d`, and otherwise with the option ID `d` and the pointer to
one of the entries with data `d`. -/
theorem registerConstructed_prefix (tab : Nat) (es : List GameMenuEntry)
    (oes : List OptionEntry) (d n : Nat) (hn : n ≤ es.length) :
    ((∀ (k : Nat) (e : GameMenuEntry), k < n → es[k]? = some e → e.mData ≠ d) →
      ((List.range n).foldl
        (fun oes k =>
          modifyAt
            (fun optionEntry =>
              { optionEntry with mOptionId := (es.getD k GameMenuEntry.invalid).mData,
                                 mGameMenuEntry := some (tab, k) })
            (es.getD k GameMenuEntry.invalid).mData oes) oes)[d]? = oes[d]?) ∧
    ((∃ (k : Nat) (e : GameMenuEntry), k < n ∧ es[k]? = some e ∧ e.mData = d) →
      ∃ (k : Nat) (e : GameMenuEntry), k < n ∧ es[k]? = some e ∧ e.mData = d ∧
        ((List.range n).foldl
          (fun oes k =>
            modifyAt
              (fun optionEntry =>
                { optionEntry with mOptionId := (es.getD k GameMenuEntry.invalid).mData,
                                   mGameMenuEntry := some (tab, k) })
              (es.getD k GameMenuEntry.invalid).mData oes) oes)[d]? =
          (oes[d]?).map (fun oe => { oe with mOptionId := d, mGameMenuEntry := some (tab, k) })) := by
  induction n with
  | zero =>
    constructor
    · intro _
      rfl
    · rintro ⟨k, e, hk, _⟩
      exact absurd hk (Nat.not_lt_zero k)
  | succ n ih =>
    obtain ⟨ih1, ih2⟩ := ih (Nat.le_of_succ_le hn)
    have hnlt : n < es.length := hn
    have hget : es[n]? = some es[n] := List.getElem?_eq_getElem hnlt
    have hgetD : es.getD n GameMenuEntry.invalid = es[n] := by
      rw [List.getD_eq_getElem?_getD, hget]
      rfl
    rw [List.range_succ, List.foldl_append]
    simp only [List.foldl_cons, List.foldl_nil]
    rw [hgetD, getElem?_modifyAt]
    constructor
    · intro hnone
      have hne : d ≠ (es[n]).mData := fun hc => hnone n es[n] (Nat.lt_succ_self n) hget hc.symm
      rw [if_neg hne]
      exact ih1 (fun k e hk he => hnone k e (Nat.lt_succ_of_lt hk) he)
    · rintro ⟨k, e, hk, he, hd⟩
      by_cases hdn : d = (es[n]).mData
      · rw [if_pos hdn]
        refine ⟨n, es[n], Nat.lt_succ_self n, hget, hdn.symm, ?_⟩
        by_cases hex : ∃ (k : Nat) (e : GameMenuEntry), k < n ∧ es[k]? = some e ∧ e.mData = d
        · obtain ⟨k', e', _, _, _, hr⟩ := ih2 hex
          rw [hr, Option.map_map, ← hdn]
          rfl
        · have hnone : ∀ (k : Nat) (e : GameMenuEntry), k < n → es[k]? = some e → e.mData ≠ d :=
            fun k e hk he hd => hex ⟨k, e, hk, he, hd⟩
          rw [ih1 hnone, ← hdn]
      · rw [if_neg hdn]
        have hkn : k < n := by
          rcases Nat.lt_succ_iff_lt_or_eq.1 hk with h | h
          · exact h
          · subst h
            rw [hget] at he
            cases he
            exact absurd hd.symm hdn
        obtain ⟨k', e', hk', he', hd', hr⟩ := ih2 ⟨k, e, hkn, he, hd⟩
        exact ⟨k', e', Nat.lt_succ_of_lt hk', he', hd', hr⟩

/-- The two cases of `registerConstructed` at one option ID. -/
theorem registerConstructed_at (tab : Nat) (es : List GameMenuEntry) (oes : List OptionEntry)
    (d : Nat) :
    ((∀ (k : Nat) (e : GameMenuEntry), es[k]? = some e → e.mData ≠ d) →
      (registerConstructed tab es oes)[d]? = oes[d]?) ∧
    ((∃ (k : Nat) (e : GameMenuEntry), es[k]? = some e ∧ e.mData = d) →
      ∃ (k : Nat) (e : GameMenuEntry), es[k]? = some e ∧ e.mData = d ∧
        (registerConstructed tab es oes)[d]? =
          (oes[d]?).map (fun oe => { oe with mOptionId := d, mGameMenuEntry := some (tab, k) })) := by
  obtain ⟨h1, h2⟩ := registerConstructed_prefix tab es oes d es.length (Nat.le_refl _)
  constructor
  · intro hnone
    exact h1 (fun k e _ he => hnone k e he)
  · rintro ⟨k, e, he, hd⟩
    obtain ⟨k', e', _, he', hd', hr⟩ :=
      h2 ⟨k, e, (List.getElem?_eq_some_iff.1 he).1, he, hd⟩
    exact ⟨k', e', he', hd', hr⟩

end OptionsMenu
namespace OptionsMenu

theorem entryAtTabs_eq_getD (tabs : List GameMenuEntries) (t k : Nat) :
    entryAtTabs tabs (t, k) = (tabs.getD t ⟨[], 0⟩).mEntries[k]? := by
  unfold entryAtTabs
  rw [List.getD_eq_getElem?_getD]
  cases tabs[t]? <;> simp

theorem length_registerConstructed (tab : Nat) (es : List GameMenuEntry)
    (oes : List OptionEntry) : (registerConstructed tab es oes).length = oes.length := by
  unfold registerConstructed
  generalize List.range es.length = l
  induction l generalizing oes with
  | nil => rfl
  | cons a rest ih => rw [List.foldl_cons, ih, length_modifyAt]

theorem length_finishTab (ids : Enumerators) (st : List GameMenuEntries × List OptionEntry)
    (i : Nat) :
    (finishTab ids st i).1.length = st.1.length ∧ (finishTab ids st i).2.length = st.2.length :=
  ⟨length_addEntries _ _ _, length_registerConstructed _ _ _⟩

theorem hasData_finishTab (ids : Enumerators) (st : List GameMenuEntries × List OptionEntry)
    (i t d : Nat) (h : HasData st.1 t d) : HasData (finishTab ids st i).1 t d :=
  hasData_addEntries _ _ _ _ _ h

/-- Registering tab `i` registers every option that is the data of an entry of the tab. -/
theorem registeredInTabs_finishTab_new (ids : Enumerators)
    (st : List GameMenuEntries × List OptionEntry) (i d : Nat) (hi : i ≠ 0)
    (hd : d < st.2.length) (h : HasData (finishTab ids st i).1 i d) :
    RegisteredInTabs (finishTab ids st i) d := by
  obtain ⟨line, e, he, hed⟩ := h
  rw [entryAtTabs_eq_getD] at he
  obtain ⟨k, e', he', hd', hr⟩ :=
    (registerConstructed_at i ((finishTab ids st i).1.getD i ⟨[], 0⟩).mEntries st.2 d).2
      ⟨line, e, he, hed⟩
  rw [List.getElem?_eq_getElem hd] at hr
  refine ⟨i, k, e', _, hi, hr, rfl, rfl, ?_, hd'⟩
  rw [entryAtTabs_eq_getD]
  exact he'

/-- Registering a further tab keeps an option registered. -/
theorem registeredInTabs_finishTab (ids : Enumerators)
    (st : List GameMenuEntries × List OptionEntry) (i d : Nat) (hi : i ≠ 0)
    (h : RegisteredInTabs st d) : RegisteredInTabs (finishTab ids st i) d := by
  obtain ⟨t, line, e, oe, ht, hoe, hid, hptr, he, hed⟩ := h
  have hd : d < st.2.length := (List.getElem?_eq_some_iff.1 hoe).1
  by_cases hex : ∃ (k : Nat) (e : GameMenuEntry),
      ((finishTab ids st i).1.getD i ⟨[], 0⟩).mEntries[k]? = some e ∧ e.mData = d
  · obtain ⟨k, e', he', hd'⟩ := hex
    apply registeredInTabs_finishTab_new ids st i d hi hd
    refine ⟨k, e', ?_, hd'⟩
    rw [entryAtTabs_eq_getD]
    exact he'
  · have hnone : ∀ (k : Nat) (e : GameMenuEntry),
        ((finishTab ids st i).1.getD i ⟨[], 0⟩).mEntries[k]? = some e → e.mData ≠ d :=
      fun k e he hd => hex ⟨k, e, he, hd⟩
    have hr := (registerConstructed_at i
      ((finishTab ids st i).1.getD i ⟨[], 0⟩).mEntries st.2 d).1 hnone
    exact ⟨t, line, e, oe, ht, hr.trans hoe, hid, hptr,
      entryAtTabs_addEntries _ _ _ _ _ he, hed⟩

/-- The loop over the tabs registers every option that is the data of an entry of one of the
tabs. -/
theorem registeredInTabs_foldl_finishTab (ids : Enumerators) (d : Nat) (ts : List Nat)
    (st : List GameMenuEntries × List OptionEntry) (hts : ∀ i ∈ ts, i ≠ 0)
    (h : RegisteredInTabs st d ∨ (d < st.2.length ∧ ∃ t ∈ ts, HasData st.1 t d)) :
    RegisteredInTabs (ts.foldl (finishTab ids) st) d := by
  induction ts generalizing st with
  | nil =>
    rcases h with h | ⟨_, t, ht, _⟩
    · exact h
    · cases ht
  | cons i rest ih =>
    have hi : i ≠ 0 := hts i (List.mem_cons_self _ _)
    have hrest : ∀ j ∈ rest, j ≠ 0 := fun j hj => hts j (List.mem_cons_of_mem _ hj)
    rw [List.foldl_cons]
    apply ih _ hrest
    rcases h with h | ⟨hd, t, ht, hdata⟩
    · exact Or.inl (registeredInTabs_finishTab ids st i d hi h)
    · rcases List.mem_cons.1 ht with rfl | ht'
      · exact Or.inl (registeredInTabs_finishTab_new ids st t d hi hd
          (hasData_finishTab ids st t t d hdata))
      · refine Or.inr ⟨?_, t, ht', hasData_finishTab ids st i t d hdata⟩
        rw [(length_finishTab ids st i).2]
        exact hd

end OptionsMenu

namespace OptionsMenu

@[simp] theorem length_setupOptionEntry (a b : Nat) (l : List OptionEntry) :
    (setupOptionEntry a b l).length = l.length := length_modifyAt _ _ _

@[simp] theorem length_setupOptionEntryBitmask (a b : Nat) (l : List OptionEntry) :
    (setupOptionEntryBitmask a b l).length = l.length := length_modifyAt _ _ _

@[simp] theorem length_setupOptionEntryInt (a : Nat) (b : ConfigField) (l : List OptionEntry) :
    (setupOptionEntryInt a b l).length = l.length := length_modifyAt _ _ _

@[simp] theorem length_setupOptionEntryBool (a : Nat) (b : ConfigField) (l : List OptionEntry) :
    (setupOptionEntryBool a b l).length = l.length := length_modifyAt _ _ _

@[simp] theorem length_setupOptionEntryEnum8 (a : Nat) (b : ConfigField) (l : List OptionEntry) :
    (setupOptionEntryEnum8 a b l).length = l.length := length_modifyAt _ _ _

@[simp] theorem length_setupOptionEntryPercent (a : Nat) (b : ConfigField)
    (l : List OptionEntry) : (setupOptionEntryPercent a b l).length = l.length :=
  length_modifyAt _ _ _

theorem length_foldl_setups (fs : List (List OptionEntry → List OptionEntry))
    (h : ∀ f ∈ fs, ∀ l : List OptionEntry, (f l).length = l.length) (l : List OptionEntry) :
    (fs.foldl (fun oes f => f oes) l).length = l.length := by
  induction fs generalizing l with
  | nil => rfl
  | cons f rest ih =>
    rw [List.foldl_cons, ih (fun g hg => h g (List.mem_cons_of_mem _ hg)),
      h f (List.mem_cons_self _ _)]

theorem length_optionEntrySetups (ids : Enumerators) (oids : OptionIds) (sids : SettingIds) :
    ∀ f ∈ optionEntrySetups ids oids sids, ∀ l : List OptionEntry, (f l).length = l.length := by
  unfold optionEntrySetups
  simp

end OptionsMenu
namespace OptionsMenu

/-- Every dereferenced option is the data of an entry the constructor adds to one of the
tabs Display, Audio, Visuals, Gameplay, Controls and Tweaks. -/
theorem dereferenced_in_constructed_tabs (ids : Enumerators) (oids : OptionIds) (d : Nat)
    (hd : d ∈ dereferencedOptionIds ids) :
    d ∈ (displayTabEntries ids oids).map (fun e => e.mData) ∨
    d ∈ (audioTabHead ids).map (fun e => e.mData) ∨
    d ∈ (soundtrackDownloadEntry ids :: audioTabTail ids oids).map (fun e => e.mData) ∨
    d ∈ (visualsTabEntries ids oids).map (fun e => e.mData) ∨
    d ∈ (gameplayTabEntries ids oids).map (fun e => e.mData) ∨
    d ∈ (controlsTabHead ids).map (fun e => e.mData) ∨
    d ∈ (tweaksTabEntries ids oids).map (fun e => e.mData) := by
  have hvol : ids.AUDIO_VOLUME ∈ (audioTabHead ids).map (fun e => e.mData) := by
    unfold audioTabHead
    rw [List.map_append, List.map_append]
    apply List.mem_append_left
    apply List.mem_append_right
    simp only [List.map_map, List.mem_map, List.mem_range]
    exact ⟨0, by decide, by simp⟩
  simp only [dereferencedOptionIds, CONDITIONAL_OPTIONS, ConditionalOption.mk2,
    ConditionalOption.mk3, List.map_cons, List.map_nil, List.cons_append, List.nil_append,
    List.mem_cons, List.mem_nil_iff, or_false] at hd
  rcases hd with h | h | h | h | h | h | h | h | h | h | h | h | h | h | h | h | h | h | h | h |
    h | h | h | h | h | h | h | h | h | h | h | h | h | h | h | h
  all_goals subst h
  · exact Or.inr (Or.inl (by simp [audioTabHead]))
  · exact Or.inr (Or.inr (Or.inl (by simp [soundtrackDownloadEntry, audioTabTail])))
  · exact Or.inr (Or.inr (Or.inl (by simp [soundtrackDownloadEntry, audioTabTail])))
  · exact Or.inr (Or.inr (Or.inl (by simp [soundtrackDownloadEntry, audioTabTail])))
  · exact Or.inr (Or.inr (Or.inl (by simp [soundtrackDownloadEntry, audioTabTail])))
  · exact Or.inr (Or.inr (Or.inl (by simp [soundtrackDownloadEntry, audioTabTail])))
  · exact Or.inr (Or.inr (Or.inr (Or.inl (by simp [visualsTabEntries]))))
  · exact Or.inr (Or.inr (Or.inr (Or.inl (by simp [visualsTabEntries]))))
  · exact Or.inr (Or.inr (Or.inr (Or.inl (by simp [visualsTabEntries]))))
  · exact Or.inr (Or.inr (Or.inr (Or.inr (Or.inl (by simp [gameplayTabEntries])))))
  · exact Or.inr (Or.inr (Or.inr (Or.inr (Or.inl (by simp [gameplayTabEntries])))))
  · exact Or.inr (Or.inr (Or.inr (Or.inr (Or.inl (by simp [gameplayTabEntries])))))
  · exact Or.inr (Or.inr (Or.inr (Or.inr (Or.inl (by simp [gameplayTabEntries])))))
  · exact Or.inr (Or.inr (Or.inr (Or.inr (Or.inl (by simp [gameplayTabEntries])))))
  · exact Or.inr (Or.inr (Or.inr (Or.inr (Or.inl (by simp [gameplayTabEntries])))))
  · exact Or.inr (Or.inr (Or.inr (Or.inr (Or.inl (by simp [gameplayTabEntries])))))
  · exact Or.inr (Or.inr (Or.inr (Or.inr (Or.inr (Or.inl (by simp [controlsTabHead]))))))
  · exact Or.inr (Or.inr (Or.inr (Or.inr (Or.inr (Or.inl (by simp [controlsTabHead]))))))
  · exact Or.inr (Or.inr (Or.inr (Or.inr (Or.inr (Or.inr (by simp [tweaksTabEntries]))))))
  · exact Or.inr (Or.inr (Or.inr (Or.inr (Or.inr (Or.inr (by simp [tweaksTabEntries]))))))
  · exact Or.inr (Or.inr (Or.inr (Or.inr (Or.inr (Or.inr (by simp [tweaksTabEntries]))))))
  · exact Or.inr (Or.inr (Or.inr (Or.inr (Or.inr (Or.inr (by simp [tweaksTabEntries]))))))
  · exact Or.inr (Or.inr (Or.inr (Or.inr (Or.inr (Or.inr (by simp [tweaksTabEntries]))))))
  · exact Or.inr (Or.inr (Or.inr (Or.inr (Or.inr (Or.inr (by simp [tweaksTabEntries]))))))
  · exact Or.inr (Or.inr (Or.inr (Or.inr (Or.inr (Or.inr (by simp [tweaksTabEntries]))))))
  · exact Or.inr (Or.inr (Or.inr (Or.inr (Or.inr (Or.inr (by simp [tweaksTabEntries]))))))
  · exact Or.inr (Or.inr (Or.inr (Or.inr (Or.inr (Or.inr (by simp [tweaksTabEntries]))))))
  · exact Or.inl (by simp [displayTabEntries])
  · exact Or.inl (by simp [displayTabEntries])
  · exact Or.inl (by simp [displayTabEntries])
  · exact Or.inl (by simp [displayTabEntries])
  · exact Or.inl (by simp [displayTabEntries])
  · exact Or.inl (by simp [displayTabEntries])
  · exact Or.inr (Or.inl hvol)
  · exact Or.inl (by simp [displayTabEntries])
  · exact Or.inr (Or.inr (Or.inl (by simp [soundtrackDownloadEntry, audioTabTail])))

end OptionsMenu
namespace OptionsMenu

theorem length_constructTabs (ids : Enumerators) (oids : OptionIds) (tids : TabIds)
    (cenv : ConstructorEnv) (tabs : List GameMenuEntries) :
    (constructTabs ids oids tids cenv tabs).length = tabs.length := by
  unfold constructTabs tabsAtGamepadAssignment tabsAtSoundtrackDownload
  simp only [length_addEntries, length_addDummyEntries]

/-- C18: every option ID whose menu entry `OptionsMenu` dereferences through
`mOptionEntries[id].mGameMenuEntry` (the IDs of `CONDITIONAL_OPTIONS`, and `WINDOW_MODE`,
`WINDOW_MODE_STARTUP`, `RENDERER`, `FRAME_SYNC`, `FILTERING`, `BG_BLUR`, `AUDIO_VOLUME`,
`SCANLINES`, `SOUND_TEST`) was registered by the constructor: a tab other than Mods has a
menu entry whose data equals the ID, and the registration loop stored a pointer to such an
entry in `mOptionEntries[id]` together with `mOptionId = id`; the pointer is not null. -/
theorem constructor_registers_dereferenced_options (ids : Enumerators) (oids : OptionIds)
    (tids : TabIds) (sids : SettingIds) (cenv : ConstructorEnv) (m0 : OptionsMenu) (id : Nat)
    (hT : TabIdsInRange ids tids) (hlen : m0.mTabs.length = tids.Tab_NUM)
    (hid : id ∈ dereferencedOptionIds ids) (hnum : id < ids._NUM) :
    ∃ (tab line : Nat) (entry : GameMenuEntry) (optionEntry : OptionEntry),
      tab ≠ ids.Tab_MODS ∧
      (construct ids oids tids sids cenv m0).mOptionEntries[id]? = some optionEntry ∧
      optionEntry.mOptionId = id ∧
      optionEntry.mGameMenuEntry = some (tab, line) ∧
      (construct ids oids tids sids cenv m0).entryAt (tab, line) = some entry ∧
      entry.mData = id := by
  have hall := hasData_constructTabs ids oids tids cenv m0.mTabs hT hlen id
  obtain ⟨_, hdisp, hah, hat, hvis, hgame, hch, _, htw⟩ := hall
  obtain ⟨hmods, _, h2, h3, h4, h5, h6, h7⟩ := hT
  have hmem : ∀ t : Nat, 0 < t → t < tids.Tab_NUM → t ∈ List.range' 1 (tids.Tab_NUM - 1) := by
    intro t h0 h1
    rw [List.mem_range'_1]
    omega
  have hts : ∀ i ∈ List.range' 1 (tids.Tab_NUM - 1), i ≠ 0 := by
    intro i hi
    rw [List.mem_range'_1] at hi
    omega
  have hlen1 : ((optionEntrySetups ids oids sids).foldl (fun oes f => f oes)
      (resizeList ids._NUM OptionEntry.empty m0.mOptionEntries)).length = ids._NUM := by
    rw [length_foldl_setups _ (length_optionEntrySetups ids oids sids), length_resizeList]
  have hdata : ∃ t ∈ List.range' 1 (tids.Tab_NUM - 1),
      HasData (constructTabs ids oids tids cenv m0.mTabs) t id := by
    rcases dereferenced_in_constructed_tabs ids oids id hid with h | h | h | h | h | h | h
    · exact ⟨_, hmem _ h2.1 h2.2, hdisp h⟩
    · exact ⟨_, hmem _ h3.1 h3.2, hah h⟩
    · exact ⟨_, hmem _ h3.1 h3.2, hat h⟩
    · exact ⟨_, hmem _ h4.1 h4.2, hvis h⟩
    · exact ⟨_, hmem _ h5.1 h5.2, hgame h⟩
    · exact ⟨_, hmem _ h6.1 h6.2, hch h⟩
    · exact ⟨_, hmem _ h7.1 h7.2, htw h⟩
  have hreg := registeredInTabs_foldl_finishTab ids id (List.range' 1 (tids.Tab_NUM - 1))
    (constructTabs ids oids tids cenv m0.mTabs,
      (optionEntrySetups ids oids sids).foldl (fun oes f => f oes)
        (resizeList ids._NUM OptionEntry.empty m0.mOptionEntries))
    hts (Or.inr ⟨by rw [hlen1]; exact hnum, hdata⟩)
  obtain ⟨t, line, e, oe, ht, hoe, hoid, hptr, he, hed⟩ := hreg
  exact ⟨t, line, e, oe, by rw [hmods]; exact ht, hoe, hoid, hptr, he, hed⟩

set_option maxRecDepth 100000 in
/-- The registration theorem on the menu built for the example numbering, for the sound
test option. -/
theorem constructor_registers_dereferenced_options_witness :
    TabIdsInRange constructorIds exampleTabIds ∧
    blankMenu.mTabs.length = exampleTabIds.Tab_NUM ∧
    constructorIds.SOUND_TEST ∈ dereferencedOptionIds constructorIds ∧
    constructorIds.SOUND_TEST < constructorIds._NUM ∧
    ∃ (tab line : Nat) (entry : GameMenuEntry) (optionEntry : OptionEntry),
      tab ≠ constructorIds.Tab_MODS ∧
      constructedMenu.mOptionEntries[constructorIds.SOUND_TEST]? = some optionEntry ∧
      optionEntry.mOptionId = constructorIds.SOUND_TEST ∧
      optionEntry.mGameMenuEntry = some (tab, line) ∧
      constructedMenu.entryAt (tab, line) = some entry ∧
      entry.mData = constructorIds.SOUND_TEST :=
  ⟨by decide, by decide, by decide, by decide,
    constructor_registers_dereferenced_options constructorIds exampleOptionIds exampleTabIds
      exampleSettingIds exampleConstructorEnv blankMenu constructorIds.SOUND_TEST (by decide)
      (by decide) (by decide) (by decide)⟩

end OptionsMenu

/-! ### Option entry bindings -/

namespace OptionsMenu

/-- The index the modelled `loadValue()` selects: inside the list of choices, at a choice
with the backing value if there is one, 0 otherwise. -/
theorem loadValue_spec (oe : OptionEntry) (backing : Int) (e : GameMenuEntry)
    (hN : 1 ≤ e.mOptions.length) :
    OptionEntry.loadValue oe backing e < e.mOptions.length ∧
    ((∃ o, o ∈ e.mOptions ∧ (o.mValue : Int) = backing) →
      (e.mOptions[OptionEntry.loadValue oe backing e]?).map (fun o => (o.mValue : Int)) =
        some backing ∧
      ∀ j o, j < OptionEntry.loadValue oe backing e → e.mOptions[j]? = some o →
        (o.mValue : Int) ≠ backing) ∧
    ((∀ o, o ∈ e.mOptions → (o.mValue : Int) ≠ backing) →
      OptionEntry.loadValue oe backing e = 0) := by
  unfold OptionEntry.loadValue
  cases h : e.mOptions.findIdx? (fun o => decide ((o.mValue : Int) = backing)) with
  | none =>
    rw [List.findIdx?_eq_none_iff] at h
    refine ⟨hN, ?_, fun _ => rfl⟩
    rintro ⟨o, ho, hv⟩
    have := h o ho
    simp [hv] at this
  | some i =>
    rw [List.findIdx?_eq_some_iff_getElem] at h
    obtain ⟨hi, hp, hlt⟩ := h
    refine ⟨hi, fun _ => ⟨?_, ?_⟩, ?_⟩
    · simp only [List.getElem?_eq_getElem hi, Option.map_some']
      simpa using hp
    · intro j o hj hjo
      have hj' : j < e.mOptions.length := lt_trans hj hi
      rw [List.getElem?_eq_getElem hj'] at hjo
      have := hlt j hj
      simp only [Option.some.injEq] at hjo
      subst hjo
      simpa using this
    · intro hno
      have := hno _ (List.getElem_mem hi)
      simp at hp
      exact absurd hp this

end OptionsMenu


/-! ### `initialize` rebuilds the Mods tab -/

namespace OptionsMenu

theorem prepend_nil (es : List GameMenuEntry) (oes : List OptionEntry) (n : Nat) :
    ModsLoop.prepend es oes { entries := [], optionEntries := [], nextOptionId := n } =
      { entries := es, optionEntries := oes, nextOptionId := n } := by
  simp [ModsLoop.prepend]

theorem addModSetting_prepend (es : List GameMenuEntry) (oes : List OptionEntry)
    (st : ModsLoop) (s : ModSetting) :
    addModSetting (ModsLoop.prepend es oes st) s =
      ModsLoop.prepend es oes (addModSetting st s) := by
  simp [addModSetting, ModsLoop.prepend, List.append_assoc]

theorem foldl_prepend {α : Type} (f : ModsLoop → α → ModsLoop) (es : List GameMenuEntry)
    (oes : List OptionEntry)
    (hf : ∀ st x, f (ModsLoop.prepend es oes st) x = ModsLoop.prepend es oes (f st x))
    (xs : List α) (st : ModsLoop) :
    xs.foldl f (ModsLoop.prepend es oes st) = ModsLoop.prepend es oes (xs.foldl f st) := by
  induction xs generalizing st with
  | nil => rfl
  | cons x xs ih => rw [List.foldl_cons, hf, ih, List.foldl_cons]

theorem addModCategory_prepend (n : Nat) (es : List GameMenuEntry) (oes : List OptionEntry)
    (st : ModsLoop) (c : ModSettingCategory) :
    addModCategory n (ModsLoop.prepend es oes st) c =
      ModsLoop.prepend es oes (addModCategory n st c) := by
  have key : ∀ b : Bool,
      (if b = true then
        ({ ModsLoop.prepend es oes st with
          entries := (ModsLoop.prepend es oes st).entries ++
            [GameMenuEntry.create EntryKind.TitleMenuEntry 0] } : ModsLoop)
      else ModsLoop.prepend es oes st) =
      ModsLoop.prepend es oes
        (if b = true then
          { st with entries := st.entries ++ [GameMenuEntry.create EntryKind.TitleMenuEntry 0] }
        else st) := by
    intro b
    cases b <;> simp [ModsLoop.prepend, List.append_assoc]
  unfold addModCategory
  simp only []
  rw [key]
  exact foldl_prepend addModSetting es oes (addModSetting_prepend es oes) _ _

theorem addMod_prepend (es : List GameMenuEntry) (oes : List OptionEntry)
    (st : ModsLoop) (mod : Mod) :
    addMod (ModsLoop.prepend es oes st) mod = ModsLoop.prepend es oes (addMod st mod) := by
  unfold addMod
  split
  · rfl
  · simp only []
    have h : ({ ModsLoop.prepend es oes st with
        entries := (ModsLoop.prepend es oes st).entries ++
          [GameMenuEntry.create EntryKind.SectionMenuEntry 0] } : ModsLoop) =
        ModsLoop.prepend es oes
          { st with entries := st.entries ++ [GameMenuEntry.create EntryKind.SectionMenuEntry 0] } := by
      simp [ModsLoop.prepend, List.append_assoc]
    rw [h]
    exact foldl_prepend _ es oes (fun st x => addModCategory_prepend _ es oes st x) _ _

/-- What the loop over the active mods appends depends on the counter and on the mods only. -/
theorem addMods_prepend (es : List GameMenuEntry) (oes : List OptionEntry) (n : Nat)
    (mods : List Mod) :
    addMods { entries := es, optionEntries := oes, nextOptionId := n } mods =
      ModsLoop.prepend es oes
        (addMods { entries := [], optionEntries := [], nextOptionId := n } mods) := by
  rw [← prepend_nil es oes n]
  unfold addMods
  exact foldl_prepend addMod es oes (addMod_prepend es oes) _ _

theorem registeredPointer_cons (tab : Nat) (entries : List GameMenuEntry) (k : Nat)
    (ks : List Nat) (i : Nat) (p : Option EntryRef) :
    registeredPointer tab entries (k :: ks) i p =
      registeredPointer tab entries ks i
        (if (entries.getD k GameMenuEntry.invalid).mData = i then some (tab, k) else p) := rfl

theorem registeredPointer_const_or_id (tab : Nat) (entries : List GameMenuEntry)
    (ks : List Nat) (i : Nat) (p q : Option EntryRef) :
    registeredPointer tab entries ks i p = registeredPointer tab entries ks i q ∨
    (registeredPointer tab entries ks i p = p ∧ registeredPointer tab entries ks i q = q) := by
  induction ks generalizing p q with
  | nil => exact Or.inr ⟨rfl, rfl⟩
  | cons k ks ih =>
    rw [registeredPointer_cons, registeredPointer_cons]
    by_cases hk : (entries.getD k GameMenuEntry.invalid).mData = i
    · rw [if_pos hk, if_pos hk]
      exact Or.inl rfl
    · rw [if_neg hk, if_neg hk]
      exact ih p q

theorem registeredPointer_idem (tab : Nat) (entries : List GameMenuEntry)
    (ks : List Nat) (i : Nat) (p : Option EntryRef) :
    registeredPointer tab entries ks i (registeredPointer tab entries ks i p) =
      registeredPointer tab entries ks i p := by
  rcases registeredPointer_const_or_id tab entries ks i p
    (registeredPointer tab entries ks i p) with h | h
  · exact h.symm
  · exact h.2

theorem getElem?_foldl_register (tab : Nat) (entries : List GameMenuEntry) (ks : List Nat)
    (oes : List OptionEntry) (i : Nat) :
    (ks.foldl
      (fun oes k =>
        modifyAt (fun oe => { oe with mGameMenuEntry := some (tab, k) })
          (entries.getD k GameMenuEntry.invalid).mData oes) oes)[i]? =
      (oes[i]?).map (fun oe =>
        { oe with mGameMenuEntry := registeredPointer tab entries ks i oe.mGameMenuEntry }) := by
  induction ks generalizing oes with
  | nil =>
    simp only [List.foldl_nil, registeredPointer]
    cases oes[i]? <;> rfl
  | cons k ks ih =>
    rw [List.foldl_cons, ih, getElem?_modifyAt]
    by_cases hk : i = (entries.getD k GameMenuEntry.invalid).mData
    · rw [if_pos hk, Option.map_map]
      congr 1
      funext oe
      simp only [Function.comp, registeredPointer, List.foldl_cons, hk, if_true]
    · rw [if_neg hk]
      congr 1
      funext oe
      have hk' : ¬ (entries.getD k GameMenuEntry.invalid).mData = i := fun h => hk h.symm
      simp only [registeredPointer, List.foldl_cons, hk', if_false]

/-- The registration loop, element by element. -/
theorem getElem?_registerEntries (tab : Nat) (entries : List GameMenuEntry)
    (oes : List OptionEntry) (i : Nat) :
    (registerEntries tab entries oes)[i]? =
      (oes[i]?).map (fun oe =>
        { oe with mGameMenuEntry :=
            registeredPointer tab entries (List.range entries.length) i oe.mGameMenuEntry }) :=
  getElem?_foldl_register tab entries _ oes i

/-- Registering the same entries once more, after the option entries were cut back to their
first `n` elements and the same elements were appended again, changes nothing. -/
theorem registerEntries_again (tab : Nat) (entries : List GameMenuEntry)
    (fixed added : List OptionEntry) :
    registerEntries tab entries
        ((registerEntries tab entries (fixed ++ added)).take fixed.length ++ added) =
      registerEntries tab entries (fixed ++ added) := by
  apply List.ext_getElem?
  intro i
  have hlen : ((registerEntries tab entries (fixed ++ added)).take fixed.length).length =
      fixed.length := by
    rw [List.length_take, length_registerEntries, List.length_append]
    exact Nat.min_eq_left (Nat.le_add_right _ _)
  rw [getElem?_registerEntries, getElem?_registerEntries]
  by_cases hi : i < fixed.length
  · rw [List.getElem?_append_left (by rw [hlen]; exact hi), List.getElem?_take_of_lt hi,
      getElem?_registerEntries, Option.map_map]
    congr 1
    funext oe
    simp only [Function.comp, registeredPointer_idem]
  · have hi' : fixed.length ≤ i := Nat.le_of_not_lt hi
    rw [List.getElem?_append_right (by rw [hlen]; exact hi'), hlen,
      List.getElem?_append_right hi']

theorem resizeList_of_le {α : Type} (n : Nat) (d : α) (l : List α) (h : n ≤ l.length) :
    resizeList n d l = l.take n := by
  unfold resizeList
  exact List.take_append_of_le_length h

end OptionsMenu


namespace OptionsMenu

theorem getD_modifyAt_ne {α : Type} (f : α → α) (j i : Nat) (l : List α) (d : α)
    (h : i ≠ j) : (modifyAt f j l).getD i d = l.getD i d := by
  rw [List.getD_eq_getElem?_getD, List.getD_eq_getElem?_getD, getElem?_modifyAt, if_neg h]

theorem getD_modifyAt_self {α : Type} (f : α → α) (j : Nat) (l : List α) (d : α)
    (h : j < l.length) : (modifyAt f j l).getD j d = f (l.getD j d) := by
  rw [List.getD_eq_getElem?_getD, List.getD_eq_getElem?_getD, getElem?_modifyAt, if_pos rfl,
    List.getElem?_eq_getElem h]
  rfl

theorem keepsRegistry_refl (x : OptionsMenu) : KeepsRegistry x x := ⟨rfl, rfl, rfl, rfl⟩

theorem keepsRegistry_trans {x y z : OptionsMenu} (h1 : KeepsRegistry x y)
    (h2 : KeepsRegistry y z) : KeepsRegistry x z :=
  ⟨h2.1.trans h1.1, h2.2.1.trans h1.2.1, h2.2.2.1.trans h1.2.2.1, h2.2.2.2.trans h1.2.2.2⟩

theorem keepsRegistry_modifyEntry (x : OptionsMenu) (r : EntryRef)
    (f : GameMenuEntry → GameMenuEntry) : KeepsRegistry x (x.modifyEntry r f) :=
  ⟨rfl, rfl, rfl, length_mTabs_modifyEntry x r f⟩

theorem modsTabEntries_modifyEntry (ids : Enumerators) (x : OptionsMenu) (r : EntryRef)
    (f : GameMenuEntry → GameMenuEntry) (h : r.1 ≠ ids.Tab_MODS) :
    modsTabEntries ids (x.modifyEntry r f) = modsTabEntries ids x := by
  unfold modsTabEntries modifyEntry modifyEntryTabs
  simp only []
  rw [getD_modifyAt_ne _ _ _ _ _ (fun hc => h hc.symm)]

theorem keepsRegistry_modifyOptionMenuEntry (x : OptionsMenu) (id : Nat)
    (f : GameMenuEntry → GameMenuEntry) : KeepsRegistry x (x.modifyOptionMenuEntry id f) := by
  unfold modifyOptionMenuEntry
  split
  · exact keepsRegistry_modifyEntry x _ f
  · exact keepsRegistry_refl x

theorem modsTabEntries_modifyOptionMenuEntry (ids : Enumerators) (x : OptionsMenu) (id : Nat)
    (f : GameMenuEntry → GameMenuEntry)
    (h : optionTab x.mOptionEntries id ≠ some ids.Tab_MODS) :
    modsTabEntries ids (x.modifyOptionMenuEntry id f) = modsTabEntries ids x := by
  unfold modifyOptionMenuEntry
  unfold optionTab at h
  cases hr : gameMenuEntryRef x.mOptionEntries id with
  | none => rfl
  | some r =>
    rw [hr] at h
    simp only [Option.map_some', ne_eq, Option.some.injEq] at h
    exact modsTabEntries_modifyEntry ids x r f h

theorem keepsRegistry_after_modifyOptionMenuEntry (x x1 : OptionsMenu) (id : Nat)
    (f : GameMenuEntry → GameMenuEntry) (h : KeepsRegistry x x1) :
    KeepsRegistry x (x1.modifyOptionMenuEntry id f) :=
  keepsRegistry_trans h (keepsRegistry_modifyOptionMenuEntry x1 id f)

theorem modsTabEntries_after_modifyOptionMenuEntry (ids : Enumerators) (x x1 : OptionsMenu)
    (id : Nat) (f : GameMenuEntry → GameMenuEntry)
    (h1 : x1.mOptionEntries = x.mOptionEntries)
    (h2 : modsTabEntries ids x1 = modsTabEntries ids x)
    (h : optionTab x.mOptionEntries id ≠ some ids.Tab_MODS) :
    modsTabEntries ids (x1.modifyOptionMenuEntry id f) = modsTabEntries ids x := by
  rw [modsTabEntries_modifyOptionMenuEntry ids x1 id f (by rw [h1]; exact h), h2]

theorem keepsRegistry_fillSoundTest (lib : MenuLib) (ids : Enumerators) (env : Env)
    (x : OptionsMenu) : KeepsRegistry x (fillSoundTest lib ids env x) := by
  unfold fillSoundTest
  exact keepsRegistry_after_modifyOptionMenuEntry x _ _ _ ⟨rfl, rfl, rfl, rfl⟩

theorem modsTabEntries_fillSoundTest (lib : MenuLib) (ids : Enumerators) (env : Env)
    (x : OptionsMenu) (h : optionTab x.mOptionEntries ids.SOUND_TEST ≠ some ids.Tab_MODS) :
    modsTabEntries ids (fillSoundTest lib ids env x) = modsTabEntries ids x := by
  unfold fillSoundTest
  exact modsTabEntries_after_modifyOptionMenuEntry ids x _ _ _ rfl rfl h

theorem keepsRegistry_refreshGamepadPlayer (lib : MenuLib) (env : Env) (x : OptionsMenu)
    (k : Nat) : KeepsRegistry x (refreshGamepadPlayer lib env x k) := by
  unfold refreshGamepadPlayer
  split
  · exact keepsRegistry_modifyEntry x _ _
  · exact keepsRegistry_refl x

theorem modsTabEntries_refreshGamepadPlayer (lib : MenuLib) (ids : Enumerators) (env : Env)
    (x : OptionsMenu) (k : Nat)
    (h : ∀ r, r ∈ x.mGamepadAssignmentEntries → r.1 ≠ ids.Tab_MODS) :
    modsTabEntries ids (refreshGamepadPlayer lib env x k) = modsTabEntries ids x := by
  unfold refreshGamepadPlayer
  cases hr : x.mGamepadAssignmentEntries[k]? with
  | none => rfl
  | some r =>
    have hk := List.getElem?_eq_some_iff.mp hr
    obtain ⟨hk, hkr⟩ := hk
    exact modsTabEntries_modifyEntry ids x r _ (h r (hkr ▸ List.getElem_mem hk))

theorem refreshGamepadLists_keeps (lib : MenuLib) (ids : Enumerators) (env : Env)
    (force : Bool) (x : OptionsMenu)
    (h : ∀ r, r ∈ x.mGamepadAssignmentEntries → r.1 ≠ ids.Tab_MODS) :
    KeepsRegistry x (refreshGamepadLists lib env force x) ∧
    modsTabEntries ids (refreshGamepadLists lib env force x) = modsTabEntries ids x := by
  have hfold : ∀ (ks : List Nat) (y : OptionsMenu),
      (∀ r, r ∈ y.mGamepadAssignmentEntries → r.1 ≠ ids.Tab_MODS) →
      KeepsRegistry y (ks.foldl (refreshGamepadPlayer lib env) y) ∧
      modsTabEntries ids (ks.foldl (refreshGamepadPlayer lib env) y) = modsTabEntries ids y := by
    intro ks
    induction ks with
    | nil => intro y _; exact ⟨keepsRegistry_refl y, rfl⟩
    | cons k ks ih =>
      intro y hy
      have hk := keepsRegistry_refreshGamepadPlayer lib env y k
      have hy' : ∀ r, r ∈ (refreshGamepadPlayer lib env y k).mGamepadAssignmentEntries →
          r.1 ≠ ids.Tab_MODS := by
        rw [hk.2.2.1]; exact hy
      obtain ⟨h1, h2⟩ := ih _ hy'
      rw [List.foldl_cons]
      exact ⟨keepsRegistry_trans hk h1,
        h2.trans (modsTabEntries_refreshGamepadPlayer lib ids env y k hy)⟩
  unfold refreshGamepadLists
  split
  · obtain ⟨h1, h2⟩ := hfold (List.range 2)
      (setLastGamepadsChangeCounter env.gamepadsChangeCounter x) h
    exact ⟨keepsRegistry_trans
      (show KeepsRegistry x (setLastGamepadsChangeCounter env.gamepadsChangeCounter x) from
        ⟨rfl, rfl, rfl, rfl⟩) h1, h2⟩
  · exact ⟨keepsRegistry_refl x, rfl⟩

theorem keepsRegistry_refreshGamepadLists (lib : MenuLib) (env : Env) (force : Bool)
    (x : OptionsMenu) : KeepsRegistry x (refreshGamepadLists lib env force x) := by
  have hfold : ∀ (ks : List Nat) (y : OptionsMenu),
      KeepsRegistry y (ks.foldl (refreshGamepadPlayer lib env) y) := by
    intro ks
    induction ks with
    | nil => intro y; exact keepsRegistry_refl y
    | cons k ks ih =>
      intro y
      rw [List.foldl_cons]
      exact keepsRegistry_trans (keepsRegistry_refreshGamepadPlayer lib env y k) (ih _)
  unfold refreshGamepadLists
  split
  · exact keepsRegistry_trans
      (show KeepsRegistry x (setLastGamepadsChangeCounter env.gamepadsChangeCounter x) from
        ⟨rfl, rfl, rfl, rfl⟩) (hfold _ _)
  · exact keepsRegistry_refl x

/-- After the first block of `initialize`, the later blocks leave `mOptionEntries`, the
pointers and the tab count alone. -/
theorem keepsRegistry_initializeMenu (lib : MenuLib) (ids : Enumerators) (env : Env)
    (m : OptionsMenu) :
    KeepsRegistry (rebuildModsTab ids env m) (initializeMenu lib ids env m) := by
  have k2 := keepsRegistry_modifyEntry (rebuildModsTab ids env m)
    (rebuildModsTab ids env m).mSoundtrackDownloadMenuEntry
    (fun e => e.setVisible (SoundtrackDownloadMenuEntry.shouldBeShown env))
  have k3 := keepsRegistry_fillSoundTest lib ids env
    ((rebuildModsTab ids env m).modifyEntry
      (rebuildModsTab ids env m).mSoundtrackDownloadMenuEntry
      (fun e => e.setVisible (SoundtrackDownloadMenuEntry.shouldBeShown env)))
  have k4 := keepsRegistry_refreshGamepadLists lib env true
    (fillSoundTest lib ids env
      ((rebuildModsTab ids env m).modifyEntry
        (rebuildModsTab ids env m).mSoundtrackDownloadMenuEntry
        (fun e => e.setVisible (SoundtrackDownloadMenuEntry.shouldBeShown env))))
  exact keepsRegistry_trans (keepsRegistry_trans (keepsRegistry_trans k2 k3) k4)
    ⟨rfl, rfl, rfl, rfl⟩

theorem modsTabEntries_initializeMenu (lib : MenuLib) (ids : Enumerators) (env : Env)
    (m : OptionsMenu) (hP : PointersOutsideModsTab ids (rebuildModsTab ids env m)) :
    modsTabEntries ids (initializeMenu lib ids env m) =
      modsTabEntries ids (rebuildModsTab ids env m) := by
  obtain ⟨hS, hG, hST⟩ := hP
  have h2 := modsTabEntries_modifyEntry ids (rebuildModsTab ids env m)
    (rebuildModsTab ids env m).mSoundtrackDownloadMenuEntry
    (fun e => e.setVisible (SoundtrackDownloadMenuEntry.shouldBeShown env)) hS
  have k2 := keepsRegistry_modifyEntry (rebuildModsTab ids env m)
    (rebuildModsTab ids env m).mSoundtrackDownloadMenuEntry
    (fun e => e.setVisible (SoundtrackDownloadMenuEntry.shouldBeShown env))
  have h3 := modsTabEntries_fillSoundTest lib ids env _ (by rw [k2.1]; exact hST)
  have k3 := keepsRegistry_fillSoundTest lib ids env
    ((rebuildModsTab ids env m).modifyEntry
      (rebuildModsTab ids env m).mSoundtrackDownloadMenuEntry
      (fun e => e.setVisible (SoundtrackDownloadMenuEntry.shouldBeShown env)))
  have h4 := (refreshGamepadLists_keeps lib ids env true
    (fillSoundTest lib ids env
      ((rebuildModsTab ids env m).modifyEntry
        (rebuildModsTab ids env m).mSoundtrackDownloadMenuEntry
        (fun e => e.setVisible (SoundtrackDownloadMenuEntry.shouldBeShown env))))
    (by rw [k3.2.2.1, k2.2.2.1]; exact hG)).2
  exact (h4.trans h3).trans h2

end OptionsMenu


namespace OptionsMenu

/-- The first block of `initialize`: the Mods tab is its first entry, what the loop over the
mods appends, and the Back entry; `mOptionEntries` is its first `option::_NUM + 1` elements
and what the loop appends, registered. -/
theorem rebuildModsTab_spec (ids : Enumerators) (env : Env) (m : OptionsMenu)
    (hT : ids.Tab_MODS < m.mTabs.length) :
    modsTabEntries ids (rebuildModsTab ids env m) =
      (modsTabEntries ids m).take 1 ++ (modsLoopResult ids env.activeMods).entries ++
        [GameMenuEntry.create EntryKind.OptionsMenuEntry ids._BACK] ∧
    (rebuildModsTab ids env m).mOptionEntries =
      registerEntries ids.Tab_MODS
        ((modsTabEntries ids m).take 1 ++ (modsLoopResult ids env.activeMods).entries)
        (resizeList (firstModOptionId ids) OptionEntry.empty m.mOptionEntries ++
          (modsLoopResult ids env.activeMods).optionEntries) := by
  have hst : addMods
      { entries := ((m.mTabs.getD ids.Tab_MODS ⟨[], 0⟩).mEntries).take 1
        optionEntries := resizeList ((ids._NUM + 1) % 2 ^ 32) OptionEntry.empty m.mOptionEntries
        nextOptionId := (ids._NUM + 1) % 2 ^ 32 } env.activeMods =
      ModsLoop.prepend ((modsTabEntries ids m).take 1)
        (resizeList (firstModOptionId ids) OptionEntry.empty m.mOptionEntries)
        (modsLoopResult ids env.activeMods) := addMods_prepend _ _ _ _
  constructor
  · unfold modsTabEntries rebuildModsTab
    simp only []
    rw [getD_modifyAt_self _ _ _ _ hT, hst]
    rfl
  · unfold rebuildModsTab
    simp only []
    rw [hst]
    rfl

theorem take_one_append_of_ne_nil {α : Type} (l r : List α) (h : l ≠ []) :
    (l.take 1 ++ r).take 1 = l.take 1 := by
  cases l with
  | nil => exact absurd rfl h
  | cons a l => rfl

end OptionsMenu

namespace OptionsMenu

theorem pointersOutside_rebuild_of_initializeMenu (lib : MenuLib) (ids : Enumerators)
    (env : Env) (m : OptionsMenu)
    (hP : PointersOutsideModsTab ids (initializeMenu lib ids env m)) :
    PointersOutsideModsTab ids (rebuildModsTab ids env m) := by
  have k := keepsRegistry_initializeMenu lib ids env m
  unfold PointersOutsideModsTab at hP ⊢
  rw [k.1, k.2.1, k.2.2.1] at hP
  exact hP

/-- C19: `initialize()` called a second time with the same list of active mods leaves the
Mods tab with the same sequence of entries, and `mOptionEntries` with the same contents, as
the first call did.  After a call the Mods tab is its first (dummy title) entry, the entries
the loop over the mods adds, and the Back entry, and `mOptionEntries` has `option::_NUM + 1`
elements and one per mod setting.  The tab `Tab::Id::MODS` exists with its dummy entry, and
the soundtrack download, gamepad assignment and sound test entries lie in other tabs. -/
theorem initialize_twice_rebuilds_mods_tab (lib : MenuLib) (ids : Enumerators)
    (env env2 : Env) (m : OptionsMenu) (hmods : env2.activeMods = env.activeMods)
    (hT : ids.Tab_MODS < m.mTabs.length) (hE : modsTabEntries ids m ≠ [])
    (hP : PointersOutsideModsTab ids (initializeMenu lib ids env m)) :
    modsTabEntries ids (initializeMenu lib ids env2 (initializeMenu lib ids env m)) =
      modsTabEntries ids (initializeMenu lib ids env m) ∧
    (initializeMenu lib ids env2 (initializeMenu lib ids env m)).mOptionEntries =
      (initializeMenu lib ids env m).mOptionEntries ∧
    modsTabEntries ids (initializeMenu lib ids env m) =
      (modsTabEntries ids m).take 1 ++ (modsLoopResult ids env.activeMods).entries ++
        [GameMenuEntry.create EntryKind.OptionsMenuEntry ids._BACK] ∧
    (initializeMenu lib ids env m).mOptionEntries.length =
      firstModOptionId ids + modSettingCount env.activeMods := by
  have k1 := keepsRegistry_initializeMenu lib ids env m
  have hP1 := pointersOutside_rebuild_of_initializeMenu lib ids env m hP
  obtain ⟨hr1, ho1⟩ := rebuildModsTab_spec ids env m hT
  have ht1 : modsTabEntries ids (initializeMenu lib ids env m) =
      (modsTabEntries ids m).take 1 ++ (modsLoopResult ids env.activeMods).entries ++
        [GameMenuEntry.create EntryKind.OptionsMenuEntry ids._BACK] := by
    rw [modsTabEntries_initializeMenu lib ids env m hP1, hr1]
  have hoe1 : (initializeMenu lib ids env m).mOptionEntries =
      registerEntries ids.Tab_MODS
        ((modsTabEntries ids m).take 1 ++ (modsLoopResult ids env.activeMods).entries)
        (resizeList (firstModOptionId ids) OptionEntry.empty m.mOptionEntries ++
          (modsLoopResult ids env.activeMods).optionEntries) := by
    rw [k1.1, ho1]
  -- the second call
  have hT2 : ids.Tab_MODS < (initializeMenu lib ids env m).mTabs.length := by
    rw [k1.2.2.2]
    have : (rebuildModsTab ids env m).mTabs.length = m.mTabs.length := by
      unfold rebuildModsTab
      exact length_modifyAt _ _ _
    rw [this]
    exact hT
  have k2 := keepsRegistry_initializeMenu lib ids env2 (initializeMenu lib ids env m)
  obtain ⟨hr2, ho2⟩ := rebuildModsTab_spec ids env2 (initializeMenu lib ids env m) hT2
  have htake : (modsTabEntries ids (initializeMenu lib ids env m)).take 1 =
      (modsTabEntries ids m).take 1 := by
    rw [ht1, List.append_assoc]
    exact take_one_append_of_ne_nil _ _ hE
  have hres : resizeList (firstModOptionId ids) OptionEntry.empty
      (initializeMenu lib ids env m).mOptionEntries =
      (registerEntries ids.Tab_MODS
        ((modsTabEntries ids m).take 1 ++ (modsLoopResult ids env.activeMods).entries)
        (resizeList (firstModOptionId ids) OptionEntry.empty m.mOptionEntries ++
          (modsLoopResult ids env.activeMods).optionEntries)).take
        (resizeList (firstModOptionId ids) OptionEntry.empty m.mOptionEntries).length := by
    rw [length_resizeList, ← hoe1]
    apply resizeList_of_le
    rw [hoe1, length_registerEntries, List.length_append, length_resizeList]
    exact Nat.le_add_right _ _
  have hoe2 : (rebuildModsTab ids env2 (initializeMenu lib ids env m)).mOptionEntries =
      (initializeMenu lib ids env m).mOptionEntries := by
    rw [ho2, htake, hmods, hres, registerEntries_again, ← hoe1]
  have hP2 : PointersOutsideModsTab ids
      (rebuildModsTab ids env2 (initializeMenu lib ids env m)) := by
    unfold PointersOutsideModsTab at hP ⊢
    rw [hoe2]
    exact hP
  refine ⟨?_, ?_, ht1, ?_⟩
  · rw [modsTabEntries_initializeMenu lib ids env2 _ hP2, hr2, htake, hmods, ht1]
  · rw [k2.1, hoe2]
  · exact length_mOptionEntries_initializeMenu lib ids env m

end OptionsMenu

namespace OptionsMenu

set_option maxRecDepth 100000 in
/-- The rebuild theorem on the constructed menu with the two example mods. -/
theorem initialize_twice_rebuilds_mods_tab_witness :
    modsEnv.activeMods = modsEnv.activeMods ∧
    constructorIds.Tab_MODS < constructedMenu.mTabs.length ∧
    modsTabEntries constructorIds constructedMenu ≠ [] ∧
    PointersOutsideModsTab constructorIds
      (initializeMenu exampleLib constructorIds modsEnv constructedMenu) ∧
    (modsTabEntries constructorIds
        (initializeMenu exampleLib constructorIds modsEnv
          (initializeMenu exampleLib constructorIds modsEnv constructedMenu)) =
      modsTabEntries constructorIds
        (initializeMenu exampleLib constructorIds modsEnv constructedMenu) ∧
    (initializeMenu exampleLib constructorIds modsEnv
        (initializeMenu exampleLib constructorIds modsEnv constructedMenu)).mOptionEntries =
      (initializeMenu exampleLib constructorIds modsEnv constructedMenu).mOptionEntries ∧
    modsTabEntries constructorIds
        (initializeMenu exampleLib constructorIds modsEnv constructedMenu) =
      (modsTabEntries constructorIds constructedMenu).take 1 ++
        (modsLoopResult constructorIds modsEnv.activeMods).entries ++
        [GameMenuEntry.create EntryKind.OptionsMenuEntry constructorIds._BACK] ∧
    (initializeMenu exampleLib constructorIds modsEnv constructedMenu).mOptionEntries.length =
      firstModOptionId constructorIds + modSettingCount modsEnv.activeMods) :=
  ⟨rfl, by decide, by decide, by decide,
    initialize_twice_rebuilds_mods_tab exampleLib constructorIds modsEnv modsEnv
      constructedMenu rfl (by decide) (by decide) (by decide)⟩

end OptionsMenu


/-! ### Navigation over visible choices -/

namespace OptionsMenu

theorem previousIndexWhere_some (p : Nat → Bool) (i j : Nat)
    (h : previousIndexWhere p i = some j) :
    j < i ∧ p j = true ∧ ∀ k, j < k → k < i → p k = false := by
  induction i with
  | zero => simp [previousIndexWhere] at h
  | succ i ih =>
    unfold previousIndexWhere at h
    by_cases hp : p i = true
    · rw [if_pos hp] at h
      simp only [Option.some.injEq] at h
      subst h
      exact ⟨Nat.lt_succ_self _, hp, fun k h1 h2 => absurd h1 (by omega)⟩
    · rw [if_neg hp] at h
      obtain ⟨h1, h2, h3⟩ := ih h
      refine ⟨Nat.lt_succ_of_lt h1, h2, ?_⟩
      intro k hk1 hk2
      by_cases hki : k = i
      · subst hki
        simpa using hp
      · exact h3 k hk1 (by omega)

theorem previousIndexWhere_none (p : Nat → Bool) (i : Nat)
    (h : previousIndexWhere p i = none) : ∀ k, k < i → p k = false := by
  induction i with
  | zero => intro k hk; exact absurd hk (Nat.not_lt_zero _)
  | succ i ih =>
    unfold previousIndexWhere at h
    by_cases hp : p i = true
    · rw [if_pos hp] at h
      exact Option.noConfusion h
    · rw [if_neg hp] at h
      intro k hk
      by_cases hki : k = i
      · subst hki
        simpa using hp
      · exact ih h k (by omega)

theorem firstIndexFrom_some (p : Nat → Bool) (start count j : Nat)
    (h : firstIndexFrom p start count = some j) :
    start ≤ j ∧ j < start + count ∧ p j = true ∧ ∀ k, start ≤ k → k < j → p k = false := by
  induction count generalizing start with
  | zero => simp [firstIndexFrom] at h
  | succ count ih =>
    unfold firstIndexFrom at h
    by_cases hp : p start = true
    · rw [if_pos hp] at h
      simp only [Option.some.injEq] at h
      subst h
      exact ⟨le_refl _, by omega, hp, fun k h1 h2 => absurd h1 (by omega)⟩
    · rw [if_neg hp] at h
      obtain ⟨h1, h2, h3, h4⟩ := ih (start + 1) h
      refine ⟨by omega, by omega, h3, ?_⟩
      intro k hk1 hk2
      by_cases hks : k = start
      · subst hks
        simpa using hp
      · exact h4 k (by omega) hk2

theorem firstIndexFrom_none (p : Nat → Bool) (start count : Nat)
    (h : firstIndexFrom p start count = none) :
    ∀ k, start ≤ k → k < start + count → p k = false := by
  induction count generalizing start with
  | zero => intro k h1 h2; exact absurd h2 (by omega)
  | succ count ih =>
    unfold firstIndexFrom at h
    by_cases hp : p start = true
    · rw [if_pos hp] at h
      exact Option.noConfusion h
    · rw [if_neg hp] at h
      intro k hk1 hk2
      by_cases hks : k = start
      · subst hks
        simpa using hp
      · exact ih (start + 1) h k (by omega) (by omega)

theorem optionVisibleAt_of_length_le (e : GameMenuEntry) (k : Nat)
    (h : e.mOptions.length ≤ k) : e.optionVisibleAt k = false := by
  unfold GameMenuEntry.optionVisibleAt
  rw [List.getElem?_eq_none h]

theorem previousVisibleOption_some (e : GameMenuEntry) (i j : Nat)
    (h : e.previousVisibleOption i = some j) : e.IsStepLeft i j :=
  Or.inl (previousIndexWhere_some _ i j h)

theorem previousVisibleOption_none (e : GameMenuEntry) (i : Nat)
    (h : e.previousVisibleOption i = none) : e.IsStepLeft i i :=
  Or.inr ⟨rfl, previousIndexWhere_none _ i h⟩

theorem nextVisibleOption_some (e : GameMenuEntry) (i j : Nat)
    (h : e.nextVisibleOption i = some j) : e.IsStepRight i j := by
  obtain ⟨h1, _, h3, h4⟩ := firstIndexFrom_some _ _ _ j h
  exact Or.inl ⟨h1, h3, fun k hk1 hk2 => h4 k hk1 hk2⟩

theorem nextVisibleOption_none (e : GameMenuEntry) (i : Nat)
    (h : e.nextVisibleOption i = none) : e.IsStepRight i i := by
  refine Or.inr ⟨rfl, ?_⟩
  intro k hk
  by_cases hlen : k < e.mOptions.length
  · exact firstIndexFrom_none _ _ _ h k hk (by omega)
  · exact optionVisibleAt_of_length_le e k (Nat.le_of_not_lt hlen)

/-- With a visible choice in the entry, the sanitized selection is a visible choice. -/
theorem optionVisibleAt_sanitizeSelectedIndex (e : GameMenuEntry)
    (h : ∃ k, e.optionVisibleAt k = true) :
    e.optionVisibleAt e.sanitizeSelectedIndex = true := by
  unfold GameMenuEntry.sanitizeSelectedIndex
  by_cases hcur : e.optionVisibleAt e.mSelectedIndex = true
  · rw [if_pos hcur]
    exact hcur
  · rw [if_neg hcur]
    cases hn : e.nextVisibleOption e.mSelectedIndex with
    | some j =>
      rcases nextVisibleOption_some e _ j hn with ⟨_, hv, _⟩ | ⟨_, hall⟩
      · exact hv
      · obtain ⟨h1, _, h3, _⟩ := firstIndexFrom_some _ _ _ j hn
        exact h3
    | none =>
      cases hp : e.previousVisibleOption e.mSelectedIndex with
      | some j =>
        exact (previousIndexWhere_some _ _ j hp).2.1
      | none =>
        exfalso
        obtain ⟨k, hk⟩ := h
        have hleft := previousIndexWhere_none _ _ hp
        rcases nextVisibleOption_none e _ hn with ⟨hlt, _⟩ | ⟨_, hright⟩
        · exact absurd hlt (Nat.lt_irrefl _)
        · rcases Nat.lt_trichotomy k e.mSelectedIndex with hlt | heq | hgt
          · rw [hleft k hlt] at hk
            exact Bool.noConfusion hk
          · rw [heq] at hk
            exact hcur hk
          · rw [hright k hgt] at hk
            exact Bool.noConfusion hk

theorem entry_selectOption (es : GameMenuEntries) (j k : Nat) :
    (es.selectOption j).entry k =
      if k = es.mSelectedEntryIndex.toNat ∧ k < es.mEntries.length then
        { es.entry k with mSelectedIndex := j }
      else es.entry k := by
  unfold GameMenuEntries.selectOption GameMenuEntries.entry
  simp only [List.getD_eq_getElem?_getD, getElem?_modifyAt]
  by_cases hk : k = es.mSelectedEntryIndex.toNat
  · rw [if_pos hk]
    by_cases hlen : k < es.mEntries.length
    · rw [if_pos ⟨hk, hlen⟩, List.getElem?_eq_getElem hlen]
      rfl
    · rw [if_neg (fun h => hlen h.2), List.getElem?_eq_none (Nat.le_of_not_lt hlen)]
      rfl
  · rw [if_neg hk, if_neg (fun h => hk h.1)]

theorem optionVisibleAt_invalid (k : Nat) : GameMenuEntry.invalid.optionVisibleAt k = false :=
  rfl

theorem selected_of_visible (es : GameMenuEntries) (j : Nat)
    (h : es.selected.optionVisibleAt j = true) :
    es.selected = es.entry es.mSelectedEntryIndex.toNat := by
  unfold GameMenuEntries.selected at h ⊢
  by_cases h0 : 0 ≤ es.mSelectedEntryIndex
  · rw [if_pos h0]
  · rw [if_neg h0, optionVisibleAt_invalid] at h
    exact Bool.noConfusion h

theorem selectOption_moves_to_visible (es : GameMenuEntries) (j k : Nat)
    (hj : es.selected.optionVisibleAt j = true) :
    ((es.selectOption j).entry k).mOptions = (es.entry k).mOptions ∧
    (((es.selectOption j).entry k).mSelectedIndex = (es.entry k).mSelectedIndex ∨
      (es.entry k).optionVisibleAt ((es.selectOption j).entry k).mSelectedIndex = true) := by
  rw [entry_selectOption]
  by_cases hk : k = es.mSelectedEntryIndex.toNat ∧ k < es.mEntries.length
  · rw [if_pos hk]
    refine ⟨rfl, Or.inr ?_⟩
    rw [selected_of_visible es j hj, ← hk.1] at hj
    exact hj
  · rw [if_neg hk]
    exact ⟨rfl, Or.inl rfl⟩

/-- The list update modelled from the spec moves the selected choice to visible choices
only. -/
theorem movesToVisibleChoices_withSpecNavigation (lib : MenuLib) :
    lib.withSpecNavigation.MovesToVisibleChoices := by
  intro env es k
  show ((GameMenuEntries.update env es).2.entry k).mOptions = (es.entry k).mOptions ∧
    (((GameMenuEntries.update env es).2.entry k).mSelectedIndex = (es.entry k).mSelectedIndex ∨
      ((GameMenuEntries.update env es).1 = UpdateResult.OPTION_CHANGED ∧
        (es.entry k).optionVisibleAt ((GameMenuEntries.update env es).2.entry k).mSelectedIndex
          = true))
  unfold GameMenuEntries.update
  simp only []
  split_ifs
  · split
    · exact ⟨rfl, Or.inl rfl⟩
    · exact ⟨rfl, Or.inl rfl⟩
  · split
    · exact ⟨rfl, Or.inl rfl⟩
    · exact ⟨rfl, Or.inl rfl⟩
  · split
    · rename_i j hj
      have hv := (previousIndexWhere_some _ _ j hj).2.1
      obtain ⟨h1, h2⟩ := selectOption_moves_to_visible es j k hv
      exact ⟨h1, h2.elim Or.inl (fun h => Or.inr ⟨rfl, h⟩)⟩
    · exact ⟨rfl, Or.inl rfl⟩
  · split
    · rename_i j hj
      have hv := (firstIndexFrom_some _ _ _ j hj).2.2.1
      obtain ⟨h1, h2⟩ := selectOption_moves_to_visible es j k hv
      exact ⟨h1, h2.elim Or.inl (fun h => Or.inr ⟨rfl, h⟩)⟩
    · exact ⟨rfl, Or.inl rfl⟩
  · exact ⟨rfl, Or.inl rfl⟩

end OptionsMenu


namespace OptionsMenu

theorem mTabMenuEntries_modifyOptionMenuEntry (m : OptionsMenu) (d : Nat)
    (f : GameMenuEntry → GameMenuEntry) :
    (m.modifyOptionMenuEntry d f).mTabMenuEntries = m.mTabMenuEntries := by
  unfold modifyOptionMenuEntry
  split <;> rfl

theorem mTabMenuEntries_playSoundtest (s : Int) (d : AudioDefinition) (m : OptionsMenu) :
    (playSoundtest s d m).mTabMenuEntries = m.mTabMenuEntries := by
  unfold playSoundtest
  simp only []
  split <;> rfl

theorem mTabMenuEntries_restartMusic (s : Int) (m : OptionsMenu) :
    (restartMusic s m).mTabMenuEntries = m.mTabMenuEntries := by
  unfold restartMusic
  simp only []
  split
  · rfl
  · rw [mTabMenuEntries_playSoundtest]
    rfl

theorem mTabMenuEntries_goBack (env : Env) (m : OptionsMenu) :
    (goBack env m).mTabMenuEntries = m.mTabMenuEntries := by
  have h1 : ∀ x : OptionsMenu, (stopSoundTest x).mTabMenuEntries = x.mTabMenuEntries := by
    intro x
    unfold stopSoundTest
    split <;> rfl
  have h2 : ∀ x : OptionsMenu, (reloadScriptsIfChanged env x).mTabMenuEntries = x.mTabMenuEntries := by
    intro x
    unfold reloadScriptsIfChanged
    split <;> rfl
  have h3 : ∀ x : OptionsMenu, (startFadeOut x).mTabMenuEntries = x.mTabMenuEntries := fun _ => rfl
  have hcall : ∀ (x : OptionsMenu) (c : Call), (x.call c).mTabMenuEntries = x.mTabMenuEntries :=
    fun _ _ => rfl
  unfold goBack
  simp only []
  rw [h3, hcall, h2, hcall, hcall, h1, hcall]

theorem mTabMenuEntries_acceptSelectedEntry (ids : Enumerators) (late : Env) (e : GameMenuEntry)
    (m : OptionsMenu) : (acceptSelectedEntry ids late e m).mTabMenuEntries = m.mTabMenuEntries := by
  have h1 : (acceptSoundTest late e m).mTabMenuEntries = m.mTabMenuEntries := by
    unfold acceptSoundTest
    split
    · exact mTabMenuEntries_playSoundtest _ _ _
    · rfl
  have h2 : (acceptSoundtrackDownload late m).mTabMenuEntries = m.mTabMenuEntries := by
    unfold acceptSoundtrackDownload
    simp only []
    split
    · rw [mTabMenuEntries_restartMusic]
      rfl
    · rfl
  unfold acceptSelectedEntry
  simp only []
  split_ifs
  · exact h1
  · rfl
  · rfl
  · rfl
  · rfl
  · exact h2
  · rfl
  · rfl
  · exact mTabMenuEntries_goBack late m
  · rfl

theorem mTabMenuEntries_handleButtons (ids : Enumerators) (env late : Env) (m : OptionsMenu) :
    (handleButtons ids env late m).mTabMenuEntries = m.mTabMenuEntries := by
  unfold handleButtons
  split
  · rfl
  · exact mTabMenuEntries_goBack late m
  · split
    · exact mTabMenuEntries_acceptSelectedEntry ids late _ m
    · rfl

theorem mTabMenuEntries_update_tail (lib : MenuLib) (ids : Enumerators) (late : Env) (dt : ℚ)
    (x : OptionsMenu) :
    ((refreshGamepadLists lib late false (updateTimeouts dt (updateFading dt
      (updateInteractable ids late x)))).call Call.baseUpdate).mTabMenuEntries = x.mTabMenuEntries := by
  have hcall : ∀ (y : OptionsMenu) (c : Call), (y.call c).mTabMenuEntries = y.mTabMenuEntries :=
    fun _ _ => rfl
  have hr : ∀ y : OptionsMenu, (refreshGamepadLists lib late false y).mTabMenuEntries =
      y.mTabMenuEntries := by
    intro y
    have hp : ∀ (z : OptionsMenu) (k : Nat),
        (refreshGamepadPlayer lib late z k).mTabMenuEntries = z.mTabMenuEntries := by
      intro z k
      unfold refreshGamepadPlayer
      split <;> rfl
    unfold refreshGamepadLists
    split
    · simp only [List.range, List.range.loop, List.foldl, hp]
      rfl
    · rfl
  have ht : ∀ y : OptionsMenu, (updateTimeouts dt y).mTabMenuEntries = y.mTabMenuEntries := fun _ => rfl
  have hf : ∀ y : OptionsMenu, (updateFading dt y).mTabMenuEntries = y.mTabMenuEntries := by
    intro y
    unfold updateFading finishAppear finishFadeOut
    split_ifs <;> rfl
  have hi : (updateInteractable ids late x).mTabMenuEntries = x.mTabMenuEntries := by
    unfold updateInteractable
    simp only []
    rw [mTabMenuEntries_modifyOptionMenuEntry, mTabMenuEntries_modifyOptionMenuEntry]
  rw [hcall, hr, ht, hf, hi]

theorem mTabMenuEntries_syncDisplayedValues (lib : MenuLib) (ids : Enumerators) (env : Env)
    (m : OptionsMenu) : (syncDisplayedValues lib ids env m).mTabMenuEntries = m.mTabMenuEntries := by
  have h2 : ∀ (x : OptionsMenu) (d : Nat),
      (loadOptionValue lib env d x).mTabMenuEntries = x.mTabMenuEntries := by
    intro x d
    unfold loadOptionValue
    split
    · split <;> rfl
    · rfl
  unfold syncDisplayedValues
  simp only []
  rw [mTabMenuEntries_modifyOptionMenuEntry, h2, h2, h2, h2, mTabMenuEntries_modifyOptionMenuEntry]

theorem mTabMenuEntries_applyOptionChange (ids : Enumerators) (env : Env) (e : GameMenuEntry)
    (m : OptionsMenu) : (applyOptionChange ids env e m).mTabMenuEntries = m.mTabMenuEntries := by
  have h1 : (changeSoundtrack env e m).mTabMenuEntries = m.mTabMenuEntries := by
    unfold changeSoundtrack
    simp only []
    split
    · have hme : ∀ (x : OptionsMenu) (r : EntryRef) (f : GameMenuEntry → GameMenuEntry),
          (x.modifyEntry r f).mTabMenuEntries = x.mTabMenuEntries := fun _ _ _ => rfl
      rw [hme, mTabMenuEntries_restartMusic]
      rfl
    · rfl
  have h2 : (applyDefaultChange ids e m).mTabMenuEntries = m.mTabMenuEntries := by
    have hw : ∀ (x : OptionsMenu) (d : Nat),
        (showAudioWarning ids d x).mTabMenuEntries = x.mTabMenuEntries := by
      intro x d
      unfold showAudioWarning
      split <;> rfl
    have hg : ∀ x : OptionsMenu, (applyGenericValue ids e x).mTabMenuEntries = x.mTabMenuEntries := by
      intro x
      unfold applyGenericValue
      simp only []
      split_ifs <;> rfl
    unfold applyDefaultChange
    simp only []
    rw [hw, hg]
    rfl
  unfold applyOptionChange
  simp only []
  split_ifs
  · rfl
  · rfl
  · rfl
  · exact h1
  · rfl
  · rfl
  · rfl
  · exact h2

theorem mActiveTab_applyOptionChange (ids : Enumerators) (env : Env) (e : GameMenuEntry)
    (m : OptionsMenu) : (applyOptionChange ids env e m).mActiveTab = m.mActiveTab := by
  have h1 : (changeSoundtrack env e m).mActiveTab = m.mActiveTab := by
    unfold changeSoundtrack
    simp only []
    split
    · have hme : ∀ (x : OptionsMenu) (r : EntryRef) (f : GameMenuEntry → GameMenuEntry),
          (x.modifyEntry r f).mActiveTab = x.mActiveTab := fun _ _ _ => rfl
      rw [hme, mActiveTab_restartMusic]
      rfl
    · rfl
  have h2 : (applyDefaultChange ids e m).mActiveTab = m.mActiveTab := by
    have hw : ∀ (x : OptionsMenu) (d : Nat),
        (showAudioWarning ids d x).mActiveTab = x.mActiveTab := by
      intro x d
      unfold showAudioWarning
      split <;> rfl
    have hg : ∀ x : OptionsMenu, (applyGenericValue ids e x).mActiveTab = x.mActiveTab := by
      intro x
      unfold applyGenericValue
      simp only []
      split_ifs <;> rfl
    unfold applyDefaultChange
    simp only []
    rw [hw, hg]
    rfl
  unfold applyOptionChange
  simp only []
  split_ifs
  · rfl
  · rfl
  · rfl
  · exact h1
  · rfl
  · rfl
  · rfl
  · exact h2

end OptionsMenu


namespace OptionsMenu

theorem keepsTitle_refl (x : OptionsMenu) : KeepsTitle x x := ⟨rfl, rfl⟩

theorem keepsTitle_trans {x y z : OptionsMenu} (h1 : KeepsTitle x y) (h2 : KeepsTitle y z) :
    KeepsTitle x z := ⟨h2.1.trans h1.1, h2.2.trans h1.2⟩

theorem activeTabVisible_of_keepsTitle {options : List GameMenuOption} {x y : OptionsMenu}
    (h : KeepsTitle x y) (hx : ActiveTabVisible options x) : ActiveTabVisible options y := by
  unfold ActiveTabVisible tabTitleEntry at hx ⊢
  rw [h.1, h.2]
  exact hx

theorem optionVisibleAt_congr (e1 e2 : GameMenuEntry) (h : e1.mOptions = e2.mOptions)
    (k : Nat) : e1.optionVisibleAt k = e2.optionVisibleAt k := by
  unfold GameMenuEntry.optionVisibleAt
  rw [h]

theorem keepsTitle_syncDisplayedValues (lib : MenuLib) (ids : Enumerators) (env : Env)
    (m : OptionsMenu) : KeepsTitle m (syncDisplayedValues lib ids env m) :=
  ⟨mTabMenuEntries_syncDisplayedValues lib ids env m, mActiveTab_syncDisplayedValues lib ids env m⟩

theorem keepsTitle_enterTabContent (env : Env) (m : OptionsMenu) :
    KeepsTitle m (enterTabContent env m) := by
  unfold enterTabContent
  split
  · exact ⟨rfl, rfl⟩
  · exact ⟨rfl, rfl⟩

theorem keepsTitle_handleButtons (ids : Enumerators) (env late : Env) (m : OptionsMenu) :
    KeepsTitle m (handleButtons ids env late m) :=
  ⟨mTabMenuEntries_handleButtons ids env late m, mActiveTab_handleButtons ids env late m⟩

theorem keepsTitle_reactToUpdateResult_inTab (ids : Enumerators) (env : Env)
    (res : UpdateResult) (C : OptionsMenu) (t : Nat)
    (hC : C.mActiveMenu = ActiveMenu.tabContent t) :
    KeepsTitle C (reactToUpdateResult ids env res C) := by
  have hne : C.mActiveMenu ≠ ActiveMenu.tabMenu := by
    rw [hC]
    exact fun h => ActiveMenu.noConfusion h
  unfold reactToUpdateResult
  split_ifs with h1 h2
  · exact keepsTitle_refl C
  · exact absurd h2.2 hne
  · unfold reactInsideTab
    split_ifs
    · exact ⟨rfl, rfl⟩
    · exact ⟨(mTabMenuEntries_applyOptionChange ids env _ _).trans rfl,
        (mActiveTab_applyOptionChange ids env _ _).trans rfl⟩
    · exact ⟨rfl, rfl⟩

/-- The list update and the reaction to its result keep the active tab a visible choice of
the tab-title entry. -/
theorem activeTabVisible_handleMenuUpdate (lib : MenuLib) (ids : Enumerators) (env : Env)
    (options : List GameMenuOption) (y : OptionsMenu) (hlib : lib.MovesToVisibleChoices)
    (h0 : ids._TAB_SELECTION = 0) (hy : ActiveTabVisible options y) :
    ActiveTabVisible options (handleMenuUpdate lib ids env y) := by
  unfold handleMenuUpdate
  simp only []
  cases hm : y.mActiveMenu with
  | tabContent t =>
    have hset : ∀ es : GameMenuEntries,
        y.setActiveEntries es = { y with mTabs := modifyAt (fun _ => es) t y.mTabs } := by
      intro es
      unfold setActiveEntries
      rw [hm]
    rw [hset]
    exact activeTabVisible_of_keepsTitle
      (keepsTitle_trans (show KeepsTitle y { y with mTabs := _ } from ⟨rfl, rfl⟩)
        (keepsTitle_reactToUpdateResult_inTab ids env _ _ t hm)) hy
  | tabMenu =>
    have hact : y.activeEntries = y.mTabMenuEntries := by
      unfold activeEntries
      rw [hm]
    have hset : ∀ es : GameMenuEntries,
        y.setActiveEntries es = { y with mTabMenuEntries := es } := by
      intro es
      unfold setActiveEntries
      rw [hm]
    rw [hact, hset]
    obtain ⟨hopt, hidx⟩ := hlib env y.mTabMenuEntries 0
    obtain ⟨hy1, hy2, hy3⟩ := hy
    unfold tabTitleEntry at hy1 hy2 hy3
    generalize lib.entriesUpdate env y.mTabMenuEntries = r at hopt hidx ⊢
    have hvis : ∀ k, (r.2.entry 0).optionVisibleAt k = (y.mTabMenuEntries.entry 0).optionVisibleAt k :=
      optionVisibleAt_congr _ _ hopt
    -- the menu when the active tab is not taken over
    have hsame : r.1 ≠ UpdateResult.OPTION_CHANGED → ∀ calls : List Call,
        ActiveTabVisible options { y with mTabMenuEntries := r.2, mCalls := calls } := by
      intro hr calls
      have hi : (r.2.entry 0).mSelectedIndex = (y.mTabMenuEntries.entry 0).mSelectedIndex :=
        hidx.elim id (fun h => absurd h.1 hr)
      refine ⟨hopt.trans hy1, hy2.trans hi.symm, ?_⟩
      show (r.2.entry 0).optionVisibleAt y.mActiveTab = true
      rw [hvis]
      exact hy3
    unfold reactToUpdateResult
    cases hr : r.1 with
    | NONE =>
      rw [if_pos rfl]
      exact hsame (by rw [hr]; decide) y.mCalls
    | ENTRY_CHANGED =>
      rw [if_neg (by decide), if_neg (fun h => absurd h.1 (by decide))]
      unfold reactInsideTab
      rw [if_neg (fun h => h.2.1 hm), if_neg (fun h => h.2 hm)]
      exact hsame (by rw [hr]; decide) _
    | OPTION_CHANGED =>
      rw [if_neg (by decide), if_pos ⟨rfl, hm⟩]
      refine ⟨hopt.trans hy1, ?_, ?_⟩
      · show (r.2.entry ids._TAB_SELECTION).mSelectedIndex = (r.2.entry 0).mSelectedIndex
        rw [h0]
      · show (r.2.entry 0).optionVisibleAt (r.2.entry ids._TAB_SELECTION).mSelectedIndex = true
        rw [h0, hvis]
        rcases hidx with h | h
        · rw [h, ← hy2]
          exact hy3
        · exact h.2

theorem keepsTitle_update_tail (lib : MenuLib) (ids : Enumerators) (late : Env) (dt : ℚ)
    (x : OptionsMenu) :
    KeepsTitle x ((refreshGamepadLists lib late false (updateTimeouts dt (updateFading dt
      (updateInteractable ids late x)))).call Call.baseUpdate) :=
  ⟨mTabMenuEntries_update_tail lib ids late dt x, mActiveTab_update_tail lib ids late dt x⟩

/-- One `update` keeps the active tab a visible choice of the tab-title entry. -/
theorem activeTabVisible_update (lib : MenuLib) (ids : Enumerators) (env late : Env) (dt : ℚ)
    (options : List GameMenuOption) (m : OptionsMenu) (hlib : lib.MovesToVisibleChoices)
    (h0 : ids._TAB_SELECTION = 0) (hm : ActiveTabVisible options m) :
    ActiveTabVisible options (update lib ids env late dt m) := by
  have h1 : ActiveTabVisible options (animateActiveTab dt m) :=
    activeTabVisible_of_keepsTitle (show KeepsTitle m (animateActiveTab dt m) from ⟨rfl, rfl⟩) hm
  have h2 : ActiveTabVisible options (handleInput lib ids env late (animateActiveTab dt m)) := by
    unfold handleInput
    split
    · refine activeTabVisible_of_keepsTitle (keepsTitle_handleButtons ids env late _) ?_
      refine activeTabVisible_handleMenuUpdate lib ids env options _ hlib h0 ?_
      exact activeTabVisible_of_keepsTitle
        (keepsTitle_trans (keepsTitle_syncDisplayedValues lib ids env _)
          (keepsTitle_enterTabContent env _)) h1
    · exact h1
  unfold update
  simp only []
  exact activeTabVisible_of_keepsTitle (keepsTitle_update_tail lib ids late dt _) h2

/-- Every sequence of `update` calls keeps the active tab a visible choice of the tab-title
entry. -/
theorem activeTabVisible_updates (lib : MenuLib) (ids : Enumerators) (ticks : List Tick)
    (options : List GameMenuOption) (m : OptionsMenu) (hlib : lib.MovesToVisibleChoices)
    (h0 : ids._TAB_SELECTION = 0) (hm : ActiveTabVisible options m) :
    ActiveTabVisible options (updates lib ids ticks m) := by
  unfold updates
  induction ticks generalizing m with
  | nil => exact hm
  | cons t ticks ih =>
    rw [List.foldl_cons]
    exact ih _ (activeTabVisible_update lib ids t.env t.late t.timeElapsed options m hlib h0 hm)

end OptionsMenu


namespace OptionsMenu

theorem optionVisibleAt_setOptionVisible (e : GameMenuEntry) (i : Nat) (v : Bool) (k : Nat) :
    (setOptionVisible e i v).optionVisibleAt k =
      if k = i then (decide (k < e.mOptions.length) && v) else e.optionVisibleAt k := by
  unfold setOptionVisible GameMenuEntry.optionVisibleAt
  simp only [getElem?_modifyAt]
  by_cases hk : k = i
  · rw [if_pos hk, if_pos hk]
    by_cases hlen : k < e.mOptions.length
    · rw [List.getElem?_eq_getElem hlen]
      simp [hlen]
    · rw [List.getElem?_eq_none (Nat.le_of_not_lt hlen)]
      simp [hlen]
  · rw [if_neg hk, if_neg hk]

/-- The tab-title entry after `setupOptionsMenu` hid tabs: the other choices keep their
flag, and in-game the Mods and System choices are hidden. -/
theorem optionVisibleAt_setupTabEntry (lib : MenuLib) (ids : Enumerators) (inGame has : Bool)
    (e : GameMenuEntry) :
    (∀ k, k ≠ ids.Tab_MODS → k ≠ ids.Tab_SYSTEM →
      (setupTabEntry lib ids inGame has e).optionVisibleAt k = e.optionVisibleAt k) ∧
    (inGame = true →
      (setupTabEntry lib ids inGame has e).optionVisibleAt ids.Tab_MODS = false ∧
      (setupTabEntry lib ids inGame has e).optionVisibleAt ids.Tab_SYSTEM = false) := by
  have hopt : ∀ k, (setupTabEntry lib ids inGame has e).optionVisibleAt k =
      (setOptionVisible (setOptionVisible e ids.Tab_MODS (!inGame && has)) ids.Tab_SYSTEM
        (!inGame)).optionVisibleAt k := fun k => optionVisibleAt_congr _ _ rfl k
  constructor
  · intro k h1 h2
    rw [hopt, optionVisibleAt_setOptionVisible, if_neg h2, optionVisibleAt_setOptionVisible,
      if_neg h1]
  · intro hin
    subst hin
    constructor
    · rw [hopt, optionVisibleAt_setOptionVisible]
      split
      · simp
      · rw [optionVisibleAt_setOptionVisible, if_pos rfl]
        simp
    · rw [hopt, optionVisibleAt_setOptionVisible, if_pos rfl]
      simp

/-- The tab-title list and the active tab after `setupOptionsMenu`. -/
theorem title_setupOptionsMenu (lib : MenuLib) (ids : Enumerators) (env : Env)
    (inGame : Bool) (m : OptionsMenu) (hentry : m.mTabMenuEntries.mEntries ≠ []) :
    (setupOptionsMenu lib ids env inGame m).tabTitleEntry =
      setupTabEntry lib ids inGame m.mHasAnyModOptions m.tabTitleEntry ∧
    (setupOptionsMenu lib ids env inGame m).mActiveTab =
      (setupTabEntry lib ids inGame m.mHasAnyModOptions m.tabTitleEntry).mSelectedIndex := by
  have h1 : (setupOptionsMenu lib ids env inGame m).mTabMenuEntries =
      (setupTabs lib ids inGame (hideWindowModeOptions lib ids
        (setupConditionalOptions lib ids env inGame
          (setEnteredFromIngame inGame m)))).mTabMenuEntries := by
    unfold setupOptionsMenu sanitizeActiveTab focusTitleIfSelected
    simp only []
    unfold resetWarnings
    split <;> rfl
  have h1' : (setupOptionsMenu lib ids env inGame m).mActiveTab =
      (setupTabs lib ids inGame (hideWindowModeOptions lib ids
        (setupConditionalOptions lib ids env inGame
          (setEnteredFromIngame inGame m)))).mActiveTab := by
    unfold setupOptionsMenu sanitizeActiveTab focusTitleIfSelected
    simp only []
    unfold resetWarnings
    split <;> rfl
  have h2 := titleRow_hideWindowModeOptions lib ids
    (setupConditionalOptions lib ids env inGame (setEnteredFromIngame inGame m))
  have h3 : (setupConditionalOptions lib ids env inGame
      (setEnteredFromIngame inGame m)).mTabMenuEntries = m.mTabMenuEntries := rfl
  have h4 : (setupConditionalOptions lib ids env inGame
      (setEnteredFromIngame inGame m)).mHasAnyModOptions = m.mHasAnyModOptions := rfl
  unfold tabTitleEntry
  rw [h1, h1']
  unfold setupTabs
  simp only []
  rw [h2.1, h2.2, h3, h4]
  cases hl : m.mTabMenuEntries.mEntries with
  | nil => exact absurd hl hentry
  | cons a l => exact ⟨rfl, rfl⟩

/-- After `setupOptionsMenu` the active tab is a visible choice of the tab-title entry, when
a tab other than Mods and System is visible. -/
theorem activeTabVisible_setupOptionsMenu (lib : MenuLib) (ids : Enumerators) (env : Env)
    (inGame : Bool) (m : OptionsMenu) (hentry : m.mTabMenuEntries.mEntries ≠ [])
    (hvis : ∃ k, k ≠ ids.Tab_MODS ∧ k ≠ ids.Tab_SYSTEM ∧ m.tabTitleEntry.optionVisibleAt k = true) :
    ActiveTabVisible
      (setupTabEntry lib.withSpecNavigation ids inGame m.mHasAnyModOptions m.tabTitleEntry).mOptions
      (setupOptionsMenu lib.withSpecNavigation ids env inGame m) := by
  obtain ⟨ht, ha⟩ := title_setupOptionsMenu lib.withSpecNavigation ids env inGame m hentry
  obtain ⟨k, hk1, hk2, hk3⟩ := hvis
  unfold ActiveTabVisible
  rw [ht, ha]
  refine ⟨rfl, rfl, ?_⟩
  have hex : ∃ j, (setOptionVisible (setOptionVisible m.tabTitleEntry ids.Tab_MODS
      (!inGame && m.mHasAnyModOptions)) ids.Tab_SYSTEM (!inGame)).optionVisibleAt j = true := by
    refine ⟨k, ?_⟩
    rw [optionVisibleAt_setOptionVisible, if_neg hk2, optionVisibleAt_setOptionVisible,
      if_neg hk1]
    exact hk3
  have hs := optionVisibleAt_sanitizeSelectedIndex _ hex
  exact (optionVisibleAt_congr _ _ rfl _).trans hs

end OptionsMenu


namespace OptionsMenu

/-- The active tab after an `update` that handles input while the tab-title row has the
focus and neither Down nor Up is pressed. -/
theorem mActiveTab_update_titleFocus (lib : MenuLib) (ids : Enumerators) (env late : Env)
    (dt : ℚ) (m : OptionsMenu) (hshow : m.mState = State.SHOW)
    (hvis : env.controllerSetupMenuVisible = false)
    (hfocus : m.mActiveMenu = ActiveMenu.tabMenu)
    (hkeys : (env.keys.Down.justPressedOrRepeat || env.keys.Up.justPressedOrRepeat) = false) :
    (update lib ids env late dt m).mActiveTab =
      if (lib.entriesUpdate env m.mTabMenuEntries).1 = UpdateResult.OPTION_CHANGED then
        ((lib.entriesUpdate env m.mTabMenuEntries).2.entry ids._TAB_SELECTION).mSelectedIndex
      else m.mActiveTab := by
  have hB : enterTabContent env (syncDisplayedValues lib ids env (animateActiveTab dt m)) =
      syncDisplayedValues lib ids env (animateActiveTab dt m) := by
    unfold enterTabContent
    rw [if_neg]
    intro hc
    rw [hkeys] at hc
    exact absurd hc.2 (by decide)
  have hym : (syncDisplayedValues lib ids env (animateActiveTab dt m)).mActiveMenu =
      ActiveMenu.tabMenu := by
    rw [mActiveMenu_syncDisplayedValues]
    exact hfocus
  have hyt : (syncDisplayedValues lib ids env (animateActiveTab dt m)).mTabMenuEntries =
      m.mTabMenuEntries := by
    rw [mTabMenuEntries_syncDisplayedValues]
    rfl
  have hya : (syncDisplayedValues lib ids env (animateActiveTab dt m)).mActiveTab =
      m.mActiveTab := by
    rw [mActiveTab_syncDisplayedValues]
    rfl
  have hshow' : (animateActiveTab dt m).mState = State.SHOW := hshow
  have hin : handleInput lib ids env late (animateActiveTab dt m) =
      handleButtons ids env late
        (handleMenuUpdate lib ids env
          (syncDisplayedValues lib ids env (animateActiveTab dt m))) := by
    unfold handleInput
    rw [if_pos ⟨hshow', hvis⟩, hB]
  have hmu : ∀ y : OptionsMenu, y.mActiveMenu = ActiveMenu.tabMenu →
      (handleMenuUpdate lib ids env y).mActiveTab =
        if (lib.entriesUpdate env y.mTabMenuEntries).1 = UpdateResult.OPTION_CHANGED then
          ((lib.entriesUpdate env y.mTabMenuEntries).2.entry ids._TAB_SELECTION).mSelectedIndex
        else y.mActiveTab := by
    intro y hy
    have hact : y.activeEntries = y.mTabMenuEntries := by
      unfold activeEntries
      rw [hy]
    have hset : ∀ es : GameMenuEntries,
        y.setActiveEntries es = { y with mTabMenuEntries := es } := by
      intro es
      unfold setActiveEntries
      rw [hy]
    unfold handleMenuUpdate
    simp only []
    rw [hact, hset]
    generalize lib.entriesUpdate env y.mTabMenuEntries = r
    unfold reactToUpdateResult
    cases hr : r.1 with
    | NONE =>
      rw [if_pos rfl, if_neg (by decide)]
    | ENTRY_CHANGED =>
      rw [if_neg (by decide), if_neg (fun h => absurd h.1 (by decide)), if_neg (by decide)]
      unfold reactInsideTab
      rw [if_neg (fun h => h.2.1 hy), if_neg (fun h => h.2 hy)]
      rfl
    | OPTION_CHANGED =>
      rw [if_neg (by decide), if_pos ⟨rfl, hy⟩, if_pos rfl]
      rfl
  unfold update
  simp only []
  rw [mActiveTab_update_tail, hin, mActiveTab_handleButtons, hmu _ hym, hyt, hya]

theorem selected_of_index_zero (es : GameMenuEntries) (h : es.mSelectedEntryIndex = 0) :
    es.selected = es.entry 0 := by
  unfold GameMenuEntries.selected
  rw [h, if_pos (le_refl _)]
  rfl

theorem entry_zero_selectOption (es : GameMenuEntries) (j k : Nat)
    (h : es.mSelectedEntryIndex = 0) (hv : (es.entry 0).optionVisibleAt k = true) :
    ((es.selectOption j).entry 0).mSelectedIndex = j := by
  have hlen : 0 < es.mEntries.length := by
    cases hl : es.mEntries with
    | nil =>
      unfold GameMenuEntries.entry at hv
      rw [hl] at hv
      exact Bool.noConfusion hv
    | cons a l => exact Nat.succ_pos _
  rw [entry_selectOption, if_pos ⟨by rw [h]; rfl, hlen⟩]

/-- A press of Left or Right in the tab-title row moves the active tab to the nearest visible
tab in that direction, if there is one. -/
theorem mActiveTab_update_step (lib : MenuLib) (ids : Enumerators) (env late : Env) (dt : ℚ)
    (options : List GameMenuOption) (m : OptionsMenu) (h0 : ids._TAB_SELECTION = 0)
    (hinv : ActiveTabVisible options m) (hshow : m.mState = State.SHOW)
    (hvis : env.controllerSetupMenuVisible = false)
    (hfocus : m.mActiveMenu = ActiveMenu.tabMenu)
    (hsel : m.mTabMenuEntries.mSelectedEntryIndex = 0)
    (hkeys : (env.keys.Down.justPressedOrRepeat || env.keys.Up.justPressedOrRepeat) = false) :
    (env.keys.Left.justPressedOrRepeat = true →
      m.tabTitleEntry.IsStepLeft m.mActiveTab
        (update lib.withSpecNavigation ids env late dt m).mActiveTab) ∧
    (env.keys.Left.justPressedOrRepeat = false → env.keys.Right.justPressedOrRepeat = true →
      m.tabTitleEntry.IsStepRight m.mActiveTab
        (update lib.withSpecNavigation ids env late dt m).mActiveTab) := by
  have hd : env.keys.Down.justPressedOrRepeat = false := by
    cases h : env.keys.Down.justPressedOrRepeat
    · rfl
    · rw [h] at hkeys; exact Bool.noConfusion hkeys
  have hu : env.keys.Up.justPressedOrRepeat = false := by
    cases h : env.keys.Up.justPressedOrRepeat
    · rfl
    · rw [h, Bool.or_true] at hkeys; exact Bool.noConfusion hkeys
  obtain ⟨_, hidx, hv⟩ := hinv
  have hselected : m.mTabMenuEntries.selected = m.tabTitleEntry :=
    selected_of_index_zero _ hsel
  have hupd : lib.withSpecNavigation.entriesUpdate env m.mTabMenuEntries =
      GameMenuEntries.update env m.mTabMenuEntries := rfl
  rw [mActiveTab_update_titleFocus lib.withSpecNavigation ids env late dt m hshow hvis hfocus
    hkeys, hupd, h0]
  constructor
  · intro hl
    have hU : GameMenuEntries.update env m.mTabMenuEntries =
        match m.tabTitleEntry.previousVisibleOption m.tabTitleEntry.mSelectedIndex with
        | some j => (UpdateResult.OPTION_CHANGED, m.mTabMenuEntries.selectOption j)
        | none => (UpdateResult.NONE, m.mTabMenuEntries) := by
      unfold GameMenuEntries.update
      simp only [hd, hu, hl, hselected, if_true, Bool.false_eq_true, if_false]
    rw [hU, hidx]
    cases hp : m.tabTitleEntry.previousVisibleOption m.tabTitleEntry.mSelectedIndex with
    | some j =>
      simp only []
      rw [if_pos trivial, entry_zero_selectOption _ j _ hsel hv]
      exact previousVisibleOption_some _ _ j hp
    | none =>
      simp only []
      rw [if_neg (by decide)]
      exact previousVisibleOption_none _ _ hp
  · intro hl hr
    have hU : GameMenuEntries.update env m.mTabMenuEntries =
        match m.tabTitleEntry.nextVisibleOption m.tabTitleEntry.mSelectedIndex with
        | some j => (UpdateResult.OPTION_CHANGED, m.mTabMenuEntries.selectOption j)
        | none => (UpdateResult.NONE, m.mTabMenuEntries) := by
      unfold GameMenuEntries.update
      simp only [hd, hu, hl, hr, hselected, if_true, Bool.false_eq_true, if_false]
    rw [hU, hidx]
    cases hp : m.tabTitleEntry.nextVisibleOption m.tabTitleEntry.mSelectedIndex with
    | some j =>
      simp only []
      rw [if_pos trivial, entry_zero_selectOption _ j _ hsel hv]
      exact nextVisibleOption_some _ _ j hp
    | none =>
      simp only []
      rw [if_neg (by decide)]
      exact nextVisibleOption_none _ _ hp

end OptionsMenu


namespace OptionsMenu

/-- C12: with `GameMenuEntry::sanitizeSelectedIndex` and `GameMenuEntries::update` as
modelled from the spec, after `setupOptionsMenu` and after every following `update` the
active tab `mActiveTab` is the selected index of the tab-title entry and the index of a
visible tab choice; when the menu was entered from in-game it is neither `Tab::Id::MODS` nor
`Tab::Id::SYSTEM`; and a press of Left or Right in the tab-title row moves it to the nearest
visible tab in that direction, over the hidden tabs in between, or leaves it when all tabs in
that direction are hidden.  The tab-title entry exists, `option::_TAB_SELECTION` is its index
0, and a tab other than Mods and System is visible. -/
theorem tab_title_navigation_selects_visible_tabs (lib : MenuLib) (ids : Enumerators)
    (setupEnv : Env) (enteredFromIngame : Bool) (m0 : OptionsMenu) (ticks : List Tick)
    (h0 : ids._TAB_SELECTION = 0) (hentry : m0.mTabMenuEntries.mEntries ≠ [])
    (hvis : ∃ k, k ≠ ids.Tab_MODS ∧ k ≠ ids.Tab_SYSTEM ∧
      m0.tabTitleEntry.optionVisibleAt k = true) :
    let m := updates lib.withSpecNavigation ids ticks
      (setupOptionsMenu lib.withSpecNavigation ids setupEnv enteredFromIngame m0)
    (m.mActiveTab = m.tabTitleEntry.mSelectedIndex ∧
      m.tabTitleEntry.optionVisibleAt m.mActiveTab = true) ∧
    (enteredFromIngame = true →
      m.mActiveTab ≠ ids.Tab_MODS ∧ m.mActiveTab ≠ ids.Tab_SYSTEM) ∧
    (∀ (env late : Env) (timeElapsed : ℚ), m.mState = State.SHOW →
      env.controllerSetupMenuVisible = false → m.mActiveMenu = ActiveMenu.tabMenu →
      m.mTabMenuEntries.mSelectedEntryIndex = 0 →
      (env.keys.Down.justPressedOrRepeat || env.keys.Up.justPressedOrRepeat) = false →
      (env.keys.Left.justPressedOrRepeat = true →
        m.tabTitleEntry.IsStepLeft m.mActiveTab
          (update lib.withSpecNavigation ids env late timeElapsed m).mActiveTab) ∧
      (env.keys.Left.justPressedOrRepeat = false → env.keys.Right.justPressedOrRepeat = true →
        m.tabTitleEntry.IsStepRight m.mActiveTab
          (update lib.withSpecNavigation ids env late timeElapsed m).mActiveTab)) := by
  intro m
  have hinv : ActiveTabVisible
      (setupTabEntry lib.withSpecNavigation ids enteredFromIngame m0.mHasAnyModOptions
        m0.tabTitleEntry).mOptions m :=
    activeTabVisible_updates lib.withSpecNavigation ids ticks _ _
      (movesToVisibleChoices_withSpecNavigation lib) h0
      (activeTabVisible_setupOptionsMenu lib ids setupEnv enteredFromIngame m0 hentry hvis)
  refine ⟨⟨hinv.2.1, hinv.2.2⟩, ?_, ?_⟩
  · intro hin
    obtain ⟨hmods, hsys⟩ := (optionVisibleAt_setupTabEntry lib.withSpecNavigation ids
      enteredFromIngame m0.mHasAnyModOptions m0.tabTitleEntry).2 hin
    have hv := hinv.2.2
    rw [optionVisibleAt_congr _ _ hinv.1] at hv
    constructor
    · intro hc
      rw [hc, hmods] at hv
      exact Bool.noConfusion hv
    · intro hc
      rw [hc, hsys] at hv
      exact Bool.noConfusion hv
  · intro env late timeElapsed hshow hsetup hfocus hsel hkeys
    exact mActiveTab_update_step lib ids env late timeElapsed _ m h0 hinv hshow hsetup hfocus
      hsel hkeys

set_option maxRecDepth 100000 in
/-- The navigation theorem on the constructed menu, entered from in-game: the Display tab is
active after `setupOptionsMenu`, a press of Left leaves it active, since the tabs to the
left are hidden. -/
theorem tab_title_navigation_selects_visible_tabs_witness :
    constructorIds._TAB_SELECTION = 0 ∧
    shownMenu.mTabMenuEntries.mEntries ≠ [] ∧
    (∃ k, k ≠ constructorIds.Tab_MODS ∧ k ≠ constructorIds.Tab_SYSTEM ∧
      shownMenu.tabTitleEntry.optionVisibleAt k = true) ∧
    (setupOptionsMenu exampleLib.withSpecNavigation constructorIds exampleEnv true
      shownMenu).mActiveTab = exampleTabIds.Tab_DISPLAY ∧
    (setupOptionsMenu exampleLib.withSpecNavigation constructorIds exampleEnv true
      shownMenu).mActiveTab ≠ constructorIds.Tab_MODS ∧
    (setupOptionsMenu exampleLib.withSpecNavigation constructorIds exampleEnv true
      shownMenu).mActiveTab ≠ constructorIds.Tab_SYSTEM ∧
    (setupOptionsMenu exampleLib.withSpecNavigation constructorIds exampleEnv true
      shownMenu).tabTitleEntry.IsStepLeft
      (setupOptionsMenu exampleLib.withSpecNavigation constructorIds exampleEnv true
        shownMenu).mActiveTab
      (update exampleLib.withSpecNavigation constructorIds leftPressedEnv leftPressedEnv (1 / 60)
        (setupOptionsMenu exampleLib.withSpecNavigation constructorIds exampleEnv true
          shownMenu)).mActiveTab :=
  ⟨by decide, by decide, ⟨2, by decide, by decide, by decide⟩, by decide,
    ((tab_title_navigation_selects_visible_tabs exampleLib constructorIds exampleEnv true
      shownMenu [] (by decide) (by decide) ⟨2, by decide, by decide, by decide⟩).2.1 rfl).1,
    ((tab_title_navigation_selects_visible_tabs exampleLib constructorIds exampleEnv true
      shownMenu [] (by decide) (by decide) ⟨2, by decide, by decide, by decide⟩).2.1 rfl).2,
    ((tab_title_navigation_selects_visible_tabs exampleLib constructorIds exampleEnv true
      shownMenu [] (by decide) (by decide) ⟨2, by decide, by decide, by decide⟩).2.2
      leftPressedEnv leftPressedEnv (1 / 60) (by decide) (by decide) (by decide) (by decide)
      (by decide)).1 (by decide)⟩

end OptionsMenu


/-! ### Zones, character sprites, base state -/

namespace SharedDatabase

theorem getZoneByInternalIndex_zoneList_none (db : SharedDatabase) (i : Nat)
    (hz : db.mAllZones = zoneList) (hi : ¬ (i ≤ 0x0c ∨ i = 0x16)) :
    getZoneByInternalIndex db i = none := by
  unfold getZoneByInternalIndex getAllZones
  rw [hz, List.find?_eq_none]
  intro z hz'
  simp only [zoneList, List.mem_cons, List.mem_singleton, List.not_mem_nil, or_false] at hz'
  rcases hz' with h | h | h | h | h | h | h | h | h | h | h | h | h | h <;>
    (subst h; simp only [beq_iff_eq]; omega)

theorem getZoneByInternalIndex_zoneList_some (db : SharedDatabase) (i : Nat)
    (hz : db.mAllZones = zoneList) (hi : i ≤ 0x0c ∨ i = 0x16) :
    ∃ zone, getZoneByInternalIndex db i = some zone ∧ zone.mInternalIndex = i ∧
      zone ∈ db.mAllZones := by
  unfold getZoneByInternalIndex getAllZones
  rw [hz]
  cases hf : zoneList.find? (fun zone => zone.mInternalIndex == i) with
  | none =>
    exfalso
    rw [List.find?_eq_none] at hf
    have h16 : (⟨"hpz", "zone11_hpz", "Zona Hidden Palace", 0x16, 1, 0⟩ : Zone) ∈ zoneList := by
      simp [zoneList]
    rcases hi with hle | heq
    · have hmem : i ∈ zoneList.map (fun z => z.mInternalIndex) := by
        have : zoneList.map (fun z => z.mInternalIndex) =
            [0, 1, 2, 3, 5, 6, 7, 4, 8, 9, 0x16, 0xa, 0xb, 0xc] := rfl
        rw [this]
        interval_cases i <;> simp
      obtain ⟨z, hz1, hz2⟩ := List.mem_map.mp hmem
      exact hf z hz1 (by simpa using hz2)
    · subst heq
      exact hf _ h16 (by simp)
  | some zone =>
    have h1 := List.find?_some hf
    exact ⟨zone, rfl, by simpa using h1, List.mem_of_find?_eq_some hf⟩

end SharedDatabase

namespace SharedDatabase

/-- C21: after `initialize()` on the empty tables, `getZoneByInternalIndex(i)` returns a zone
exactly when `i` is one of the 14 registered internal indices `0x00`..`0x0c` and `0x16`, the
zone returned has internal index `i` and is the only zone of `mAllZones` with that index, and
every other `i` gives the null pointer; the 14 internal indices are pairwise distinct. -/
theorem getZoneByInternalIndex_registered_indices (sids : SettingIds) (aids : AchievementIds)
    (cids : SecretIds) (i : Nat) :
    ((i ≤ 0x0c ∨ i = 0x16) ↔
      ∃ zone, getZoneByInternalIndex (initializeTables sids aids cids initial) i = some zone ∧
        zone.mInternalIndex = i) ∧
    (¬ (i ≤ 0x0c ∨ i = 0x16) ↔
      getZoneByInternalIndex (initializeTables sids aids cids initial) i = none) ∧
    (∀ zone other,
      getZoneByInternalIndex (initializeTables sids aids cids initial) i = some zone →
      other ∈ (initializeTables sids aids cids initial).mAllZones →
      other.mInternalIndex = i → other = zone) ∧
    (initializeTables sids aids cids initial).mAllZones.length = 14 ∧
    ((initializeTables sids aids cids initial).mAllZones.map
      (fun zone => zone.mInternalIndex)).Nodup := by
  have hz := mAllZones_initializeTables sids aids cids
  have hnodup : (zoneList.map (fun zone => zone.mInternalIndex)).Nodup := by decide
  refine ⟨⟨?_, ?_⟩, ⟨?_, ?_⟩, ?_, ?_, ?_⟩
  · intro hi
    obtain ⟨zone, h1, h2, _⟩ := getZoneByInternalIndex_zoneList_some _ i hz hi
    exact ⟨zone, h1, h2⟩
  · rintro ⟨zone, h1, _⟩
    by_contra hi
    rw [getZoneByInternalIndex_zoneList_none _ i hz hi] at h1
    exact Option.noConfusion h1
  · exact getZoneByInternalIndex_zoneList_none _ i hz
  · intro hnone
    intro hi
    obtain ⟨zone, h1, _⟩ := getZoneByInternalIndex_zoneList_some _ i hz hi
    rw [hnone] at h1
    exact Option.noConfusion h1
  · intro zone other hsome hmem hidx
    have hzmem : zone ∈ zoneList := by
      have := List.mem_of_find?_eq_some hsome
      unfold getAllZones at this
      rw [hz] at this
      exact this
    have hzidx : zone.mInternalIndex = i := by
      have := List.find?_some hsome
      simpa using this
    rw [hz] at hmem
    exact List.inj_on_of_nodup_map hnodup hmem hzmem (hidx.trans hzidx.symm)
  · rw [hz]
    rfl
  · rw [hz]
    exact hnodup

/-- The zone theorem at the internal index `0x16`, that of the Hidden Palace zone, and at the
unused index `0x0d`. -/
theorem getZoneByInternalIndex_registered_indices_witness :
    (∃ zone, getZoneByInternalIndex
      (initializeTables exampleSettingIds exampleAchievementIds exampleSecretIds initial) 0x16 =
        some zone ∧ zone.mInternalIndex = 0x16) ∧
    getZoneByInternalIndex
      (initializeTables exampleSettingIds exampleAchievementIds exampleSecretIds initial) 0x0d =
        none :=
  ⟨(getZoneByInternalIndex_registered_indices exampleSettingIds exampleAchievementIds
      exampleSecretIds 0x16).1.1 (Or.inr rfl),
    (getZoneByInternalIndex_registered_indices exampleSettingIds exampleAchievementIds
      exampleSecretIds 0x0d).2.1.1 (by decide)⟩

/-- C24: `setupCharacterSprite` is a fixed table.  Below `0x100` the ROM addresses are those
of Tails for character 1, of Knuckles for character 2 and of Sonic for every other character
value, with the animation sprite passed on unchanged; `superActive` enters for Sonic only.
From `0x100` on no ROM address is used and the key is the hash of `sonic_dropdash_<n - 0x100>`
for `0x100` and `0x101` and of `sonic_peelout_<n - 0x102>` above, whatever the character. -/
theorem setupCharacterSprite_table (character animationSprite : Nat) (superActive : Bool) :
    (animationSprite < 0x100 → character ≠ 1 → character ≠ 2 →
      setupCharacterSprite character animationSprite superActive =
        SpriteKey.fromROM (if animationSprite ≥ 0xda then 0x140060 else 0x100000)
          (if superActive then 0x148378 else 0x148182)
          (if superActive then 0x146816 else 0x146620) animationSprite 0 ∧
      setupCharacterSprite character animationSprite superActive =
        setupCharacterSprite 0 animationSprite superActive) ∧
    (animationSprite < 0x100 →
      setupCharacterSprite 1 animationSprite superActive =
        SpriteKey.fromROM (if animationSprite ≥ 0xd1 then 0x143d00 else 0x3200e0) 0x14a08a
          0x148eb8 animationSprite 0 ∧
      setupCharacterSprite 2 animationSprite superActive =
        SpriteKey.fromROM 0x1200e0 0x14bd0a 0x14a8d6 animationSprite 0) ∧
    (character = 1 ∨ character = 2 →
      setupCharacterSprite character animationSprite superActive =
        setupCharacterSprite character animationSprite (!superActive)) ∧
    (0x100 ≤ animationSprite → animationSprite < 0x102 →
      setupCharacterSprite character animationSprite superActive =
        SpriteKey.hashOfName ("sonic_dropdash_" ++ toString (animationSprite - 0x100))) ∧
    (0x102 ≤ animationSprite →
      setupCharacterSprite character animationSprite superActive =
        SpriteKey.hashOfName ("sonic_peelout_" ++ toString (animationSprite - 0x102))) := by
  refine ⟨?_, ?_, ?_, ?_, ?_⟩
  · intro hlt h1 h2
    have hmod : animationSprite % 256 = animationSprite := Nat.mod_eq_of_lt hlt
    have hsonic : ∀ c : Nat, c ≠ 1 → c ≠ 2 →
        setupCharacterSprite c animationSprite superActive =
          SpriteKey.fromROM (if animationSprite ≥ 0xda then 0x140060 else 0x100000)
            (if superActive then 0x148378 else 0x148182)
            (if superActive then 0x146816 else 0x146620) animationSprite 0 := by
      intro c hc1 hc2
      unfold setupCharacterSprite
      rw [if_neg (Nat.not_le.mpr hlt), hmod]
      split
      · exact absurd rfl hc1
      · exact absurd rfl hc2
      · rfl
    exact ⟨hsonic character h1 h2,
      (hsonic character h1 h2).trans (hsonic 0 (by decide) (by decide)).symm⟩
  · intro hlt
    have hmod : animationSprite % 256 = animationSprite := Nat.mod_eq_of_lt hlt
    unfold setupCharacterSprite
    simp only [if_neg (Nat.not_le.mpr hlt), hmod]
    exact ⟨trivial, trivial⟩
  · intro hc
    unfold setupCharacterSprite
    rcases hc with hc | hc <;> subst hc <;> rfl
  · intro h1 h2
    unfold setupCharacterSprite
    rw [if_pos h1, if_neg (Nat.not_le.mpr h2)]
  · intro h
    unfold setupCharacterSprite
    rw [if_pos (le_trans (by decide) h), if_pos h]

/-- The sprite table at super Sonic's sprite `0xda`, at Tails' sprite `0xd0` and at the third
peel-out sprite. -/
theorem setupCharacterSprite_table_witness :
    setupCharacterSprite 0 0xda true = SpriteKey.fromROM 0x140060 0x148378 0x146816 0xda 0 ∧
    setupCharacterSprite 1 0xd0 true = SpriteKey.fromROM 0x3200e0 0x14a08a 0x148eb8 0xd0 0 ∧
    setupCharacterSprite 7 0x104 false =
      SpriteKey.hashOfName ("sonic_peelout_" ++ toString (0x104 - 0x102)) :=
  ⟨((setupCharacterSprite_table 0 0xda true).1 (by decide) (by decide) (by decide)).1,
    ((setupCharacterSprite_table 1 0xd0 true).2.1 (by decide)).1,
    (setupCharacterSprite_table 7 0x104 false).2.2.2.2 (by decide)⟩

/-- C29: `getTailsTailsAnimationSprite`, for every sprite and every time: the spindash class
`0x86`..`0x88` gives `0x01 + (globalTime / 3) % 4`, the rolling class `0x96`..`0x98` gives
`0x05 + (globalTime / 4) % 4`, the standing class (`0x99`, `0xad`..`0xb4`) gives
`0x22 + (globalTime / 8) % 5`, the flying sprite `0xa0` gives `0x27 + globalTime % 2`, every
other sprite gives 0; the results lie in `0x01`..`0x04`, `0x05`..`0x08`, `0x22`..`0x26` and
`0x27`..`0x28`, so nothing is lost in the conversion to 8 bits, and no sprite belongs to two
classes. -/
theorem getTailsTailsAnimationSprite_classes (sprite globalTime : Nat) :
    (0x86 ≤ sprite ∧ sprite ≤ 0x88 →
      getTailsTailsAnimationSprite sprite globalTime = 0x01 + (globalTime / 3) % 4 ∧
      0x01 ≤ getTailsTailsAnimationSprite sprite globalTime ∧
      getTailsTailsAnimationSprite sprite globalTime ≤ 0x04) ∧
    (0x96 ≤ sprite ∧ sprite ≤ 0x98 →
      getTailsTailsAnimationSprite sprite globalTime = 0x05 + (globalTime / 4) % 4 ∧
      0x05 ≤ getTailsTailsAnimationSprite sprite globalTime ∧
      getTailsTailsAnimationSprite sprite globalTime ≤ 0x08) ∧
    (sprite = 0x99 ∨ (0xad ≤ sprite ∧ sprite ≤ 0xb4) →
      getTailsTailsAnimationSprite sprite globalTime = 0x22 + (globalTime / 8) % 5 ∧
      0x22 ≤ getTailsTailsAnimationSprite sprite globalTime ∧
      getTailsTailsAnimationSprite sprite globalTime ≤ 0x26) ∧
    (sprite = 0xa0 →
      getTailsTailsAnimationSprite sprite globalTime = 0x27 + globalTime % 2 ∧
      0x27 ≤ getTailsTailsAnimationSprite sprite globalTime ∧
      getTailsTailsAnimationSprite sprite globalTime ≤ 0x28) ∧
    (¬ (0x86 ≤ sprite ∧ sprite ≤ 0x88) → ¬ (0x96 ≤ sprite ∧ sprite ≤ 0x98) →
      ¬ (sprite = 0x99 ∨ (0xad ≤ sprite ∧ sprite ≤ 0xb4)) → sprite ≠ 0xa0 →
      getTailsTailsAnimationSprite sprite globalTime = 0) ∧
    getTailsTailsAnimationSprite sprite globalTime < 2 ^ 8 := by
  have h3 : (globalTime / 3) % 4 < 4 := Nat.mod_lt _ (by decide)
  have h4 : (globalTime / 4) % 4 < 4 := Nat.mod_lt _ (by decide)
  have h8 : (globalTime / 8) % 5 < 5 := Nat.mod_lt _ (by decide)
  have h2 : globalTime % 2 < 2 := Nat.mod_lt _ (by decide)
  have hu : ∀ x : Nat, x < 256 → (x % 2 ^ 32) % 2 ^ 8 = x := by
    intro x hx
    rw [Nat.mod_eq_of_lt (show x < 2 ^ 32 from lt_trans hx (by norm_num)),
      Nat.mod_eq_of_lt (show x < 2 ^ 8 from hx)]
  unfold getTailsTailsAnimationSprite
  rw [hu _ (by omega), hu _ (by omega), hu _ (by omega), hu _ (by omega)]
  refine ⟨?_, ?_, ?_, ?_, ?_, ?_⟩
  · intro h
    rw [if_pos h]
    omega
  · intro h
    rw [if_neg (by omega), if_pos h]
    omega
  · intro h
    rw [if_neg (by omega), if_neg (by omega), if_pos h]
    omega
  · intro h
    rw [if_neg (by omega), if_neg (by omega), if_neg (by omega), if_pos h]
    omega
  · intro n1 n2 n3 n4
    rw [if_neg n1, if_neg n2, if_neg n3, if_neg n4]
  · split_ifs <;> omega

/-- The sprite theorem for the spindash sprite `0x87` at time 10 and the flying sprite at the
largest time. -/
theorem getTailsTailsAnimationSprite_classes_witness :
    getTailsTailsAnimationSprite 0x87 10 = 0x04 ∧
    getTailsTailsAnimationSprite 0xa0 (2 ^ 32 - 1) = 0x28 :=
  ⟨((getTailsTailsAnimationSprite_classes 0x87 10).1 (by decide)).1,
    ((getTailsTailsAnimationSprite_classes 0xa0 (2 ^ 32 - 1)).2.2.2.1 rfl).1⟩

end SharedDatabase

namespace OptionsMenu

/-- C28: `getBaseState` after `setBaseState(b)` is `b`, for each of the four base states; and
`setBaseState(getBaseState())` leaves the menu as it is in the states `INACTIVE`, `APPEAR`,
`SHOW` and `FADE_TO_MENU`, and turns `FADE_TO_GAME` into `FADE_TO_MENU`, the other members
staying as they are. -/
theorem baseState_round_trip (b : BaseState) (m : OptionsMenu) :
    getBaseState (setBaseState b m) = b ∧
    (m.mState ≠ State.FADE_TO_GAME → setBaseState (getBaseState m) m = m) ∧
    (m.mState = State.FADE_TO_GAME →
      setBaseState (getBaseState m) m = { m with mState := State.FADE_TO_MENU }) := by
  refine ⟨?_, ?_, ?_⟩
  · cases b <;> rfl
  · intro h
    unfold getBaseState setBaseState
    cases hs : m.mState <;> simp only [] <;> first
      | exact absurd hs h
      | (rw [← hs])
  · intro h
    unfold getBaseState setBaseState
    rw [h]

/-- The base state theorem on the example menu, and on it while it fades out to the game. -/
theorem baseState_round_trip_witness :
    setBaseState (getBaseState exampleMenu) exampleMenu = exampleMenu ∧
    (setBaseState (getBaseState (setState State.FADE_TO_GAME exampleMenu))
      (setState State.FADE_TO_GAME exampleMenu)).mState = State.FADE_TO_MENU :=
  ⟨(baseState_round_trip BaseState.SHOW exampleMenu).2.1 (by decide),
    congrArg OptionsMenu.mState
      ((baseState_round_trip BaseState.SHOW (setState State.FADE_TO_GAME exampleMenu)).2.2 rfl)⟩

end OptionsMenu


/-! ### Visibility of conditional options; the cheat sheet overlay -/

/-- C23: `ConditionalOption::shouldBeVisible` depends on the hide-in-game flag,
`enteredFromIngame`, the depends-on-secret flag and the unlocked state of the named secret
only: two evaluations that agree on these four give the same result, which is
`!(mHideInGame && enteredFromIngame) && !(mDependsOnSecret && !unlocked)`. -/
theorem shouldBeVisible_depends_on_four_inputs (o o2 : ConditionalOption) (env env2 : Env)
    (enteredFromIngame : Bool) (h1 : o.mHideInGame = o2.mHideInGame)
    (h2 : o.mDependsOnSecret = o2.mDependsOnSecret)
    (h3 : env.isSecretUnlocked o.mSecret = env2.isSecretUnlocked o2.mSecret) :
    o.shouldBeVisible env enteredFromIngame = o2.shouldBeVisible env2 enteredFromIngame ∧
    o.shouldBeVisible env enteredFromIngame =
      (!(o.mHideInGame && enteredFromIngame) &&
        !(o.mDependsOnSecret && !env.isSecretUnlocked o.mSecret)) := by
  unfold ConditionalOption.shouldBeVisible
  rw [← h1, ← h2, ← h3]
  refine ⟨rfl, ?_⟩
  cases o.mHideInGame <;> cases enteredFromIngame <;> cases o.mDependsOnSecret <;>
    cases env.isSecretUnlocked o.mSecret <;> rfl

/-- The visibility theorem for the drop dash option and the super peel-out option, in two
environments that differ in everything but the unlocked state of the option's secret. -/
theorem shouldBeVisible_depends_on_four_inputs_witness :
    (ConditionalOption.mk3 exampleIds.DROP_DASH false 3).shouldBeVisible secretThreeEnv true =
      (ConditionalOption.mk3 exampleIds.SUPER_PEELOUT false 4).shouldBeVisible secretFourEnv
        true ∧
    (ConditionalOption.mk3 exampleIds.DROP_DASH false 3).shouldBeVisible secretThreeEnv true =
      true :=
  ⟨(shouldBeVisible_depends_on_four_inputs (ConditionalOption.mk3 exampleIds.DROP_DASH false 3)
      (ConditionalOption.mk3 exampleIds.SUPER_PEELOUT false 4) secretThreeEnv secretFourEnv
      true rfl rfl (by decide)).1, by decide⟩

namespace CheatSheetOverlay

theorem textCalls_renderRow (state : Int × List DrawCall) (i : Nat) :
    textCalls (renderRow state i).2 =
      textCalls state.2 ++ [texts[i * 2]?, texts[i * 2 + 1]?] := by
  unfold renderRow textCalls
  simp only [List.filterMap_append, List.filterMap_cons, List.filterMap_nil]

theorem textCalls_foldl_renderRow (n : Nat) (state : Int × List DrawCall) :
    textCalls ((List.range n).foldl renderRow state).2 =
      textCalls state.2 ++
        (List.range n).flatMap (fun i => [texts[i * 2]?, texts[i * 2 + 1]?]) := by
  induction n with
  | zero => simp
  | succ n ih =>
    rw [List.range_succ, List.foldl_append, List.flatMap_append]
    simp only [List.foldl_cons, List.foldl_nil, List.flatMap_cons, List.flatMap_nil,
      List.append_nil]
    rw [textCalls_renderRow, ih, List.append_assoc]

end CheatSheetOverlay

namespace CheatSheetOverlay

/-- C30: `render` draws 8 rows without developer features and `texts.size() / 2 = 24` with
them; for every row both reads `texts[2*i]` and `texts[2*i+1]` are inside the table of 48
texts, so the texts printed are the first `2 * NUM_TEXTS` texts of the table in order; the
rectangle is 330 wide and `58 + 18 * NUM_TEXTS` high; with a visibility `<= 0` only
`GuiBase::render` is called and nothing is drawn; and `update` keeps a visibility that lies in
`[0, 1]` inside `[0, 1]`, for every `timeElapsed >= 0`. -/
theorem render_rows_inside_table (useDeveloperFeatures : Bool) (o : CheatSheetOverlay)
    (timeElapsed : ℚ) :
    NUM_TEXTS false = 8 ∧ NUM_TEXTS true = 24 ∧ texts.length = 48 ∧
    (∀ i, i < NUM_TEXTS useDeveloperFeatures →
      i * 2 < texts.length ∧ i * 2 + 1 < texts.length) ∧
    (0 < o.mVisibility →
      (render useDeveloperFeatures o).1.mRectWidth = 330 ∧
      (render useDeveloperFeatures o).1.mRectHeight =
        58 + 18 * (NUM_TEXTS useDeveloperFeatures : ℚ) ∧
      textCalls (render useDeveloperFeatures o).2 =
        (texts.take (2 * NUM_TEXTS useDeveloperFeatures)).map some ∧
      (textCalls (render useDeveloperFeatures o).2).length =
        2 * NUM_TEXTS useDeveloperFeatures) ∧
    (o.mVisibility ≤ 0 → render useDeveloperFeatures o = (o, [DrawCall.guiBaseRender])) ∧
    (0 ≤ timeElapsed → 0 ≤ o.mVisibility → o.mVisibility ≤ 1 →
      0 ≤ (update timeElapsed o).mVisibility ∧ (update timeElapsed o).mVisibility ≤ 1) := by
  have hlen : texts.length = 48 := rfl
  have hf : NUM_TEXTS false = 8 := rfl
  have ht : NUM_TEXTS true = 24 := rfl
  have hn : NUM_TEXTS useDeveloperFeatures ≤ 24 := by
    cases useDeveloperFeatures
    · rw [hf]; decide
    · rw [ht]
  have hrows : (List.range (NUM_TEXTS useDeveloperFeatures)).flatMap
      (fun i => [texts[i * 2]?, texts[i * 2 + 1]?]) =
      (texts.take (2 * NUM_TEXTS useDeveloperFeatures)).map some := by
    cases useDeveloperFeatures
    · rw [hf]; rfl
    · rw [ht]; rfl
  refine ⟨hf, ht, hlen, ?_, ?_, ?_, ?_⟩
  · intro i hi
    rw [hlen]
    omega
  · intro hv
    have hcalls : textCalls (render useDeveloperFeatures o).2 =
        (texts.take (2 * NUM_TEXTS useDeveloperFeatures)).map some := by
      unfold render
      rw [if_neg (not_le.mpr hv)]
      simp only []
      have hsplit : ∀ a b : List DrawCall, textCalls (a ++ b) = textCalls a ++ textCalls b :=
        fun a b => List.filterMap_append _ _ _
      rw [hsplit, textCalls_foldl_renderRow, hrows]
      rfl
    refine ⟨?_, ?_, hcalls, ?_⟩
    · unfold render
      rw [if_neg (not_le.mpr hv)]
    · unfold render
      rw [if_neg (not_le.mpr hv)]
      simp only []
      push_cast
      ring
    · rw [hcalls, List.length_map, List.length_take, hlen]
      omega
  · intro hv
    unfold render
    rw [if_pos hv]
  · intro h0 hv0 hv1
    have hstep : 0 ≤ timeElapsed / (1 / 10) := div_nonneg h0 (by norm_num)
    unfold update
    split
    · exact ⟨le_min (add_nonneg hv0 hstep) (by norm_num), min_le_right _ _⟩
    · exact ⟨le_max_right _ _, max_le (by linarith) (by norm_num)⟩

/-- The overlay theorem on an overlay that is fully visible and should be shown, with
developer features, for a frame of 1/60. -/
theorem render_rows_inside_table_witness :
    (textCalls (render true ⟨true, 1, 0, 0⟩).2).length = 48 ∧
    (render true ⟨true, 1, 0, 0⟩).1.mRectHeight = 58 + 18 * (NUM_TEXTS true : ℚ) ∧
    render true ⟨false, 0, 0, 0⟩ = (⟨false, 0, 0, 0⟩, [DrawCall.guiBaseRender]) ∧
    (update (1 / 60) ⟨true, 1, 0, 0⟩).mVisibility ≤ 1 :=
  ⟨((render_rows_inside_table true ⟨true, 1, 0, 0⟩ (1 / 60)).2.2.2.2.1 (by norm_num)).2.2.2,
    ((render_rows_inside_table true ⟨true, 1, 0, 0⟩ (1 / 60)).2.2.2.2.1 (by norm_num)).2.1,
    (render_rows_inside_table true ⟨false, 0, 0, 0⟩ (1 / 60)).2.2.2.2.2.1 (le_refl _),
    ((render_rows_inside_table true ⟨true, 1, 0, 0⟩ (1 / 60)).2.2.2.2.2.2 (by norm_num)
      (by norm_num) (le_refl _)).2⟩

end CheatSheetOverlay


/-! ### `update` outside the state `SHOW` -/

namespace OptionsMenu

theorem mCalls_updateFading_extra (dt : ℚ) (x : OptionsMenu) :
    ∃ extra : List Call, (updateFading dt x).mCalls = x.mCalls ++ extra ∧
      ∀ c ∈ extra, c = Call.onFadedOutOptions := by
  unfold updateFading finishAppear finishFadeOut
  split_ifs
  · exact ⟨[], by simp [setState, setVisibility], by simp⟩
  · exact ⟨[], by simp [setVisibility], by simp⟩
  · exact ⟨[Call.onFadedOutOptions], by simp [setState, setVisibility, call], by simp⟩
  · exact ⟨[], by simp [setVisibility], by simp⟩
  · exact ⟨[], by simp, by simp⟩

/-- C25: while the state is not `SHOW`, or while the controller setup menu is visible,
`update` does not handle input.  The call is the animation step followed by the stages after
the input handling, which read no button, so the result is the same whatever is pressed;
`mActiveTab`, `mActiveMenu` and the tab-title list are left as they are; and the only calls
recorded are `onFadedOutOptions` and the base class `update`: no `applyValue`, no write to a
configuration field, none of the calls of `goBack`. -/
theorem update_ignores_input_unless_shown (lib : MenuLib) (ids : Enumerators)
    (env env2 late : Env) (timeElapsed : ℚ) (m : OptionsMenu)
    (hidle : m.mState ≠ State.SHOW ∨
      (env.controllerSetupMenuVisible = true ∧ env2.controllerSetupMenuVisible = true)) :
    update lib ids env late timeElapsed m =
      (refreshGamepadLists lib late false (updateTimeouts timeElapsed
        (updateFading timeElapsed (updateInteractable ids late
          (animateActiveTab timeElapsed m))))).call Call.baseUpdate ∧
    update lib ids env late timeElapsed m = update lib ids env2 late timeElapsed m ∧
    (update lib ids env late timeElapsed m).mActiveTab = m.mActiveTab ∧
    (update lib ids env late timeElapsed m).mActiveMenu = m.mActiveMenu ∧
    (update lib ids env late timeElapsed m).mTabMenuEntries = m.mTabMenuEntries ∧
    ∃ extra : List Call,
      (update lib ids env late timeElapsed m).mCalls = m.mCalls ++ extra ∧
      ∀ c ∈ extra, c = Call.onFadedOutOptions ∨ c = Call.baseUpdate := by
  have hin : ∀ e : Env, (m.mState ≠ State.SHOW ∨ e.controllerSetupMenuVisible = true) →
      handleInput lib ids e late (animateActiveTab timeElapsed m) =
        animateActiveTab timeElapsed m := by
    intro e he
    unfold handleInput
    rw [if_neg]
    rintro ⟨h1, h2⟩
    rcases he with h | h
    · exact h h1
    · rw [h] at h2
      exact Bool.noConfusion h2
  have hup : ∀ e : Env, (m.mState ≠ State.SHOW ∨ e.controllerSetupMenuVisible = true) →
      update lib ids e late timeElapsed m =
        (refreshGamepadLists lib late false (updateTimeouts timeElapsed
          (updateFading timeElapsed (updateInteractable ids late
            (animateActiveTab timeElapsed m))))).call Call.baseUpdate := by
    intro e he
    unfold update
    simp only []
    rw [hin e he]
  have h1 := hup env (hidle.imp id (fun h => h.1))
  have h2 := hup env2 (hidle.imp id (fun h => h.2))
  refine ⟨h1, h1.trans h2.symm, ?_, ?_, ?_, ?_⟩
  · rw [h1, mActiveTab_update_tail]
    rfl
  · rw [h1, mActiveMenu_update_tail]
    rfl
  · rw [h1, mTabMenuEntries_update_tail]
    rfl
  · rw [h1]
    obtain ⟨extra, he1, he2⟩ := mCalls_updateFading_extra timeElapsed
      (updateInteractable ids late (animateActiveTab timeElapsed m))
    refine ⟨extra ++ [Call.baseUpdate], ?_, ?_⟩
    · have hcall : ∀ (x : OptionsMenu) (d : Call), (x.call d).mCalls = x.mCalls ++ [d] :=
        fun _ _ => rfl
      have hstep : ∀ x : OptionsMenu, (updateTimeouts timeElapsed x).mCalls = x.mCalls :=
        fun _ => rfl
      rw [hcall, mCalls_refreshGamepadLists, hstep, he1, mCalls_updateInteractable,
        List.append_assoc]
      rfl
    · intro c hc
      rcases List.mem_append.mp hc with h | h
      · exact Or.inl (he2 c h)
      · exact Or.inr (List.mem_singleton.mp h)

set_option maxRecDepth 100000 in
/-- The theorem on the example menu while it appears, with Back pressed and with Left
pressed: both calls give the same menu, the active tab stays 1 and the focus stays on the
tab-title row. -/
theorem update_ignores_input_unless_shown_witness :
    (setState State.APPEAR exampleMenu).mState ≠ State.SHOW ∧
    update exampleLib exampleIds backPressedEnv exampleEnv (1 / 60)
        (setState State.APPEAR exampleMenu) =
      update exampleLib exampleIds leftPressedEnv exampleEnv (1 / 60)
        (setState State.APPEAR exampleMenu) ∧
    (update exampleLib exampleIds backPressedEnv exampleEnv (1 / 60)
      (setState State.APPEAR exampleMenu)).mActiveTab = 1 ∧
    (update exampleLib exampleIds backPressedEnv exampleEnv (1 / 60)
      (setState State.APPEAR exampleMenu)).mActiveMenu = ActiveMenu.tabMenu :=
  ⟨by decide,
    (update_ignores_input_unless_shown exampleLib exampleIds backPressedEnv leftPressedEnv
      exampleEnv (1 / 60) (setState State.APPEAR exampleMenu) (Or.inl (by decide))).2.1,
    (update_ignores_input_unless_shown exampleLib exampleIds backPressedEnv leftPressedEnv
      exampleEnv (1 / 60) (setState State.APPEAR exampleMenu) (Or.inl (by decide))).2.2.1,
    (update_ignores_input_unless_shown exampleLib exampleIds backPressedEnv leftPressedEnv
      exampleEnv (1 / 60) (setState State.APPEAR exampleMenu) (Or.inl (by decide))).2.2.2.1⟩

end OptionsMenu


/-! ### The gamepad lists -/

namespace OptionsMenu

theorem mOptions_foldl_addOption (vs : List Nat) (e : GameMenuEntry) :
    (vs.foldl GameMenuEntry.addOption e).mOptions =
      e.mOptions ++ vs.map (fun v => { mValue := v, mVisible := true }) := by
  induction vs generalizing e with
  | nil => simp
  | cons v rest ih =>
    rw [List.foldl_cons, ih]
    simp [GameMenuEntry.addOption]

theorem length_resizeOptions1 (options : List GameMenuOption) :
    (resizeOptions1 options).length = 1 := by
  unfold resizeOptions1
  split <;> rfl

theorem findsByValue_exampleLib : exampleLib.FindsByValue := by
  intro e value
  constructor
  · intro i hi
    have h := (List.findIdx?_eq_some_iff_getElem.mp hi)
    obtain ⟨hlt, hp, _⟩ := h
    refine ⟨hlt, ?_⟩
    rw [List.getElem?_eq_getElem hlt]
    simpa using hp
  · intro hnone o ho
    have h := (List.findIdx?_eq_none_iff.mp hnone) o ho
    simpa using h

/-- The loop body of `refreshGamepadLists` on one entry. -/
theorem refreshGamepadEntry_spec (lib : MenuLib) (env : Env) (playerIndex : Nat)
    (entry : GameMenuEntry) (hlib : lib.FindsByValue) :
    (refreshGamepadEntry lib env playerIndex entry).mOptions =
      resizeOptions1 entry.mOptions ++
        env.gamepads.map (fun id => { mValue := id, mVisible := true }) ∧
    (refreshGamepadEntry lib env playerIndex entry).mSelectedIndex <
      (refreshGamepadEntry lib env playerIndex entry).mOptions.length ∧
    ((∃ o, o ∈ (refreshGamepadEntry lib env playerIndex entry).mOptions ∧
        o.mValue = oldSelectedValue env playerIndex entry) →
      ((refreshGamepadEntry lib env playerIndex entry).mOptions[(refreshGamepadEntry lib env
        playerIndex entry).mSelectedIndex]?).map (fun o => o.mValue) =
          some (oldSelectedValue env playerIndex entry)) ∧
    ((∀ o, o ∈ (refreshGamepadEntry lib env playerIndex entry).mOptions →
        o.mValue ≠ oldSelectedValue env playerIndex entry) →
      (refreshGamepadEntry lib env playerIndex entry).mSelectedIndex = 0) := by
  have hopts : (env.gamepads.foldl GameMenuEntry.addOption
      { entry with mOptions := resizeOptions1 entry.mOptions }).mOptions =
      resizeOptions1 entry.mOptions ++
        env.gamepads.map (fun id => { mValue := id, mVisible := true }) := by
    rw [mOptions_foldl_addOption]
  have hpos : 0 < (resizeOptions1 entry.mOptions ++
      env.gamepads.map (fun id => ({ mValue := id, mVisible := true } : GameMenuOption))).length := by
    rw [List.length_append, length_resizeOptions1]
    omega
  have hold : (if env.preferredGamepad playerIndex ≥ 0 then
        (env.preferredGamepad playerIndex).toNat
      else if entry.hasSelected = true then entry.selectedValue else 4294967295) =
      oldSelectedValue env playerIndex entry := rfl
  obtain ⟨hsome, hnone⟩ := hlib (env.gamepads.foldl GameMenuEntry.addOption
    { entry with mOptions := resizeOptions1 entry.mOptions })
    (oldSelectedValue env playerIndex entry)
  rw [hopts] at hsome hnone
  have hres : (refreshGamepadEntry lib env playerIndex entry).mOptions =
      resizeOptions1 entry.mOptions ++
        env.gamepads.map (fun id => { mValue := id, mVisible := true }) := by
    unfold refreshGamepadEntry
    simp only []
    split <;> exact hopts
  rw [hres]
  unfold refreshGamepadEntry
  simp only []
  rw [hold]
  cases hf : lib.findIndexByValue (env.gamepads.foldl GameMenuEntry.addOption
      { entry with mOptions := resizeOptions1 entry.mOptions })
      (oldSelectedValue env playerIndex entry) with
  | some i =>
    obtain ⟨h1, h2⟩ := hsome i hf
    refine ⟨trivial, h1, fun _ => h2, ?_⟩
    intro hno
    exfalso
    rw [List.getElem?_eq_getElem h1] at h2
    simp only [Option.map_some', Option.some.injEq] at h2
    exact hno _ (List.getElem_mem h1) h2
  | none =>
    refine ⟨trivial, hpos, ?_, fun _ => rfl⟩
    rintro ⟨o, ho, hv⟩
    exact absurd hv (hnone hf o ho)

theorem resizeOptions1_of_ne_nil (options : List GameMenuOption) (h : options ≠ []) :
    resizeOptions1 options = options.take 1 := by
  cases options with
  | nil => exact absurd rfl h
  | cons o rest => rfl

end OptionsMenu

namespace OptionsMenu

/-- The two gamepad assignment entries after `refreshGamepadLists` ran its loop. -/
theorem entryAt_refreshGamepadLists (lib : MenuLib) (env : Env) (force : Bool)
    (m : OptionsMenu) (r0 r1 : EntryRef) (e0 e1 : GameMenuEntry)
    (hrun : m.mLastGamepadsChangeCounter ≠ env.gamepadsChangeCounter ∨ force = true)
    (hptr : m.mGamepadAssignmentEntries = [r0, r1]) (hne : r0 ≠ r1)
    (h0 : m.entryAt r0 = some e0) (h1 : m.entryAt r1 = some e1) :
    (refreshGamepadLists lib env force m).entryAt r0 =
      some (refreshGamepadEntry lib env 0 e0) ∧
    (refreshGamepadLists lib env force m).entryAt r1 =
      some (refreshGamepadEntry lib env 1 e1) := by
  have hcond : (m.mLastGamepadsChangeCounter ≠ env.gamepadsChangeCounter || force) = true := by
    rcases hrun with h | h
    · simp [h]
    · simp [h]
  have hp : ∀ (x : OptionsMenu) (k : Nat) (r : EntryRef),
      x.mGamepadAssignmentEntries[k]? = some r →
      refreshGamepadPlayer lib env x k = x.modifyEntry r (refreshGamepadEntry lib env k) := by
    intro x k r hr
    unfold refreshGamepadPlayer
    rw [hr]
  have hres : refreshGamepadLists lib env force m =
      ((setLastGamepadsChangeCounter env.gamepadsChangeCounter m).modifyEntry r0
        (refreshGamepadEntry lib env 0)).modifyEntry r1 (refreshGamepadEntry lib env 1) := by
    unfold refreshGamepadLists
    rw [if_pos hcond]
    have hr2 : List.range 2 = [0, 1] := rfl
    rw [hr2, List.foldl_cons, List.foldl_cons, List.foldl_nil,
      hp _ 0 r0 (by show m.mGamepadAssignmentEntries[0]? = some r0; rw [hptr]; rfl),
      hp _ 1 r1 (by show m.mGamepadAssignmentEntries[1]? = some r1; rw [hptr]; rfl)]
  rw [hres]
  unfold entryAt modifyEntry at *
  simp only [entryAtTabs_modifyEntryTabs, if_true]
  have h0' : entryAtTabs (setLastGamepadsChangeCounter env.gamepadsChangeCounter m).mTabs r0 =
      some e0 := h0
  have h1' : entryAtTabs (setLastGamepadsChangeCounter env.gamepadsChangeCounter m).mTabs r1 =
      some e1 := h1
  rw [if_neg hne, if_neg (fun h => hne h.symm), h0', h1']
  exact ⟨rfl, rfl⟩

/-- C22: when `refreshGamepadLists` rebuilds the gamepad lists (the change counter moved, or
the update is forced), each of the two gamepad assignment entries keeps of its choices the
first one only, the "None" choice, and gets after it one choice per connected gamepad, with
the joystick instance ID as value and in the order of the gamepads: `1 + gamepads` choices
whatever it had before.  The selected index is a valid index; it selects a choice with the
preferred (else the previously selected) joystick instance ID when such a choice is listed,
and is 0, the "None" choice, otherwise.  Each entry has at least its "None" choice before the
call, and `setSelectedIndexByValue` is taken to select a choice with the value or to report
failure. -/
theorem refreshGamepadLists_degrades_to_none (lib : MenuLib) (env : Env) (force : Bool)
    (m : OptionsMenu) (r0 r1 : EntryRef) (e0 e1 : GameMenuEntry) (hlib : lib.FindsByValue)
    (hrun : m.mLastGamepadsChangeCounter ≠ env.gamepadsChangeCounter ∨ force = true)
    (hptr : m.mGamepadAssignmentEntries = [r0, r1]) (hne : r0 ≠ r1)
    (h0 : m.entryAt r0 = some e0) (h1 : m.entryAt r1 = some e1)
    (playerIndex : Nat) (r : EntryRef) (e : GameMenuEntry)
    (hplayer : (playerIndex = 0 ∧ r = r0 ∧ e = e0) ∨ (playerIndex = 1 ∧ r = r1 ∧ e = e1))
    (hfirst : e.mOptions ≠ []) :
    ∃ e2, (refreshGamepadLists lib env force m).entryAt r = some e2 ∧
      e2.mOptions = e.mOptions.take 1 ++
        env.gamepads.map (fun id => { mValue := id, mVisible := true }) ∧
      e2.mOptions.length = 1 + env.gamepads.length ∧
      e2.mOptions[0]? = e.mOptions[0]? ∧
      (∀ k, (e2.mOptions[1 + k]?).map (fun o => o.mValue) = env.gamepads[k]?) ∧
      e2.mSelectedIndex < e2.mOptions.length ∧
      ((∃ o, o ∈ e2.mOptions ∧ o.mValue = oldSelectedValue env playerIndex e) →
        (e2.mOptions[e2.mSelectedIndex]?).map (fun o => o.mValue) =
          some (oldSelectedValue env playerIndex e)) ∧
      ((∀ o, o ∈ e2.mOptions → o.mValue ≠ oldSelectedValue env playerIndex e) →
        e2.mSelectedIndex = 0) := by
  obtain ⟨ha, hb⟩ := entryAt_refreshGamepadLists lib env force m r0 r1 e0 e1 hrun hptr hne h0 h1
  have hentry : (refreshGamepadLists lib env force m).entryAt r =
      some (refreshGamepadEntry lib env playerIndex e) := by
    rcases hplayer with ⟨hp, hr, he⟩ | ⟨hp, hr, he⟩
    · rw [hp, hr, he]; exact ha
    · rw [hp, hr, he]; exact hb
  obtain ⟨s1, s2, s3, s4⟩ := refreshGamepadEntry_spec lib env playerIndex e hlib
  rw [resizeOptions1_of_ne_nil e.mOptions hfirst] at s1
  have htake : (e.mOptions.take 1).length = 1 := by
    cases hm : e.mOptions with
    | nil => exact absurd hm hfirst
    | cons o rest => rfl
  refine ⟨refreshGamepadEntry lib env playerIndex e, hentry, s1, ?_, ?_, ?_, s2, s3, s4⟩
  · rw [s1, List.length_append, htake, List.length_map]
  · rw [s1, List.getElem?_append_left (by rw [htake]; exact Nat.zero_lt_one),
      List.getElem?_take_of_lt Nat.zero_lt_one]
  · intro k
    rw [s1, List.getElem?_append_right (by rw [htake]; omega), htake, Nat.add_sub_cancel_left,
      List.getElem?_map, Option.map_map]
    cases env.gamepads[k]? <;> rfl

set_option maxRecDepth 100000 in
/-- The gamepad theorem on a menu whose two entries list three gamepads, player 0 having
gamepad 12 selected.  With gamepad 13 alone left, the four choices of player 0 are cut back to
the "None" choice and the choice for gamepad 13, and the selection falls back to "None"; with
the gamepads 13 and 12 left, gamepad 12 stays selected, now at index 2. -/
theorem refreshGamepadLists_degrades_to_none_witness :
    threeGamepadsMenu.mGamepadAssignmentEntries = [(6, 6), (6, 7)] ∧
    (threeGamepadsMenu.entryAt (6, 6)).map
      (fun e => (e.mOptions.map (fun o => o.mValue), e.mSelectedIndex)) =
        some ([4294967295, 11, 12, 13], 2) ∧
    ((refreshGamepadLists exampleLib gamepadLeftEnv false threeGamepadsMenu).entryAt (6, 6)).map
      (fun e => (e.mOptions.map (fun o => o.mValue), e.mSelectedIndex)) =
        some ([4294967295, 13], 0) ∧
    ((refreshGamepadLists exampleLib gamepadsSwappedEnv false threeGamepadsMenu).entryAt
      (6, 6)).map (fun e => (e.mOptions.map (fun o => o.mValue), e.mSelectedIndex)) =
        some ([4294967295, 13, 12], 2) ∧
    ∃ e2, (refreshGamepadLists exampleLib gamepadLeftEnv false threeGamepadsMenu).entryAt
        (6, 6) = some e2 ∧
      e2.mOptions = ((threeGamepadsMenu.entryAt (6, 6)).getD GameMenuEntry.invalid).mOptions.take 1
        ++ gamepadLeftEnv.gamepads.map (fun id => { mValue := id, mVisible := true }) ∧
      e2.mOptions.length = 1 + gamepadLeftEnv.gamepads.length ∧
      e2.mOptions[0]? =
        ((threeGamepadsMenu.entryAt (6, 6)).getD GameMenuEntry.invalid).mOptions[0]? ∧
      (∀ k, (e2.mOptions[1 + k]?).map (fun o => o.mValue) = gamepadLeftEnv.gamepads[k]?) ∧
      e2.mSelectedIndex < e2.mOptions.length ∧
      ((∃ o, o ∈ e2.mOptions ∧ o.mValue = oldSelectedValue gamepadLeftEnv 0
          ((threeGamepadsMenu.entryAt (6, 6)).getD GameMenuEntry.invalid)) →
        (e2.mOptions[e2.mSelectedIndex]?).map (fun o => o.mValue) =
          some (oldSelectedValue gamepadLeftEnv 0
            ((threeGamepadsMenu.entryAt (6, 6)).getD GameMenuEntry.invalid))) ∧
      ((∀ o, o ∈ e2.mOptions → o.mValue ≠ oldSelectedValue gamepadLeftEnv 0
          ((threeGamepadsMenu.entryAt (6, 6)).getD GameMenuEntry.invalid)) →
        e2.mSelectedIndex = 0) :=
  ⟨by decide, by decide, by decide, by decide,
    refreshGamepadLists_degrades_to_none exampleLib gamepadLeftEnv false threeGamepadsMenu
      (6, 6) (6, 7) ((threeGamepadsMenu.entryAt (6, 6)).getD GameMenuEntry.invalid)
      ((threeGamepadsMenu.entryAt (6, 7)).getD GameMenuEntry.invalid) findsByValue_exampleLib
      (Or.inl (by decide)) (by decide) (by decide) (by decide) (by decide) 0 (6, 6) _
      (Or.inl ⟨rfl, rfl, rfl⟩) (by decide)⟩

end OptionsMenu


/-! ### The startup window mode -/

namespace OptionsMenu

theorem KeepsWindowMode.refl_step (m : OptionsMenu) : KeepsWindowMode m m :=
  ⟨[], by simp, by simp⟩

theorem KeepsWindowMode.trans_step {a b c : OptionsMenu} (h1 : KeepsWindowMode a b) (h2 : KeepsWindowMode b c) :
    KeepsWindowMode a c := by
  obtain ⟨e1, he1, hn1⟩ := h1
  obtain ⟨e2, he2, hn2⟩ := h2
  refine ⟨e1 ++ e2, by rw [he2, he1, List.append_assoc], ?_⟩
  intro c hc
  rcases List.mem_append.1 hc with h | h
  · exact hn1 c h
  · exact hn2 c h

theorem KeepsWindowMode.of_eq_step {a b : OptionsMenu} (h : b.mCalls = a.mCalls) : KeepsWindowMode a b :=
  ⟨[], by simp [h], by simp⟩

theorem KeepsWindowMode.call_step (m : OptionsMenu) (c : Call) (hc : c.isWindowModeWrite = false) :
    KeepsWindowMode m (m.call c) :=
  ⟨[c], rfl, by simp [hc]⟩

theorem KeepsWindowMode.ite_step {c : Prop} [Decidable c] {m a b : OptionsMenu} (ha : KeepsWindowMode m a)
    (hb : KeepsWindowMode m b) : KeepsWindowMode m (if c then a else b) := by
  split <;> assumption

/-- A call on record stays on record. -/
theorem KeepsWindowMode.mem_step {a b : OptionsMenu} (h : KeepsWindowMode a b) {c : Call}
    (hc : c ∈ a.mCalls) : c ∈ b.mCalls := by
  obtain ⟨e, he, _⟩ := h
  rw [he]
  exact List.mem_append_left _ hc

/-- No write of `config.mWindowMode` is added. -/
theorem KeepsWindowMode.not_mem_step {a b : OptionsMenu} (h : KeepsWindowMode a b)
    (ha : ∀ c ∈ a.mCalls, c.isWindowModeWrite = false) :
    ∀ c ∈ b.mCalls, c.isWindowModeWrite = false := by
  obtain ⟨e, he, hn⟩ := h
  intro c hc
  rw [he] at hc
  rcases List.mem_append.1 hc with h | h
  · exact ha c h
  · exact hn c h

theorem keepsWindowMode_playSoundtest (a : Int) (d : AudioDefinition) (m : OptionsMenu) :
    KeepsWindowMode m (playSoundtest a d m) := by
  unfold playSoundtest
  simp only []
  have h0 : KeepsWindowMode m ((setPlayingSoundTest (some d) m).call Call.stopSoundContextMenu) :=
    ⟨[Call.stopSoundContextMenu], rfl, by simp [Call.isWindowModeWrite]⟩
  apply KeepsWindowMode.ite_step
  · exact (h0.trans_step (KeepsWindowMode.call_step _ _ (by rfl))).trans_step (KeepsWindowMode.call_step _ _ (by rfl))
  · exact (h0.trans_step (KeepsWindowMode.call_step _ _ (by rfl))).trans_step (KeepsWindowMode.call_step _ _ (by rfl))

theorem keepsWindowMode_restartMusic (a : Int) (m : OptionsMenu) :
    KeepsWindowMode m (restartMusic a m) := by
  unfold restartMusic
  simp only []
  have h0 : KeepsWindowMode m ((m.call Call.stopSoundContextMenuMusic).call
      Call.onSoundtrackPreferencesChanged) :=
    (KeepsWindowMode.call_step _ _ (by rfl)).trans_step (KeepsWindowMode.call_step _ _ (by rfl))
  split
  · exact h0.trans_step (KeepsWindowMode.call_step _ _ (by rfl))
  · exact h0.trans_step (keepsWindowMode_playSoundtest _ _ _)

theorem keepsWindowMode_goBack (env : Env) (m : OptionsMenu) : KeepsWindowMode m (goBack env m) := by
  unfold goBack
  simp only []
  have h1 : KeepsWindowMode m (stopSoundTest (m.call (Call.playMenuSound 0xad))) := by
    unfold stopSoundTest
    exact (KeepsWindowMode.call_step _ _ (by rfl)).trans_step
      (KeepsWindowMode.ite_step (KeepsWindowMode.call_step _ _ (by rfl)) (KeepsWindowMode.refl_step _))
  have h2 := (h1.trans_step (KeepsWindowMode.call_step _ Call.copyModSettingsToConfig (by rfl))).trans_step
    (KeepsWindowMode.call_step _ Call.saveSettings (by rfl))
  have h3 : KeepsWindowMode m (reloadScriptsIfChanged env
      (((stopSoundTest (m.call (Call.playMenuSound 0xad))).call
        Call.copyModSettingsToConfig).call Call.saveSettings)) := by
    unfold reloadScriptsIfChanged
    exact h2.trans_step (KeepsWindowMode.ite_step (KeepsWindowMode.call_step _ _ (by rfl)) (KeepsWindowMode.refl_step _))
  have h4 := h3.trans_step (KeepsWindowMode.call_step _ Call.onExitOptions (by rfl))
  exact h4.trans_step (KeepsWindowMode.of_eq_step rfl)

theorem keepsWindowMode_acceptSoundTest (late : Env) (e : GameMenuEntry) (m : OptionsMenu) :
    KeepsWindowMode m (acceptSoundTest late e m) := by
  unfold acceptSoundTest
  split
  · exact keepsWindowMode_playSoundtest _ _ _
  · exact KeepsWindowMode.refl_step _

theorem keepsWindowMode_acceptSoundtrackDownload (late : Env) (m : OptionsMenu) :
    KeepsWindowMode m (acceptSoundtrackDownload late m) := by
  unfold acceptSoundtrackDownload
  simp only []
  have h0 : KeepsWindowMode m ((m.call Call.triggerButton).modifyEntry
      m.mSoundtrackDownloadMenuEntry
      (fun e => e.setVisible (SoundtrackDownloadMenuEntry.shouldBeShown late))) :=
    (KeepsWindowMode.call_step _ _ (by rfl)).trans_step (KeepsWindowMode.of_eq_step rfl)
  exact KeepsWindowMode.ite_step (h0.trans_step (keepsWindowMode_restartMusic _ _)) h0

theorem keepsWindowMode_acceptSelectedEntry (ids : Enumerators) (late : Env) (e : GameMenuEntry)
    (m : OptionsMenu) : KeepsWindowMode m (acceptSelectedEntry ids late e m) := by
  unfold acceptSelectedEntry
  simp only []
  refine KeepsWindowMode.ite_step (keepsWindowMode_acceptSoundTest _ _ _) ?_
  refine KeepsWindowMode.ite_step ((KeepsWindowMode.call_step _ _ (by rfl)).trans_step (KeepsWindowMode.call_step _ _ (by rfl))) ?_
  refine KeepsWindowMode.ite_step ((KeepsWindowMode.call_step _ _ (by rfl)).trans_step (KeepsWindowMode.call_step _ _ (by rfl))) ?_
  refine KeepsWindowMode.ite_step
    (KeepsWindowMode.ite_step (KeepsWindowMode.call_step _ _ (by rfl)) (KeepsWindowMode.call_step _ _ (by rfl))) ?_
  refine KeepsWindowMode.ite_step (keepsWindowMode_acceptSoundtrackDownload _ _) ?_
  refine KeepsWindowMode.ite_step (KeepsWindowMode.call_step _ _ (by rfl)) ?_
  refine KeepsWindowMode.ite_step (KeepsWindowMode.call_step _ _ (by rfl)) ?_
  exact KeepsWindowMode.ite_step (keepsWindowMode_goBack _ _) (KeepsWindowMode.refl_step _)

theorem keepsWindowMode_handleButtons (ids : Enumerators) (env late : Env) (m : OptionsMenu) :
    KeepsWindowMode m (handleButtons ids env late m) := by
  unfold handleButtons
  split
  · exact KeepsWindowMode.refl_step _
  · exact keepsWindowMode_goBack _ _
  · exact KeepsWindowMode.ite_step (keepsWindowMode_acceptSelectedEntry _ _ _ _) (KeepsWindowMode.refl_step _)

theorem keepsWindowMode_updateFading (dt : ℚ) (m : OptionsMenu) :
    KeepsWindowMode m (updateFading dt m) := by
  unfold updateFading finishAppear finishFadeOut
  refine KeepsWindowMode.ite_step (KeepsWindowMode.ite_step (KeepsWindowMode.of_eq_step rfl) (KeepsWindowMode.of_eq_step rfl)) ?_
  refine KeepsWindowMode.ite_step (KeepsWindowMode.ite_step ?_ (KeepsWindowMode.of_eq_step rfl)) (KeepsWindowMode.refl_step _)
  exact ⟨[Call.onFadedOutOptions], rfl, by simp [Call.isWindowModeWrite]⟩

/-- The stages of `update` that follow the input handling add no write of `config.mWindowMode`. -/
theorem keepsWindowMode_update_tail (lib : MenuLib) (ids : Enumerators) (late : Env) (dt : ℚ)
    (x : OptionsMenu) :
    KeepsWindowMode x ((refreshGamepadLists lib late false
      (updateTimeouts dt (updateFading dt (updateInteractable ids late x)))).call
        Call.baseUpdate) := by
  have h1 : KeepsWindowMode x (updateInteractable ids late x) :=
    KeepsWindowMode.of_eq_step (mCalls_updateInteractable _ _ _)
  have h2 := h1.trans_step (keepsWindowMode_updateFading dt _)
  have h3 : KeepsWindowMode x (updateTimeouts dt (updateFading dt (updateInteractable ids late x))) :=
    h2.trans_step (KeepsWindowMode.of_eq_step rfl)
  have h4 := h3.trans_step (KeepsWindowMode.of_eq_step (mCalls_refreshGamepadLists lib late false _))
  exact h4.trans_step (KeepsWindowMode.call_step _ _ (by rfl))


end OptionsMenu

namespace OptionsMenu

theorem windowModeWrites_append (a b : List Call) :
    windowModeWrites (a ++ b) = windowModeWrites a ++ windowModeWrites b :=
  List.filterMap_append _ _ _

theorem windowModeWrites_of_none (extra : List Call)
    (h : ∀ c ∈ extra, c.isWindowModeWrite = false) : windowModeWrites extra = [] := by
  induction extra with
  | nil => rfl
  | cons c rest ih =>
    have hc := h c (List.mem_cons_self _ _)
    have hrest := ih (fun d hd => h d (List.mem_cons_of_mem _ hd))
    unfold windowModeWrites at hrest ⊢
    cases c <;> first
      | (simp only [List.filterMap_cons]; exact hrest)
      | exact Bool.noConfusion hc

/-- A step that adds no write leaves the list of written values as it is. -/
theorem KeepsWindowMode.writes {a b : OptionsMenu} (h : KeepsWindowMode a b) :
    windowModeWrites b.mCalls = windowModeWrites a.mCalls := by
  obtain ⟨extra, he, hn⟩ := h
  rw [he, windowModeWrites_append, windowModeWrites_of_none extra hn, List.append_nil]

/-- After its first statement, the `default` branch writes `config.mWindowMode` no more. -/
theorem keepsWindowMode_applyDefaultChange (ids : Enumerators) (e : GameMenuEntry)
    (x : OptionsMenu) :
    KeepsWindowMode
      (x.call (Call.write_mWindowMode (x.optionMenuEntry ids.WINDOW_MODE_STARTUP).selectedValue))
      (applyDefaultChange ids e x) := by
  unfold applyDefaultChange
  simp only []
  refine KeepsWindowMode.trans_step ?_ (KeepsWindowMode.of_eq_step (mCalls_showAudioWarning _ _ _))
  unfold applyGenericValue
  simp only []
  refine KeepsWindowMode.ite_step ?_ (KeepsWindowMode.refl_step _)
  have ha : ∀ y : OptionsMenu, KeepsWindowMode y (applyValue e.mData y) := by
    intro y
    exact ⟨[Call.applyValue e.mData (y.optionMenuEntry e.mData).selectedValue], rfl,
      by simp [Call.isWindowModeWrite]⟩
  refine KeepsWindowMode.ite_step ((ha _).trans_step (KeepsWindowMode.call_step _ _ (by rfl))) ?_
  refine KeepsWindowMode.ite_step ((ha _).trans_step (KeepsWindowMode.call_step _ _ (by rfl))) ?_
  exact KeepsWindowMode.ite_step ((ha _).trans_step (KeepsWindowMode.call_step _ _ (by rfl))) (ha _)


end OptionsMenu
namespace OptionsMenu

theorem windowModeWrites_call_write (x : OptionsMenu) (w : Nat) :
    windowModeWrites (x.call (Call.write_mWindowMode w)).mCalls =
      windowModeWrites x.mCalls ++ [w] := by
  rw [mCalls_call, windowModeWrites_append]; rfl

theorem windowModeWrites_call_sound (x : OptionsMenu) (s : Nat) :
    windowModeWrites (x.call (Call.playMenuSound s)).mCalls = windowModeWrites x.mCalls := by
  rw [mCalls_call, windowModeWrites_append]; exact List.append_nil _

/-- The values written to `config.mWindowMode` in an `update` that takes the `default`
branch: one more, the selected value of the startup window mode entry. -/
theorem windowModeWrites_update_default (lib : MenuLib) (ids : Enumerators) (env late : Env)
    (dt : ℚ) (m : OptionsMenu) (h : OptionChangedInTab lib ids env dt m)
    (hlabels : (switchLabels ids).Nodup)
    (hdefault : (changedEntry lib ids env dt m).mData ∉ switchLabels ids) :
    windowModeWrites (update lib ids env late dt m).mCalls =
      windowModeWrites m.mCalls ++ [appliedValue lib ids env dt m ids.WINDOW_MODE_STARTUP] := by
  have hbranch := (applyOptionChange_cases ids env (changedEntry lib ids env dt m)
    ((menuAfterListUpdate lib ids env dt m).call (Call.playMenuSound 0x5b))
    hlabels).2.2.2.2.2.2.2 hdefault
  have htail : KeepsWindowMode
      (applyOptionChange ids env (changedEntry lib ids env dt m)
        ((menuAfterListUpdate lib ids env dt m).call (Call.playMenuSound 0x5b)))
      (update lib ids env late dt m) := by
    unfold update
    simp only []
    rw [handleInput_option_changed lib ids env late dt m h]
    exact (keepsWindowMode_handleButtons ids env late _).trans_step
      (keepsWindowMode_update_tail lib ids late dt _)
  have h1 := htail.writes
  rw [hbranch] at h1
  have h2 := (keepsWindowMode_applyDefaultChange ids (changedEntry lib ids env dt m)
    ((menuAfterListUpdate lib ids env dt m).call (Call.playMenuSound 0x5b))).writes
  rw [windowModeWrites_call_write, windowModeWrites_call_sound, optionMenuEntry_call,
    mCalls_menuAfterListUpdate] at h2
  exact h1.trans h2

end OptionsMenu
namespace OptionsMenu

theorem mOptionEntries_loadOptionValue (lib : MenuLib) (env : Env) (id : Nat) (m : OptionsMenu) :
    (loadOptionValue lib env id m).mOptionEntries = m.mOptionEntries := by
  unfold loadOptionValue
  split
  · split <;> rfl
  · rfl

/-- Loading the value of one option leaves a menu entry alone that only option entries
without a binding point to. -/
theorem entryAt_loadOptionValue_unbound (lib : MenuLib) (env : Env) (id : Nat) (m : OptionsMenu)
    (r : EntryRef) (hload : lib.LoadKeepsUnbound)
    (hun : ∀ oe, oe ∈ m.mOptionEntries → oe.mGameMenuEntry = some r →
      oe.mType = OptionEntryType.UNDEFINED) :
    (loadOptionValue lib env id m).entryAt r = m.entryAt r := by
  unfold loadOptionValue
  cases hoe : m.mOptionEntries[id]? with
  | none => rfl
  | some oe =>
    simp only []
    cases hp : oe.mGameMenuEntry with
    | none => rfl
    | some r0 =>
      simp only [entryAt, modifyEntry, entryAtTabs_modifyEntryTabs]
      by_cases hr : r = r0
      · subst hr
        have hty := hun oe (List.getElem?_mem hoe) hp
        rw [if_pos rfl]
        cases entryAtTabs m.mTabs r with
        | none => rfl
        | some e =>
          simp only [Option.map_some']
          rw [hload oe _ e hty]
      · rw [if_neg hr]

theorem loadAllOptionValues_unbound (lib : MenuLib) (env : Env) (m : OptionsMenu)
    (r : EntryRef) (hload : lib.LoadKeepsUnbound)
    (hun : ∀ oe, oe ∈ m.mOptionEntries → oe.mGameMenuEntry = some r →
      oe.mType = OptionEntryType.UNDEFINED) :
    (loadAllOptionValues lib env m).mOptionEntries = m.mOptionEntries ∧
    (loadAllOptionValues lib env m).entryAt r = m.entryAt r := by
  unfold loadAllOptionValues
  generalize List.range m.mOptionEntries.length = ks
  induction ks generalizing m with
  | nil => exact ⟨rfl, rfl⟩
  | cons k ks ih =>
    simp only [List.foldl_cons]
    have h1 := mOptionEntries_loadOptionValue lib env k m
    have h2 := entryAt_loadOptionValue_unbound lib env k m r hload hun
    obtain ⟨i1, i2⟩ := ih (loadOptionValue lib env k m) (by rw [h1]; exact hun)
    exact ⟨i1.trans h1, i2.trans h2⟩

/-- What `onFadeIn` leaves in the startup window mode entry: the entry as
`setSelectedIndexByValue(config.mWindowMode)` made it. -/
theorem optionMenuEntry_onFadeIn_startup (lib : MenuLib) (ids : Enumerators) (env : Env)
    (m : OptionsMenu) (r : EntryRef) (e : GameMenuEntry) (hload : lib.LoadKeepsUnbound)
    (hr : gameMenuEntryRef m.mOptionEntries ids.WINDOW_MODE_STARTUP = some r)
    (he : m.entryAt r = some e) (hun : OnlyUnboundPointTo ids m r) :
    (onFadeIn lib ids env m).optionMenuEntry ids.WINDOW_MODE_STARTUP =
      e.setSelectedIndexByValue lib env.mWindowMode := by
  obtain ⟨hu, hw, hrd⟩ := hun
  have key : ∀ x : OptionsMenu, x.mOptionEntries = m.mOptionEntries → x.entryAt r = some e →
      (loadAllOptionValues lib env
        (((x.modifyOptionMenuEntry ids.WINDOW_MODE
          (GameMenuEntry.setSelectedIndexByValue lib env.windowMode)).modifyOptionMenuEntry
            ids.WINDOW_MODE_STARTUP
            (GameMenuEntry.setSelectedIndexByValue lib env.mWindowMode)).modifyOptionMenuEntry
              ids.RENDERER
              (GameMenuEntry.setSelectedIndexByValue lib env.mRenderMethod))).mOptionEntries
        = m.mOptionEntries ∧
      (loadAllOptionValues lib env
        (((x.modifyOptionMenuEntry ids.WINDOW_MODE
          (GameMenuEntry.setSelectedIndexByValue lib env.windowMode)).modifyOptionMenuEntry
            ids.WINDOW_MODE_STARTUP
            (GameMenuEntry.setSelectedIndexByValue lib env.mWindowMode)).modifyOptionMenuEntry
              ids.RENDERER
              (GameMenuEntry.setSelectedIndexByValue lib env.mRenderMethod))).entryAt r
        = some (e.setSelectedIndexByValue lib env.mWindowMode) := by
    intro x hx hxe
    have hoes : (((x.modifyOptionMenuEntry ids.WINDOW_MODE
          (GameMenuEntry.setSelectedIndexByValue lib env.windowMode)).modifyOptionMenuEntry
            ids.WINDOW_MODE_STARTUP
            (GameMenuEntry.setSelectedIndexByValue lib env.mWindowMode)).modifyOptionMenuEntry
              ids.RENDERER
              (GameMenuEntry.setSelectedIndexByValue lib env.mRenderMethod)).mOptionEntries
        = m.mOptionEntries := by
      rw [mOptionEntries_modifyOptionMenuEntry, mOptionEntries_modifyOptionMenuEntry,
        mOptionEntries_modifyOptionMenuEntry, hx]
    obtain ⟨l1, l2⟩ := loadAllOptionValues_unbound lib env _ r hload (by rw [hoes]; exact hu)
    refine ⟨l1.trans hoes, l2.trans ?_⟩
    rw [entryAt_modifyOptionMenuEntry, mOptionEntries_modifyOptionMenuEntry,
      mOptionEntries_modifyOptionMenuEntry, hx, if_neg hrd,
      entryAt_modifyOptionMenuEntry, mOptionEntries_modifyOptionMenuEntry, hx, if_pos hr,
      entryAt_modifyOptionMenuEntry, hx, if_neg hw, hxe]
    rfl
  obtain ⟨k1, k2⟩ := key ((setState State.APPEAR m).call Call.showPreview |>.call
    Call.startTransition) rfl he
  have hgen : ∀ (y : OptionsMenu) (c : Call) (d : Nat),
      (setPlayingSoundTest none (y.call c)).optionMenuEntry d = y.optionMenuEntry d :=
    fun _ _ _ => rfl
  unfold onFadeIn
  simp only []
  rw [hgen]
  exact optionMenuEntry_eq_of_ref _ _ _ _ (k1.symm ▸ hr) k2

/-- The value `setSelectedIndexByValue` selects when the entry has a choice with it. -/
theorem selectedValue_setSelectedIndexByValue (lib : MenuLib) (e : GameMenuEntry) (value : Nat)
    (hfind : lib.FindsByValue) (hv : value ∈ e.mOptions.map (fun o => o.mValue)) :
    (e.setSelectedIndexByValue lib value).selectedValue = value := by
  obtain ⟨h1, h2⟩ := hfind e value
  unfold GameMenuEntry.setSelectedIndexByValue
  cases hi : lib.findIndexByValue e value with
  | none =>
    obtain ⟨o, ho, hov⟩ := List.mem_map.1 hv
    exact absurd hov (h2 hi o ho)
  | some i =>
    obtain ⟨_, hval⟩ := h1 i hi
    simp only [GameMenuEntry.selectedValue]
    cases hoi : e.mOptions[i]? with
    | none => rw [hoi] at hval; exact Option.noConfusion hval
    | some o =>
      rw [hoi] at hval
      simpa using hval

theorem loadKeepsUnbound_exampleLib : exampleLib.LoadKeepsUnbound := by
  intro oe backing e hty
  show (if oe.mType = OptionEntryType.UNDEFINED then e.mSelectedIndex else _) = _
  rw [if_pos hty]

end OptionsMenu
namespace OptionsMenu

/-! ### C26: the default branch and the startup window mode -/

end OptionsMenu

namespace OptionsMenu

theorem kind_foldl_addOption (values : List Nat) (e : GameMenuEntry) :
    (values.foldl GameMenuEntry.addOption e).kind = e.kind ∧
    (values.foldl GameMenuEntry.addOption e).mData = e.mData := by
  induction values generalizing e with
  | nil => exact ⟨rfl, rfl⟩
  | cons v vs ih => exact ih (e.addOption v)

theorem isOptionsMenuEntry_settingMenuEntry (n : Nat) (s : ModSetting) :
    isOptionsMenuEntry (settingMenuEntry n s) = true ∧ (settingMenuEntry n s).mData = n := by
  unfold isOptionsMenuEntry settingMenuEntry
  rw [(kind_foldl_addOption s.mOptions _).1, (kind_foldl_addOption s.mOptions _).2]
  exact ⟨by rfl, rfl⟩

theorem settingsOnly_addModSetting (st : ModsLoop) (s : ModSetting) :
    (addModSetting st s).settingsOnly = addModSetting st.settingsOnly s := by
  have h := (isOptionsMenuEntry_settingMenuEntry st.nextOptionId s).1
  unfold settingMenuEntry at h
  simp [addModSetting, ModsLoop.settingsOnly, List.filter_append, h]

theorem settingsOnly_foldl_addModSetting (ss : List ModSetting) (st : ModsLoop) :
    (ss.foldl addModSetting st).settingsOnly = ss.foldl addModSetting st.settingsOnly := by
  induction ss generalizing st with
  | nil => rfl
  | cons s ss ih => rw [List.foldl_cons, ih, settingsOnly_addModSetting, List.foldl_cons]

theorem settingsOnly_addModCategory (n : Nat) (st : ModsLoop) (c : ModSettingCategory) :
    (addModCategory n st c).settingsOnly = c.mSettings.foldl addModSetting st.settingsOnly := by
  unfold addModCategory
  simp only []
  rw [settingsOnly_foldl_addModSetting]
  generalize (if c.displayNameEmpty = true then decide (n ≥ 2) else true) = b
  cases b
  · rfl
  · have : ({ st with entries := st.entries ++
        [GameMenuEntry.create EntryKind.TitleMenuEntry 0] } : ModsLoop).settingsOnly =
        st.settingsOnly := by
      simp [ModsLoop.settingsOnly, List.filter_append, isOptionsMenuEntry, GameMenuEntry.create]
    simp only [if_true]
    rw [this]

theorem settingsOnly_foldl_addModCategory (n : Nat) (cats : List ModSettingCategory)
    (st : ModsLoop) :
    (cats.foldl (addModCategory n) st).settingsOnly =
      (cats.flatMap (fun c => c.mSettings)).foldl addModSetting st.settingsOnly := by
  induction cats generalizing st with
  | nil => rfl
  | cons c cs ih =>
    rw [List.foldl_cons, ih, settingsOnly_addModCategory, List.flatMap_cons, List.foldl_append]

theorem settingsOnly_addMod (st : ModsLoop) (mod : Mod) :
    (addMod st mod).settingsOnly =
      (mod.mSettingCategories.flatMap (fun c => c.mSettings)).foldl addModSetting
        st.settingsOnly := by
  unfold addMod
  split
  · rename_i hempty
    have : mod.mSettingCategories = [] := by simpa using hempty
    rw [this]
    rfl
  · simp only []
    rw [settingsOnly_foldl_addModCategory]
    have : ({ st with entries := st.entries ++
        [GameMenuEntry.create EntryKind.SectionMenuEntry 0] } : ModsLoop).settingsOnly =
        st.settingsOnly := by
      simp [ModsLoop.settingsOnly, List.filter_append, isOptionsMenuEntry, GameMenuEntry.create]
    rw [this]

theorem settingsOnly_foldl_addMod (mods : List Mod) (st : ModsLoop) :
    (mods.foldl addMod st).settingsOnly =
      (mods.flatMap (fun mod => mod.mSettingCategories.flatMap (fun c => c.mSettings))).foldl
        addModSetting st.settingsOnly := by
  induction mods generalizing st with
  | nil => rfl
  | cons mod mods ih =>
    rw [List.foldl_cons, ih, settingsOnly_addMod, List.flatMap_cons, List.foldl_append]

/-- Without the section and title entries, the loop over the mods is the innermost loop body
run over all settings in the order of `modSettingsInOrder`. -/
theorem settingsOnly_addMods (mods : List Mod) (st : ModsLoop) :
    (addMods st mods).settingsOnly =
      (modSettingsInOrder mods).foldl addModSetting st.settingsOnly :=
  settingsOnly_foldl_addMod mods.reverse st

/-- The innermost loop body run over a list of settings, while the counter does not wrap. -/
theorem foldl_addModSetting_eq (ss : List ModSetting) (st : ModsLoop)
    (h : st.nextOptionId + ss.length < 2 ^ 32) :
    ss.foldl addModSetting st =
      { entries := st.entries ++
          List.zipWith settingMenuEntry (List.range' st.nextOptionId ss.length) ss
        optionEntries := st.optionEntries ++
          (List.range' st.nextOptionId ss.length).map (fun k =>
            { mOptionId := k, mType := OptionEntryType.MOD_SETTING, mGameMenuEntry := none })
        nextOptionId := st.nextOptionId + ss.length } := by
  induction ss generalizing st with
  | nil => simp
  | cons s ss ih =>
    have hn : (addModSetting st s).nextOptionId = st.nextOptionId + 1 := by
      rw [addModSetting_next]
      exact Nat.mod_eq_of_lt (by simp only [List.length_cons] at h; omega)
    rw [List.foldl_cons, ih _ (by rw [hn]; simp only [List.length_cons] at h; omega), hn]
    simp [addModSetting, settingMenuEntry, List.range'_succ, Nat.add_assoc, Nat.add_comm 1]

theorem length_modSettingsInOrder (mods : List Mod) :
    (modSettingsInOrder mods).length = modSettingCount mods := by
  have hcat : ∀ cats : List ModSettingCategory,
      (cats.flatMap (fun c => c.mSettings)).length =
        (cats.map (fun c => c.mSettings.length)).sum := by
    intro cats
    induction cats with
    | nil => rfl
    | cons c cs ih => simp [List.flatMap_cons, ih]
  have hmods : ∀ ms : List Mod,
      (ms.flatMap (fun mod => mod.mSettingCategories.flatMap (fun c => c.mSettings))).length =
        (ms.map settingCountOf).sum := by
    intro ms
    induction ms with
    | nil => rfl
    | cons mod ms ih => simp [List.flatMap_cons, ih, hcat, settingCountOf]
  unfold modSettingsInOrder modSettingCount
  rw [hmods, List.map_reverse, List.sum_reverse]

end OptionsMenu
namespace OptionsMenu

/-- Every entry in the loop state is an `OptionsMenuEntry` or has data 0. -/
theorem titleData_addMods (mods : List Mod) (st : ModsLoop)
    (h : ∀ e, e ∈ st.entries → isOptionsMenuEntry e = true ∨ e.mData = 0) :
    ∀ e, e ∈ (addMods st mods).entries → isOptionsMenuEntry e = true ∨ e.mData = 0 := by
  have hfold : ∀ {α : Type} (f : ModsLoop → α → ModsLoop),
      (∀ st x, (∀ e, e ∈ st.entries → isOptionsMenuEntry e = true ∨ e.mData = 0) →
        ∀ e, e ∈ (f st x).entries → isOptionsMenuEntry e = true ∨ e.mData = 0) →
      ∀ (xs : List α) (st : ModsLoop),
        (∀ e, e ∈ st.entries → isOptionsMenuEntry e = true ∨ e.mData = 0) →
        ∀ e, e ∈ (xs.foldl f st).entries → isOptionsMenuEntry e = true ∨ e.mData = 0 := by
    intro α f hf xs
    induction xs with
    | nil => intro st hst; exact hst
    | cons x xs ih => intro st hst; exact ih (f st x) (hf st x hst)
  have hadd : ∀ (st : ModsLoop) (t : GameMenuEntry), t.mData = 0 →
      (∀ e, e ∈ st.entries → isOptionsMenuEntry e = true ∨ e.mData = 0) →
      ∀ e, e ∈ ({ st with entries := st.entries ++ [t] } : ModsLoop).entries →
        isOptionsMenuEntry e = true ∨ e.mData = 0 := by
    intro st t ht hst e he
    rcases List.mem_append.1 he with he | he
    · exact hst e he
    · rw [List.mem_singleton.1 he]; exact Or.inr ht
  have hsetting : ∀ (st : ModsLoop) (s : ModSetting),
      (∀ e, e ∈ st.entries → isOptionsMenuEntry e = true ∨ e.mData = 0) →
      ∀ e, e ∈ (addModSetting st s).entries → isOptionsMenuEntry e = true ∨ e.mData = 0 := by
    intro st s hst e he
    rcases List.mem_append.1 he with he | he
    · exact hst e he
    · rw [List.mem_singleton.1 he]
      exact Or.inl (isOptionsMenuEntry_settingMenuEntry st.nextOptionId s).1
  have hcat : ∀ (n : Nat) (st : ModsLoop) (c : ModSettingCategory),
      (∀ e, e ∈ st.entries → isOptionsMenuEntry e = true ∨ e.mData = 0) →
      ∀ e, e ∈ (addModCategory n st c).entries → isOptionsMenuEntry e = true ∨ e.mData = 0 := by
    intro n st c hst
    unfold addModCategory
    simp only []
    apply hfold addModSetting hsetting
    generalize (if c.displayNameEmpty = true then decide (n ≥ 2) else true) = b
    cases b
    · exact hst
    · exact hadd st (GameMenuEntry.create EntryKind.TitleMenuEntry 0) rfl hst
  have hmod : ∀ (st : ModsLoop) (mod : Mod),
      (∀ e, e ∈ st.entries → isOptionsMenuEntry e = true ∨ e.mData = 0) →
      ∀ e, e ∈ (addMod st mod).entries → isOptionsMenuEntry e = true ∨ e.mData = 0 := by
    intro st mod hst
    unfold addMod
    split
    · exact hst
    · simp only []
      exact hfold _ (hcat _) _ _
        (hadd st (GameMenuEntry.create EntryKind.SectionMenuEntry 0) rfl hst)
  exact hfold addMod hmod mods.reverse st h

/-- What the loop over the mods creates, while the counter does not wrap: one option entry
per setting with the IDs from `option::_NUM + 1` on, and, among the menu entries, one
`OptionsMenuEntry` per setting with the same IDs as data. -/
theorem modsLoopResult_settings (ids : Enumerators) (mods : List Mod)
    (hfit : ids._NUM + 1 + modSettingCount mods < 2 ^ 32) :
    (modsLoopResult ids mods).optionEntries =
      (List.range' (ids._NUM + 1) (modSettingCount mods)).map (fun k =>
        { mOptionId := k, mType := OptionEntryType.MOD_SETTING, mGameMenuEntry := none }) ∧
    (modsLoopResult ids mods).entries.filter isOptionsMenuEntry =
      List.zipWith settingMenuEntry (List.range' (ids._NUM + 1) (modSettingCount mods))
        (modSettingsInOrder mods) := by
  have hfirst : firstModOptionId ids = ids._NUM + 1 := Nat.mod_eq_of_lt (by omega)
  have h := settingsOnly_addMods mods
    { entries := [], optionEntries := [], nextOptionId := firstModOptionId ids }
  have hs : ({ entries := [], optionEntries := [], nextOptionId := firstModOptionId ids } :
      ModsLoop).settingsOnly =
      { entries := [], optionEntries := [], nextOptionId := ids._NUM + 1 } := by
    rw [hfirst]; rfl
  rw [hs, foldl_addModSetting_eq _ _ (by rw [length_modSettingsInOrder]; exact hfit),
    length_modSettingsInOrder] at h
  have h1 := congrArg ModsLoop.optionEntries h
  have h2 := congrArg ModsLoop.entries h
  simp only [List.nil_append] at h1 h2
  exact ⟨h1, h2⟩

theorem registeredPointer_of_no_line (tab : Nat) (entries : List GameMenuEntry) (ks : List Nat)
    (i : Nat) (p : Option EntryRef)
    (h : ∀ k, k ∈ ks → (entries.getD k GameMenuEntry.invalid).mData ≠ i) :
    registeredPointer tab entries ks i p = p := by
  induction ks generalizing p with
  | nil => rfl
  | cons k ks ih =>
    rw [registeredPointer_cons, if_neg (h k (List.mem_cons_self _ _))]
    exact ih p (fun k2 hk2 => h k2 (List.mem_cons_of_mem _ hk2))

/-- When some line of the tab carries the data `i`, the registration loop leaves in the option
entry `i` the pointer to such a line. -/
theorem registeredPointer_of_line (tab : Nat) (entries : List GameMenuEntry) (ks : List Nat)
    (i : Nat) (p : Option EntryRef)
    (h : ∃ k, k ∈ ks ∧ (entries.getD k GameMenuEntry.invalid).mData = i) :
    ∃ k, k ∈ ks ∧ registeredPointer tab entries ks i p = some (tab, k) ∧
      (entries.getD k GameMenuEntry.invalid).mData = i := by
  induction ks generalizing p with
  | nil =>
    obtain ⟨k, hk, _⟩ := h
    exact absurd hk (List.not_mem_nil _)
  | cons k ks ih =>
    rw [registeredPointer_cons]
    by_cases hrest : ∃ k2, k2 ∈ ks ∧ (entries.getD k2 GameMenuEntry.invalid).mData = i
    · obtain ⟨k2, hk2, hp, hd⟩ := ih _ hrest
      exact ⟨k2, List.mem_cons_of_mem _ hk2, hp, hd⟩
    · have hno : ∀ k2, k2 ∈ ks → (entries.getD k2 GameMenuEntry.invalid).mData ≠ i :=
        fun k2 hk2 hd => hrest ⟨k2, hk2, hd⟩
      obtain ⟨k0, hk0, hd0⟩ := h
      have hk : (entries.getD k GameMenuEntry.invalid).mData = i := by
        rcases List.mem_cons.1 hk0 with heq | hmem
        · rw [← heq]; exact hd0
        · exact absurd hd0 (hno k0 hmem)
      rw [if_pos hk, registeredPointer_of_no_line tab entries ks i _ hno]
      exact ⟨k, List.mem_cons_self _ _, rfl, hk⟩

end OptionsMenu
namespace OptionsMenu

/-- The `OptionsMenuEntry` entries the loop over the mods creates, by position. -/
theorem getElem?_settingEntries (ids : Enumerators) (mods : List Mod)
    (hfit : ids._NUM + 1 + modSettingCount mods < 2 ^ 32) (j : Nat) :
    ((modsLoopResult ids mods).entries.filter isOptionsMenuEntry)[j]? =
      ((modSettingsInOrder mods)[j]?).map (settingMenuEntry (ids._NUM + 1 + j)) := by
  rw [(modsLoopResult_settings ids mods hfit).2, List.getElem?_zipWith]
  by_cases hj : j < modSettingCount mods
  · have hj2 : j < (modSettingsInOrder mods).length := by
      rw [length_modSettingsInOrder]; exact hj
    rw [List.getElem?_range' _ _ hj, List.getElem?_eq_getElem hj2]
    simp
  · have hj2 : (modSettingsInOrder mods).length ≤ j := by
      rw [length_modSettingsInOrder]; omega
    rw [List.getElem?_eq_none hj2]
    cases (List.range' (ids._NUM + 1) (modSettingCount mods))[j]? <;> rfl

/-- The option entries the loop over the mods creates, by position. -/
theorem getElem?_modOptionEntries (ids : Enumerators) (mods : List Mod)
    (hfit : ids._NUM + 1 + modSettingCount mods < 2 ^ 32) (j : Nat)
    (hj : j < modSettingCount mods) :
    (modsLoopResult ids mods).optionEntries[j]? =
      some { mOptionId := ids._NUM + 1 + j, mType := OptionEntryType.MOD_SETTING,
             mGameMenuEntry := none } := by
  rw [(modsLoopResult_settings ids mods hfit).1, List.getElem?_map, List.getElem?_range' _ _ hj]
  simp

end OptionsMenu
namespace OptionsMenu

/-! ### C27: the option entries of the mod settings -/

/-- C27: after `initialize()`, while the 32 bit counter does not wrap, the option entries
created for the mod settings carry the consecutive IDs `option::_NUM + 1`,
`option::_NUM + 2`, ... in creation order (`modSettingsInOrder`: the active mods from the last
to the first, the categories and settings of a mod in their own order).  For the `j`-th
setting, `mOptionEntries` has at index `option::_NUM + 1 + j` an element with that option ID
and type `MOD_SETTING`, whose menu entry pointer leads to a line of the Mods tab carrying the
data `option::_NUM + 1 + j`; the `j`-th `OptionsMenuEntry` the loop creates is the entry of
the `j`-th setting, with that data (`settingMenuEntry`).  `mOptionEntries.size()` is
`option::_NUM + 1` plus the number of mod settings, and the data of every entry the loop
creates is below it.  The tab `Tab::Id::MODS` exists, and the soundtrack download, gamepad
assignment and sound test entries lie in other tabs. -/
theorem mod_option_entries_consecutive (lib : MenuLib) (ids : Enumerators) (env : Env)
    (m : OptionsMenu) (hT : ids.Tab_MODS < m.mTabs.length)
    (hP : PointersOutsideModsTab ids (initializeMenu lib ids env m))
    (hfit : ids._NUM + 1 + modSettingCount env.activeMods < 2 ^ 32) :
    (initializeMenu lib ids env m).mOptionEntries.length =
      ids._NUM + 1 + modSettingCount env.activeMods ∧
    (modSettingsInOrder env.activeMods).length = modSettingCount env.activeMods ∧
    modsTabEntries ids (initializeMenu lib ids env m) =
      (modsTabEntries ids m).take 1 ++ (modsLoopResult ids env.activeMods).entries ++
        [GameMenuEntry.create EntryKind.OptionsMenuEntry ids._BACK] ∧
    (∀ j, ((modsLoopResult ids env.activeMods).entries.filter isOptionsMenuEntry)[j]? =
      ((modSettingsInOrder env.activeMods)[j]?).map (settingMenuEntry (ids._NUM + 1 + j))) ∧
    (∀ k s, (settingMenuEntry k s).mData = k) ∧
    (∀ j, j < modSettingCount env.activeMods →
      ∃ oe line e,
        (initializeMenu lib ids env m).mOptionEntries[ids._NUM + 1 + j]? = some oe ∧
        oe.mOptionId = ids._NUM + 1 + j ∧ oe.mType = OptionEntryType.MOD_SETTING ∧
        oe.mGameMenuEntry = some (ids.Tab_MODS, line) ∧
        (modsTabEntries ids (initializeMenu lib ids env m))[line]? = some e ∧
        e.mData = ids._NUM + 1 + j) ∧
    (∀ e, e ∈ (modsLoopResult ids env.activeMods).entries →
      e.mData < (initializeMenu lib ids env m).mOptionEntries.length) := by
  have hfirst : firstModOptionId ids = ids._NUM + 1 := Nat.mod_eq_of_lt (by omega)
  have hlen : (initializeMenu lib ids env m).mOptionEntries.length =
      ids._NUM + 1 + modSettingCount env.activeMods := by
    rw [length_mOptionEntries_initializeMenu]
    exact congrArg (fun x => x + modSettingCount env.activeMods) hfirst
  have k1 := keepsRegistry_initializeMenu lib ids env m
  have hP1 := pointersOutside_rebuild_of_initializeMenu lib ids env m hP
  obtain ⟨hr1, ho1⟩ := rebuildModsTab_spec ids env m hT
  have ht1 : modsTabEntries ids (initializeMenu lib ids env m) =
      (modsTabEntries ids m).take 1 ++ (modsLoopResult ids env.activeMods).entries ++
        [GameMenuEntry.create EntryKind.OptionsMenuEntry ids._BACK] := by
    rw [modsTabEntries_initializeMenu lib ids env m hP1, hr1]
  have hoe1 : (initializeMenu lib ids env m).mOptionEntries =
      registerEntries ids.Tab_MODS
        ((modsTabEntries ids m).take 1 ++ (modsLoopResult ids env.activeMods).entries)
        (resizeList (firstModOptionId ids) OptionEntry.empty m.mOptionEntries ++
          (modsLoopResult ids env.activeMods).optionEntries) := by
    rw [k1.1, ho1]
  have hpos := getElem?_settingEntries ids env.activeMods hfit
  refine ⟨hlen, length_modSettingsInOrder _, ht1, hpos,
    fun k s => (isOptionsMenuEntry_settingMenuEntry k s).2, ?_, ?_⟩
  · intro j hj
    -- the option entry
    have hget : (resizeList (firstModOptionId ids) OptionEntry.empty m.mOptionEntries ++
        (modsLoopResult ids env.activeMods).optionEntries)[ids._NUM + 1 + j]? =
        some { mOptionId := ids._NUM + 1 + j, mType := OptionEntryType.MOD_SETTING,
               mGameMenuEntry := none } := by
      rw [List.getElem?_append_right (by rw [length_resizeList, hfirst]; omega),
        length_resizeList, hfirst, Nat.add_sub_cancel_left]
      exact getElem?_modOptionEntries ids env.activeMods hfit j hj
    -- a line of the tab with the data of the setting
    have hj2 : j < (modSettingsInOrder env.activeMods).length := by
      rw [length_modSettingsInOrder]; exact hj
    have hentry := hpos j
    rw [List.getElem?_eq_getElem hj2, Option.map_some'] at hentry
    have hmem : settingMenuEntry (ids._NUM + 1 + j) ((modSettingsInOrder env.activeMods)[j]) ∈
        (modsTabEntries ids m).take 1 ++ (modsLoopResult ids env.activeMods).entries :=
      List.mem_append_right _ (List.mem_of_mem_filter (List.getElem?_mem hentry))
    obtain ⟨k, hk, hkeq⟩ := List.getElem_of_mem hmem
    have hline : ∃ k, k ∈ List.range ((modsTabEntries ids m).take 1 ++
        (modsLoopResult ids env.activeMods).entries).length ∧
        (((modsTabEntries ids m).take 1 ++
          (modsLoopResult ids env.activeMods).entries).getD k GameMenuEntry.invalid).mData =
          ids._NUM + 1 + j := by
      refine ⟨k, List.mem_range.2 hk, ?_⟩
      rw [List.getD_eq_getElem _ _ hk, hkeq]
      exact (isOptionsMenuEntry_settingMenuEntry _ _).2
    obtain ⟨line, hl, hptr, hdata⟩ := registeredPointer_of_line ids.Tab_MODS _ _
      (ids._NUM + 1 + j) none hline
    have hl2 := List.mem_range.1 hl
    refine ⟨{ mOptionId := ids._NUM + 1 + j, mType := OptionEntryType.MOD_SETTING,
              mGameMenuEntry := registeredPointer ids.Tab_MODS
                ((modsTabEntries ids m).take 1 ++ (modsLoopResult ids env.activeMods).entries)
                (List.range ((modsTabEntries ids m).take 1 ++
                  (modsLoopResult ids env.activeMods).entries).length)
                (ids._NUM + 1 + j) none },
      line, _, ?_, rfl, rfl, hptr, ?_, hdata⟩
    · rw [hoe1, getElem?_registerEntries, hget]
      rfl
    · rw [ht1, List.getElem?_append_left hl2, List.getElem?_eq_getElem hl2,
        List.getD_eq_getElem _ _ hl2]
  · intro e he
    rw [hlen]
    rcases titleData_addMods env.activeMods
      { entries := [], optionEntries := [], nextOptionId := firstModOptionId ids }
      (fun e he => absurd he (List.not_mem_nil _)) e he with hopt | hzero
    · have hmem : e ∈ (modsLoopResult ids env.activeMods).entries.filter isOptionsMenuEntry :=
        List.mem_filter.2 ⟨he, hopt⟩
      obtain ⟨j, hj⟩ := List.mem_iff_getElem?.1 hmem
      rw [hpos j] at hj
      by_cases hjc : j < modSettingCount env.activeMods
      · cases hs : (modSettingsInOrder env.activeMods)[j]? with
        | none => rw [hs] at hj; exact Option.noConfusion hj
        | some s =>
          rw [hs, Option.map_some', Option.some.injEq] at hj
          rw [← hj, (isOptionsMenuEntry_settingMenuEntry _ _).2]
          omega
      · rw [List.getElem?_eq_none (by rw [length_modSettingsInOrder]; omega)] at hj
        exact Option.noConfusion hj
    · rw [hzero]; omega

end OptionsMenu
namespace OptionsMenu

set_option maxRecDepth 100000 in
/-- The theorem on the constructed menu with the two example mods: three settings, visited as
the two of the second mod and then the one of the first; `mOptionEntries` has 105 elements,
and the third setting has the option entry 104. -/
theorem mod_option_entries_consecutive_witness :
    constructorIds.Tab_MODS < constructedMenu.mTabs.length ∧
    PointersOutsideModsTab constructorIds
      (initializeMenu exampleLib constructorIds modsEnv constructedMenu) ∧
    constructorIds._NUM + 1 + modSettingCount modsEnv.activeMods < 2 ^ 32 ∧
    constructorIds._NUM + 1 = 102 ∧
    modSettingsInOrder modsEnv.activeMods =
      [{ mOptions := [0, 1, 2] }, { mOptions := [3, 4] }, { mOptions := [0, 1] }] ∧
    (initializeMenu exampleLib constructorIds modsEnv constructedMenu).mOptionEntries.length =
      105 ∧
    (∃ oe line e,
      (initializeMenu exampleLib constructorIds modsEnv
        constructedMenu).mOptionEntries[constructorIds._NUM + 1 + 2]? = some oe ∧
      oe.mOptionId = constructorIds._NUM + 1 + 2 ∧ oe.mType = OptionEntryType.MOD_SETTING ∧
      oe.mGameMenuEntry = some (constructorIds.Tab_MODS, line) ∧
      (modsTabEntries constructorIds
        (initializeMenu exampleLib constructorIds modsEnv constructedMenu))[line]? = some e ∧
      e.mData = constructorIds._NUM + 1 + 2) ∧
    (∀ e, e ∈ (modsLoopResult constructorIds modsEnv.activeMods).entries →
      e.mData < (initializeMenu exampleLib constructorIds modsEnv
        constructedMenu).mOptionEntries.length) :=
  have hthm := mod_option_entries_consecutive exampleLib constructorIds modsEnv constructedMenu
    (by decide) (by decide) (by decide)
  ⟨by decide, by decide, by decide, by decide, by decide, hthm.1.trans (by decide),
    hthm.2.2.2.2.2.1 2 (by decide), hthm.2.2.2.2.2.2⟩

end OptionsMenu

end Sonic3AIR
